import Mathlib

/-!
# IIoT sensor-node firmware: scheduler, RF protocol engine, sampling and packet assembly

A shallow embedding of the C sources under `iiot_sensor_fw/` (sensor_protocol.c,
sample_collection.c, system_timing.c, system_init.c, radio_communication.c, mc_timer.c,
mc_gpio.c) together with theorems about them.

Conventions of the embedding
* `uint8_t` / `uint16_t` objects are natural numbers; every store that can leave the range is
  reduced with `u8` / `u16`.  `int8_t` objects are integers.
* C arrays are lists; a read outside the list yields 0 and a write outside is dropped.
* The globals of the firmware are the fields of `FW`.  Hardware operations that have no
  software-visible state (strobes, FIFO loads, pin writes) are appended to `FW.hwLog`.
* Interrupt service routines are functions on `FW`; which of them ran, and what the radio chip
  returns over SPI, is given per loop iteration by a value of `HwIn`.
* The source uses two spellings for several identifiers (`TASKING_TABLE_REQ_TASK` /
  `EXECUTION_TABLE_REQ_TASK`, `RADIO_TT_REPLY_MODE` / `RADIO_ET_REPLY_MODE`,
  `DEFAULT_TT_*` / `DEFAULT_ET_*`, `fnDefaultTaskingTableInit` / `fnDefaultExecutionTableInit`);
  they denote the same object and the `ET` spelling is used here.
-/

namespace SensorFw

/-! ## Constants (generic_macro.h, data_structure.h, system_globals.h, sensor_protocol.h) -/

def RETURN_TRUE : Int := 0
def RETURN_FALSE : Int := -1
def SET_FLAG : Nat := 1
def RESET_FLAG : Nat := 0
def SET_COUNTER : Nat := 1
def RESET_COUNTER : Nat := 0
def RESET_VALUE : Nat := 0
def BIT_0_bm : Nat := 1
def BIT_8_bp : Nat := 8

def MAX_SENSOR_DATA_LENGTH : Nat := 5
def MAX_COMM_PACKET_COUNT : Nat := 8
def MAX_COMM_PACKET_SIZE : Nat := 135
def MAX_SENSOR_COUNT : Nat := 127
def MAX_RF_COMM_RETRY : Nat := 3
def MIN_SAMPLE_CLOCK_VALUE_FOR_KEEP_5V_ON : Nat := 1
def MIN_RADIO_CLOCK_DIVISOR : Nat := 3
def MIN_COMM_WAIT_TIME_OUT : Nat := 150
def CC1125_TX_COMPLETE_TIMEOUT_WAIT : Nat := 500
def LOOPBACK_WAIT_TIMEOUT : Nat := 15000
def MAX_SAMPLE_AVERAGE_SUPPORTED : Nat := 50
def DEFAULT_ET_SAMPLE_CLOCK : Nat := 1
def DEFAULT_ET_RADIO_CLOCK : Nat := 10
def DEFAULT_ET_COMM_WAIT_TIME : Nat := 1000
def RADIO_CH_UPLINK_CC1125 : Nat := 1
def RADIO_CH_SLOW_DOWNLINK_CC1125 : Nat := 2
def RADIO_CH_FAST_DOWNLINK_CC2520 : Nat := 3

def MAX_SAMPLE_CLOCK_FREQ : Nat := 125
def MAX_COMM_WAIT_TIME_VALUE : Nat := 65500
def COMM_WAIT_TIME_DOUBLE_RETRY : Nat := 3
def ID_MASTER_CONTROLLER : Nat := 0
def DOWNLINK_BM : Nat := 0xC0
def MIN_SAMPLE_AVG_COUNT : Nat := 1
def PACKET_LENGTH_INDEX : Nat := 2
def PACKET_MASTER_ID_INDEX : Nat := 5
def PACKET_SAMPLE_CLOCK_FREQ_BYTE1 : Nat := 7
def PACKET_SAMPLE_CLOCK_FREQ_BYTE2 : Nat := 8
def PACKET_CONTROL_BYTE1 : Nat := 9
def PACKET_CONTROL_BYTE2 : Nat := 10
def PACKET_WAIT_TIME_BYTE1 : Nat := 11
def PACKET_WAIT_TIME_BYTE2 : Nat := 12
def SENSOR_ENTRY_OFFSET : Nat := 6
def SENSORS_START_INDEX : Nat := 13
def SENSOR_EXECUTION_TABLE_ID_OFFSET : Nat := 0
def SENSOR_CONTROL_BYTE_OFFSET : Nat := 2
def SAMPLE_CLOCK_DIVISOR_OFFSET : Nat := 3
def SAMPLES_IN_AVERAGE_OFFSET : Nat := 4
def RADIO_CLOCK_DIVISOR_OFFSET : Nat := 5
def ET_REQ_PACKET_LENGTH : Nat := 4
def BASE_INDEX : Nat := 0

def SAMPLE_STATE_OFF : Nat := 0
def SAMPLE_STATE_START : Nat := 1
def SAMPLE_STATE_RUN : Nat := 2
def SAMPLE_STATE_RUN_LVL0 : Nat := 3
def SAMPLE_STATE_RUN_LVL1 : Nat := 4

def REQUEST_NEW_EXECUTION_TABLE : Nat := 0x81
def ACK_RECEIPT_OF_LAST_ET_PACKET : Nat := 0x82
def NACK_RECEIPT_OF_LAST_ET_PACKET : Nat := 0x83
def SLOW_DL_DATA_PACKET : Nat := 0x84
def FAST_DL_DATA_PACKET : Nat := 0x85
def NO_NEW_ET_AVAILABLE : Nat := 0x03
def NEW_EXECUTION_TABLE_PACKET : Nat := 0x04
def TERMINATE_DATA_DOWNLOAD : Nat := 0x06
def ACK_RECEIPT_LAST_DATA_PACKET : Nat := 0x07
def NACK_INVALID_PACKET : Nat := 0x08
def NACK_INVALID_MSG_FORMAT : Nat := 0x09
def NACK_OUT_OF_SEQUENCE : Nat := 0x0A
def NACK_STOP_SENDING_DATA_MESSAGE : Nat := 0x0B
def SENSOR_LOOP_BACK_PACKET_SLOW : Nat := 0x7D
def SENSOR_LOOP_BACK_PACKET_FAST : Nat := 0x7E
def STOP_LOOP_BACK_LOAD_ACTIVE : Nat := 0x77
def STOP_LOOP_BACK_LOAD_IDLE : Nat := 0x76

def DISABLE_ALL_TASKS : Nat := 0x00
def DEACTIVATE_ALL_TASKS : Nat := 0x00
def DATA_SAMPLING_TASK : Nat := 1
def DATA_COLLECTION_TASK : Nat := 2
def DATA_DOWNLOAD_TASK : Nat := 4
def EXECUTION_TABLE_REQ_TASK : Nat := 8
def DEBUG_SERIAL_TASK : Nat := 16
def WATCHDOG_MANAGEMENT_TASK : Nat := 32
def ALL_TASK_DONE : Nat := 0

def CC1125_DATA_PACKET_LENGTH : Nat := 0
def PACKET_HEADER_INDEX : Nat := 1
def PACKET_DATA_LENGTH_INDEX : Nat := 2
def PACKET_DESCRIPTOR_INDEX : Nat := 3
def PACKET_ERROR_CONTROL_INDEX : Nat := 4
def PACKET_DOWNLOAD_DATA_SIZE : Nat := 5
def PACKET_DATA_MESSAGE_INDEX : Nat := 6
def PACKET_LAST_DATA_BYTE_INDEX : Nat := 128

def POWER_SOURCE_ENABLE : Nat := 0
def POWER_SOURCE_DISABLE : Nat := 1
def POWER_SOURCE_ALWAYS_ON : Nat := 1
def POWER_SOURCE_AT_REQUIRE : Nat := 0
def CC1125_POWER_IDENTITY : Nat := 1
def TEMPERATURE_POWER_IDENTITY : Nat := 2
def PRESSURE_POWER_IDENTITY : Nat := 3

/-! Power levels (`Power_Source_Enum_t`). -/
def POWER_STATE_OFF : Nat := 0
def POWER_STATE_5V_ON : Nat := 1
def POWER_STATE_5V_3V3_ON : Nat := 2

/-! Error codes (`SENSOR_MC_ERROR_CODES`, system_debug.h). -/
def SENSOR_NO_ERROR : Nat := 0
def SENSOR_CC1125_TX_FIIO_ERR : Nat := 1
def SENSOR_CC1125_RX_FIIO_ERR : Nat := 2
def SENSOR_CC1125_CRC_MISMATCH_ERR : Nat := 3
def SENSOR_CC1125_TX_GPIO_INTTERUPT_FAIL : Nat := 4
def SENSOR_CC1125_COMMUNICATION_WAIT_TIMEOUT : Nat := 5
def SENSOR_CC1125_CHIP_NOT_READY : Nat := 6
def SENSOR_PACKET_HEADER_UNDEFINED : Nat := 13
def SENSOR_ADC_RESOURCES_ARE_NOT_FREE : Nat := 15
def SENSOR_SENSOR_SAMPLING_OVERRUN : Nat := 17
def SENSOR_RADIO_DIVISOR_OVERRUN : Nat := 18
def SENSOR_COMM_WAIT_TIME_MISMATCH : Nat := 19
def SENSOR_CC1125_NACK_RECEIVED : Nat := 20
def SENSOR_CC1125_TXRX_UNDEFINED_STATE : Nat := 21
def SENSOR_SAMPLE_AVERAGE_COUNT_EXCEEDS : Nat := 22
def SENSOR_INVALID_EXECUTION_DEVELOPER_ERROR : Nat := 23
def SENSOR_CC1125_CALIBRATION_FAIL : Nat := 24

/-! Radio chip constants (radio_communication.h). -/
def CC1125_CRC_ERR_CHECK_BM : Nat := 0x80
def CC1125_FIFO_ERR_CHECK_BM : Nat := 0x1f
def CC112X_STATE_RXFIFO_ERROR : Nat := 0x11
def CC112X_STATE_TXFIFO_ERROR : Nat := 0x16
def CC112X_SRX : Nat := 0x34
def CC112X_STX : Nat := 0x35
def CC112X_SIDLE : Nat := 0x36
def CC112X_SFRX : Nat := 0x3A
def CC112X_SFTX : Nat := 0x3B

/-! Sensor identifiers (`SENSOR_MC_SENSOR_LIST`, sensor_management.h). -/
def CHAMBER_TEMPERATURE : Nat := 1
def CHAMBER_PRESSURE : Nat := 2
def BATTERY_TEMPERATURE : Nat := 3
def TEG_TEMPERATURE_COLD : Nat := 4
def TEG_TEMPERATURE_HOT : Nat := 5
def UPLINK_RADIO_RSSI : Nat := 6
def GYRO_METER : Nat := 7

/-! Steps of the RF engine (`Radio_Handler_Step_Enum_t`). -/
def COMM_ENTRY_POINT : Nat := 0
def RADIO_PWR_CHECK_MODE : Nat := 1
def RADIO_LINK_SELECT_MODE : Nat := 2
def RADIO_TX_MODE : Nat := 3
def TX_TIME_OUT_MODE : Nat := 4
def RADIO_RX_MODE : Nat := 5
def RADIO_ET_REPLY_MODE : Nat := 6
def RADIO_ET_REPLY_TIME_OUT_MODE : Nat := 7
def RADIO_SENSOR_LOOP_BACK_MODE : Nat := 8
def RADIO_SENSOR_LOOP_BACK_RESPONSE_MODE : Nat := 9

/-! Steps of the loop-back mechanism (`Loop_Back_Step_Enum_t`). -/
def LB_STEP_0 : Nat := 0
def LB_STEP_1 : Nat := 1
def LB_STEP_2 : Nat := 2
def LB_STEP_3 : Nat := 3

/-! Phases of the sample clock (`RTC_PHASES`, system_timing.c). -/
def RTC_PHASE0 : Nat := 0
def RTC_PHASE1 : Nat := 1
def RTC_PHASE6 : Nat := 6
def RTC_PHASE7 : Nat := 7

/-! ## Machine arithmetic and arrays -/

/-- Value kept by a `uint8_t` object. -/
def u8 (n : Nat) : Nat := n % 256

/-- Value kept by a `uint16_t` object. -/
def u16 (n : Nat) : Nat := n % 65536

/-- Value of an `int8_t` object holding the two's-complement pattern of `n`. -/
def i8 (n : Int) : Int := (n + 128) % 256 - 128

/-- Read of element `i` of a byte array. -/
def rd (a : List Nat) (i : Nat) : Nat := a.getD i 0

/-- Store of `v` in element `i` of a byte array. -/
def wr (a : List Nat) (i : Nat) (v : Nat) : List Nat := a.set i (u8 v)

/-- Read of `bank[p][i]` in a bank of byte arrays. -/
def rd2 (b : List (List Nat)) (p i : Nat) : Nat := rd (b.getD p []) i

/-- Store of `v` in `bank[p][i]`. -/
def wr2 (b : List (List Nat)) (p i : Nat) (v : Nat) : List (List Nat) :=
  b.set p (wr (b.getD p []) i v)

/-- Bits `pos .. pos+width-1` of a byte: a bit-field read (fields are allocated from the least
significant bit upwards, as avr-gcc does). -/
def getBits (b pos width : Nat) : Nat := (b / 2 ^ pos) % 2 ^ width

/-- Bit-field store: bits `pos .. pos+width-1` of `b` replaced by the low bits of `v`. -/
def setBits (b pos width v : Nat) : Nat :=
  b - getBits b pos width * 2 ^ pos + (v % 2 ^ width) * 2 ^ pos

/-! ## Data structures (data_structure.h) -/

/-- Master controller part of the execution table (`MASTER_CONTROLLER_STRUCT`). -/
structure MASTER_CONTROLLER_STRUCT where
  nRadioClockCounter : Nat
  nRadioClockDivisor : Nat
  chDataDownloadChannel : Nat
  nSampleClock : Nat
  nCommTimeout : Nat
deriving DecidableEq, Repr, Inhabited

/-- One sensor slot of the execution table (`SMART_SENSORS_STRUCT`). -/
structure SMART_SENSORS_STRUCT where
  chSensorID : Nat
  chSensorCtrlByte : Nat
  chSampleClockDivisor : Nat
  chSampleClockCounter : Nat
  chRadioClockDivisor : Nat
  chRadioClockCounter : Nat
  chSensorStatusFlag : Nat
  chSensorDataLength : Nat
  nSensorData : List Nat
  nSensorAvgData : Nat
  chSensorSampleAvgTotalCount : Nat
  chSensorSampleAvgCounter : Nat
deriving DecidableEq, Repr

instance : Inhabited SMART_SENSORS_STRUCT :=
  ⟨⟨0, 0, 0, 0, 0, 0, 0, 0, [0, 0, 0, 0, 0], 0, 0, 0⟩⟩

/-- Bookkeeping of an exchange (`SENSOR_COMM_MANAGER`).  The two unions are kept as their byte;
the bit-fields are read and written with the accessors below. -/
structure SENSOR_COMM_MANAGER where
  chPacketDescriptor : Nat
  chPacketCheck : Nat
  chPacketSendRetryCounter : Nat
  chTotalPacketCount : Nat
  chPacketCounter : Nat
deriving DecidableEq, Repr, Inhabited

/-- Power rail bookkeeping (`PWR_5V_MANAGER`). -/
structure PWR_5V_MANAGER where
  chCheckFlag : Nat
  chIdentity : Nat
  chPowerUsageCounter : Int
  chPowerLevelIndicator : Nat
deriving DecidableEq, Repr, Inhabited

/-- Field `chPacketSeqNo:3` of the descriptor byte. -/
def SENSOR_COMM_MANAGER.chPacketSeqNo (m : SENSOR_COMM_MANAGER) : Nat :=
  getBits m.chPacketDescriptor 2 3

/-- Field `chTransmitterID:2` of the descriptor byte. -/
def SENSOR_COMM_MANAGER.chTransmitterID (m : SENSOR_COMM_MANAGER) : Nat :=
  getBits m.chPacketDescriptor 5 2

/-- Field `chLastPacket:1` of the descriptor byte. -/
def SENSOR_COMM_MANAGER.chLastPacket (m : SENSOR_COMM_MANAGER) : Nat :=
  getBits m.chPacketDescriptor 7 1

/-- Field `chOverrunErrorID:5` of the error-control byte. -/
def SENSOR_COMM_MANAGER.chOverrunErrorID (m : SENSOR_COMM_MANAGER) : Nat :=
  getBits m.chPacketCheck 3 5

def SENSOR_COMM_MANAGER.setPacketSeqNo (m : SENSOR_COMM_MANAGER) (v : Nat) : SENSOR_COMM_MANAGER :=
  { m with chPacketDescriptor := setBits m.chPacketDescriptor 2 3 v }

def SENSOR_COMM_MANAGER.setTransmitterID (m : SENSOR_COMM_MANAGER) (v : Nat) :
    SENSOR_COMM_MANAGER :=
  { m with chPacketDescriptor := setBits m.chPacketDescriptor 5 2 v }

def SENSOR_COMM_MANAGER.setLastPacket (m : SENSOR_COMM_MANAGER) (v : Nat) : SENSOR_COMM_MANAGER :=
  { m with chPacketDescriptor := setBits m.chPacketDescriptor 7 1 v }

def SENSOR_COMM_MANAGER.setOverrunErrorID (m : SENSOR_COMM_MANAGER) (v : Nat) :
    SENSOR_COMM_MANAGER :=
  { m with chPacketCheck := setBits m.chPacketCheck 3 5 v }

/-- Hardware operations without software-visible state, in the order the firmware issues them. -/
inductive HwOp where
  | strobe (cmd : Nat)
  | txFifo (bytes : List Nat)
  | startCommTimer (ms : Nat)
  | stopCommTimer
  | startVolTimer
  | wdtEnable
  | wdtDisable
  | wdtReset
  | radioReset (asserted : Bool)
  | power5V (enabled : Bool)
  | selectRadio (cc2520 : Bool)
  | rtcPeriod (per : Nat)
  | debugError (code : Nat)
deriving DecidableEq, Repr

/-- The global variables of the firmware. -/
structure FW where
  ghSensorControl : List SMART_SENSORS_STRUCT
  ghMasterTaskTable : MASTER_CONTROLLER_STRUCT
  ghSensorCommManager : SENSOR_COMM_MANAGER
  ghPowerManager : PWR_5V_MANAGER
  gchSensorCommBuff : List (List Nat)
  gchRadioCommStepMode : Nat
  gchDataDownloadPacketReady : Nat
  gchTotalSensorEntry : Nat
  gchCommunicationTimeOut : Nat
  gchSensorLoopBack : Nat
  gchCommWaitTimeDoubleCounter : Nat
  gnDefaultCommWaitTimeValue : Nat
  gchAckReplyType : Nat
  gchTasks_Enable : Nat
  gchTasks_Active : Nat
  gchControllerOff : Nat
  gchPowerSourceMode : Nat
  gchNewInterrupt : Nat
  gchSampleClockIndicator : Nat
  gchRadioClockIndicator : Nat
  gchCollectionPacketIndex : Nat
  gchCollectionDataIndex : Nat
  gchSampleClockPhase : Nat
  gchClockPhase : Nat
  gchUplinkRSSI : Nat
  gchDataCommFlagCC1125 : Nat
  gchVoltageStableTimerFlag : Nat
  gchI2cOccupiedFlag : Nat
  gchLvl1StepIndexI2C : Nat
  gchLvl2StepIndexI2C : Nat
  gchStepIndexE2PROM : Nat
  commTimerOn : Bool
  volTimerOn : Bool
  rtcOn : Bool
  wdtOn : Bool
  hwLog : List HwOp
deriving DecidableEq, Repr

/-- Issue a hardware operation. -/
def FW.hw (s : FW) (op : HwOp) : FW := { s with hwLog := s.hwLog ++ [op] }

/-- `SEND_ERROR_CODE_OVER_RF(ErrorID)`: store in bit-field `chOverrunErrorID`. -/
def SEND_ERROR_CODE_OVER_RF (e : Nat) (s : FW) : FW :=
  { s with ghSensorCommManager := s.ghSensorCommManager.setOverrunErrorID e }

/-- `SEND_DEBUG_ERROR_CODES(error)`: the code goes to the debug sink. -/
def SEND_DEBUG_ERROR_CODES (e : Nat) (s : FW) : FW := s.hw (.debugError e)

/-- Slot `i` of `ghSensorControl`. -/
def FW.slot (s : FW) (i : Nat) : SMART_SENSORS_STRUCT := s.ghSensorControl.getD i default

/-- Store into slot `i` of `ghSensorControl`. -/
def FW.setSlot (s : FW) (i : Nat) (x : SMART_SENSORS_STRUCT) : FW :=
  { s with ghSensorControl := s.ghSensorControl.set i x }

/-! ## Timers and interrupt service routines (mc_timer.c, mc_gpio.c) -/

/-- `fnStartCommunicationTimer`: load the period, clear the time-out flag, enable the timer. -/
def fnStartCommunicationTimer (ms : Nat) (s : FW) : FW :=
  { (s.hw (.startCommTimer ms)) with gchCommunicationTimeOut := RESET_FLAG, commTimerOn := true }

/-- `fnRadioCommunicationTimerDisable`. -/
def fnRadioCommunicationTimerDisable (s : FW) : FW :=
  { (s.hw .stopCommTimer) with commTimerOn := false }

/-- `fnStartVolStableTimer(WAIT_5_VOL_TIMER)`. -/
def fnStartVolStableTimer (s : FW) : FW :=
  { (s.hw .startVolTimer) with gchVoltageStableTimerFlag := RESET_FLAG, volTimerOn := true }

/-- `ISR(PORTH_INT0_vect)`: the radio chip signals transmit complete / receive available. -/
def isrPORTH_INT0 (s : FW) : FW :=
  { s with gchNewInterrupt := 1, gchDataCommFlagCC1125 := 1 }

/-- `ISR(TCC1_OVF_vect)` at the overflow that exhausts the programmed wait; the timer is a
one-shot and the routine only runs while the timer is enabled. -/
def isrTCC1_OVF (s : FW) : FW :=
  if s.commTimerOn then
    { s with gchNewInterrupt := 1, gchCommunicationTimeOut := SET_FLAG, commTimerOn := false }
  else s

/-- `ISR(TCE1_OVF_vect)`: the rail has had its stabilisation time. -/
def isrTCE1_OVF (s : FW) : FW :=
  if s.volTimerOn then
    { s with gchNewInterrupt := 1, gchVoltageStableTimerFlag := SET_FLAG, volTimerOn := false }
  else s

/-- `fnEnableWDT`. -/
def fnEnableWDT (s : FW) : FW := { (s.hw .wdtEnable) with wdtOn := true }

/-- `fnDisableWDT`. -/
def fnDisableWDT (s : FW) : FW := { (s.hw .wdtDisable) with wdtOn := false }

/-! ## Sample clock and initialisation (system_timing.c, system_init.c, sample_collection.c) -/

/-- `fnStopSampleClock`: `DISABLE_RTC_MODULE`. -/
def fnStopSampleClock (s : FW) : FW := { s with rtcOn := false }

/-- `fnConfigureSampleClock(chClockFreq)`; the parameter is a `uint8_t`, the period register
receives `1000 / (chClockFreq * 8)` computed in `int` and stored in the `uint8_t` parameter. -/
def fnConfigureSampleClock (chClockFreq : Nat) (s : FW) : FW :=
  { (s.hw (.rtcPeriod (u8 (1000 / (u8 chClockFreq * 8))))) with
    gchSampleClockPhase := RTC_PHASE0
    gchSampleClockIndicator := RESET_FLAG
    gchRadioClockIndicator := RESET_FLAG
    rtcOn := true }

/-- `fnResetFirmwareResourceAllocations` (the ADC channel bookkeeping of mc_adc.c is not part of
the state; `fnResetSpiResources` is empty in the source). -/
def fnResetFirmwareResourceAllocations (s : FW) : FW :=
  { s with
    gchI2cOccupiedFlag := 0
    gchLvl1StepIndexI2C := RESET_VALUE
    gchLvl2StepIndexI2C := RESET_VALUE
    gchStepIndexE2PROM := RESET_VALUE
    ghPowerManager :=
      { s.ghPowerManager with chCheckFlag := RESET_FLAG, chPowerUsageCounter := 0 }
    gchCollectionDataIndex := RESET_VALUE
    gchCollectionPacketIndex := RESET_VALUE
    gchDataDownloadPacketReady := RESET_FLAG
    gchTotalSensorEntry := RESET_COUNTER }

/-- `fnSoftwareInit`. -/
def fnSoftwareInit (s : FW) : FW :=
  { fnResetFirmwareResourceAllocations s with
    gchTasks_Enable := DISABLE_ALL_TASKS
    gchTasks_Active := DEACTIVATE_ALL_TASKS
    gchControllerOff := RESET_FLAG
    gchPowerSourceMode := POWER_SOURCE_ALWAYS_ON }

/-- `fnDefaultTaskingTableInit` (system_init.c), the body of the function that the headers and
the callers name `fnDefaultExecutionTableInit`.  It reads the constants
`DEFAULT_TT_SAMPLE_CLOCK`, `DEFAULT_TT_RADIO_CLOCK` and `DEFAULT_TT_COMM_WAIT_TIME`, which no
header of the repository defines: they are the parameters `clk`, `div` and `tmo`.  (The task bit
it sets, `TASKING_TABLE_REQ_TASK`, is `EXECUTION_TABLE_REQ_TASK` of system_globals.h.) -/
def fnDefaultTaskingTableInit (clk div tmo : Nat) (s : FW) : FW :=
  let s := { s with gchTasks_Enable := s.gchTasks_Enable ||| EXECUTION_TABLE_REQ_TASK }
  let s := { s with gchTasks_Enable := s.gchTasks_Enable &&&
    (0xFF - (DATA_SAMPLING_TASK ||| DATA_COLLECTION_TASK ||| DATA_DOWNLOAD_TASK)) }
  let s := { s with gchTasks_Active := DISABLE_ALL_TASKS }
  let s := fnStopSampleClock s
  let s := { s with gnDefaultCommWaitTimeValue := tmo }
  let s := { s with ghMasterTaskTable :=
    { s.ghMasterTaskTable with
      nCommTimeout := tmo
      nRadioClockDivisor := div
      chDataDownloadChannel := RADIO_CH_SLOW_DOWNLINK_CC1125 } }
  fnConfigureSampleClock clk s

/-- `fnDefaultExecutionTableInit`: `fnDefaultTaskingTableInit` with the default table that
data_structure.h defines, `DEFAULT_ET_SAMPLE_CLOCK`, `DEFAULT_ET_RADIO_CLOCK` and
`DEFAULT_ET_COMM_WAIT_TIME`, for the three constants. -/
def fnDefaultExecutionTableInit (s : FW) : FW :=
  fnDefaultTaskingTableInit DEFAULT_ET_SAMPLE_CLOCK DEFAULT_ET_RADIO_CLOCK
    DEFAULT_ET_COMM_WAIT_TIME s

/-! ## Power domain manager (system_init.c) -/

/-- `fnPowerSourceManager(chOperation, chSourceIdentity)`. -/
def fnPowerSourceManager (chOperation chSourceIdentity : Nat) (s : FW) : Int × FW :=
  if s.gchPowerSourceMode = POWER_SOURCE_ALWAYS_ON ∧
      s.ghPowerManager.chPowerLevelIndicator = POWER_STATE_5V_ON then
    (RETURN_TRUE, s)
  else if chOperation = POWER_SOURCE_DISABLE then
    let c := i8 (s.ghPowerManager.chPowerUsageCounter - 1)
    if c ≤ 0 then
      let s := s.hw (.radioReset true)
      let s := s.hw (.power5V false)
      (RETURN_TRUE, { s with ghPowerManager :=
        { s.ghPowerManager with
          chPowerLevelIndicator := POWER_STATE_OFF, chPowerUsageCounter := 0 } })
    else
      (RETURN_TRUE, { s with ghPowerManager := { s.ghPowerManager with chPowerUsageCounter := c } })
  else if s.ghPowerManager.chPowerLevelIndicator = POWER_STATE_5V_ON then
    (RETURN_TRUE, { s with ghPowerManager :=
      { s.ghPowerManager with
        chPowerUsageCounter := i8 (s.ghPowerManager.chPowerUsageCounter + 1) } })
  else if s.ghPowerManager.chCheckFlag = 0 then
    let s := { s with ghPowerManager :=
      { s.ghPowerManager with
        chPowerUsageCounter := i8 (s.ghPowerManager.chPowerUsageCounter + 1)
        chIdentity := u8 chSourceIdentity } }
    let s := s.hw (.power5V true)
    let s := fnStartVolStableTimer s
    (RETURN_FALSE, { s with ghPowerManager := { s.ghPowerManager with chCheckFlag := SET_FLAG } })
  else if s.ghPowerManager.chIdentity ≠ chSourceIdentity then
    (RETURN_FALSE, s)
  else if s.gchVoltageStableTimerFlag ≠ 0 then
    let s := { s with ghPowerManager :=
      { s.ghPowerManager with
        chPowerLevelIndicator := POWER_STATE_5V_ON, chCheckFlag := RESET_FLAG } }
    (RETURN_TRUE, s.hw (.radioReset false))
  else
    (RETURN_FALSE, s)

/-! ## Execution-table upload (sensor_protocol.c, sensor_management.c) -/

/-- `ghSensorInfo`: the supported sensors with their data length in words. -/
def ghSensorInfo : List (Nat × Nat) :=
  [(CHAMBER_TEMPERATURE, 1), (CHAMBER_PRESSURE, 1), (UPLINK_RADIO_RSSI, 1), (GYRO_METER, 3)]

/-- `fnFetchSensorDataLength`: linear search in `ghSensorInfo`, `RETURN_FALSE` when absent. -/
def fnFetchSensorDataLength (chSensorID : Nat) : Int :=
  match ghSensorInfo.find? (fun e => e.1 = chSensorID) with
  | some e => (e.2 : Int)
  | none => RETURN_FALSE

/-- Element `i` of the receive buffer `pchSensorRxBuff` (a `uint8_t` array). -/
def rxb (buf : List Nat) (i : Nat) : Nat := u8 (rd buf i)

/-- Body of the sensor-record loop of `fnET_Upload_Task` for the record at offset `c`. -/
def etUploadRecord (buf : List Nat) (c : Nat) (s : FW) : FW :=
  if rxb buf (c + SAMPLE_CLOCK_DIVISOR_OFFSET) = RESET_VALUE then s
  else
    let avg := rxb buf (c + SAMPLES_IN_AVERAGE_OFFSET)
    let id := rxb buf (c + SENSOR_EXECUTION_TABLE_ID_OFFSET)
    let bad : Bool := avg = RESET_VALUE ∨ avg > MAX_SAMPLE_AVERAGE_SUPPORTED
    let x : SMART_SENSORS_STRUCT :=
      { s.slot s.gchTotalSensorEntry with
        chSensorID := id
        chSensorCtrlByte := rxb buf (c + SENSOR_CONTROL_BYTE_OFFSET)
        chSampleClockDivisor := rxb buf (c + SAMPLE_CLOCK_DIVISOR_OFFSET)
        chRadioClockDivisor := rxb buf (c + RADIO_CLOCK_DIVISOR_OFFSET)
        chSensorSampleAvgTotalCount := if bad then MIN_SAMPLE_AVG_COUNT else avg
        chSensorDataLength := ((fnFetchSensorDataLength id) % 256).toNat
        chSampleClockCounter := rxb buf (c + SAMPLE_CLOCK_DIVISOR_OFFSET)
        chRadioClockCounter := RESET_VALUE
        chSensorSampleAvgCounter := RESET_VALUE
        nSensorAvgData := RESET_VALUE
        chSensorStatusFlag := SAMPLE_STATE_OFF }
    let s := s.setSlot s.gchTotalSensorEntry x
    let s := if bad then
        SEND_DEBUG_ERROR_CODES SENSOR_SAMPLE_AVERAGE_COUNT_EXCEEDS
          (SEND_ERROR_CODE_OVER_RF SENSOR_SAMPLE_AVERAGE_COUNT_EXCEEDS s)
      else s
    { s with gchTotalSensorEntry := u8 (s.gchTotalSensorEntry + 1) }

/-- The sensor-record loop of `fnET_Upload_Task`:
`for (c = SENSORS_START_INDEX; c < buf[PACKET_LENGTH_INDEX]; c += SENSOR_ENTRY_OFFSET)` with the
`uint8_t` counter `c`.  `fuel` bounds the number of tests of the loop condition. -/
def etUploadLoop (buf : List Nat) : Nat → Nat → FW → FW
  | 0, _, s => s
  | fuel + 1, c, s =>
    if c < rxb buf PACKET_LENGTH_INDEX then
      etUploadLoop buf fuel (u8 (c + SENSOR_ENTRY_OFFSET)) (etUploadRecord buf c s)
    else s

/-- Number of loop tests granted to `etUploadLoop`: the counter runs through
13, 19, ..., 253, 3, 9, ... and is 255 at the 84th test, where the loop ends whatever the
length byte is (`etUploadLoop_fuel` below). -/
def ET_UPLOAD_FUEL : Nat := 84

/-- `fnET_Upload_Task(pchSensorRxBuff)`. -/
def fnET_Upload_Task (buf : List Nat) (s : FW) : Int × FW :=
  let s := fnStopSampleClock s
  let s := fnResetFirmwareResourceAllocations s
  if rxb buf PACKET_MASTER_ID_INDEX ≠ ID_MASTER_CONTROLLER then (RETURN_FALSE, s)
  else
    let clk := u16 (rxb buf PACKET_SAMPLE_CLOCK_FREQ_BYTE1 <<< BIT_8_bp |||
      rxb buf PACKET_SAMPLE_CLOCK_FREQ_BYTE2)
    let s := { s with ghMasterTaskTable := { s.ghMasterTaskTable with nSampleClock := clk } }
    if clk = RESET_VALUE then (RETURN_FALSE, s)
    else
      let s := if clk > MAX_SAMPLE_CLOCK_FREQ then
          { s with ghMasterTaskTable :=
            { s.ghMasterTaskTable with nSampleClock := MAX_SAMPLE_CLOCK_FREQ } }
        else s
      let ch := if rxb buf PACKET_CONTROL_BYTE1 &&& DOWNLINK_BM ≠ 0
        then RADIO_CH_FAST_DOWNLINK_CC2520 else RADIO_CH_SLOW_DOWNLINK_CC1125
      let s := { s with ghMasterTaskTable := { s.ghMasterTaskTable with chDataDownloadChannel := ch } }
      let div := u16 ((rxb buf PACKET_CONTROL_BYTE1 &&& BIT_0_bm) <<< BIT_8_bp |||
        rxb buf PACKET_CONTROL_BYTE2)
      let s := { s with ghMasterTaskTable := { s.ghMasterTaskTable with nRadioClockDivisor := div } }
      if div < MIN_RADIO_CLOCK_DIVISOR then
        (RETURN_FALSE, SEND_DEBUG_ERROR_CODES SENSOR_RADIO_DIVISOR_OVERRUN
          (SEND_ERROR_CODE_OVER_RF SENSOR_RADIO_DIVISOR_OVERRUN s))
      else
        let tmo := u16 (rxb buf PACKET_WAIT_TIME_BYTE1 <<< BIT_8_bp |||
          rxb buf PACKET_WAIT_TIME_BYTE2)
        let s := { s with ghMasterTaskTable := { s.ghMasterTaskTable with nCommTimeout := tmo } }
        if tmo < MIN_COMM_WAIT_TIME_OUT then
          (RETURN_FALSE, SEND_DEBUG_ERROR_CODES SENSOR_COMM_WAIT_TIME_MISMATCH
            (SEND_ERROR_CODE_OVER_RF SENSOR_COMM_WAIT_TIME_MISMATCH s))
        else
          let s := { s with gnDefaultCommWaitTimeValue := tmo }
          let s := if s.ghMasterTaskTable.nSampleClock ≥ MIN_SAMPLE_CLOCK_VALUE_FOR_KEEP_5V_ON
            then { s with gchPowerSourceMode := POWER_SOURCE_ALWAYS_ON }
            else { s with gchPowerSourceMode := POWER_SOURCE_AT_REQUIRE }
          let s := etUploadLoop buf ET_UPLOAD_FUEL SENSORS_START_INDEX s
          (RETURN_TRUE, fnConfigureSampleClock s.ghMasterTaskTable.nSampleClock s)

/-! ## Phase clock (system_timing.c) -/

/-- `fnSystem_Timing_Task`, run at every RTC overflow (the test-point and LED pin writes are
left out). -/
def fnSystem_Timing_Task (s : FW) : FW :=
  let s := { s with gchClockPhase := if s.gchClockPhase ≠ 0 then 0 else 1 }
  let s :=
    if s.gchSampleClockPhase = RTC_PHASE0 then
      if s.gchTasks_Enable &&& DATA_SAMPLING_TASK ≠ 0 then
        { s with
          gchSampleClockIndicator := SET_FLAG
          gchTasks_Active := s.gchTasks_Active ||| DATA_SAMPLING_TASK }
      else s
    else if s.gchSampleClockPhase = RTC_PHASE1 then
      if s.gchTasks_Enable &&& EXECUTION_TABLE_REQ_TASK ≠ 0 then
        let c := u16 (s.ghMasterTaskTable.nRadioClockCounter + 1)
        if c ≥ s.ghMasterTaskTable.nRadioClockDivisor then
          { s with
            ghMasterTaskTable := { s.ghMasterTaskTable with nRadioClockCounter := RESET_COUNTER }
            gchTasks_Active := s.gchTasks_Active ||| EXECUTION_TABLE_REQ_TASK }
        else { s with ghMasterTaskTable := { s.ghMasterTaskTable with nRadioClockCounter := c } }
      else s
    else if s.gchSampleClockPhase = RTC_PHASE6 then
      if s.gchTasks_Enable &&& DATA_COLLECTION_TASK ≠ 0 then
        let c := u16 (s.ghMasterTaskTable.nRadioClockCounter + 1)
        if c ≥ s.ghMasterTaskTable.nRadioClockDivisor then
          { s with
            ghMasterTaskTable := { s.ghMasterTaskTable with nRadioClockCounter := RESET_COUNTER }
            gchRadioClockIndicator := SET_FLAG
            gchTasks_Active := s.gchTasks_Active ||| DATA_COLLECTION_TASK }
        else { s with ghMasterTaskTable := { s.ghMasterTaskTable with nRadioClockCounter := c } }
      else s
    else if s.gchSampleClockPhase = RTC_PHASE7 then
      if s.ghMasterTaskTable.nRadioClockCounter = RESET_COUNTER ∧
          s.gchTasks_Enable &&& DATA_DOWNLOAD_TASK ≠ 0 then
        { s with gchTasks_Active := s.gchTasks_Active ||| DATA_DOWNLOAD_TASK }
      else s
    else s
  let p := u8 (s.gchSampleClockPhase + 1)
  { s with gchSampleClockPhase := if p > RTC_PHASE7 then RTC_PHASE0 else p }

/-- `ISR(RTC_OVF_vect)`. -/
def isrRTC_OVF (s : FW) : FW := fnSystem_Timing_Task { s with gchNewInterrupt := 1 }

/-! ## Sampling task (sample_collection.c) -/

/-- Due-check of one slot: body of the first loop of `fnData_Sampling_Task`.  The second
component tells whether the slot was due (`chCheckFlag = SET_FLAG`). -/
def samplingDueSlot (i : Nat) (s : FW) : FW × Bool :=
  let x := s.slot i
  let c := u8 (x.chSampleClockCounter + 1)
  if c ≥ x.chSampleClockDivisor then
    let x := { x with chSampleClockCounter := RESET_COUNTER }
    if x.chSensorStatusFlag = SAMPLE_STATE_OFF then
      if x.chSensorSampleAvgCounter < x.chSensorSampleAvgTotalCount then
        (s.setSlot i { x with chSensorStatusFlag := SAMPLE_STATE_START }, true)
      else (s.setSlot i x, true)
    else
      (SEND_DEBUG_ERROR_CODES SENSOR_SENSOR_SAMPLING_OVERRUN
        (SEND_ERROR_CODE_OVER_RF SENSOR_SENSOR_SAMPLING_OVERRUN (s.setSlot i x)), true)
  else (s.setSlot i { x with chSampleClockCounter := c }, false)

/-- First loop of `fnData_Sampling_Task` from slot `i` on, `n` slots left to visit. -/
def samplingDueLoop : Nat → Nat → Bool → FW → FW × Bool
  | 0, _, chk, s => (s, chk)
  | n + 1, i, chk, s =>
    let r := samplingDueSlot i s
    samplingDueLoop n (i + 1) (chk || r.2) r.1

/-- The due-check step of `fnData_Sampling_Task`: what the task does with
`gchSampleClockIndicator` set before it turns to the sensor state machines. -/
def samplingDueCheck (s : FW) : FW × Bool :=
  samplingDueLoop s.gchTotalSensorEntry 0 false { s with gchSampleClockIndicator := RESET_FLAG }

/-- What the sensor drivers of sensor_management.c report to one slot in one invocation. -/
structure SensorIn where
  startTempOk : Bool
  tempValue : Int
  gyroInitOk : Bool
  gyroData : Option (List Nat)
  pressureValue : Int
deriving DecidableEq, Repr

/-- Accumulate one sample: `nSensorAvgData += v`, count it, and finalise the average in
`nSensorData[0]` when the count reaches the target. -/
def addSample (v : Int) (x : SMART_SENSORS_STRUCT) : SMART_SENSORS_STRUCT :=
  let acc := (((x.nSensorAvgData : Int) + v) % 4294967296).toNat
  let cnt := u8 (x.chSensorSampleAvgCounter + 1)
  let x := { x with nSensorAvgData := acc, chSensorSampleAvgCounter := cnt }
  if cnt ≥ x.chSensorSampleAvgTotalCount then
    { x with nSensorData := x.nSensorData.set 0 (u16 (acc / x.chSensorSampleAvgTotalCount)) }
  else x

/-- Body of the second loop of `fnData_Sampling_Task` for slot `i`. -/
def samplingSlot (d : SensorIn) (i : Nat) (s : FW) : FW :=
  let x := s.slot i
  let st := x.chSensorStatusFlag
  if st = SAMPLE_STATE_OFF then s
  else if x.chSensorID = CHAMBER_TEMPERATURE then
    if st = SAMPLE_STATE_START then
      let r := fnPowerSourceManager POWER_SOURCE_ENABLE TEMPERATURE_POWER_IDENTITY s
      if r.1 = RETURN_TRUE then
        r.2.setSlot i { x with chSensorStatusFlag := SAMPLE_STATE_RUN_LVL0 }
      else r.2
    else if st = SAMPLE_STATE_RUN_LVL0 then
      if d.startTempOk then s.setSlot i { x with chSensorStatusFlag := SAMPLE_STATE_RUN }
      else SEND_DEBUG_ERROR_CODES SENSOR_ADC_RESOURCES_ARE_NOT_FREE
        (SEND_ERROR_CODE_OVER_RF SENSOR_ADC_RESOURCES_ARE_NOT_FREE s)
    else if st = SAMPLE_STATE_RUN then
      if d.tempValue ≠ RETURN_FALSE then
        let s := s.setSlot i { addSample d.tempValue x with chSensorStatusFlag := SAMPLE_STATE_OFF }
        (fnPowerSourceManager POWER_SOURCE_DISABLE TEMPERATURE_POWER_IDENTITY s).2
      else s
    else s
  else if x.chSensorID = GYRO_METER then
    if st = SAMPLE_STATE_START then
      if s.gchI2cOccupiedFlag = 0 then
        { s with gchI2cOccupiedFlag := 1 }.setSlot i
          { x with chSensorStatusFlag := SAMPLE_STATE_RUN_LVL0 }
      else s
    else if st = SAMPLE_STATE_RUN_LVL0 then
      if d.gyroInitOk then s.setSlot i { x with chSensorStatusFlag := SAMPLE_STATE_RUN } else s
    else if st = SAMPLE_STATE_RUN then
      match d.gyroData with
      | some w =>
        { s with gchI2cOccupiedFlag := 0 }.setSlot i
          { x with
            nSensorData := (w.take 3).map u16 ++ x.nSensorData.drop 3
            chSensorSampleAvgCounter := x.chSensorSampleAvgTotalCount
            chSensorStatusFlag := SAMPLE_STATE_OFF }
      | none => s
    else s
  else if x.chSensorID = CHAMBER_PRESSURE then
    if st = SAMPLE_STATE_START then
      let r := fnPowerSourceManager POWER_SOURCE_ENABLE PRESSURE_POWER_IDENTITY s
      if r.1 = RETURN_TRUE then
        r.2.setSlot i { x with chSensorStatusFlag := SAMPLE_STATE_RUN_LVL0 }
      else r.2
    else if st = SAMPLE_STATE_RUN_LVL0 then
      if s.gchI2cOccupiedFlag = 0 then
        { s with gchI2cOccupiedFlag := 1 }.setSlot i { x with chSensorStatusFlag := SAMPLE_STATE_RUN }
      else s
    else if st = SAMPLE_STATE_RUN then
      if d.pressureValue ≠ RETURN_FALSE then
        let s := s.setSlot i
          { addSample d.pressureValue x with chSensorStatusFlag := SAMPLE_STATE_OFF }
        let s := (fnPowerSourceManager POWER_SOURCE_DISABLE PRESSURE_POWER_IDENTITY s).2
        { s with gchI2cOccupiedFlag := 0 }
      else s
    else s
  else if x.chSensorID = UPLINK_RADIO_RSSI then
    if st = SAMPLE_STATE_START then
      s.setSlot i { addSample s.gchUplinkRSSI x with chSensorStatusFlag := SAMPLE_STATE_OFF }
    else s
  else if x.chSensorID = BATTERY_TEMPERATURE ∨ x.chSensorID = TEG_TEMPERATURE_COLD ∨
      x.chSensorID = TEG_TEMPERATURE_HOT then s
  else SEND_DEBUG_ERROR_CODES SENSOR_INVALID_EXECUTION_DEVELOPER_ERROR
    (SEND_ERROR_CODE_OVER_RF SENSOR_INVALID_EXECUTION_DEVELOPER_ERROR s)

/-- Second loop of `fnData_Sampling_Task` from slot `i` on, `n` slots left. -/
def samplingRunLoop (drv : Nat → SensorIn) : Nat → Nat → FW → FW
  | 0, _, s => s
  | n + 1, i, s => samplingRunLoop drv n (i + 1) (samplingSlot (drv i) i s)

/-- Third loop of `fnData_Sampling_Task`: is some slot below `gchTotalSensorEntry` not Off? -/
def samplingBusy (s : FW) : Bool :=
  (List.range s.gchTotalSensorEntry).any fun i =>
    decide ((s.slot i).chSensorStatusFlag ≠ SAMPLE_STATE_OFF)

/-- `fnData_Sampling_Task`. -/
def fnData_Sampling_Task (drv : Nat → SensorIn) (s : FW) : Int × FW :=
  let go (s : FW) : Int × FW :=
    let s := samplingRunLoop drv s.gchTotalSensorEntry 0 s
    (if samplingBusy s then RETURN_FALSE else RETURN_TRUE, s)
  if s.gchSampleClockIndicator = SET_FLAG then
    let r := samplingDueCheck s
    if r.2 = false then (RETURN_TRUE, r.1) else go r.1
  else go s

/-! ## Collection task (sample_collection.c) -/

/-! ### Layout of the slot array and of the packet bank

The inner loop of the collection task indexes `nSensorData` with a counter that runs up to
`chSensorDataLength` and `gchSensorCommBuff[p]` with the `uint8_t` write cursor; neither is
checked against the array bound, so both reach the objects that follow in memory.  The
firmware is built with avr-gcc: no padding, least significant byte first.  A
`SMART_SENSORS_STRUCT` is then 24 bytes, twelve 16-bit objects: (id, control byte), (sample
divisor, sample counter), (radio divisor, radio counter), (status, data length), the five words
of `nSensorData`, the two halves of `nSensorAvgData`, (average target, average counter); and
`nSensorData[k]` of slot `c` is the 16-bit object number `k + 4` counted from the start of
slot `c`, which for `k >= 8` lies in one of the following slots.  Objects behind the end of
`ghSensorControl` or of `gchSensorCommBuff` are not part of the state: they read as 0 and
stores to them are dropped. -/

/-- Number of 16-bit objects in a `SMART_SENSORS_STRUCT` (24 bytes). -/
def SENSOR_SLOT_WORDS : Nat := 12

/-- Position of `nSensorData[0]` in a slot, counted in 16-bit objects (byte offset 8). -/
def SENSOR_DATA_WORD : Nat := 4

/-- The 16-bit object number `j` of a slot, as a `uint16_t`. -/
def SMART_SENSORS_STRUCT.wordAt (x : SMART_SENSORS_STRUCT) (j : Nat) : Nat :=
  if j = 0 then u8 x.chSensorID + 256 * u8 x.chSensorCtrlByte
  else if j = 1 then u8 x.chSampleClockDivisor + 256 * u8 x.chSampleClockCounter
  else if j = 2 then u8 x.chRadioClockDivisor + 256 * u8 x.chRadioClockCounter
  else if j = 3 then u8 x.chSensorStatusFlag + 256 * u8 x.chSensorDataLength
  else if j < 9 then x.nSensorData.getD (j - SENSOR_DATA_WORD) 0
  else if j = 9 then x.nSensorAvgData % 65536
  else if j = 10 then x.nSensorAvgData / 65536 % 65536
  else u8 x.chSensorSampleAvgTotalCount + 256 * u8 x.chSensorSampleAvgCounter

/-- The slot after a store of `RESET_VALUE` in its 16-bit object number `j`. -/
def SMART_SENSORS_STRUCT.clearWordAt (x : SMART_SENSORS_STRUCT) (j : Nat) :
    SMART_SENSORS_STRUCT :=
  if j = 0 then { x with chSensorID := RESET_VALUE, chSensorCtrlByte := RESET_VALUE }
  else if j = 1 then
    { x with chSampleClockDivisor := RESET_VALUE, chSampleClockCounter := RESET_VALUE }
  else if j = 2 then
    { x with chRadioClockDivisor := RESET_VALUE, chRadioClockCounter := RESET_VALUE }
  else if j = 3 then { x with chSensorStatusFlag := RESET_VALUE, chSensorDataLength := RESET_VALUE }
  else if j < 9 then { x with nSensorData := x.nSensorData.set (j - SENSOR_DATA_WORD) RESET_VALUE }
  else if j = 9 then { x with nSensorAvgData := x.nSensorAvgData / 65536 % 65536 * 65536 }
  else if j = 10 then { x with nSensorAvgData := x.nSensorAvgData % 65536 }
  else { x with chSensorSampleAvgTotalCount := RESET_VALUE, chSensorSampleAvgCounter := RESET_VALUE }

/-- Read of `ghSensorControl[c].nSensorData[k]`. -/
def FW.sensorData (s : FW) (c k : Nat) : Nat :=
  (s.slot (c + (k + SENSOR_DATA_WORD) / SENSOR_SLOT_WORDS)).wordAt
    ((k + SENSOR_DATA_WORD) % SENSOR_SLOT_WORDS)

/-- `ghSensorControl[c].nSensorData[k] = RESET_VALUE`. -/
def FW.clearSensorData (s : FW) (c k : Nat) : FW :=
  s.setSlot (c + (k + SENSOR_DATA_WORD) / SENSOR_SLOT_WORDS)
    ((s.slot (c + (k + SENSOR_DATA_WORD) / SENSOR_SLOT_WORDS)).clearWordAt
      ((k + SENSOR_DATA_WORD) % SENSOR_SLOT_WORDS))

/-- Store of `v` in `gchSensorCommBuff[p][i]` for a cursor `i` that may have left the row: the
byte number `i` counted from the start of row `p`. -/
def bankStore (b : List (List Nat)) (p i : Nat) (v : Nat) : List (List Nat) :=
  wr2 b (p + i / MAX_COMM_PACKET_SIZE) (i % MAX_COMM_PACKET_SIZE) v

/-- Inner loop of `fnData_Collection_Task`: the data words `k, k+1, ...` of slot `c` are
appended big-endian at the write cursor and cleared; `n` words left.  (The loop bound
`chSensorDataLength` of slot `c` is read once: the stores of the loop lie behind it.) -/
def collectWords (c : Nat) : Nat → Nat → FW → FW
  | 0, _, s => s
  | n + 1, k, s =>
    let w := s.sensorData c k
    let s := { s with
      gchSensorCommBuff :=
        bankStore s.gchSensorCommBuff s.gchCollectionPacketIndex s.gchCollectionDataIndex
          (w >>> BIT_8_bp)
      gchCollectionDataIndex := u8 (s.gchCollectionDataIndex + 1) }
    let s := { s with
      gchSensorCommBuff :=
        bankStore s.gchSensorCommBuff s.gchCollectionPacketIndex s.gchCollectionDataIndex w
      gchCollectionDataIndex := u8 (s.gchCollectionDataIndex + 1) }
    let s := s.clearSensorData c k
    collectWords c n (k + 1) s

/-- First part of the `while(1)` body of `fnData_Collection_Task` for slot `c`: the radio-clock
comparison and, for a due slot, the append of `[id, words]`.  The second component is the new
value of `chSensorAvail`. -/
def collectSlot (c : Nat) (avail : Bool) (s : FW) : FW × Bool :=
  let x := s.slot c
  let rc := u8 (x.chRadioClockCounter + 1)
  if rc ≥ x.chRadioClockDivisor then
    let s := s.setSlot c { x with chRadioClockCounter := RESET_COUNTER }
    let s := { s with
      gchSensorCommBuff :=
        bankStore s.gchSensorCommBuff s.gchCollectionPacketIndex s.gchCollectionDataIndex
          x.chSensorID
      gchCollectionDataIndex := u8 (s.gchCollectionDataIndex + 1) }
    let s := collectWords c x.chSensorDataLength 0 s
    let x := s.slot c
    let s :=
      if x.chSensorSampleAvgCounter ≥ x.chSensorSampleAvgTotalCount then
        s.setSlot c { x with chSensorSampleAvgCounter := RESET_COUNTER, nSensorAvgData := RESET_VALUE }
      else s
    (s, true)
  else (s.setSlot c { x with chRadioClockCounter := rc }, avail)

/-- Finalisation of the current packet in `fnData_Collection_Task` (the block guarded by
"packet is full"); `chk` is `chCheckFlag`. -/
def collectFinalize (chk : Bool) (s : FW) : FW :=
  let p := s.gchCollectionPacketIndex
  let fast : Bool := s.ghMasterTaskTable.chDataDownloadChannel = RADIO_CH_FAST_DOWNLINK_CC2520
  let s := { s with
    gchSensorCommBuff := wr2 s.gchSensorCommBuff p PACKET_HEADER_INDEX
      (if fast then FAST_DL_DATA_PACKET else SLOW_DL_DATA_PACKET)
    ghSensorCommManager := s.ghSensorCommManager.setTransmitterID
      (if fast then RADIO_CH_FAST_DOWNLINK_CC2520 else RADIO_CH_SLOW_DOWNLINK_CC1125) }
  let s := { s with ghSensorCommManager :=
    s.ghSensorCommManager.setLastPacket (if chk then SET_FLAG else RESET_FLAG) }
  let s := { s with gchCollectionDataIndex := u8 (s.gchCollectionDataIndex + 255) }
  let s := { s with ghSensorCommManager := s.ghSensorCommManager.setPacketSeqNo (p + 1) }
  let d := s.gchCollectionDataIndex
  let b := wr2 s.gchSensorCommBuff p PACKET_DESCRIPTOR_INDEX
    s.ghSensorCommManager.chPacketDescriptor
  let b := wr2 b p PACKET_DATA_LENGTH_INDEX d
  let b := wr2 b p CC1125_DATA_PACKET_LENGTH d
  let b := wr2 b p PACKET_DOWNLOAD_DATA_SIZE (d + 256 - PACKET_DATA_MESSAGE_INDEX + 2)
  { s with gchSensorCommBuff := b, gchCollectionDataIndex := PACKET_DATA_MESSAGE_INDEX }

/-- Result of the `while(1)` loop of `fnData_Collection_Task`: the state, whether the loop was
left through `break` (otherwise through `return RETURN_TRUE`, no slot being due), and how many
times the finalisation block ran (a count kept for the statements about packets; the source
has no such variable). -/
structure CollectOut where
  s : FW
  broke : Bool
  finalized : Nat
deriving DecidableEq, Repr

/-- The `while(1)` loop of `fnData_Collection_Task`; `c` is `chSensorCounter`, `avail` is
`chSensorAvail`, `k` the number of finalisations so far.  Every pass increments `c` and the
loop is left once `c >= gchTotalSensorEntry`, so `fuel` passes with
`fuel + c >= gchTotalSensorEntry` and `fuel >= 1` are always enough (`collectLoop_steps`,
`collectWalk_fuel` below). -/
def collectLoop : Nat → Nat → Bool → Nat → FW → CollectOut
  | 0, _, _, k, s => ⟨s, false, k⟩
  | fuel + 1, c, avail, k, s =>
    let r := collectSlot c avail s
    let s := r.1
    let avail := r.2
    let c := u8 (c + 1)
    if c ≥ s.gchTotalSensorEntry ∧ ¬ avail then ⟨s, false, k⟩
    else
      let chk : Bool := c ≥ s.gchTotalSensorEntry
      if chk ∨ s.gchCollectionDataIndex + (s.slot c).chSensorDataLength * 2 + 1 >
          PACKET_LAST_DATA_BYTE_INDEX then
        let s := collectFinalize chk s
        if chk then ⟨s, true, k + 1⟩ else collectLoop fuel c avail (k + 1) s
      else collectLoop fuel c avail k s

/-- The walk of `fnData_Collection_Task` over the slots, from the initialisation of the write
cursor to the end of the `while(1)` loop. -/
def collectWalk (s : FW) : CollectOut :=
  collectLoop (max s.gchTotalSensorEntry 1) RESET_COUNTER false 0
    { s with
      gchCollectionDataIndex := PACKET_DATA_MESSAGE_INDEX
      gchCollectionPacketIndex := RESET_VALUE }

/-- `fnData_Collection_Task`. -/
def fnData_Collection_Task (s : FW) : Int × FW :=
  if s.gchDataDownloadPacketReady ≠ 0 then
    (RETURN_TRUE, SEND_DEBUG_ERROR_CODES SENSOR_RADIO_DIVISOR_OVERRUN
      (SEND_ERROR_CODE_OVER_RF SENSOR_RADIO_DIVISOR_OVERRUN s))
  else
    let r := collectWalk s
    if r.broke then
      let s := r.s
      (RETURN_TRUE, { s with
        ghSensorCommManager :=
          { s.ghSensorCommManager with chTotalPacketCount := u8 (s.gchCollectionPacketIndex + 1) }
        gchCollectionPacketIndex := RESET_COUNTER
        gchCollectionDataIndex := RESET_COUNTER
        gchDataDownloadPacketReady := SET_FLAG })
    else (RETURN_TRUE, r.s)

/-! ## Radio driver entry points (radio_communication.c) -/

/-- What the hardware presents to one pass of the `do ... while` loop of `fnRadioTxRxHandler`:
the interrupts that were serviced since the previous pass, and what the radio chip returns when
it is queried over SPI during the pass. -/
structure HwIn where
  gpioIrq : Bool
  commOvf : Bool
  volOvf : Bool
  spiOk : Bool
  initStatus : Nat
  marcState : Nat
  numRxBytes : Nat
  rxFifo : List Nat
deriving DecidableEq, Repr

/-- The interrupt service routines named by `hw` run. -/
def serviceIrqs (hw : HwIn) (s : FW) : FW :=
  let s := if hw.gpioIrq then isrPORTH_INT0 s else s
  let s := if hw.commOvf then isrTCC1_OVF s else s
  if hw.volOvf then isrTCE1_OVF s else s

/-- `fnCC112xSendDataComplete`. -/
def fnCC112xSendDataComplete (s : FW) : Int × FW :=
  if s.gchDataCommFlagCC1125 = SET_FLAG then
    (RETURN_TRUE, { s with gchDataCommFlagCC1125 := RESET_FLAG }.hw (.strobe CC112X_SRX))
  else (RETURN_FALSE, s)

/-- `fnCC112xReceiveDataAvail`. -/
def fnCC112xReceiveDataAvail (hw : HwIn) (s : FW) : Int × FW :=
  if s.gchDataCommFlagCC1125 = SET_FLAG then
    let s := { s with gchDataCommFlagCC1125 := RESET_FLAG }
    if ¬ hw.spiOk then (RETURN_FALSE, s)
    else if u8 hw.numRxBytes > RESET_VALUE then
      if u8 hw.marcState &&& CC1125_FIFO_ERR_CHECK_BM = CC112X_STATE_RXFIFO_ERROR then
        (RETURN_FALSE, (SEND_DEBUG_ERROR_CODES SENSOR_CC1125_RX_FIIO_ERR s).hw (.strobe CC112X_SFRX))
      else (RETURN_TRUE, s)
    else (RETURN_FALSE, s)
  else (RETURN_FALSE, s)

/-! ## RF protocol engine (sensor_protocol.c) -/

/-- Outcome of one pass of the `do ... while` loop of `fnRadioTxRxHandler`: the function
returned `RETURN_TRUE` from inside the `switch`, or the pass reached the loop test with
`chNextPacket` and the local receive buffer `chSensorRxBuff`. -/
inductive Pass where
  | ret (s : FW)
  | test (chNextPacket : Bool) (s : FW) (chSensorRxBuff : List Nat)
deriving DecidableEq, Repr

/-- The retry step shared by the time-out, CRC and NACK paths:
`if (++chPacketSendRetryCounter < MAX_RF_COMM_RETRY)` retry from Tx, else leave. -/
def retryOrQuit (err : Nat) (s : FW) (rx : List Nat) : Pass :=
  let n := u8 (s.ghSensorCommManager.chPacketSendRetryCounter + 1)
  let s := { s with ghSensorCommManager :=
    { s.ghSensorCommManager with chPacketSendRetryCounter := n } }
  let s := SEND_DEBUG_ERROR_CODES err s
  if n < MAX_RF_COMM_RETRY then .test true { s with gchRadioCommStepMode := RADIO_TX_MODE } rx
  else .ret s

/-- Case `RADIO_TX_MODE`. -/
def radioTx (hw : HwIn) (nxt : Bool) (s : FW) (rx : List Nat) : Pass :=
  let s := (s.hw (.strobe CC112X_SFTX)).hw (.strobe CC112X_SIDLE)
  let p := s.ghSensorCommManager.chPacketCounter
  let s :=
    if s.gchSensorLoopBack = LB_STEP_0 then
      SEND_ERROR_CODE_OVER_RF SENSOR_NO_ERROR
        { s with
          gchSensorCommBuff := wr2 s.gchSensorCommBuff p PACKET_ERROR_CONTROL_INDEX
            s.ghSensorCommManager.chPacketCheck }
    else s
  let pkt := s.gchSensorCommBuff.getD p []
  let s := s.hw (.txFifo ((List.range (u8 (rd pkt CC1125_DATA_PACKET_LENGTH + 1))).map (rd pkt)))
  if u8 hw.marcState &&& CC1125_FIFO_ERR_CHECK_BM = CC112X_STATE_TXFIFO_ERROR then
    .test nxt (SEND_DEBUG_ERROR_CODES SENSOR_CC1125_TX_FIIO_ERR (s.hw (.strobe CC112X_SFTX))) rx
  else
    let s := s.hw (.strobe CC112X_STX)
    let s := fnStartCommunicationTimer CC1125_TX_COMPLETE_TIMEOUT_WAIT s
    .test nxt { s with gchRadioCommStepMode := TX_TIME_OUT_MODE } rx

/-- Case `TX_TIME_OUT_MODE`. -/
def radioTxTimeOut (nxt : Bool) (s : FW) (rx : List Nat) : Pass :=
  let r := fnCC112xSendDataComplete s
  let s := r.2
  if r.1 = RETURN_TRUE then
    let s := { s with gchRadioCommStepMode := RADIO_RX_MODE }
    let s := fnRadioCommunicationTimerDisable s
    if s.gchSensorLoopBack = LB_STEP_0 then
      .test nxt (fnStartCommunicationTimer s.ghMasterTaskTable.nCommTimeout s) rx
    else .test nxt (fnStartCommunicationTimer LOOPBACK_WAIT_TIMEOUT s) rx
  else if s.gchCommunicationTimeOut ≠ 0 then
    retryOrQuit SENSOR_CC1125_TX_GPIO_INTTERUPT_FAIL (s.hw (.strobe CC112X_SFTX)) rx
  else .test nxt s rx

/-- Dispatch on the message type of a CRC-valid frame received outside loop-back mode
(the inner `switch (chSensorRxBuff[1])` of case `RADIO_RX_MODE`). -/
def radioRxDispatch (nxt : Bool) (s : FW) (rx : List Nat) : Pass :=
  let ty := rxb rx 1
  if ty = ACK_RECEIPT_LAST_DATA_PACKET then
    let n := u8 (s.ghSensorCommManager.chPacketCounter + 1)
    let s := { s with ghSensorCommManager := { s.ghSensorCommManager with chPacketCounter := n } }
    if n < s.ghSensorCommManager.chTotalPacketCount then
      .test nxt { s with gchRadioCommStepMode := RADIO_TX_MODE } rx
    else .ret s
  else if ty = NACK_OUT_OF_SEQUENCE ∨ ty = NACK_INVALID_PACKET ∨ ty = NACK_INVALID_MSG_FORMAT then
    retryOrQuit SENSOR_CC1125_NACK_RECEIVED s rx
  else if ty = NACK_STOP_SENDING_DATA_MESSAGE then .ret s
  else if ty = TERMINATE_DATA_DOWNLOAD then .ret (fnDefaultExecutionTableInit s)
  else if ty = NEW_EXECUTION_TABLE_PACKET then
    let r := fnET_Upload_Task rx s
    let s := { r.2 with
      gchAckReplyType := if r.1 = RETURN_TRUE then SET_FLAG else RESET_FLAG
      gchRadioCommStepMode := RADIO_ET_REPLY_MODE }
    .test true s rx
  else if ty = NO_NEW_ET_AVAILABLE then .ret s
  else if ty = SENSOR_LOOP_BACK_PACKET_SLOW ∨ ty = SENSOR_LOOP_BACK_PACKET_FAST then
    let s := fnDisableWDT s
    .test nxt { s with
      gchSensorLoopBack := LB_STEP_1
      gchAckReplyType := SET_FLAG
      gchRadioCommStepMode := RADIO_ET_REPLY_MODE } rx
  else .ret (SEND_DEBUG_ERROR_CODES SENSOR_PACKET_HEADER_UNDEFINED s)

/-- Case `RADIO_RX_MODE`. -/
def radioRx (hw : HwIn) (nxt : Bool) (s : FW) (rx : List Nat) : Pass :=
  let r := fnCC112xReceiveDataAvail hw s
  let s := r.2
  if r.1 = RETURN_TRUE then
    let s := fnRadioCommunicationTimerDisable s
    let chRxBytes := u8 hw.numRxBytes
    let rx := (hw.rxFifo.take chRxBytes).map u8 ++ rx.drop chRxBytes
    if rxb rx (chRxBytes - 1) &&& CC1125_CRC_ERR_CHECK_BM = 0 then
      retryOrQuit SENSOR_CC1125_CRC_MISMATCH_ERR s rx
    else
      let s := { s with
        gchUplinkRSSI := rxb rx (chRxBytes - 2)
        ghSensorCommManager := { s.ghSensorCommManager with chPacketSendRetryCounter := 0 } }
      if s.gchSensorLoopBack ≠ LB_STEP_0 then
        .test nxt { s with gchRadioCommStepMode := RADIO_SENSOR_LOOP_BACK_MODE } rx
      else radioRxDispatch nxt s rx
  else if s.gchCommunicationTimeOut ≠ 0 then
    if s.gchSensorLoopBack ≠ LB_STEP_0 then
      .ret (fnEnableWDT (fnDefaultExecutionTableInit { s with gchSensorLoopBack := LB_STEP_0 }))
    else
      let n := u8 (s.ghSensorCommManager.chPacketSendRetryCounter + 1)
      let s := { s with ghSensorCommManager :=
        { s.ghSensorCommManager with chPacketSendRetryCounter := n } }
      let s := SEND_DEBUG_ERROR_CODES SENSOR_CC1125_COMMUNICATION_WAIT_TIMEOUT s
      if n < MAX_RF_COMM_RETRY then
        .test true { s with gchRadioCommStepMode := RADIO_TX_MODE } rx
      else
        let d := s.gchCommWaitTimeDoubleCounter
        let s := { s with gchCommWaitTimeDoubleCounter := u8 (d + 1) }
        if d < COMM_WAIT_TIME_DOUBLE_RETRY then
          let t := u16 (s.ghMasterTaskTable.nCommTimeout * 2)
          let s := { s with
            ghMasterTaskTable := { s.ghMasterTaskTable with nCommTimeout := t }
            gchRadioCommStepMode := RADIO_TX_MODE
            ghSensorCommManager :=
              { s.ghSensorCommManager with chPacketSendRetryCounter := RESET_COUNTER } }
          let s := SEND_ERROR_CODE_OVER_RF SENSOR_COMM_WAIT_TIME_MISMATCH s
          let s :=
            if t > MAX_COMM_WAIT_TIME_VALUE then
              { s with ghMasterTaskTable :=
                { s.ghMasterTaskTable with nCommTimeout := MAX_COMM_WAIT_TIME_VALUE } }
            else s
          .test true s rx
        else .ret s
  else .test nxt s rx

/-- `fnMemCopy(dst, src, chLength)` (mc_system.c): `dst[i] = src[i]` for `i < chLength`. -/
def fnMemCopy (dst src : List Nat) (chLength : Nat) : List Nat :=
  (List.range (u8 chLength)).foldl (fun d i => wr d i (rd src i)) dst

/-- Case `RADIO_PWR_CHECK_MODE`. -/
def radioPwrCheck (nxt : Bool) (s : FW) (rx : List Nat) : Pass :=
  let r := fnPowerSourceManager POWER_SOURCE_ENABLE CC1125_POWER_IDENTITY s
  if r.1 = RETURN_TRUE then .test true { r.2 with gchRadioCommStepMode := RADIO_LINK_SELECT_MODE } rx
  else .test nxt r.2 rx

/-- Case `RADIO_LINK_SELECT_MODE`. -/
def radioLinkSelect (hw : HwIn) (nxt : Bool) (s : FW) (rx : List Nat) : Pass :=
  if s.ghMasterTaskTable.chDataDownloadChannel = RADIO_CH_FAST_DOWNLINK_CC2520 then
    .test nxt (s.hw (.selectRadio true)) rx
  else
    let s := s.hw (.selectRadio false)
    if hw.initStatus = SENSOR_NO_ERROR then
      .test true { s with gchRadioCommStepMode := RADIO_TX_MODE } rx
    else
      .test nxt (SEND_ERROR_CODE_OVER_RF hw.initStatus (SEND_DEBUG_ERROR_CODES hw.initStatus s)) rx

/-- Case `RADIO_SENSOR_LOOP_BACK_MODE`. -/
def radioLoopBack (nxt : Bool) (s : FW) (rx : List Nat) : Pass :=
  let s := fnRadioCommunicationTimerDisable s
  if rxb rx 1 = STOP_LOOP_BACK_LOAD_IDLE then
    let s := fnEnableWDT { s with gchSensorLoopBack := LB_STEP_2 }
    let s := fnDefaultExecutionTableInit s
    .test nxt { s with gchAckReplyType := SET_FLAG, gchRadioCommStepMode := RADIO_ET_REPLY_MODE } rx
  else if rxb rx 1 = STOP_LOOP_BACK_LOAD_ACTIVE then
    let s := fnEnableWDT { s with gchSensorLoopBack := LB_STEP_2 }
    .test nxt { s with gchAckReplyType := SET_FLAG, gchRadioCommStepMode := RADIO_ET_REPLY_MODE } rx
  else
    let b := s.gchSensorCommBuff.set BASE_INDEX
      (fnMemCopy (s.gchSensorCommBuff.getD BASE_INDEX []) rx (rxb rx CC1125_DATA_PACKET_LENGTH + 1))
    .test nxt { s with
      gchSensorCommBuff := b
      ghSensorCommManager := { s.ghSensorCommManager with chPacketCounter := RESET_COUNTER }
      gchRadioCommStepMode := RADIO_TX_MODE } rx

/-- Case `RADIO_ET_REPLY_MODE`. -/
def radioEtReply (hw : HwIn) (nxt : Bool) (s : FW) (rx : List Nat) : Pass :=
  let s := s.hw (.strobe CC112X_SIDLE)
  let s := { s with ghSensorCommManager :=
    (s.ghSensorCommManager.setPacketSeqNo SET_COUNTER).setLastPacket SET_FLAG }
  let b := wr2 s.gchSensorCommBuff BASE_INDEX PACKET_HEADER_INDEX
    (if s.gchAckReplyType = SET_FLAG then ACK_RECEIPT_OF_LAST_ET_PACKET
      else NACK_RECEIPT_OF_LAST_ET_PACKET)
  let b := wr2 b BASE_INDEX PACKET_DATA_LENGTH_INDEX 4
  let b := wr2 b BASE_INDEX PACKET_DESCRIPTOR_INDEX s.ghSensorCommManager.chPacketDescriptor
  let b := wr2 b BASE_INDEX CC1125_DATA_PACKET_LENGTH (rd2 b 0 PACKET_DATA_LENGTH_INDEX)
  let b := wr2 b BASE_INDEX PACKET_ERROR_CONTROL_INDEX s.ghSensorCommManager.chPacketCheck
  let s := { s with gchSensorCommBuff := b }
  let pkt := b.getD BASE_INDEX []
  let s := s.hw (.txFifo ((List.range (u8 (rd pkt CC1125_DATA_PACKET_LENGTH + 1))).map (rd pkt)))
  if u8 hw.marcState &&& CC1125_FIFO_ERR_CHECK_BM = CC112X_STATE_TXFIFO_ERROR then
    .ret ((SEND_DEBUG_ERROR_CODES SENSOR_CC1125_TX_FIIO_ERR s).hw (.strobe CC112X_SFTX))
  else
    let s := s.hw (.strobe CC112X_STX)
    let s := fnStartCommunicationTimer CC1125_TX_COMPLETE_TIMEOUT_WAIT s
    .test nxt { s with gchRadioCommStepMode := RADIO_ET_REPLY_TIME_OUT_MODE } rx

/-- Case `RADIO_ET_REPLY_TIME_OUT_MODE`. -/
def radioEtReplyTimeOut (nxt : Bool) (s : FW) (rx : List Nat) : Pass :=
  let r := fnCC112xSendDataComplete s
  let s := r.2
  if r.1 = RETURN_TRUE then
    let s := fnRadioCommunicationTimerDisable s
    if s.gchSensorLoopBack = LB_STEP_1 then
      .test nxt (fnStartCommunicationTimer LOOPBACK_WAIT_TIMEOUT
        { s with gchRadioCommStepMode := RADIO_RX_MODE }) rx
    else if s.gchSensorLoopBack = LB_STEP_2 then .ret { s with gchSensorLoopBack := LB_STEP_0 }
    else if s.gchAckReplyType = SET_FLAG then
      let s := { s with gchTasks_Enable := s.gchTasks_Enable &&& (0xFF - EXECUTION_TABLE_REQ_TASK) }
      let s := { s with gchTasks_Active := DISABLE_ALL_TASKS }
      .ret { s with gchTasks_Enable := s.gchTasks_Enable |||
        (DATA_SAMPLING_TASK ||| DATA_COLLECTION_TASK ||| DATA_DOWNLOAD_TASK) }
    else .ret (fnDefaultExecutionTableInit s)
  else if s.gchCommunicationTimeOut ≠ 0 then
    .ret (SEND_DEBUG_ERROR_CODES SENSOR_CC1125_TX_GPIO_INTTERUPT_FAIL (s.hw (.strobe CC112X_SFTX)))
  else .test nxt s rx

/-- One pass of the `do ... while (chNextPacket)` loop of `fnRadioTxRxHandler`: the loop-back
test that presets `chNextPacket`, then the `switch (gchRadioCommStepMode)`. -/
def radioPass (hw : HwIn) (s : FW) (rx : List Nat) : Pass :=
  let lb : Bool := s.gchSensorLoopBack ≠ LB_STEP_0
  let s := if lb then s.hw .wdtReset else s
  let m := s.gchRadioCommStepMode
  if m = RADIO_PWR_CHECK_MODE then radioPwrCheck lb s rx
  else if m = RADIO_LINK_SELECT_MODE then radioLinkSelect hw lb s rx
  else if m = RADIO_TX_MODE then radioTx hw lb s rx
  else if m = TX_TIME_OUT_MODE then radioTxTimeOut lb s rx
  else if m = RADIO_RX_MODE then radioRx hw lb s rx
  else if m = RADIO_SENSOR_LOOP_BACK_MODE then radioLoopBack lb s rx
  else if m = RADIO_ET_REPLY_MODE then radioEtReply hw lb s rx
  else if m = RADIO_ET_REPLY_TIME_OUT_MODE then radioEtReplyTimeOut lb s rx
  else .ret (SEND_DEBUG_ERROR_CODES SENSOR_CC1125_TXRX_UNDEFINED_STATE s)

/-- The hardware as the firmware meets it: what is presented to the next loop pass, given the
state the firmware has reached. -/
abbrev Env := FW → HwIn

/-- The `do ... while (chNextPacket)` loop of `fnRadioTxRxHandler`, at most `fuel` passes;
`none` when the passes are used up with `chNextPacket` still set. -/
def radioLoop (env : Env) : Nat → FW → List Nat → Option (Int × FW)
  | 0, _, _ => none
  | fuel + 1, s, rx =>
    let hw := env s
    match radioPass hw (serviceIrqs hw s) rx with
    | .ret s => some (RETURN_TRUE, s)
    | .test true s rx => radioLoop env fuel s rx
    | .test false s _ => some (RETURN_FALSE, s)

/-- `fnRadioTxRxHandler`; the local `chSensorRxBuff[MAX_COMM_PACKET_SIZE]` starts as zeros
(it is never read before the receive path has filled it). -/
def fnRadioTxRxHandler (env : Env) (fuel : Nat) (s : FW) : Option (Int × FW) :=
  radioLoop env fuel s (List.replicate MAX_COMM_PACKET_SIZE 0)

/-- Entry step shared by the two RF tasks: reset the packet and retry counters and, once the
doubling counter has reached its limit, restore the configured comm-wait time. -/
def commEntryReset (s : FW) : FW :=
  let s := { s with ghSensorCommManager :=
    { s.ghSensorCommManager with
      chPacketCounter := RESET_COUNTER, chPacketSendRetryCounter := RESET_COUNTER } }
  if s.gchCommWaitTimeDoubleCounter ≥ COMM_WAIT_TIME_DOUBLE_RETRY then
    { s with
      gchCommWaitTimeDoubleCounter := RESET_COUNTER
      ghMasterTaskTable := { s.ghMasterTaskTable with nCommTimeout := s.gnDefaultCommWaitTimeValue } }
  else s

/-- `fnData_Download_Task`. -/
def fnData_Download_Task (env : Env) (fuel : Nat) (s : FW) : Option (Int × FW) :=
  if s.gchDataDownloadPacketReady ≠ 0 then
    let s :=
      if s.gchRadioCommStepMode = COMM_ENTRY_POINT then
        commEntryReset { s with gchRadioCommStepMode := RADIO_PWR_CHECK_MODE }
      else s
    match fnRadioTxRxHandler env fuel s with
    | none => none
    | some (r, s) =>
      if r = RETURN_TRUE then
        let s := { s with gchRadioCommStepMode := COMM_ENTRY_POINT }
        let s := (fnPowerSourceManager POWER_SOURCE_DISABLE CC1125_POWER_IDENTITY s).2
        some (RETURN_TRUE, { s with gchDataDownloadPacketReady := RESET_FLAG })
      else some (RETURN_FALSE, s)
  else if s.gchTasks_Active &&& DATA_COLLECTION_TASK = 0 then some (RETURN_TRUE, s)
  else some (RETURN_FALSE, s)

/-- `fnData_ET_Request_Task`. -/
def fnData_ET_Request_Task (env : Env) (fuel : Nat) (s : FW) : Option (Int × FW) :=
  let s :=
    if s.gchRadioCommStepMode = COMM_ENTRY_POINT then
      let m := { s.ghSensorCommManager with chTotalPacketCount := SET_COUNTER }
      let m := ((m.setPacketSeqNo SET_COUNTER).setLastPacket SET_FLAG).setTransmitterID
        RADIO_CH_SLOW_DOWNLINK_CC1125
      let b := wr2 s.gchSensorCommBuff BASE_INDEX PACKET_HEADER_INDEX REQUEST_NEW_EXECUTION_TABLE
      let b := wr2 b BASE_INDEX PACKET_DATA_LENGTH_INDEX ET_REQ_PACKET_LENGTH
      let b := wr2 b BASE_INDEX CC1125_DATA_PACKET_LENGTH ET_REQ_PACKET_LENGTH
      let b := wr2 b BASE_INDEX PACKET_DESCRIPTOR_INDEX m.chPacketDescriptor
      commEntryReset { s with
        ghSensorCommManager := m
        gchSensorCommBuff := b
        gchRadioCommStepMode := RADIO_PWR_CHECK_MODE }
    else s
  match fnRadioTxRxHandler env fuel s with
  | none => none
  | some (r, s) =>
    if r = RETURN_TRUE then
      let s := { s with gchRadioCommStepMode := COMM_ENTRY_POINT }
      some (RETURN_TRUE, (fnPowerSourceManager POWER_SOURCE_DISABLE CC1125_POWER_IDENTITY s).2)
    else some (RETURN_FALSE, s)

/-! ## Initial states, the task manager's re-invocation, and hardware scenarios -/

/-- The state of the globals after reset of the controller: static storage is zeroed. -/
def fwZero : FW :=
  { ghSensorControl := List.replicate MAX_SENSOR_COUNT default
    ghMasterTaskTable := ⟨0, 0, 0, 0, 0⟩
    ghSensorCommManager := ⟨0, 0, 0, 0, 0⟩
    ghPowerManager := ⟨0, 0, 0, 0⟩
    gchSensorCommBuff := List.replicate MAX_COMM_PACKET_COUNT (List.replicate MAX_COMM_PACKET_SIZE 0)
    gchRadioCommStepMode := 0
    gchDataDownloadPacketReady := 0
    gchTotalSensorEntry := 0
    gchCommunicationTimeOut := 0
    gchSensorLoopBack := 0
    gchCommWaitTimeDoubleCounter := 0
    gnDefaultCommWaitTimeValue := 0
    gchAckReplyType := 0
    gchTasks_Enable := 0
    gchTasks_Active := 0
    gchControllerOff := 0
    gchPowerSourceMode := 0
    gchNewInterrupt := 0
    gchSampleClockIndicator := 0
    gchRadioClockIndicator := 0
    gchCollectionPacketIndex := 0
    gchCollectionDataIndex := 0
    gchSampleClockPhase := 0
    gchClockPhase := 0
    gchUplinkRSSI := 0
    gchDataCommFlagCC1125 := 0
    gchVoltageStableTimerFlag := 0
    gchI2cOccupiedFlag := 0
    gchLvl1StepIndexI2C := 0
    gchLvl2StepIndexI2C := 0
    gchStepIndexE2PROM := 0
    commTimerOn := false
    volTimerOn := false
    rtcOn := false
    wdtOn := false
    hwLog := [] }

/-- State at the start of the task manager: `fnSoftwareInit` then the default execution table
(`fnSystemInitTask`), then `fnEnableWDT` (main.c). -/
def fwBoot : FW := fnEnableWDT (fnDefaultExecutionTableInit (fnSoftwareInit fwZero))

/-- Repeated invocation of a task by the task manager until it reports done; the result is the
number of invocations and the state at the return of the last one. -/
def runUntilDone (task : FW → Option (Int × FW)) : Nat → FW → Option (Nat × FW)
  | 0, _ => none
  | n + 1, s =>
    match task s with
    | none => none
    | some (r, s) =>
      if r = RETURN_TRUE then some (1, s)
      else (runUntilDone task n s).map fun q => (q.1 + 1, q.2)

/-- A console that answers every transmission with the frame `reply`: the chip signals
transmit-complete while the engine waits for it, then receive-available with `reply` in the
RX FIFO; the rail stabilises, the chip initialises and no FIFO error occurs. -/
def envReply (reply : List Nat) : Env := fun s =>
  { gpioIrq := s.gchRadioCommStepMode = TX_TIME_OUT_MODE ∨ s.gchRadioCommStepMode = RADIO_RX_MODE ∨
      s.gchRadioCommStepMode = RADIO_ET_REPLY_TIME_OUT_MODE
    commOvf := false
    volOvf := true
    spiOk := true
    initStatus := SENSOR_NO_ERROR
    marcState := 0
    numRxBytes := reply.length
    rxFifo := reply }

/-- A link on which transmissions complete but no reply ever arrives: the comm-wait timer
expires while the engine waits in `RADIO_RX_MODE`. -/
def envSilent : Env := fun s =>
  { gpioIrq := s.gchRadioCommStepMode = TX_TIME_OUT_MODE
    commOvf := s.gchRadioCommStepMode = RADIO_RX_MODE
    volOvf := true
    spiOk := true
    initStatus := SENSOR_NO_ERROR
    marcState := 0
    numRxBytes := 0
    rxFifo := [] }

/-- Frames loaded into the TX FIFO, oldest first. -/
def txFrames (l : List HwOp) : List (List Nat) :=
  l.filterMap fun op => match op with
    | .txFifo b => some b
    | _ => none

/-- Number of `STX` strobes, i.e. of transmissions started. -/
def txCount (l : List HwOp) : Nat := l.count (.strobe CC112X_STX)

/-! ## Concrete frames and tables used as inputs -/

/-- An upload frame that is accepted: master id 0, sample clock 10 Hz, radio-clock divisor 5,
comm timeout 256 ms, and one record (gyrometer, sample-clock divisor 2, 4 samples per average,
radio-clock divisor 1); length byte 19. -/
def frameGyro : List Nat :=
  [24, NEW_EXECUTION_TABLE_PACKET, 19, 0, 0, 0, 0, 0, 10, 0, 5, 1, 0, GYRO_METER, 0, 0, 2, 4, 1] ++
    List.replicate 116 0

/-- An upload frame whose sample-clock frequency (bytes 7..8) is 0; the other master fields are
in range. -/
def frameZeroClock : List Nat :=
  [24, NEW_EXECUTION_TABLE_PACKET, 13, 0, 0, 0, 0, 0, 0, 0, 5, 1, 0] ++ List.replicate 122 0

/-- The firmware state after boot and the acceptance of `frameGyro`. -/
def fwGyroTable : FW := (fnET_Upload_Task frameGyro fwBoot).2


/-- An accepted upload frame with one record whose sample-clock divisor byte is 255
(gyrometer, 4 samples per average, radio-clock divisor 1). -/
def frameDiv255 : List Nat :=
  [24, NEW_EXECUTION_TABLE_PACKET, 19, 0, 0, 0, 0, 0, 10, 0, 5, 1, 0, GYRO_METER, 0, 0, 255, 4, 1] ++
    List.replicate 116 0

/-- The data tasks enabled as the RF engine does after it has acknowledged an accepted table
(case `RADIO_ET_REPLY_TIME_OUT_MODE`), then the phase-0 tick of the restarted sample clock. -/
def firstSamplingTick (s : FW) : FW :=
  fnSystem_Timing_Task
    { s with
      gchTasks_Enable := (s.gchTasks_Enable &&& (0xFF - EXECUTION_TABLE_REQ_TASK)) |||
        (DATA_SAMPLING_TASK ||| DATA_COLLECTION_TASK ||| DATA_DOWNLOAD_TASK)
      gchTasks_Active := DISABLE_ALL_TASKS }

/-- The state at the first sampling tick after the acceptance of `frameDiv255`. -/
def fwDiv255 : FW := firstSamplingTick (fnET_Upload_Task frameDiv255 fwBoot).2

/-- Sensor drivers that report nothing ready. -/
def drvIdle : Nat → SensorIn := fun _ => ⟨false, -1, false, none, -1⟩

/-- An accepted upload frame with 18 gyrometer records (sample-clock divisor 1, one sample per
average, radio-clock divisor 1); length byte 13 + 18 * 6 = 121. -/
def frameEighteen : List Nat :=
  [126, NEW_EXECUTION_TABLE_PACKET, 121, 0, 0, 0, 0, 0, 10, 0, 5, 1, 0] ++
    (List.replicate 18 [GYRO_METER, 0, 0, 1, 1, 1]).foldr (fun a b => a ++ b) [] ++
    List.replicate 14 0

/-- Slot `i` after a completed gyrometer acquisition with the words `256 i + 1, 256 i + 2,
256 i + 3`. -/
def gyroSampled (i : Nat) (x : SMART_SENSORS_STRUCT) : SMART_SENSORS_STRUCT :=
  { x with
    nSensorData := [256 * i + 1, 256 * i + 2, 256 * i + 3] ++ x.nSensorData.drop 3
    chSensorSampleAvgCounter := x.chSensorSampleAvgTotalCount }

/-- The table of `frameEighteen` in force, every slot sampled once, no download pending. -/
def fwEighteen : FW :=
  (List.range 18).foldl (fun s i => s.setSlot i (gyroSampled i (s.slot i)))
    (fnET_Upload_Task frameEighteen fwBoot).2

/-! ## The packet assembler's output as the wire layout describes it -/

/-- Payload of a finalised packet: the bytes from `PACKET_DATA_MESSAGE_INDEX` up to the
recorded length (byte `PACKET_DATA_LENGTH_INDEX`), inclusive. -/
def packetPayload (pkt : List Nat) : List Nat :=
  (pkt.take (rd pkt PACKET_DATA_LENGTH_INDEX + 1)).drop PACKET_DATA_MESSAGE_INDEX

/-- Concatenation, in packet order, of the payloads of the packets
`gchSensorCommBuff[0 .. chTotalPacketCount - 1]`. -/
def downloadPayload (s : FW) : List Nat :=
  ((List.range s.ghSensorCommManager.chTotalPacketCount).map fun p =>
    packetPayload (s.gchSensorCommBuff.getD p [])).foldr (fun a b => a ++ b) []

/-- The entry `[sensorId, data words big-endian]` of a slot. -/
def slotEntry (x : SMART_SENSORS_STRUCT) : List Nat :=
  x.chSensorID ::
    ((x.nSensorData.take x.chSensorDataLength).map fun w => [w / 256 % 256, w % 256]).foldr
      (fun a b => a ++ b) []

/-- Is the slot due at the next pass of the collection task? -/
def slotDue (x : SMART_SENSORS_STRUCT) : Bool :=
  decide (u8 (x.chRadioClockCounter + 1) ≥ x.chRadioClockDivisor)

/-- The entries of the due slots, in slot order, concatenated. -/
def dueEntries (s : FW) : List Nat :=
  (((s.ghSensorControl.take s.gchTotalSensorEntry).filter slotDue).map slotEntry).foldr
    (fun a b => a ++ b) []

/-- Number of packets among `gchSensorCommBuff[0 .. chTotalPacketCount - 1]` whose descriptor
has the last-packet flag set. -/
def lastPacketCount (s : FW) : Nat :=
  ((List.range s.ghSensorCommManager.chTotalPacketCount).filter fun p =>
    decide (getBits (rd2 s.gchSensorCommBuff p PACKET_DESCRIPTOR_INDEX) 7 1 = 1)).length


/-! ## Sequences of phase-clock ticks -/

/-- One RTC overflow, taken after the task manager has left `gchTasks_Active` at `a`
(it clears the bit of every task that reported done). -/
def tickAfter (a : Nat) (s : FW) : FW := fnSystem_Timing_Task { s with gchTasks_Active := a }

/-- A sequence of RTC overflows; the list gives the value of `gchTasks_Active` found by each. -/
def ticks : List Nat → FW → FW
  | [], s => s
  | a :: rest, s => ticks rest (tickAfter a s)


/-! ## The part of the state the RF engine works on -/

/-- The variables read or written by the RF engine during an exchange outside loop-back. -/
structure RfView where
  mode : Nat
  loopBack : Nat
  ready : Nat
  comm : SENSOR_COMM_MANAGER
  buff : List (List Nat)
  master : MASTER_CONTROLLER_STRUCT
  power : PWR_5V_MANAGER
  powerMode : Nat
  doubling : Nat
  chipFlag : Nat
  timeOut : Nat
  timerOn : Bool
  log : List HwOp
deriving DecidableEq, Repr

/-- The RF engine's view of the firmware state. -/
def FW.rf (s : FW) : RfView :=
  { mode := s.gchRadioCommStepMode
    loopBack := s.gchSensorLoopBack
    ready := s.gchDataDownloadPacketReady
    comm := s.ghSensorCommManager
    buff := s.gchSensorCommBuff
    master := s.ghMasterTaskTable
    power := s.ghPowerManager
    powerMode := s.gchPowerSourceMode
    doubling := s.gchCommWaitTimeDoubleCounter
    chipFlag := s.gchDataCommFlagCC1125
    timeOut := s.gchCommunicationTimeOut
    timerOn := s.commTimerOn
    log := s.hwLog }

/-- The frame handed to the TX FIFO for the packet in bank row `pkt`: its first
`pkt[0] + 1` bytes. -/
def frameOf (pkt : List Nat) : List Nat :=
  (List.range (u8 (rd pkt CC1125_DATA_PACKET_LENGTH + 1))).map (rd pkt)

/-- The content of the local receive buffer after `hw.numRxBytes` bytes were read from the
RX FIFO over the buffer `rx`. -/
def rxFill (hw : HwIn) (rx : List Nat) : List Nat :=
  (hw.rxFifo.take (u8 hw.numRxBytes)).map u8 ++ rx.drop (u8 hw.numRxBytes)

/-- A link that comes up and on which every transmission completes: the rail stabilises while
the engine checks the power, the chip initialises, no TX FIFO error occurs, and the chip
signals transmit-complete while the engine waits for it. -/
def LinkUp (env : Env) : Prop :=
  ∀ s : FW,
    (s.gchRadioCommStepMode = RADIO_PWR_CHECK_MODE → (env s).volOvf = true) ∧
    (s.gchRadioCommStepMode = RADIO_LINK_SELECT_MODE → (env s).initStatus = SENSOR_NO_ERROR) ∧
    (s.gchRadioCommStepMode = RADIO_TX_MODE →
      u8 (env s).marcState &&& CC1125_FIFO_ERR_CHECK_BM ≠ CC112X_STATE_TXFIFO_ERROR) ∧
    (s.gchRadioCommStepMode = TX_TIME_OUT_MODE → (env s).gpioIrq = true)

/-- A link that is up and on which the console answers every transmission with a CRC-valid
frame of message type `ty`: while the engine waits in `RADIO_RX_MODE` the chip signals
receive-available, the SPI reads succeed, the RX FIFO is not in error and holds such a frame. -/
def ReplyEnv (ty : Nat) (env : Env) : Prop :=
  LinkUp env ∧
  ∀ s : FW, s.gchRadioCommStepMode = RADIO_RX_MODE →
    (env s).gpioIrq = true ∧ (env s).spiOk = true ∧ u8 (env s).numRxBytes > 0 ∧
    u8 (env s).marcState &&& CC1125_FIFO_ERR_CHECK_BM ≠ CC112X_STATE_RXFIFO_ERROR ∧
    (∀ rx, rxb (rxFill (env s) rx) (u8 (env s).numRxBytes - 1) &&&
      CC1125_CRC_ERR_CHECK_BM ≠ 0) ∧
    (∀ rx, rxb (rxFill (env s) rx) 1 = ty)

/-- The task is invoked `k` times from `s`, reports not-done every time, and leaves `s'`. -/
def NotDone (task : FW → Option (Int × FW)) : Nat → FW → FW → Prop
  | 0, s, s' => s' = s
  | k + 1, s, s' => ∃ s1, task s = some (RETURN_FALSE, s1) ∧ NotDone task k s1 s'

/-- The values with which the communication timer was started, oldest first: every Tx attempt
starts it with `CC1125_TX_COMPLETE_TIMEOUT_WAIT` and, once the transmission is complete, with
the comm-wait time for the reply. -/
def commTimers (l : List HwOp) : List Nat :=
  l.filterMap fun op => match op with
    | .startCommTimer ms => some ms
    | _ => none

/-- The comm-wait timeout after a doubling step: twice the old value in 16 bits, capped at
`MAX_COMM_WAIT_TIME_VALUE`. -/
def doubled (t : Nat) : Nat :=
  if u16 (t * 2) > MAX_COMM_WAIT_TIME_VALUE then MAX_COMM_WAIT_TIME_VALUE else u16 (t * 2)


/-- A CRC-valid acknowledge of a data packet as read from the RX FIFO: length byte, message
type, three header bytes, RSSI, and the status byte with the CRC-OK bit set. -/
def frameAck : List Nat := [4, ACK_RECEIPT_LAST_DATA_PACKET, 4, 0, 0, 50, 0x80]

/-- A CRC-valid NACK (invalid packet) as read from the RX FIFO. -/
def frameNack : List Nat := [4, NACK_INVALID_PACKET, 4, 0, 0, 50, 0x80]

/-- The state after boot with a download of three packets ready in the bank. -/
def fwDownload3 : FW :=
  { fwBoot with
    gchDataDownloadPacketReady := SET_FLAG
    ghSensorCommManager := { fwBoot.ghSensorCommManager with chTotalPacketCount := 3 }
    gchSensorCommBuff :=
      [[7, 0x84, 4, 3, 0, 2, 1, 2], [7, 0x84, 4, 3, 0, 2, 5, 6], [7, 0x84, 4, 3, 0, 2, 7, 8]] ++
        List.replicate 5 (List.replicate MAX_COMM_PACKET_SIZE 0) }

/-- The same download with the engine about to transmit the first packet. -/
def fwDownload3Tx : FW := { fwDownload3 with gchRadioCommStepMode := RADIO_TX_MODE }


/-- The table of `frameGyro` in force with the data tasks enabled as the RF engine does after it
has acknowledged an accepted table (case `RADIO_ET_REPLY_TIME_OUT_MODE`): Sampling, Collection
and Download enabled, Execution-Table-Request disabled, no task active. -/
def fwGyroRunning : FW :=
  { fwGyroTable with
    gchTasks_Enable := (fwGyroTable.gchTasks_Enable &&& (0xFF - EXECUTION_TABLE_REQ_TASK)) |||
      (DATA_SAMPLING_TASK ||| DATA_COLLECTION_TASK ||| DATA_DOWNLOAD_TASK)
    gchTasks_Active := DISABLE_ALL_TASKS }


/-- One RTC overflow, taken after the task manager has cleared in `gchTasks_Active` the bits
outside `keep` (main.c only ever clears bits of `gchTasks_Active`: the bit of a task that
reported done). -/
def tickClearing (keep : Nat) (s : FW) : FW := tickAfter (s.gchTasks_Active &&& keep) s

/-- A sequence of RTC overflows; the list gives, for each, the bits the task manager has kept
in `gchTasks_Active` since the previous one. -/
def ticksClearing : List Nat → FW → FW
  | [], s => s
  | m :: rest, s => ticksClearing rest (tickClearing m s)


/-- The table of `frameGyro` running: the phase-0 tick, an invocation of the sampling task in
which the gyrometer slot (sample-clock divisor 2) is due, started and takes the I2C bus while
the driver is not ready, and the eight ticks up to the phase-0 tick of the next cycle. -/
def fwGyroInFlight : FW :=
  ticksClearing (List.replicate 8 0xFF)
    (fnData_Sampling_Task drvIdle (tickClearing 0xFF fwGyroRunning)).2


/-! ## Observation of one slot's averaging over a run of the firmware -/

/-- What runs between two observations of a slot: an invocation of the sampling task with the
reports of the sensor drivers, an invocation of the collection task, or an RTC overflow that
finds `gchTasks_Active` at `a`. -/
inductive SlotEv where
  | sample (drv : Nat → SensorIn)
  | collect
  | tick (a : Nat)

/-- The state after the event. -/
def SlotEv.after : SlotEv → FW → FW
  | .sample drv, s => (fnData_Sampling_Task drv s).2
  | .collect, s => (fnData_Collection_Task s).2
  | .tick a, s => tickAfter a s

/-- The state in which an invocation of the sampling task turns to the sensor state machines
(or returns early): after the due check when `gchSampleClockIndicator` is set. -/
def samplingMid (s : FW) : FW :=
  if s.gchSampleClockIndicator = SET_FLAG then (samplingDueCheck s).1 else s

/-- Does slot `i` complete an acquisition in this invocation of the sampling task: it is not Off
when the task turns to the sensor state machines and it is Off at the return. -/
def acquired (i : Nat) (drv : Nat → SensorIn) (s : FW) : Bool :=
  decide (((samplingMid s).slot i).chSensorStatusFlag ≠ SAMPLE_STATE_OFF ∧
    ((fnData_Sampling_Task drv s).2.slot i).chSensorStatusFlag = SAMPLE_STATE_OFF)

/-- Is the averaging of the slot complete: the average counter has reached the target. -/
def averaged (x : SMART_SENSORS_STRUCT) : Bool :=
  decide (x.chSensorSampleAvgCounter ≥ x.chSensorSampleAvgTotalCount)

/-- The numbers of completed acquisitions of slot `i` between consecutive averaging completions
over a run: `since` is the number of acquisitions since the last averaging completion (`none`
before the first one); an acquisition that completes the averaging closes a gap and records its
length. -/
def avgGaps (i : Nat) : List SlotEv → FW → Option Nat → List Nat
  | [], _, _ => []
  | .sample drv :: rest, s, since =>
    if acquired i drv s then
      if averaged ((fnData_Sampling_Task drv s).2.slot i) then
        (match since with
          | some k => [k + 1]
          | none => []) ++ avgGaps i rest (fnData_Sampling_Task drv s).2 (some 0)
      else avgGaps i rest (fnData_Sampling_Task drv s).2 (since.map fun k => k + 1)
    else avgGaps i rest (fnData_Sampling_Task drv s).2 since
  | .collect :: rest, s, since => avgGaps i rest (fnData_Collection_Task s).2 since
  | .tick a :: rest, s, since => avgGaps i rest (tickAfter a s) since

/-- Effect of the due check on a slot: identity, or Off to Start when the averaging is not
complete; the sample-clock counter apart. -/
def DueStep (x y : SMART_SENSORS_STRUCT) : Prop :=
  y.chSensorID = x.chSensorID ∧ y.chSensorSampleAvgTotalCount = x.chSensorSampleAvgTotalCount ∧
  y.chSensorSampleAvgCounter = x.chSensorSampleAvgCounter ∧
  (y.chSensorStatusFlag = x.chSensorStatusFlag ∨
    (x.chSensorStatusFlag = SAMPLE_STATE_OFF ∧
      x.chSensorSampleAvgCounter < x.chSensorSampleAvgTotalCount ∧
      y.chSensorStatusFlag = SAMPLE_STATE_START))

/-- The average counter a slot has after a completed acquisition: the gyrometer sets it to the
target, the other sensors count one sample. -/
def acqCount (x : SMART_SENSORS_STRUCT) : Nat :=
  if x.chSensorID = GYRO_METER then x.chSensorSampleAvgTotalCount
  else u8 (x.chSensorSampleAvgCounter + 1)

/-- Effect of the sensor state machines on a slot in one invocation: an Off slot stays as it
is, a slot in flight stays in flight with its average counter, or completes its acquisition. -/
def RunStep (x y : SMART_SENSORS_STRUCT) : Prop :=
  y.chSensorID = x.chSensorID ∧ y.chSensorSampleAvgTotalCount = x.chSensorSampleAvgTotalCount ∧
  ((x.chSensorStatusFlag = SAMPLE_STATE_OFF ∧ y.chSensorStatusFlag = SAMPLE_STATE_OFF ∧
      y.chSensorSampleAvgCounter = x.chSensorSampleAvgCounter) ∨
    (x.chSensorStatusFlag ≠ SAMPLE_STATE_OFF ∧ y.chSensorStatusFlag ≠ SAMPLE_STATE_OFF ∧
      y.chSensorSampleAvgCounter = x.chSensorSampleAvgCounter) ∨
    (x.chSensorStatusFlag ≠ SAMPLE_STATE_OFF ∧ y.chSensorStatusFlag = SAMPLE_STATE_OFF ∧
      y.chSensorSampleAvgCounter = acqCount x))

/-- Effect of the collection task on a slot when the inner loop stays inside `nSensorData` and
the accumulator (slots in use with at most 7 data words): the average counter is kept, or reset
when the averaging was complete. -/
def CollectStep (x y : SMART_SENSORS_STRUCT) : Prop :=
  y.chSensorID = x.chSensorID ∧ y.chSensorSampleAvgTotalCount = x.chSensorSampleAvgTotalCount ∧
  y.chSensorStatusFlag = x.chSensorStatusFlag ∧
  (y.chSensorSampleAvgCounter = x.chSensorSampleAvgCounter ∨
    (x.chSensorSampleAvgCounter ≥ x.chSensorSampleAvgTotalCount ∧
      y.chSensorSampleAvgCounter = 0))

/-- What stores of `RESET_VALUE` in 16-bit objects of a slot do to the fields the sampling
depends on: the id is kept or cleared, the status and the data length are kept or cleared
together (one object), and so are the average target and the average counter. -/
def ClearStep (x y : SMART_SENSORS_STRUCT) : Prop :=
  (y.chSensorID = x.chSensorID ∨ y.chSensorID = 0) ∧
  ((y.chSensorStatusFlag = x.chSensorStatusFlag ∧
      y.chSensorDataLength = x.chSensorDataLength) ∨
    (y.chSensorStatusFlag = 0 ∧ y.chSensorDataLength = 0)) ∧
  ((y.chSensorSampleAvgTotalCount = x.chSensorSampleAvgTotalCount ∧
      y.chSensorSampleAvgCounter = x.chSensorSampleAvgCounter) ∨
    (y.chSensorSampleAvgTotalCount = 0 ∧ y.chSensorSampleAvgCounter = 0))

/-- Effect of the collection task on a slot.  The slot has lost its id to the inner loop run
for an earlier slot (its first 16-bit object was cleared), or it keeps id, status and data
length and one of: the average counter is kept, or reset when the averaging was complete (data
length below 8); or, for a data length of 8 or more, the inner loop run for the slot itself has
cleared the average target and the average counter (`nSensorData[7]` is the 16-bit object that
holds them). -/
def CollectEffect (x y : SMART_SENSORS_STRUCT) : Prop :=
  y.chSensorID = 0 ∨
  (y.chSensorID = x.chSensorID ∧ y.chSensorStatusFlag = x.chSensorStatusFlag ∧
    y.chSensorDataLength = x.chSensorDataLength ∧
    ((y.chSensorSampleAvgTotalCount = x.chSensorSampleAvgTotalCount ∧
        (y.chSensorSampleAvgCounter = x.chSensorSampleAvgCounter ∨
          (x.chSensorDataLength < 8 ∧
            x.chSensorSampleAvgCounter ≥ x.chSensorSampleAvgTotalCount ∧
            y.chSensorSampleAvgCounter = 0))) ∨
      (8 ≤ x.chSensorDataLength ∧ y.chSensorSampleAvgTotalCount = 0 ∧
        y.chSensorSampleAvgCounter = 0)))

/-- What is known of a slot when `since` acquisitions have been counted since its last averaging
completion: the gyrometer completes the averaging at every acquisition; for the other sensors
the averaging is complete with the slot Off and nothing counted yet, or the average counter is
below the target and is the count. -/
def GapInv (x : SMART_SENSORS_STRUCT) (since : Option Nat) : Prop :=
  ∀ k, since = some k →
    if x.chSensorID = GYRO_METER then k = 0
    else (x.chSensorSampleAvgCounter ≥ x.chSensorSampleAvgTotalCount ∧
        x.chSensorStatusFlag = SAMPLE_STATE_OFF ∧ k = 0) ∨
      (x.chSensorSampleAvgCounter < x.chSensorSampleAvgTotalCount ∧
        k = x.chSensorSampleAvgCounter)

/-- The gap between averaging completions that the code gives a slot: 1 for the gyrometer, the
target count for the sensors that accumulate. -/
def gapOf (x : SMART_SENSORS_STRUCT) : Nat :=
  if x.chSensorID = GYRO_METER then 1 else x.chSensorSampleAvgTotalCount

/-- An accepted upload frame with one record: uplink RSSI, sample-clock divisor 1, 2 samples per
average, radio-clock divisor 1. -/
def frameRssi : List Nat :=
  [24, NEW_EXECUTION_TABLE_PACKET, 19, 0, 0, 0, 0, 0, 10, 0, 5, 1, 0,
    UPLINK_RADIO_RSSI, 0, 0, 1, 2, 1] ++ List.replicate 116 0

/-- The table of `frameRssi` in force after boot, with the data tasks enabled as the RF engine
does after it has acknowledged an accepted table. -/
def fwRssiRunning : FW :=
  { (fnET_Upload_Task frameRssi fwBoot).2 with
    gchTasks_Enable :=
      ((fnET_Upload_Task frameRssi fwBoot).2.gchTasks_Enable &&&
        (0xFF - EXECUTION_TABLE_REQ_TASK)) |||
      (DATA_SAMPLING_TASK ||| DATA_COLLECTION_TASK ||| DATA_DOWNLOAD_TASK)
    gchTasks_Active := DISABLE_ALL_TASKS }

/-- Sensor drivers that are ready at every step and deliver a reading. -/
def drvReady : Nat → SensorIn := fun _ => ⟨true, 20, true, some [1, 2, 3], 20⟩

/-- Seven RTC overflows (phases 1 to 7 of a cycle) with no task left active. -/
def restOfCycle : List SlotEv := List.replicate 7 (.tick 0)

/-- Four sample clocks of the RSSI table: an acquisition at each, the collection task after
the second. -/
def rssiRun : List SlotEv :=
  [.tick 0, .sample drvIdle] ++ restOfCycle ++ [.tick 0, .sample drvIdle, .collect] ++
    restOfCycle ++ [.tick 0, .sample drvIdle] ++ restOfCycle ++ [.tick 0, .sample drvIdle]

/-- Three sample clocks of the gyrometer table (the slot is due at every second one): the
sampling task is invoked until the acquisition is complete, the collection task runs after
the first acquisition. -/
def gyroRun : List SlotEv :=
  [.tick 0, .sample drvReady, .sample drvReady, .sample drvReady, .collect] ++ restOfCycle ++
    [.tick 0, .sample drvReady] ++ restOfCycle ++
    [.tick 0, .sample drvReady, .sample drvReady, .sample drvReady]


/-- A power-up pending for the temperature sensor: the state after boot and one
`fnPowerSourceManager(POWER_SOURCE_ENABLE, TEMPERATURE_POWER_IDENTITY)`. -/
def fwPowerPending : FW :=
  (fnPowerSourceManager POWER_SOURCE_ENABLE TEMPERATURE_POWER_IDENTITY fwBoot).2

/-- The rail on for the temperature sensor: the stabilization timer has fired on
`fwPowerPending` and the sensor has polled again. -/
def fwPowerOn : FW :=
  (fnPowerSourceManager POWER_SOURCE_ENABLE TEMPERATURE_POWER_IDENTITY
    (isrTCE1_OVF fwPowerPending)).2

/-- The rail on for two users in the on-demand power mode. -/
def fwPowerTwoUsers : FW :=
  (fnPowerSourceManager POWER_SOURCE_ENABLE PRESSURE_POWER_IDENTITY
    { fwPowerOn with gchPowerSourceMode := POWER_SOURCE_AT_REQUIRE }).2


/-- A peer that misses the first three transmissions of an exchange (the comm-wait timer
expires) and acknowledges every frame once the reply wait has been doubled. -/
def envLateAck : Env := fun s =>
  if s.gchCommWaitTimeDoubleCounter = 0 then envSilent s else envReply frameAck s

/-- The state in which the three-packet download after boot ends on the link of `envLateAck`:
one doubling of the reply wait, then every packet acknowledged. -/
def fwAfterLateAck : FW :=
  ((runUntilDone (fnData_Download_Task envLateAck 3) 16 fwDownload3).map Prod.snd).getD fwDownload3


/-- A CRC-valid loop-back start command (slow link) as read from the RX FIFO. -/
def frameLoopStart : List Nat := [4, SENSOR_LOOP_BACK_PACKET_SLOW, 4, 0, 0, 50, 0x80]

/-- A CRC-valid test frame for the echo: length byte 6, header 0x55, five payload bytes, then
RSSI and the status byte with the CRC-OK bit set. -/
def frameTest : List Nat := [6, 0x55, 1, 2, 3, 4, 5, 50, 0x80]

/-- A console that answers the first transmission with a loop-back start command and sends the
test frame once loop-back is on; the chip signals transmit-complete for every transmission made
outside loop-back and for the acknowledge of the start command, and never for the echo, so that
the comm-wait timer expires while the engine waits in `TX_TIME_OUT_MODE`. -/
def envLoopTxFail : Env := fun s =>
  { gpioIrq := (s.gchRadioCommStepMode = TX_TIME_OUT_MODE ∧ s.gchSensorLoopBack = LB_STEP_0) ∨
      s.gchRadioCommStepMode = RADIO_RX_MODE ∨
      s.gchRadioCommStepMode = RADIO_ET_REPLY_TIME_OUT_MODE
    commOvf := s.gchRadioCommStepMode = TX_TIME_OUT_MODE ∧ s.gchSensorLoopBack ≠ LB_STEP_0
    volOvf := true
    spiOk := true
    initStatus := SENSOR_NO_ERROR
    marcState := 0
    numRxBytes := if s.gchSensorLoopBack = LB_STEP_0 then frameLoopStart.length else frameTest.length
    rxFifo := if s.gchSensorLoopBack = LB_STEP_0 then frameLoopStart else frameTest }

/-- The engine in loop-back mode waiting for the transmit-complete interrupt of an echo after two
timed-out attempts: watchdog disabled, comm-wait timer running. -/
def fwLoopTxStuck : FW :=
  { fnDisableWDT fwBoot with
    gchSensorLoopBack := LB_STEP_1
    gchRadioCommStepMode := TX_TIME_OUT_MODE
    ghSensorCommManager := { fwBoot.ghSensorCommManager with chPacketSendRetryCounter := 2 }
    commTimerOn := true }


/-- The engine in loop-back mode waiting for the next frame: watchdog disabled, loop-back wait
timer running. -/
def fwLoopRx : FW :=
  { fnDisableWDT fwBoot with
    gchSensorLoopBack := LB_STEP_1
    gchRadioCommStepMode := RADIO_RX_MODE
    commTimerOn := true }


/-- An accepted upload frame with one record whose sensor id, `BATTERY_TEMPERATURE`, is not in
`ghSensorInfo` (sample-clock divisor 2, 4 samples per average, radio-clock divisor 1). -/
def frameUnknownId : List Nat :=
  [24, NEW_EXECUTION_TABLE_PACKET, 19, 0, 0, 0, 0, 0, 10, 0, 5, 1, 0,
    BATTERY_TEMPERATURE, 0, 0, 2, 4, 1] ++ List.replicate 116 0

/-- The data length the upload stores for a slot: the `int8_t` result of
`fnFetchSensorDataLength` for the slot's id converted to `uint8_t`. -/
def LengthStored (x : SMART_SENSORS_STRUCT) : Prop :=
  x.chSensorDataLength = ((fnFetchSensorDataLength x.chSensorID) % 256).toNat


/-! ## Sleep selection of the scheduler (main.c) -/

def SET_NEW_ISR_FLAG : Nat := 1
def CLEAR_NEW_ISR_FLAG : Nat := 0

/-- Sleep modes of the controller that `main` programs into `SLEEP.CTRL` (mc_system.h):
`ENABLE_POWER_DOWN_SLEEP_MODE`, `ENABLE_POWER_SAVING_SLEEP_MODE`,
`ENABLE_IDLE_POWER_SLEEP_MODE`. -/
inductive SleepMode where
  | powerDown
  | powerSave
  | idle
deriving DecidableEq, Repr

/-- The statements of `main` behind the task sweep, as they are executed in program order:
`DISABLE_GLOBAL_INTERRUPTS`, `ENABLE_GLOBAL_INTERRUPTS`, `ENABLE_..._SLEEP_MODE`, `_SLEEP`,
`DISABLE_..._SLEEP_MODE` (all three are `DISABLE_ALL_SLEEP_MODES`), the calls of `fnDisableWDT`
and `fnEnableWDT`, and `RESET_WDT`. -/
inductive MainOp where
  | disableInterrupts
  | enableInterrupts
  | enableSleepMode (m : SleepMode)
  | sleep
  | disableSleepModes
  | disableWDT
  | enableWDT
  | resetWDT
deriving DecidableEq, Repr

/-- The body of the `while(1)` loop of `main` behind the task sweep: interrupts are locked out,
the global state is tested and the sleep depth is selected.  `wake m s` is the state in which the
controller resumes behind `_SLEEP` in mode `m` (the interrupt service routines that ended the
sleep have run).  The second component lists the statements executed. -/
def mainSleepStep (wake : SleepMode → FW → FW) (s : FW) : FW × List MainOp :=
  if s.gchTasks_Enable &&& s.gchTasks_Active = ALL_TASK_DONE ∧ s.gchControllerOff = SET_FLAG then
    let s := fnDisableWDT s
    let s := wake .powerDown s
    let s := fnEnableWDT s
    (s.hw .wdtReset,
      [.disableInterrupts, .disableWDT, .enableInterrupts, .enableSleepMode .powerDown, .sleep,
        .disableSleepModes, .enableWDT, .resetWDT])
  else if s.gchTasks_Enable &&& s.gchTasks_Active = ALL_TASK_DONE then
    ((wake .powerSave s).hw .wdtReset,
      [.disableInterrupts, .enableInterrupts, .enableSleepMode .powerSave, .sleep,
        .disableSleepModes, .resetWDT])
  else if s.gchNewInterrupt = CLEAR_NEW_ISR_FLAG then
    ((wake .idle s).hw .wdtReset,
      [.disableInterrupts, .enableInterrupts, .enableSleepMode .idle, .sleep,
        .disableSleepModes, .resetWDT])
  else (s.hw .wdtReset, [.disableInterrupts, .enableInterrupts, .resetWDT])


/-- A CRC-valid terminate-download command as read from the RX FIFO. -/
def frameTerminate : List Nat := [4, TERMINATE_DATA_DOWNLOAD, 4, 0, 0, 50, 0x80]


/-- A slot as one step of the due check of `fnData_Sampling_Task` leaves it: the `uint8_t`
sample-clock counter is pre-incremented and compared with the divisor; a due slot has its
counter reset and, when it is Off with the averaging not complete, is moved to Start. -/
def dueChecked (x : SMART_SENSORS_STRUCT) : SMART_SENSORS_STRUCT :=
  { x with
    chSampleClockCounter :=
      if u8 (x.chSampleClockCounter + 1) ≥ x.chSampleClockDivisor then 0
      else u8 (x.chSampleClockCounter + 1)
    chSensorStatusFlag :=
      if u8 (x.chSampleClockCounter + 1) ≥ x.chSampleClockDivisor ∧
          x.chSensorStatusFlag = SAMPLE_STATE_OFF ∧
          x.chSensorSampleAvgCounter < x.chSensorSampleAvgTotalCount then
        SAMPLE_STATE_START
      else x.chSensorStatusFlag }

/-- A sampling overrun has been reported: as overrun error id of the error-control byte and
to the debug sink. -/
def OverrunLogged (s : FW) : Prop :=
  s.ghSensorCommManager.chOverrunErrorID = SENSOR_SENSOR_SAMPLING_OVERRUN ∧
  HwOp.debugError SENSOR_SENSOR_SAMPLING_OVERRUN ∈ s.hwLog


/-- The slot a sensor record at offset `c` of an upload frame leaves in `ghSensorControl`:
the assignments of the record loop of `fnET_Upload_Task` applied to the slot `old`. -/
def uploadedSlot (buf : List Nat) (c : Nat) (old : SMART_SENSORS_STRUCT) : SMART_SENSORS_STRUCT :=
  { old with
    chSensorID := rxb buf (c + SENSOR_EXECUTION_TABLE_ID_OFFSET)
    chSensorCtrlByte := rxb buf (c + SENSOR_CONTROL_BYTE_OFFSET)
    chSampleClockDivisor := rxb buf (c + SAMPLE_CLOCK_DIVISOR_OFFSET)
    chRadioClockDivisor := rxb buf (c + RADIO_CLOCK_DIVISOR_OFFSET)
    chSensorSampleAvgTotalCount :=
      if (rxb buf (c + SAMPLES_IN_AVERAGE_OFFSET) = RESET_VALUE ∨
          rxb buf (c + SAMPLES_IN_AVERAGE_OFFSET) > MAX_SAMPLE_AVERAGE_SUPPORTED) then
        MIN_SAMPLE_AVG_COUNT
      else rxb buf (c + SAMPLES_IN_AVERAGE_OFFSET)
    chSensorDataLength :=
      ((fnFetchSensorDataLength (rxb buf (c + SENSOR_EXECUTION_TABLE_ID_OFFSET))) % 256).toNat
    chSampleClockCounter := rxb buf (c + SAMPLE_CLOCK_DIVISOR_OFFSET)
    chRadioClockCounter := RESET_VALUE
    chSensorSampleAvgCounter := RESET_VALUE
    nSensorAvgData := RESET_VALUE
    chSensorStatusFlag := SAMPLE_STATE_OFF }

/-- The state after a run of events (invocations of the sampling and collection tasks, RTC
overflows). -/
def runEvents (evs : List SlotEv) (s : FW) : FW := evs.foldl (fun u e => e.after u) s

/-- The averaging state of a slot is consistent: the target is between 1 and
`MAX_SAMPLE_AVERAGE_SUPPORTED`, the average counter does not exceed it, and a slot in flight
has not completed its averaging. -/
def AvgInv (x : SMART_SENSORS_STRUCT) : Prop :=
  1 ≤ x.chSensorSampleAvgTotalCount ∧
  x.chSensorSampleAvgTotalCount ≤ MAX_SAMPLE_AVERAGE_SUPPORTED ∧
  x.chSensorSampleAvgCounter ≤ x.chSensorSampleAvgTotalCount ∧
  (x.chSensorStatusFlag ≠ SAMPLE_STATE_OFF →
    x.chSensorSampleAvgCounter < x.chSensorSampleAvgTotalCount)


/-- An upload frame that is accepted, as `frameGyro` with the comm timeout (bytes 11..12) set to
156 * 256 + 64 = 40000 ms. -/
def frameSlowReply : List Nat :=
  [24, NEW_EXECUTION_TABLE_PACKET, 19, 0, 0, 0, 0, 0, 10, 0, 5, 156, 64, GYRO_METER, 0, 0, 2, 4,
    1] ++ List.replicate 116 0

/-- The table of `frameSlowReply` in force after boot, with a download of three packets ready
in the bank. -/
def fwDownloadSlowReply : FW :=
  { (fnET_Upload_Task frameSlowReply fwBoot).2 with
    gchDataDownloadPacketReady := SET_FLAG
    ghSensorCommManager :=
      { (fnET_Upload_Task frameSlowReply fwBoot).2.ghSensorCommManager with
        chTotalPacketCount := 3 }
    gchSensorCommBuff := fwDownload3.gchSensorCommBuff }

/-- The engine of that download waiting for the reply to the third attempt, with the comm-wait
timer expired. -/
def fwSlowReplyExpired : FW :=
  { fwDownloadSlowReply with
    gchRadioCommStepMode := RADIO_RX_MODE
    gchCommunicationTimeOut := SET_FLAG
    ghSensorCommManager :=
      { fwDownloadSlowReply.ghSensorCommManager with chPacketSendRetryCounter := 2 } }


/-- An upload frame that is accepted, as `frameGyro` with the down-link bit of control byte 1
set: the fast download channel (CC2520) is configured. -/
def frameFastLink : List Nat :=
  [24, NEW_EXECUTION_TABLE_PACKET, 19, 0, 0, 0, 0, 0, 10, DOWNLINK_BM, 5, 1, 0, GYRO_METER, 0, 0,
    2, 4, 1] ++ List.replicate 116 0

/-- The table of `frameFastLink` in force after boot, with a download of three packets ready in
the bank. -/
def fwDownloadFast : FW :=
  { (fnET_Upload_Task frameFastLink fwBoot).2 with
    gchDataDownloadPacketReady := SET_FLAG
    ghSensorCommManager :=
      { (fnET_Upload_Task frameFastLink fwBoot).2.ghSensorCommManager with
        chTotalPacketCount := 3 }
    gchSensorCommBuff := fwDownload3.gchSensorCommBuff }

/-- A link whose chip reports not ready at every initialisation; the rail stabilises. -/
def envChipNotReady : Env := fun _ =>
  { gpioIrq := false
    commOvf := false
    volOvf := true
    spiOk := true
    initStatus := SENSOR_CC1125_CHIP_NOT_READY
    marcState := 0
    numRxBytes := 0
    rxFifo := [] }

/-- The state after `n` invocations of a task, whatever they return (`none` when an invocation
does not return). -/
def invoke (task : FW → Option (Int × FW)) : Nat → FW → Option FW
  | 0, s => some s
  | n + 1, s =>
    match task s with
    | none => none
    | some (_, s) => invoke task n s


/-- The sensor ids for which the `switch` of `fnData_Sampling_Task` has no sampling code: the
cases `BATTERY_TEMPERATURE`, `TEG_TEMPERATURE_COLD` and `TEG_TEMPERATURE_HOT`, which only
`break`, and the ids that fall to `default`. -/
def NoSamplingCode (id : Nat) : Prop :=
  id ≠ CHAMBER_TEMPERATURE ∧ id ≠ GYRO_METER ∧ id ≠ CHAMBER_PRESSURE ∧ id ≠ UPLINK_RADIO_RSSI

/-- What is known of a slot over a run in which `since` acquisitions have been counted since the
last averaging completion, `g0` being the gap of the slot at the start of the run.  Either the
slot has an id without sampling code (it never completes an acquisition), or it is as at the
start of the run (`GapInv`; with a data length of 8 or more it waits Off for the collection once
its averaging is complete), or the collection task has cleared its average target (data length
of 8 or more): then a gyrometer slot still closes gaps of 1, and another slot is Off for good
once an averaging completion has been seen. -/
def GapState (g0 : Nat) (x : SMART_SENSORS_STRUCT) (since : Option Nat) : Prop :=
  NoSamplingCode x.chSensorID ∨
  (gapOf x = g0 ∧ x.chSensorSampleAvgTotalCount ≤ 255 ∧ GapInv x since ∧
    (8 ≤ x.chSensorDataLength → x.chSensorID ≠ GYRO_METER → ∀ k, since = some k →
      x.chSensorStatusFlag = SAMPLE_STATE_OFF ∧
      x.chSensorSampleAvgCounter ≥ x.chSensorSampleAvgTotalCount)) ∨
  (x.chSensorSampleAvgTotalCount = 0 ∧
    (x.chSensorID = GYRO_METER → g0 = 1 ∧ ∀ k, since = some k → k = 0) ∧
    (x.chSensorID ≠ GYRO_METER → x.chSensorStatusFlag = SAMPLE_STATE_OFF ∨ since = none))

/-- The table of `frameUnknownId` (one `BATTERY_TEMPERATURE` slot, sample-clock divisor 2) in
force after boot, with the data tasks enabled. -/
def fwBatteryRunning : FW :=
  { (fnET_Upload_Task frameUnknownId fwBoot).2 with
    gchTasks_Enable :=
      ((fnET_Upload_Task frameUnknownId fwBoot).2.gchTasks_Enable &&&
        (0xFF - EXECUTION_TABLE_REQ_TASK)) |||
      (DATA_SAMPLING_TASK ||| DATA_COLLECTION_TASK ||| DATA_DOWNLOAD_TASK)
    gchTasks_Active := DISABLE_ALL_TASKS }

/-- Three sample clocks of the battery-temperature table (the slot is due at the first and the
third): the sampling task is invoked at each, twice at the first. -/
def batteryRun : List SlotEv :=
  [.tick 0, .sample drvReady, .sample drvReady] ++ restOfCycle ++ [.tick 0, .sample drvReady] ++
    restOfCycle ++ [.tick 0, .sample drvReady]


/-- An accepted upload frame with two records: `BATTERY_TEMPERATURE`, whose id is not in
`ghSensorInfo` (sample-clock divisor 2, 4 samples per average, radio-clock divisor 1), and the
uplink RSSI (sample-clock divisor 1, 2 samples per average, radio-clock divisor 1); length byte
13 + 2 * 6 = 25. -/
def frameUnknownThenRssi : List Nat :=
  [30, NEW_EXECUTION_TABLE_PACKET, 25, 0, 0, 0, 0, 0, 10, 0, 5, 1, 0,
    BATTERY_TEMPERATURE, 0, 0, 2, 4, 1, UPLINK_RADIO_RSSI, 0, 0, 1, 2, 1] ++ List.replicate 110 0

/-- The table of `frameUnknownThenRssi` in force after boot. -/
def fwUnknownThenRssi : FW := (fnET_Upload_Task frameUnknownThenRssi fwBoot).2

/-- A slot table in use whose data lengths fit `nSensorData`: between 1 and 255 slots, every one
with at most `MAX_SENSOR_DATA_LENGTH` data words. -/
def LengthsInRange (s : FW) : Prop :=
  1 ≤ s.gchTotalSensorEntry ∧ s.gchTotalSensorEntry ≤ 255 ∧
  ∀ i < s.gchTotalSensorEntry, (s.slot i).chSensorDataLength ≤ MAX_SENSOR_DATA_LENGTH

/-- The offsets `c, c + 6, c + 12, ...` (at most `n` of them) that lie below `L`. -/
def recordOffsetsFrom (c n L : Nat) : List Nat :=
  ((List.range n).map fun k => c + SENSOR_ENTRY_OFFSET * k).filter (fun o => o < L)

/-- The offsets of the sensor records of an upload frame with length field `L`, as the frame
format describes them: 13, 19, 25, ... below `L`, in frame order. -/
def recordOffsets (L : Nat) : List Nat := recordOffsetsFrom SENSORS_START_INDEX L L

/-- Of the records at the offsets `l`, those whose sample-clock-divisor byte is not 0. -/
def populatedRecords (buf : List Nat) (l : List Nat) : List Nat :=
  l.filter (fun o => rxb buf (o + SAMPLE_CLOCK_DIVISOR_OFFSET) ≠ 0)


/-! ## Observation of the array accesses of the collection walk -/

/-- What the `while(1)` loop of `fnData_Collection_Task` does to the arrays: the start of a pass
for slot `c`, an access to `ghSensorControl[i]`, the store of an id or data byte in
`gchSensorCommBuff[p][i]`, the store of a header field in `gchSensorCommBuff[p][i]`. -/
inductive CollectEv where
  | visit (c : Nat)
  | slot (i : Nat)
  | payload (p i : Nat)
  | header (p i : Nat)
deriving DecidableEq, Repr

/-- Accesses of the inner loop of `fnData_Collection_Task` (`collectWords`): per data word two
stores at the write cursor and the accesses to the slot; the state advances by one step of
`collectWords`. -/
def collectWordsEv (c : Nat) : Nat → Nat → FW → List CollectEv
  | 0, _, _ => []
  | n + 1, k, s =>
    [.slot c, .payload s.gchCollectionPacketIndex s.gchCollectionDataIndex,
      .slot c, .payload s.gchCollectionPacketIndex (u8 (s.gchCollectionDataIndex + 1)),
      .slot c] ++ collectWordsEv c n (k + 1) (collectWords c 1 k s)

/-- The state in which `collectSlot` enters the inner loop for a due slot `c`: radio-clock
counter reset, id stored at the write cursor. -/
def collectSlotId (c : Nat) (s : FW) : FW :=
  let x := s.slot c
  let s := s.setSlot c { x with chRadioClockCounter := RESET_COUNTER }
  { s with
    gchSensorCommBuff :=
      bankStore s.gchSensorCommBuff s.gchCollectionPacketIndex s.gchCollectionDataIndex
        x.chSensorID
    gchCollectionDataIndex := u8 (s.gchCollectionDataIndex + 1) }

/-- Accesses of the first part of the `while(1)` body for slot `c` (`collectSlot`): the
radio-clock comparison and, for a due slot, the store of the id, the data words and the test of
the average counter. -/
def collectSlotEv (c : Nat) (s : FW) : List CollectEv :=
  let x := s.slot c
  if u8 (x.chRadioClockCounter + 1) ≥ x.chRadioClockDivisor then
    [.slot c, .slot c, .slot c,
      .payload s.gchCollectionPacketIndex s.gchCollectionDataIndex] ++
      collectWordsEv c x.chSensorDataLength 0 (collectSlotId c s) ++ [.slot c]
  else [.slot c]

/-- Accesses of the finalisation block (`collectFinalize`): the header stores, in source
order. -/
def collectFinalizeEv (s : FW) : List CollectEv :=
  [.header s.gchCollectionPacketIndex PACKET_HEADER_INDEX,
    .header s.gchCollectionPacketIndex PACKET_DESCRIPTOR_INDEX,
    .header s.gchCollectionPacketIndex PACKET_DATA_LENGTH_INDEX,
    .header s.gchCollectionPacketIndex CC1125_DATA_PACKET_LENGTH,
    .header s.gchCollectionPacketIndex PACKET_DOWNLOAD_DATA_SIZE]

/-- Accesses of the `while(1)` loop (`collectLoop`), pass by pass; the fit test reads
`ghSensorControl[c]` only when `chCheckFlag` is clear (`||` does not evaluate its right operand
otherwise). -/
def collectLoopEv : Nat → Nat → Bool → FW → List CollectEv
  | 0, _, _, _ => []
  | fuel + 1, c, avail, s =>
    let ev := CollectEv.visit c :: collectSlotEv c s
    let r := collectSlot c avail s
    let s := r.1
    let avail := r.2
    let c := u8 (c + 1)
    if c ≥ s.gchTotalSensorEntry ∧ ¬ avail then ev
    else
      let chk : Bool := c ≥ s.gchTotalSensorEntry
      let fit : List CollectEv := if chk then [] else [.slot c]
      if chk ∨ s.gchCollectionDataIndex + (s.slot c).chSensorDataLength * 2 + 1 >
          PACKET_LAST_DATA_BYTE_INDEX then
        if chk then ev ++ fit ++ collectFinalizeEv s
        else ev ++ fit ++ collectFinalizeEv s ++
          collectLoopEv fuel c avail (collectFinalize chk s)
      else ev ++ fit ++ collectLoopEv fuel c avail s

/-- Accesses of the walk of `fnData_Collection_Task` (`collectWalk`). -/
def collectWalkEv (s : FW) : List CollectEv :=
  collectLoopEv (max s.gchTotalSensorEntry 1) RESET_COUNTER false
    { s with
      gchCollectionDataIndex := PACKET_DATA_MESSAGE_INDEX
      gchCollectionPacketIndex := RESET_VALUE }

/-- The slots for which a pass of the loop was started, in order. -/
def visits (l : List CollectEv) : List Nat :=
  l.filterMap fun e => match e with
    | .visit c => some c
    | _ => none

/-- The access is inside its array: a slot index below `total`, a payload store in packet 0 at
an index in `PACKET_DATA_MESSAGE_INDEX .. PACKET_LAST_DATA_BYTE_INDEX - 1`, a header store in
packet 0 at an index in `0 .. 5`. -/
def CollectEv.inBounds (total : Nat) : CollectEv → Prop
  | .visit c => c < total
  | .slot i => i < total
  | .payload p i => p = 0 ∧ PACKET_DATA_MESSAGE_INDEX ≤ i ∧ i < PACKET_LAST_DATA_BYTE_INDEX
  | .header p i => p = 0 ∧ i ≤ 5


/-- An upload frame that is accepted and carries no sensor record: master fields as in
`frameGyro`, length byte 13. -/
def frameNoRecord : List Nat :=
  [24, NEW_EXECUTION_TABLE_PACKET, 13, 0, 0, 0, 0, 0, 10, 0, 5, 1, 0] ++ List.replicate 122 0

/-- The state after boot and the acceptance of `frameNoRecord`: no slot in use, no download
pending. -/
def fwNoRecord : FW := (fnET_Upload_Task frameNoRecord fwBoot).2

/-- An upload frame that is accepted, with one gyrometer record whose radio-clock divisor is 3
(sample-clock divisor 2, 4 samples per average). -/
def frameRadioThree : List Nat :=
  [24, NEW_EXECUTION_TABLE_PACKET, 19, 0, 0, 0, 0, 0, 10, 0, 5, 1, 0, GYRO_METER, 0, 0, 2, 4, 3] ++
    List.replicate 116 0

/-- The state after boot, the acceptance of `frameRadioThree` and then of `frameNoRecord`: no
slot in use, slot 0 still holding the record of the earlier table. -/
def fwNoRecordAfterTable : FW :=
  (fnET_Upload_Task frameNoRecord (fnET_Upload_Task frameRadioThree fwBoot).2).2

/-! # Theorems -/

/-! ## Arithmetic helpers -/

theorem u8_lt (n : Nat) : u8 n < 256 := Nat.mod_lt _ (by decide)

theorem u8_of_lt {n : Nat} (h : n < 256) : u8 n = n := Nat.mod_eq_of_lt h

theorem rxb_lt (buf : List Nat) (i : Nat) : rxb buf i < 256 := u8_lt _

/-- The big-endian combination `(uint16_t)hi << 8 | lo` of two bytes. -/
theorem be16_eq {a b : Nat} (ha : a < 256) (hb : b < 256) :
    u16 (a <<< BIT_8_bp ||| b) = 256 * a + b := by
  have h := Nat.mul_add_lt_is_or (show b < 2 ^ 8 from hb) a
  simp only [BIT_8_bp, Nat.shiftLeft_eq, u16]
  rw [Nat.mul_comm a (2 ^ 8), ← h]
  norm_num
  omega

/-! ## Execution-table upload: frame lemmas of the record loop -/

theorem etUploadRecord_master (buf : List Nat) (c : Nat) (s : FW) :
    (etUploadRecord buf c s).ghMasterTaskTable = s.ghMasterTaskTable := by
  unfold etUploadRecord
  by_cases h1 : rxb buf (c + SAMPLE_CLOCK_DIVISOR_OFFSET) = RESET_VALUE
  · simp [h1]
  · by_cases h2 : (rxb buf (c + SAMPLES_IN_AVERAGE_OFFSET) = RESET_VALUE ∨
        rxb buf (c + SAMPLES_IN_AVERAGE_OFFSET) > MAX_SAMPLE_AVERAGE_SUPPORTED)
    · simp [h1, h2, FW.setSlot, SEND_DEBUG_ERROR_CODES, SEND_ERROR_CODE_OVER_RF, FW.hw]
    · simp [h1, h2, FW.setSlot, SEND_DEBUG_ERROR_CODES, SEND_ERROR_CODE_OVER_RF, FW.hw]

theorem etUploadLoop_master (buf : List Nat) (n c : Nat) (s : FW) :
    (etUploadLoop buf n c s).ghMasterTaskTable = s.ghMasterTaskTable := by
  induction n generalizing c s with
  | zero => rfl
  | succ n ih =>
    unfold etUploadLoop
    split_ifs
    · rw [ih, etUploadRecord_master]
    · rfl

/-- The four validated quantities of an upload frame, as the frame layout defines them. -/
theorem fnET_Upload_Task_fst (buf : List Nat) (s : FW) :
    (fnET_Upload_Task buf s).1 =
      if rxb buf 5 ≠ 0 then RETURN_FALSE
      else if 256 * rxb buf 7 + rxb buf 8 = 0 then RETURN_FALSE
      else if 256 * (rxb buf 9 % 2) + rxb buf 10 < 3 then RETURN_FALSE
      else if 256 * rxb buf 11 + rxb buf 12 < 150 then RETURN_FALSE
      else RETURN_TRUE := by
  have h1 := be16_eq (rxb_lt buf 7) (rxb_lt buf 8)
  have h2 := be16_eq (show rxb buf 9 % 2 < 256 by omega) (rxb_lt buf 10)
  have h3 := be16_eq (rxb_lt buf 11) (rxb_lt buf 12)
  simp only [fnET_Upload_Task, PACKET_MASTER_ID_INDEX, ID_MASTER_CONTROLLER,
    PACKET_SAMPLE_CLOCK_FREQ_BYTE1, PACKET_SAMPLE_CLOCK_FREQ_BYTE2, PACKET_CONTROL_BYTE1,
    PACKET_CONTROL_BYTE2, PACKET_WAIT_TIME_BYTE1, PACKET_WAIT_TIME_BYTE2, BIT_0_bm,
    Nat.and_one_is_mod, h1, h2, h3, RESET_VALUE, MIN_RADIO_CLOCK_DIVISOR, MIN_COMM_WAIT_TIME_OUT]
  split_ifs <;> rfl

/-- C5. `fnET_Upload_Task` returns `RETURN_TRUE` exactly when the master-id byte (index 5) is
`ID_MASTER_CONTROLLER`, the big-endian sample clock (bytes 7..8) is non-zero, the radio-clock
divisor (bit 0 of byte 9 as bit 8, byte 10 as low byte) is at least `MIN_RADIO_CLOCK_DIVISOR`
and the big-endian comm timeout (bytes 11..12) is at least `MIN_COMM_WAIT_TIME_OUT`; on
acceptance the stored sample clock is the frame's value clamped to `MAX_SAMPLE_CLOCK_FREQ`. -/
theorem fnET_Upload_Task_accept_iff (buf : List Nat) (s : FW) :
    ((fnET_Upload_Task buf s).1 = RETURN_TRUE ↔
      rxb buf 5 = ID_MASTER_CONTROLLER ∧ 256 * rxb buf 7 + rxb buf 8 ≠ 0 ∧
      MIN_RADIO_CLOCK_DIVISOR ≤ 256 * (rxb buf 9 % 2) + rxb buf 10 ∧
      MIN_COMM_WAIT_TIME_OUT ≤ 256 * rxb buf 11 + rxb buf 12) ∧
    ((fnET_Upload_Task buf s).1 = RETURN_TRUE →
      (fnET_Upload_Task buf s).2.ghMasterTaskTable.nSampleClock =
        min (256 * rxb buf 7 + rxb buf 8) MAX_SAMPLE_CLOCK_FREQ ∧
      (fnET_Upload_Task buf s).2.ghMasterTaskTable.nSampleClock ≤ 125) := by
  have hfst := fnET_Upload_Task_fst buf s
  have hiff : (fnET_Upload_Task buf s).1 = RETURN_TRUE ↔
      rxb buf 5 = ID_MASTER_CONTROLLER ∧ 256 * rxb buf 7 + rxb buf 8 ≠ 0 ∧
      MIN_RADIO_CLOCK_DIVISOR ≤ 256 * (rxb buf 9 % 2) + rxb buf 10 ∧
      MIN_COMM_WAIT_TIME_OUT ≤ 256 * rxb buf 11 + rxb buf 12 := by
    rw [hfst]
    simp only [ID_MASTER_CONTROLLER, MIN_RADIO_CLOCK_DIVISOR, MIN_COMM_WAIT_TIME_OUT,
      RETURN_TRUE, RETURN_FALSE]
    split_ifs <;> simp <;> omega
  refine ⟨hiff, fun h => ?_⟩
  obtain ⟨a1, a2, a3, a4⟩ := hiff.mp h
  have h1 := be16_eq (rxb_lt buf 7) (rxb_lt buf 8)
  have h2 := be16_eq (show rxb buf 9 % 2 < 256 by omega) (rxb_lt buf 10)
  have h3 := be16_eq (rxb_lt buf 11) (rxb_lt buf 12)
  simp only [ID_MASTER_CONTROLLER, MIN_RADIO_CLOCK_DIVISOR, MIN_COMM_WAIT_TIME_OUT] at a1 a3 a4
  have e : (fnET_Upload_Task buf s).2.ghMasterTaskTable.nSampleClock =
      min (256 * rxb buf 7 + rxb buf 8) MAX_SAMPLE_CLOCK_FREQ := by
    simp only [fnET_Upload_Task, PACKET_MASTER_ID_INDEX, ID_MASTER_CONTROLLER,
      PACKET_SAMPLE_CLOCK_FREQ_BYTE1, PACKET_SAMPLE_CLOCK_FREQ_BYTE2, PACKET_CONTROL_BYTE1,
      PACKET_CONTROL_BYTE2, PACKET_WAIT_TIME_BYTE1, PACKET_WAIT_TIME_BYTE2, BIT_0_bm,
      Nat.and_one_is_mod, h1, h2, h3, RESET_VALUE, MIN_RADIO_CLOCK_DIVISOR,
      MIN_COMM_WAIT_TIME_OUT, MAX_SAMPLE_CLOCK_FREQ]
    rw [if_neg (by simpa using a1), if_neg a2, if_neg (by omega), if_neg (by omega)]
    simp only [fnConfigureSampleClock, FW.hw, etUploadLoop_master]
    split_ifs <;> simp <;> omega
  exact ⟨e, by rw [e]; exact Nat.min_le_right _ _⟩

/-! ## Execution-table upload: rejection -/

/-- C4 (amended). When `fnET_Upload_Task` rejects a frame, the slot array `ghSensorControl` and
`gnDefaultCommWaitTimeValue` are as before and the sample clock is stopped, but the table is not
kept: `gchTotalSensorEntry` is reset to 0 and `ghMasterTaskTable` holds the frame's value in
every field parsed up to the failing check.  A wrong master id leaves the master table as it
was; a zero sample clock stores `nSampleClock = 0` and leaves the other master fields; a
divisor or timeout below its minimum stores the clamped clock and the divisor (and, when the
divisor was in range, the timeout) of the frame. -/
theorem fnET_Upload_Task_reject_effect (buf : List Nat) (s : FW) :
    (fnET_Upload_Task buf s).1 = RETURN_FALSE →
    (fnET_Upload_Task buf s).2.ghSensorControl = s.ghSensorControl ∧
    (fnET_Upload_Task buf s).2.gnDefaultCommWaitTimeValue = s.gnDefaultCommWaitTimeValue ∧
    (fnET_Upload_Task buf s).2.gchTotalSensorEntry = 0 ∧
    (fnET_Upload_Task buf s).2.rtcOn = false ∧
    (rxb buf 5 ≠ ID_MASTER_CONTROLLER →
      (fnET_Upload_Task buf s).2.ghMasterTaskTable = s.ghMasterTaskTable) ∧
    (rxb buf 5 = ID_MASTER_CONTROLLER → 256 * rxb buf 7 + rxb buf 8 = 0 →
      (fnET_Upload_Task buf s).2.ghMasterTaskTable =
        { s.ghMasterTaskTable with nSampleClock := 0 }) ∧
    (rxb buf 5 = ID_MASTER_CONTROLLER → 256 * rxb buf 7 + rxb buf 8 ≠ 0 →
      (fnET_Upload_Task buf s).2.ghMasterTaskTable.nSampleClock =
        min (256 * rxb buf 7 + rxb buf 8) MAX_SAMPLE_CLOCK_FREQ ∧
      (fnET_Upload_Task buf s).2.ghMasterTaskTable.nRadioClockDivisor =
        256 * (rxb buf 9 % 2) + rxb buf 10 ∧
      (256 * (rxb buf 9 % 2) + rxb buf 10 < MIN_RADIO_CLOCK_DIVISOR →
        (fnET_Upload_Task buf s).2.ghMasterTaskTable.nCommTimeout =
          s.ghMasterTaskTable.nCommTimeout) ∧
      (MIN_RADIO_CLOCK_DIVISOR ≤ 256 * (rxb buf 9 % 2) + rxb buf 10 →
        (fnET_Upload_Task buf s).2.ghMasterTaskTable.nCommTimeout =
          256 * rxb buf 11 + rxb buf 12)) := by
  have h1 := be16_eq (rxb_lt buf 7) (rxb_lt buf 8)
  have h2 := be16_eq (show rxb buf 9 % 2 < 256 by omega) (rxb_lt buf 10)
  have h3 := be16_eq (rxb_lt buf 11) (rxb_lt buf 12)
  simp only [fnET_Upload_Task, PACKET_MASTER_ID_INDEX, ID_MASTER_CONTROLLER,
    PACKET_SAMPLE_CLOCK_FREQ_BYTE1, PACKET_SAMPLE_CLOCK_FREQ_BYTE2, PACKET_CONTROL_BYTE1,
    PACKET_CONTROL_BYTE2, PACKET_WAIT_TIME_BYTE1, PACKET_WAIT_TIME_BYTE2, BIT_0_bm,
    Nat.and_one_is_mod, h1, h2, h3, RESET_VALUE, MIN_RADIO_CLOCK_DIVISOR,
    MIN_COMM_WAIT_TIME_OUT, MAX_SAMPLE_CLOCK_FREQ]
  by_cases c1 : rxb buf 5 = 0
  · by_cases c2 : 256 * rxb buf 7 + rxb buf 8 = 0
    · simp [c1, c2, fnStopSampleClock, fnResetFirmwareResourceAllocations, RESET_COUNTER]
    · by_cases c5 : 125 < 256 * rxb buf 7 + rxb buf 8 <;>
      by_cases c3 : 256 * (rxb buf 9 % 2) + rxb buf 10 < 3 <;>
      by_cases c4 : 256 * rxb buf 11 + rxb buf 12 < 150 <;>
      simp [c1, c2, c3, c4, c5, fnStopSampleClock, fnResetFirmwareResourceAllocations,
        RESET_COUNTER, SEND_DEBUG_ERROR_CODES, SEND_ERROR_CODE_OVER_RF, FW.hw, RETURN_TRUE,
        RETURN_FALSE] <;> omega
  · simp [c1, fnStopSampleClock, fnResetFirmwareResourceAllocations, RESET_COUNTER]

/-- C4 (counterexample). With the table of `frameGyro` in force (10 Hz, one sensor), the frame
`frameZeroClock` is rejected and afterwards the sample clock of the table is 0 and the table
has no sensor: the prior table is not unchanged. -/
theorem fnET_Upload_Task_reject_not_atomic :
    (fnET_Upload_Task frameZeroClock fwGyroTable).1 = RETURN_FALSE ∧
    fwGyroTable.ghMasterTaskTable.nSampleClock = 10 ∧
    (fnET_Upload_Task frameZeroClock fwGyroTable).2.ghMasterTaskTable.nSampleClock = 0 ∧
    fwGyroTable.gchTotalSensorEntry = 1 ∧
    (fnET_Upload_Task frameZeroClock fwGyroTable).2.gchTotalSensorEntry = 0 ∧
    ¬ ((fnET_Upload_Task frameZeroClock fwGyroTable).2.ghMasterTaskTable =
        fwGyroTable.ghMasterTaskTable ∧
      (fnET_Upload_Task frameZeroClock fwGyroTable).2.gchTotalSensorEntry =
        fwGyroTable.gchTotalSensorEntry) := by
  decide

theorem fnET_Upload_Task_reject_effect_witness :
    (fnET_Upload_Task frameZeroClock fwGyroTable).1 = RETURN_FALSE ∧
    (fnET_Upload_Task frameZeroClock fwGyroTable).2.ghSensorControl =
      fwGyroTable.ghSensorControl ∧
    (fnET_Upload_Task frameZeroClock fwGyroTable).2.gchTotalSensorEntry = 0 :=
  ⟨by decide,
    (fnET_Upload_Task_reject_effect frameZeroClock fwGyroTable (by decide)).1,
    (fnET_Upload_Task_reject_effect frameZeroClock fwGyroTable (by decide)).2.2.1⟩

theorem fnET_Upload_Task_accept_iff_witness :
    (fnET_Upload_Task frameGyro fwBoot).1 = RETURN_TRUE ∧
    (fnET_Upload_Task frameGyro fwBoot).2.ghMasterTaskTable.nSampleClock =
      min (256 * rxb frameGyro 7 + rxb frameGyro 8) MAX_SAMPLE_CLOCK_FREQ :=
  ⟨by decide, ((fnET_Upload_Task_accept_iff frameGyro fwBoot).2 (by decide)).1⟩

/-! ## Collection task: back-pressure -/

theorem getBits_setBits_3_5 (b v : Nat) (hv : v < 32) : getBits (setBits b 3 5 v) 3 5 = v := by
  simp only [getBits, setBits]
  norm_num
  omega

/-- C9. With `gchDataDownloadPacketReady` set, `fnData_Collection_Task` returns done at once,
records `SENSOR_RADIO_DIVISOR_OVERRUN` as overrun error id, and leaves the sensor slots, the
packet buffers, `chTotalPacketCount` and the packet-ready flag as they were. -/
theorem fnData_Collection_Task_backpressure (s : FW) (h : s.gchDataDownloadPacketReady ≠ 0) :
    (fnData_Collection_Task s).1 = RETURN_TRUE ∧
    (fnData_Collection_Task s).2.ghSensorCommManager.chOverrunErrorID =
      SENSOR_RADIO_DIVISOR_OVERRUN ∧
    (fnData_Collection_Task s).2.ghSensorControl = s.ghSensorControl ∧
    (fnData_Collection_Task s).2.gchSensorCommBuff = s.gchSensorCommBuff ∧
    (fnData_Collection_Task s).2.ghSensorCommManager.chTotalPacketCount =
      s.ghSensorCommManager.chTotalPacketCount ∧
    (fnData_Collection_Task s).2.gchDataDownloadPacketReady = s.gchDataDownloadPacketReady ∧
    (fnData_Collection_Task s).2.gchCollectionPacketIndex = s.gchCollectionPacketIndex ∧
    (fnData_Collection_Task s).2.gchCollectionDataIndex = s.gchCollectionDataIndex := by
  simp only [fnData_Collection_Task, if_pos h, SEND_DEBUG_ERROR_CODES, SEND_ERROR_CODE_OVER_RF,
    FW.hw, SENSOR_COMM_MANAGER.setOverrunErrorID, SENSOR_COMM_MANAGER.chOverrunErrorID,
    SENSOR_RADIO_DIVISOR_OVERRUN]
  simp only [and_true, true_and]
  exact getBits_setBits_3_5 _ _ (by decide)

theorem fnData_Collection_Task_backpressure_witness :
    ({ fwGyroTable with gchDataDownloadPacketReady := SET_FLAG } : FW).gchDataDownloadPacketReady
      ≠ 0 ∧
    (fnData_Collection_Task { fwGyroTable with gchDataDownloadPacketReady := SET_FLAG }).1 =
      RETURN_TRUE :=
  ⟨by decide,
    (fnData_Collection_Task_backpressure { fwGyroTable with gchDataDownloadPacketReady := SET_FLAG }
      (by decide)).1⟩

/-! ## First sampling tick after an upload -/

/-- C6 (evaluation at the failing input). `frameDiv255` is accepted and populates one slot with
sample-clock divisor 255 and counter 255.  At the first sampling tick (`gchSampleClockIndicator`
set) the `uint8_t` counter wraps to 0, the slot is not found due, it stays Off, and the sampling
task reports done; with divisor 2 (`frameGyro`) the slot is moved to Start. -/
theorem first_sample_skipped_for_divisor_255 :
    (fnET_Upload_Task frameDiv255 fwBoot).1 = RETURN_TRUE ∧
    (fnET_Upload_Task frameDiv255 fwBoot).2.gchTotalSensorEntry = 1 ∧
    ((fnET_Upload_Task frameDiv255 fwBoot).2.slot 0).chSampleClockDivisor = 255 ∧
    ((fnET_Upload_Task frameDiv255 fwBoot).2.slot 0).chSampleClockCounter = 255 ∧
    fwDiv255.gchSampleClockIndicator = SET_FLAG ∧
    (samplingDueCheck fwDiv255).2 = false ∧
    ((samplingDueCheck fwDiv255).1.slot 0).chSensorStatusFlag = SAMPLE_STATE_OFF ∧
    ((samplingDueCheck fwDiv255).1.slot 0).chSampleClockCounter = 0 ∧
    (fnData_Sampling_Task drvIdle fwDiv255).1 = RETURN_TRUE ∧
    ((fnData_Sampling_Task drvIdle fwDiv255).2.slot 0).chSensorStatusFlag = SAMPLE_STATE_OFF ∧
    ((samplingDueCheck (firstSamplingTick fwGyroTable)).1.slot 0).chSensorStatusFlag =
      SAMPLE_STATE_START := by
  decide

/-! ## Packet assembler: more due data than one packet holds -/

set_option maxRecDepth 100000 in
/-- C7 (evaluation at the failing input). With 18 due gyrometer slots (126 payload bytes, more
than one packet holds) the collection task reports done with the packet-ready flag raised and
`chTotalPacketCount = 1`; the payload of the packets it leaves is the entry of the last slot
only, not the 18 entries in slot order. -/
theorem collection_payload_lost_on_overflow :
    (fnData_Collection_Task fwEighteen).1 = RETURN_TRUE ∧
    (fnData_Collection_Task fwEighteen).2.gchDataDownloadPacketReady = SET_FLAG ∧
    (dueEntries fwEighteen).length = 126 ∧
    (fnData_Collection_Task fwEighteen).2.ghSensorCommManager.chTotalPacketCount = 1 ∧
    downloadPayload (fnData_Collection_Task fwEighteen).2 = slotEntry (fwEighteen.slot 17) ∧
    downloadPayload (fnData_Collection_Task fwEighteen).2 = [7, 17, 1, 17, 2, 17, 3] ∧
    downloadPayload (fnData_Collection_Task fwEighteen).2 ≠ dueEntries fwEighteen := by
  decide

set_option maxRecDepth 100000 in
/-- C8 (evaluation at the failing input). With 18 due gyrometer slots the finalisation block
runs twice (k = 2), yet `chTotalPacketCount` is 1, bank index 1 is never written, both
finalisations stamp bank index 0 (`gchCollectionPacketIndex` is still 0 at the end of the walk)
and the packet left at index 0 carries sequence number 1 with the last-packet flag. -/
theorem collection_packet_index_never_advances :
    (collectWalk fwEighteen).finalized = 2 ∧
    (collectWalk fwEighteen).broke = true ∧
    (collectWalk fwEighteen).s.gchCollectionPacketIndex = 0 ∧
    (fnData_Collection_Task fwEighteen).2.ghSensorCommManager.chTotalPacketCount = 1 ∧
    (fnData_Collection_Task fwEighteen).2.gchSensorCommBuff.getD 1 [] =
      fwEighteen.gchSensorCommBuff.getD 1 [] ∧
    getBits (rd2 (fnData_Collection_Task fwEighteen).2.gchSensorCommBuff 0
      PACKET_DESCRIPTOR_INDEX) 2 3 = 1 ∧
    getBits (rd2 (fnData_Collection_Task fwEighteen).2.gchSensorCommBuff 0
      PACKET_DESCRIPTOR_INDEX) 7 1 = 1 := by
  decide

/-! ## Phase clock: what one tick does to each variable -/

theorem timing_enable (s : FW) :
    (fnSystem_Timing_Task s).gchTasks_Enable = s.gchTasks_Enable := by
  simp only [fnSystem_Timing_Task]
  split_ifs <;> rfl

theorem timing_divisor (s : FW) :
    (fnSystem_Timing_Task s).ghMasterTaskTable.nRadioClockDivisor =
      s.ghMasterTaskTable.nRadioClockDivisor := by
  simp only [fnSystem_Timing_Task]
  split_ifs <;> rfl

theorem timing_phase (s : FW) :
    (fnSystem_Timing_Task s).gchSampleClockPhase =
      if u8 (s.gchSampleClockPhase + 1) > RTC_PHASE7 then RTC_PHASE0
      else u8 (s.gchSampleClockPhase + 1) := by
  simp only [fnSystem_Timing_Task]
  split_ifs <;> rfl

theorem timing_counter (s : FW) :
    (fnSystem_Timing_Task s).ghMasterTaskTable.nRadioClockCounter =
      if (s.gchSampleClockPhase = RTC_PHASE1 ∧
            s.gchTasks_Enable &&& EXECUTION_TABLE_REQ_TASK ≠ 0) ∨
          (s.gchSampleClockPhase = RTC_PHASE6 ∧ s.gchTasks_Enable &&& DATA_COLLECTION_TASK ≠ 0)
      then
        if u16 (s.ghMasterTaskTable.nRadioClockCounter + 1) ≥
            s.ghMasterTaskTable.nRadioClockDivisor then RESET_COUNTER
        else u16 (s.ghMasterTaskTable.nRadioClockCounter + 1)
      else s.ghMasterTaskTable.nRadioClockCounter := by
  simp only [fnSystem_Timing_Task, RTC_PHASE0, RTC_PHASE1, RTC_PHASE6, RTC_PHASE7]
  split_ifs <;> first | rfl | simp_all

theorem timing_active (s : FW) :
    (fnSystem_Timing_Task s).gchTasks_Active =
      if s.gchSampleClockPhase = RTC_PHASE0 then
        if s.gchTasks_Enable &&& DATA_SAMPLING_TASK ≠ 0
        then s.gchTasks_Active ||| DATA_SAMPLING_TASK else s.gchTasks_Active
      else if s.gchSampleClockPhase = RTC_PHASE1 then
        if s.gchTasks_Enable &&& EXECUTION_TABLE_REQ_TASK ≠ 0 ∧
            u16 (s.ghMasterTaskTable.nRadioClockCounter + 1) ≥
              s.ghMasterTaskTable.nRadioClockDivisor
        then s.gchTasks_Active ||| EXECUTION_TABLE_REQ_TASK else s.gchTasks_Active
      else if s.gchSampleClockPhase = RTC_PHASE6 then
        if s.gchTasks_Enable &&& DATA_COLLECTION_TASK ≠ 0 ∧
            u16 (s.ghMasterTaskTable.nRadioClockCounter + 1) ≥
              s.ghMasterTaskTable.nRadioClockDivisor
        then s.gchTasks_Active ||| DATA_COLLECTION_TASK else s.gchTasks_Active
      else if s.gchSampleClockPhase = RTC_PHASE7 then
        if s.ghMasterTaskTable.nRadioClockCounter = RESET_COUNTER ∧
            s.gchTasks_Enable &&& DATA_DOWNLOAD_TASK ≠ 0
        then s.gchTasks_Active ||| DATA_DOWNLOAD_TASK else s.gchTasks_Active
      else s.gchTasks_Active := by
  simp only [fnSystem_Timing_Task, RTC_PHASE0, RTC_PHASE1, RTC_PHASE6, RTC_PHASE7]
  split_ifs <;> first | rfl | simp_all

/-! ## Phase clock: cadence of the divisor-gated tasks -/

theorem succ_mod_cases (q d : Nat) (hd : 1 ≤ d) :
    (q + 1) % d = if q % d + 1 ≥ d then 0 else q % d + 1 := by
  have hlt := Nat.mod_lt q hd
  have hq := Nat.div_add_mod q d
  split_ifs with h
  · have e : q + 1 = d * (q / d + 1) := by rw [Nat.mul_add, Nat.mul_one]; omega
    rw [e, Nat.mul_mod_right]
  · have e : q + 1 = d * (q / d) + (q % d + 1) := by omega
    rw [e, Nat.mul_add_mod, Nat.mod_eq_of_lt (by omega)]

theorem or_bit_and_bit (a b : Nat) (h : a &&& b = 0) : (a ||| b) &&& b = b := by
  rw [Nat.and_distrib_right, h, Nat.and_self, Nat.zero_or]

/-- State of the phase clock after `n` ticks when only the task gated at phase `p` counts:
`i` is the number of occurrences of phase `p` so far. -/
theorem tick_inv (d : Nat) (hd : 1 ≤ d) (hd16 : d < 65536) (bit other p : Nat)
    (hbp : (bit = EXECUTION_TABLE_REQ_TASK ∧ other = DATA_COLLECTION_TASK ∧ p = 1) ∨
      (bit = DATA_COLLECTION_TASK ∧ other = EXECUTION_TABLE_REQ_TASK ∧ p = 6))
    (n a : Nat) (s : FW)
    (hen : s.gchTasks_Enable &&& bit ≠ 0) (hoth : s.gchTasks_Enable &&& other = 0)
    (hph : s.gchSampleClockPhase = n % 8)
    (hdiv : s.ghMasterTaskTable.nRadioClockDivisor = d)
    (hcnt : s.ghMasterTaskTable.nRadioClockCounter = ((n + 7 - p) / 8) % d) :
    (tickAfter a s).gchTasks_Enable = s.gchTasks_Enable ∧
    (tickAfter a s).gchSampleClockPhase = (n + 1) % 8 ∧
    (tickAfter a s).ghMasterTaskTable.nRadioClockDivisor = d ∧
    (tickAfter a s).ghMasterTaskTable.nRadioClockCounter = ((n + 1 + 7 - p) / 8) % d ∧
    (a &&& bit = 0 →
      ((tickAfter a s).gchTasks_Active &&& bit ≠ 0 ↔ n % 8 = p ∧ d ∣ (n + 7 - p) / 8 + 1)) := by
  have hm : n % 8 < 8 := Nat.mod_lt _ (by decide)
  have hlt := Nat.mod_lt ((n + 7 - p) / 8) hd
  have hs := succ_mod_cases ((n + 7 - p) / 8) d hd
  have hdvd : d ∣ (n + 7 - p) / 8 + 1 ↔ ((n + 7 - p) / 8) % d + 1 ≥ d := by
    rw [Nat.dvd_iff_mod_eq_zero, hs]
    split_ifs with h <;> simp [h]
  have hor : ∀ b c : Nat, a &&& c = 0 → b &&& c = 0 → (a ||| b) &&& c = 0 := by
    intro b c h1 h2
    rw [Nat.and_distrib_right, h1, h2]; rfl
  have e2 : (n + 1) % 8 = if n % 8 = 7 then 0 else n % 8 + 1 := by split_ifs <;> omega
  have e4 : (n + 1 + 7 - p) / 8 = if n % 8 = p then (n + 7 - p) / 8 + 1 else (n + 7 - p) / 8 := by
    rcases hbp with ⟨_, _, rfl⟩ | ⟨_, _, rfl⟩ <;> split_ifs <;> omega
  rw [e2, e4]
  generalize (n + 7 - p) / 8 = q at *
  have e3 : u16 (q % d + 1) = q % d + 1 := by unfold u16; omega
  simp only [tickAfter, timing_enable, timing_phase, timing_divisor, timing_counter,
    timing_active, hph, hdiv, hcnt, e3, RTC_PHASE0, RTC_PHASE1, RTC_PHASE6, RTC_PHASE7,
    RESET_COUNTER, true_and]
  have hc : n % 8 = 0 ∨ n % 8 = 1 ∨ n % 8 = 2 ∨ n % 8 = 3 ∨ n % 8 = 4 ∨ n % 8 = 5 ∨
      n % 8 = 6 ∨ n % 8 = 7 := by omega
  have hmain : ∀ bit : Nat, bit ≠ 0 →
      ((if d ≤ q % d + 1 then 0 else q % d + 1) = (q + 1) % d ∧
        (a &&& bit = 0 →
          (¬(if d ≤ q % d + 1 then a ||| bit else a) &&& bit = 0 ↔ d ∣ q + 1))) := by
    intro bit hb
    refine ⟨hs.symm, fun ha => ?_⟩
    rw [hdvd]
    by_cases hge : d ≤ q % d + 1
    · simp only [hge, if_true, or_bit_and_bit _ _ ha, ge_iff_le, iff_true]
      exact hb
    · simp [hge, ha]
  rcases hbp with ⟨rfl, rfl, rfl⟩ | ⟨rfl, rfl, rfl⟩
  · rcases hc with h | h | h | h | h | h | h | h <;> simp [h, hen, hoth, u8]
    · intro ha; split_ifs <;> first | exact ha | exact hor _ _ ha (by decide)
    · exact hmain _ (by decide)
    · intro ha; split_ifs <;> first | exact ha | exact hor _ _ ha (by decide)
  · rcases hc with h | h | h | h | h | h | h | h <;> simp [h, hen, hoth, u8]
    · intro ha; split_ifs <;> first | exact ha | exact hor _ _ ha (by decide)
    · exact hmain _ (by decide)
    · intro ha; split_ifs <;> first | exact ha | exact hor _ _ ha (by decide)

theorem ticks_inv (d : Nat) (hd : 1 ≤ d) (hd16 : d < 65536) (bit other p : Nat)
    (hbp : (bit = EXECUTION_TABLE_REQ_TASK ∧ other = DATA_COLLECTION_TASK ∧ p = 1) ∨
      (bit = DATA_COLLECTION_TASK ∧ other = EXECUTION_TABLE_REQ_TASK ∧ p = 6))
    (acts : List Nat) : ∀ (n : Nat) (s : FW),
    s.gchTasks_Enable &&& bit ≠ 0 → s.gchTasks_Enable &&& other = 0 →
    s.gchSampleClockPhase = n % 8 →
    s.ghMasterTaskTable.nRadioClockDivisor = d →
    s.ghMasterTaskTable.nRadioClockCounter = ((n + 7 - p) / 8) % d →
    (ticks acts s).gchTasks_Enable &&& bit ≠ 0 ∧ (ticks acts s).gchTasks_Enable &&& other = 0 ∧
    (ticks acts s).gchSampleClockPhase = (n + acts.length) % 8 ∧
    (ticks acts s).ghMasterTaskTable.nRadioClockDivisor = d ∧
    (ticks acts s).ghMasterTaskTable.nRadioClockCounter = ((n + acts.length + 7 - p) / 8) % d := by
  induction acts with
  | nil => intro n s h1 h2 h3 h4 h5; exact ⟨h1, h2, h3, h4, h5⟩
  | cons a rest ih =>
    intro n s h1 h2 h3 h4 h5
    obtain ⟨g1, g2, g3, g4, _⟩ := tick_inv d hd hd16 bit other p hbp n a s h1 h2 h3 h4 h5
    have := ih (n + 1) (tickAfter a s) (by rw [g1]; exact h1) (by rw [g1]; exact h2) g2 g3 g4
    simp only [ticks, List.length_cons]
    have e : n + (rest.length + 1) = n + 1 + rest.length := by omega
    rw [e]
    exact this

/-- C10. Start at phase 0 with `nRadioClockCounter = 0` and a radio-clock divisor `d >= 1`, with
exactly one of the two divisor-gated tasks enabled (`bit`, gated at phase `p`: the
Execution-Table-Request task at phase 1 or the Collection task at phase 6).  Whatever the task
manager did to `gchTasks_Active` between the ticks, the tick at phase `j` of clock cycle `k`
(`k = 1, 2, ...`) sets the task's bit in `gchTasks_Active` exactly when `j = p` and `k` is a
multiple of `d`. -/
theorem phase_clock_divisor_cadence (s0 : FW) (d : Nat) (hd : 1 ≤ d) (hd16 : d < 65536)
    (hph : s0.gchSampleClockPhase = RTC_PHASE0)
    (hcnt : s0.ghMasterTaskTable.nRadioClockCounter = 0)
    (hdiv : s0.ghMasterTaskTable.nRadioClockDivisor = d)
    (bit other p : Nat)
    (hbp : (bit = EXECUTION_TABLE_REQ_TASK ∧ other = DATA_COLLECTION_TASK ∧ p = 1) ∨
      (bit = DATA_COLLECTION_TASK ∧ other = EXECUTION_TABLE_REQ_TASK ∧ p = 6))
    (hen : s0.gchTasks_Enable &&& bit ≠ 0) (hoth : s0.gchTasks_Enable &&& other = 0)
    (acts : List Nat) (k j : Nat) (hk : 1 ≤ k) (hj : j < 8)
    (hlen : acts.length = 8 * (k - 1) + j) (a : Nat) (ha : a &&& bit = 0) :
    ((tickAfter a (ticks acts s0)).gchTasks_Active &&& bit ≠ 0 ↔ j = p ∧ d ∣ k) := by
  have hp7 : p ≤ 7 := by rcases hbp with ⟨_, _, rfl⟩ | ⟨_, _, rfl⟩ <;> omega
  have h0 : s0.ghMasterTaskTable.nRadioClockCounter = ((0 + 7 - p) / 8) % d := by
    rw [hcnt]
    have : (0 + 7 - p) / 8 = 0 := by omega
    rw [this, Nat.zero_mod]
  obtain ⟨g1, g2, g3, g4, g5⟩ :=
    ticks_inv d hd hd16 bit other p hbp acts 0 s0 hen hoth (by rw [hph]; rfl) hdiv h0
  have := (tick_inv d hd hd16 bit other p hbp _ a _ g1 g2 g3 g4 g5).2.2.2.2 ha
  rw [this, hlen]
  have e1 : (0 + (8 * (k - 1) + j)) % 8 = j := by omega
  rw [e1]
  constructor
  · rintro ⟨rfl, h⟩
    have e2 : (0 + (8 * (k - 1) + j) + 7 - j) / 8 + 1 = k := by omega
    rw [e2] at h
    exact ⟨rfl, h⟩
  · rintro ⟨rfl, h⟩
    have e2 : (0 + (8 * (k - 1) + j) + 7 - j) / 8 + 1 = k := by omega
    rw [e2]
    exact ⟨rfl, h⟩

theorem phase_clock_divisor_cadence_witness :
    fwBoot.ghMasterTaskTable.nRadioClockDivisor = 10 ∧
    fwBoot.gchTasks_Enable &&& EXECUTION_TABLE_REQ_TASK ≠ 0 ∧
    (tickAfter 0 (ticks (List.replicate 73 0) fwBoot)).gchTasks_Active &&&
      EXECUTION_TABLE_REQ_TASK ≠ 0 :=
  ⟨by decide, by decide,
    (phase_clock_divisor_cadence fwBoot 10 (by decide) (by decide) (by decide) (by decide)
      (by decide) EXECUTION_TABLE_REQ_TASK DATA_COLLECTION_TASK 1 (Or.inl ⟨rfl, rfl, rfl⟩)
      (by decide) (by decide) (List.replicate 73 0) 10 1 (by decide) (by decide) (by decide) 0
      (by decide)).mpr ⟨rfl, by decide⟩⟩

/-! ## RF engine: the effect of each step on the engine's view of the state -/

theorem serviceIrqs_rf (hw : HwIn) (s : FW) :
    (serviceIrqs hw s).rf =
      { s.rf with
        chipFlag := if hw.gpioIrq then 1 else s.rf.chipFlag
        timeOut := if hw.commOvf ∧ s.rf.timerOn then SET_FLAG else s.rf.timeOut
        timerOn := if hw.commOvf then false else s.rf.timerOn } := by
  unfold serviceIrqs isrPORTH_INT0 isrTCC1_OVF isrTCE1_OVF
  rcases h1 : hw.gpioIrq <;> rcases h2 : hw.commOvf <;> rcases h3 : hw.volOvf <;>
    rcases h4 : s.commTimerOn <;> rcases h5 : s.volTimerOn <;> simp [FW.rf, h4, h5]

/-- Case `RADIO_TX_MODE` outside loop-back, no TX FIFO error: the packet at `chPacketCounter`
gets the error-control byte, is loaded into the TX FIFO and sent; the engine waits for
transmit-complete. -/
theorem pass_tx (hw : HwIn) (u : FW) (rx : List Nat)
    (hm : u.rf.mode = RADIO_TX_MODE) (hlb : u.rf.loopBack = LB_STEP_0)
    (hmarc : u8 hw.marcState &&& CC1125_FIFO_ERR_CHECK_BM ≠ CC112X_STATE_TXFIFO_ERROR) :
    ∃ u', radioPass hw u rx = Pass.test false u' rx ∧
      u'.rf = { u.rf with
        mode := TX_TIME_OUT_MODE
        comm := u.rf.comm.setOverrunErrorID SENSOR_NO_ERROR
        buff := wr2 u.rf.buff u.rf.comm.chPacketCounter PACKET_ERROR_CONTROL_INDEX
          u.rf.comm.chPacketCheck
        timeOut := 0
        timerOn := true
        log := u.rf.log ++ [.strobe CC112X_SFTX, .strobe CC112X_SIDLE,
          .txFifo (frameOf ((wr2 u.rf.buff u.rf.comm.chPacketCounter PACKET_ERROR_CONTROL_INDEX
            u.rf.comm.chPacketCheck).getD u.rf.comm.chPacketCounter [])),
          .strobe CC112X_STX, .startCommTimer CC1125_TX_COMPLETE_TIMEOUT_WAIT] } := by
  simp only [FW.rf] at hm hlb
  have hp : radioPass hw u rx = radioTx hw false u rx := by
    simp [radioPass, hm, hlb, RADIO_TX_MODE, RADIO_PWR_CHECK_MODE, RADIO_LINK_SELECT_MODE,
      LB_STEP_0]
  rw [hp]
  simp only [radioTx, FW.hw, hlb, hmarc, if_true, if_false]
  refine ⟨_, rfl, ?_⟩
  simp [FW.rf, FW.hw, fnStartCommunicationTimer, SEND_ERROR_CODE_OVER_RF, frameOf, RESET_FLAG, hlb]

/-- Case `TX_TIME_OUT_MODE` outside loop-back with the chip's interrupt flag set: the
transmission is complete, the comm-wait timer is started and the engine waits for the reply. -/
theorem pass_txdone (hw : HwIn) (u : FW) (rx : List Nat)
    (hm : u.rf.mode = TX_TIME_OUT_MODE) (hlb : u.rf.loopBack = LB_STEP_0)
    (hf : u.rf.chipFlag = SET_FLAG) :
    ∃ u', radioPass hw u rx = Pass.test false u' rx ∧
      u'.rf = { u.rf with
        mode := RADIO_RX_MODE
        chipFlag := RESET_FLAG
        timeOut := 0
        timerOn := true
        log := u.rf.log ++ [.strobe CC112X_SRX, .stopCommTimer,
          .startCommTimer u.rf.master.nCommTimeout] } := by
  simp only [FW.rf] at hm hlb hf
  have hp : radioPass hw u rx = radioTxTimeOut false u rx := by
    simp [radioPass, hm, hlb, RADIO_TX_MODE, RADIO_PWR_CHECK_MODE, RADIO_LINK_SELECT_MODE,
      LB_STEP_0, TX_TIME_OUT_MODE]
  rw [hp]
  simp only [radioTxTimeOut, fnCC112xSendDataComplete, hf, FW.hw, fnRadioCommunicationTimerDisable,
    hlb, if_true]
  refine ⟨_, rfl, ?_⟩
  simp [FW.rf, FW.hw, fnStartCommunicationTimer, RESET_FLAG, hlb]

/-- One pass that ends the invocation with `RETURN_FALSE`. -/
theorem radioLoop_one_false (env : Env) (fuel : Nat) (s u : FW) (rx rx' : List Nat)
    (h : radioPass (env s) (serviceIrqs (env s) s) rx = Pass.test false u rx') :
    radioLoop env (fuel + 1) s rx = some (RETURN_FALSE, u) := by
  simp [radioLoop, h]

/-- One pass that ends the invocation with `RETURN_TRUE`. -/
theorem radioLoop_one_true (env : Env) (fuel : Nat) (s u : FW) (rx : List Nat)
    (h : radioPass (env s) (serviceIrqs (env s) s) rx = Pass.ret u) :
    radioLoop env (fuel + 1) s rx = some (RETURN_TRUE, u) := by
  simp [radioLoop, h]

/-- One pass that asks for another one. -/
theorem radioLoop_one_more (env : Env) (fuel : Nat) (s u : FW) (rx rx' : List Nat)
    (h : radioPass (env s) (serviceIrqs (env s) s) rx = Pass.test true u rx') :
    radioLoop env (fuel + 1) s rx = radioLoop env fuel u rx' := by
  simp [radioLoop, h]

/-- Case `RADIO_RX_MODE` outside loop-back when a CRC-valid frame has arrived: the timer is
stopped, the RSSI is cached, the retry counter is reset and the frame is dispatched. -/
theorem pass_rx_valid (hw : HwIn) (u : FW) (rx : List Nat)
    (hm : u.rf.mode = RADIO_RX_MODE) (hlb : u.rf.loopBack = LB_STEP_0)
    (hf : u.rf.chipFlag = SET_FLAG) (hspi : hw.spiOk = true) (hn : u8 hw.numRxBytes > 0)
    (hmarc : u8 hw.marcState &&& CC1125_FIFO_ERR_CHECK_BM ≠ CC112X_STATE_RXFIFO_ERROR)
    (hcrc : rxb (rxFill hw rx) (u8 hw.numRxBytes - 1) &&& CC1125_CRC_ERR_CHECK_BM ≠ 0) :
    ∃ u', radioPass hw u rx = radioRxDispatch false u' (rxFill hw rx) ∧
      u'.rf = { u.rf with
        chipFlag := RESET_FLAG
        timerOn := false
        comm := { u.rf.comm with chPacketSendRetryCounter := 0 }
        log := u.rf.log ++ [.stopCommTimer] } := by
  simp only [FW.rf] at hm hlb hf
  have hp : radioPass hw u rx = radioRx hw false u rx := by
    simp [radioPass, hm, hlb, RADIO_TX_MODE, RADIO_PWR_CHECK_MODE, RADIO_LINK_SELECT_MODE,
      LB_STEP_0, TX_TIME_OUT_MODE, RADIO_RX_MODE]
  rw [hp]
  unfold rxFill at hcrc
  have hn' : u8 hw.numRxBytes > RESET_VALUE := hn
  simp only [radioRx, fnCC112xReceiveDataAvail, hf, hspi, hn', hmarc, hcrc, FW.hw,
    fnRadioCommunicationTimerDisable, hlb, if_true, if_false, not_true_eq_false, ne_eq,
    not_false_eq_true, rxFill]
  refine ⟨_, rfl, ?_⟩
  simp [FW.rf, FW.hw, RESET_FLAG, hlb]

/-- A NACK (out of sequence, invalid packet, invalid format) received with the retry counter at
`r`: the counter becomes `r + 1` and, while that is below `MAX_RF_COMM_RETRY`, the engine asks
for another pass from Tx. -/
theorem dispatch_nack (u : FW) (rx : List Nat)
    (hty : rxb rx 1 = NACK_OUT_OF_SEQUENCE ∨ rxb rx 1 = NACK_INVALID_PACKET ∨
      rxb rx 1 = NACK_INVALID_MSG_FORMAT)
    (hlt : u8 (u.rf.comm.chPacketSendRetryCounter + 1) < MAX_RF_COMM_RETRY) :
    ∃ u', radioRxDispatch false u rx = Pass.test true u' rx ∧
      u'.rf = { u.rf with
        mode := RADIO_TX_MODE
        comm := { u.rf.comm with
          chPacketSendRetryCounter := u8 (u.rf.comm.chPacketSendRetryCounter + 1) }
        log := u.rf.log ++ [.debugError SENSOR_CC1125_NACK_RECEIVED] } := by
  simp only [FW.rf] at hlt
  have h1 : rxb rx 1 ≠ ACK_RECEIPT_LAST_DATA_PACKET := by
    rcases hty with h | h | h <;> rw [h] <;> decide
  simp only [radioRxDispatch, h1, hty, retryOrQuit, hlt, if_true, if_false,
    SEND_DEBUG_ERROR_CODES, FW.hw]
  refine ⟨_, rfl, ?_⟩
  simp [FW.rf]

/-- As `pass_rx_timeout_retry`, with the retry counter at the limit after the increment and
the doubling counter below `COMM_WAIT_TIME_DOUBLE_RETRY`: the timeout is doubled, the retry
counter reset, and the packet is sent again. -/
theorem pass_rx_timeout_double (hw : HwIn) (u : FW) (rx : List Nat)
    (hm : u.rf.mode = RADIO_RX_MODE) (hlb : u.rf.loopBack = LB_STEP_0)
    (hf : u.rf.chipFlag = RESET_FLAG) (hto : u.rf.timeOut ≠ 0)
    (hge : ¬ u8 (u.rf.comm.chPacketSendRetryCounter + 1) < MAX_RF_COMM_RETRY)
    (hd : u.rf.doubling < COMM_WAIT_TIME_DOUBLE_RETRY) :
    ∃ u', radioPass hw u rx = Pass.test true u' rx ∧
      u'.rf = { u.rf with
        mode := RADIO_TX_MODE
        doubling := u8 (u.rf.doubling + 1)
        master := { u.rf.master with nCommTimeout := doubled u.rf.master.nCommTimeout }
        comm := ({ u.rf.comm with chPacketSendRetryCounter := RESET_COUNTER }).setOverrunErrorID
          SENSOR_COMM_WAIT_TIME_MISMATCH
        log := u.rf.log ++ [.debugError SENSOR_CC1125_COMMUNICATION_WAIT_TIMEOUT] } := by
  simp only [FW.rf] at hm hlb hf hto hge hd
  have hp : radioPass hw u rx = radioRx hw false u rx := by
    simp [radioPass, hm, hlb, RADIO_TX_MODE, RADIO_PWR_CHECK_MODE, RADIO_LINK_SELECT_MODE,
      LB_STEP_0, TX_TIME_OUT_MODE, RADIO_RX_MODE]
  rw [hp]
  have hf' : ¬ u.gchDataCommFlagCC1125 = SET_FLAG := by rw [hf]; decide
  simp only [radioRx, fnCC112xReceiveDataAvail, hf', hto, hlb, hge, hd, if_true, if_false,
    RETURN_FALSE, RETURN_TRUE, ne_eq, not_false_eq_true, not_true_eq_false,
    SEND_DEBUG_ERROR_CODES, SEND_ERROR_CODE_OVER_RF, FW.hw, show ¬ ((-1 : Int) = 0) by decide]
  by_cases hcap : u16 (u.ghMasterTaskTable.nCommTimeout * 2) > MAX_COMM_WAIT_TIME_VALUE
  · simp only [hcap, if_true]
    refine ⟨_, rfl, ?_⟩
    simp [FW.rf, doubled, hcap, SENSOR_COMM_MANAGER.setOverrunErrorID, hlb]
  · simp only [hcap, if_false]
    refine ⟨_, rfl, ?_⟩
    simp [FW.rf, doubled, hcap, SENSOR_COMM_MANAGER.setOverrunErrorID, hlb]

/-- An invocation that finds the engine in `RADIO_TX_MODE` sends the current packet and ends
not-done, waiting for transmit-complete. -/
theorem handler_tx (env : Env) (hup : LinkUp env) (fuel : Nat) (s : FW) (rx : List Nat)
    (hm : s.rf.mode = RADIO_TX_MODE) (hlb : s.rf.loopBack = LB_STEP_0) :
    ∃ s1 f, radioLoop env (fuel + 1) s rx = some (RETURN_FALSE, s1) ∧
      s1.rf = { s.rf with
        mode := TX_TIME_OUT_MODE
        comm := s.rf.comm.setOverrunErrorID SENSOR_NO_ERROR
        buff := wr2 s.rf.buff s.rf.comm.chPacketCounter PACKET_ERROR_CONTROL_INDEX
          s.rf.comm.chPacketCheck
        chipFlag := f
        timeOut := 0
        timerOn := true
        log := s.rf.log ++ [.strobe CC112X_SFTX, .strobe CC112X_SIDLE,
          .txFifo (frameOf ((wr2 s.rf.buff s.rf.comm.chPacketCounter PACKET_ERROR_CONTROL_INDEX
            s.rf.comm.chPacketCheck).getD s.rf.comm.chPacketCounter [])),
          .strobe CC112X_STX, .startCommTimer CC1125_TX_COMPLETE_TIMEOUT_WAIT] } := by
  have hu := serviceIrqs_rf (env s) s
  have hmarc := (hup s).2.2.1 hm
  obtain ⟨u', hp, hv⟩ := pass_tx (env s) (serviceIrqs (env s) s) rx (by rw [hu]; exact hm)
    (by rw [hu]; exact hlb) hmarc
  refine ⟨u', u'.rf.chipFlag, radioLoop_one_false env fuel s u' rx rx hp, ?_⟩
  rw [hv, hu]

/-- An invocation that finds the engine waiting for transmit-complete on a link that is up:
the transmission is complete, the comm-wait timer is started with `nCommTimeout`. -/
theorem handler_txdone (env : Env) (hup : LinkUp env) (fuel : Nat) (s : FW) (rx : List Nat)
    (hm : s.rf.mode = TX_TIME_OUT_MODE) (hlb : s.rf.loopBack = LB_STEP_0) :
    ∃ s1, radioLoop env (fuel + 1) s rx = some (RETURN_FALSE, s1) ∧
      s1.rf = { s.rf with
        mode := RADIO_RX_MODE
        chipFlag := RESET_FLAG
        timeOut := 0
        timerOn := true
        log := s.rf.log ++ [.strobe CC112X_SRX, .stopCommTimer,
          .startCommTimer s.rf.master.nCommTimeout] } := by
  have hu := serviceIrqs_rf (env s) s
  have hirq := (hup s).2.2.2 hm
  obtain ⟨u', hp, hv⟩ := pass_txdone (env s) (serviceIrqs (env s) s) rx (by rw [hu]; exact hm)
    (by rw [hu]; exact hlb) (by rw [hu]; simp [hirq, SET_FLAG])
  refine ⟨u', radioLoop_one_false env fuel s u' rx rx hp, ?_⟩
  rw [hv, hu]

/-- An invocation that finds the engine waiting for the reply when the console has sent a
CRC-valid frame: the frame is received and dispatched.  The lemma gives the state handed to the
dispatch. -/
theorem handler_rx_valid (env : Env) (ty : Nat) (henv : ReplyEnv ty env) (s : FW) (rx : List Nat)
    (hm : s.rf.mode = RADIO_RX_MODE) (hlb : s.rf.loopBack = LB_STEP_0) :
    ∃ u t, radioPass (env s) (serviceIrqs (env s) s) rx =
        radioRxDispatch false u (rxFill (env s) rx) ∧
      rxb (rxFill (env s) rx) 1 = ty ∧
      u.rf = { s.rf with
        chipFlag := RESET_FLAG
        timeOut := t
        timerOn := false
        comm := { s.rf.comm with chPacketSendRetryCounter := 0 }
        log := s.rf.log ++ [.stopCommTimer] } := by
  have hu := serviceIrqs_rf (env s) s
  obtain ⟨h1, h2, h3, h4, h5, h6⟩ := henv.2 s hm
  obtain ⟨u', hp, hv⟩ := pass_rx_valid (env s) (serviceIrqs (env s) s) rx (by rw [hu]; exact hm)
    (by rw [hu]; exact hlb) (by rw [hu]; simp [h1, SET_FLAG]) h2 h3 h4 (h5 rx)
  refine ⟨u', u'.rf.timeOut, hp, h6 rx, ?_⟩
  rw [hv, hu]

/-- The console answers with a NACK (out of sequence, invalid packet or invalid format): the
reception has reset the retry counter, the NACK makes it 1, and the same packet is sent again in
the same invocation, which ends not-done waiting for transmit-complete. -/
theorem handler_rx_nack (env : Env) (ty : Nat) (henv : ReplyEnv ty env)
    (hty : ty = NACK_OUT_OF_SEQUENCE ∨ ty = NACK_INVALID_PACKET ∨ ty = NACK_INVALID_MSG_FORMAT)
    (fuel : Nat) (s : FW) (rx : List Nat)
    (hm : s.rf.mode = RADIO_RX_MODE) (hlb : s.rf.loopBack = LB_STEP_0) :
    ∃ s1 f, radioLoop env (fuel + 2) s rx = some (RETURN_FALSE, s1) ∧
      s1.rf = { s.rf with
        mode := TX_TIME_OUT_MODE
        chipFlag := f
        timeOut := 0
        timerOn := true
        comm := ({ s.rf.comm with chPacketSendRetryCounter := 1 }).setOverrunErrorID
          SENSOR_NO_ERROR
        buff := wr2 s.rf.buff s.rf.comm.chPacketCounter PACKET_ERROR_CONTROL_INDEX
          s.rf.comm.chPacketCheck
        log := s.rf.log ++ [.stopCommTimer, .debugError SENSOR_CC1125_NACK_RECEIVED,
          .strobe CC112X_SFTX, .strobe CC112X_SIDLE,
          .txFifo (frameOf ((wr2 s.rf.buff s.rf.comm.chPacketCounter PACKET_ERROR_CONTROL_INDEX
            s.rf.comm.chPacketCheck).getD s.rf.comm.chPacketCounter [])),
          .strobe CC112X_STX, .startCommTimer CC1125_TX_COMPLETE_TIMEOUT_WAIT] } := by
  obtain ⟨u, t, hp, hty', hv⟩ := handler_rx_valid env _ henv s rx hm hlb
  obtain ⟨u', hd, hv'⟩ := dispatch_nack u (rxFill (env s) rx) (by rw [hty']; exact hty)
    (by rw [hv]; simp [u8, MAX_RF_COMM_RETRY])
  have h1 := radioLoop_one_more env (fuel + 1) s u' rx _ (hp.trans hd)
  obtain ⟨s1, f, h2, hv2⟩ := handler_tx env henv.1 fuel u' (rxFill (env s) rx)
    (by rw [hv']) (by rw [hv', hv]; exact hlb)
  refine ⟨s1, f, h1.trans h2, ?_⟩
  rw [hv2, hv', hv]
  simp [u8, SENSOR_COMM_MANAGER.setOverrunErrorID]

theorem NotDone_snoc (task : FW → Option (Int × FW)) :
    ∀ (k : Nat) (s s1 s2 : FW), NotDone task k s s1 → task s1 = some (RETURN_FALSE, s2) →
      NotDone task (k + 1) s s2
  | 0, s, s1, s2, h, ht => by
    cases h
    exact ⟨s2, ht, rfl⟩
  | k + 1, s, s1, s2, ⟨m, hm, hrest⟩, ht => ⟨m, hm, NotDone_snoc task k m s1 s2 hrest ht⟩

theorem NotDone_trans (task : FW → Option (Int × FW)) :
    ∀ (b a : Nat) (s s1 s2 : FW), NotDone task a s s1 → NotDone task b s1 s2 →
      NotDone task (a + b) s s2
  | 0, _, _, _, _, h1, h2 => by
    cases h2
    exact h1
  | b + 1, a, s, s1, s2, h1, ⟨m, hm, hrest⟩ => by
    have h := NotDone_trans task b (a + 1) s m s2 (NotDone_snoc task a s s1 m h1 hm) hrest
    have e : a + 1 + b = a + (b + 1) := by omega
    rw [← e]
    exact h

/-- One NACKed round trip: from the wait for transmit-complete, two invocations of the handler
(transmit-complete, then reception of the NACK and retransmission) report not-done and leave the
engine waiting for transmit-complete of the same packet again, the retry counter at 1. -/
theorem nack_round (env : Env) (ty : Nat) (henv : ReplyEnv ty env)
    (hty : ty = NACK_OUT_OF_SEQUENCE ∨ ty = NACK_INVALID_PACKET ∨ ty = NACK_INVALID_MSG_FORMAT)
    (fuel : Nat) (s : FW)
    (hm : s.rf.mode = TX_TIME_OUT_MODE) (hlb : s.rf.loopBack = LB_STEP_0) :
    ∃ s2, NotDone (fnRadioTxRxHandler env (fuel + 2)) 2 s s2 ∧
      s2.rf.mode = TX_TIME_OUT_MODE ∧ s2.rf.loopBack = LB_STEP_0 ∧
      s2.rf.comm.chPacketCounter = s.rf.comm.chPacketCounter ∧
      s2.rf.comm.chPacketSendRetryCounter = 1 ∧
      txCount s2.rf.log = txCount s.rf.log + 1 := by
  obtain ⟨s1, h1, v1⟩ := handler_txdone env henv.1 (fuel + 1) s
    (List.replicate MAX_COMM_PACKET_SIZE 0) hm hlb
  obtain ⟨s2, f, h2, v2⟩ := handler_rx_nack env ty henv hty fuel s1
    (List.replicate MAX_COMM_PACKET_SIZE 0) (by rw [v1]) (by rw [v1]; exact hlb)
  refine ⟨s2, ⟨s1, h1, s2, h2, rfl⟩, ?_, ?_, ?_, ?_, ?_⟩
  · rw [v2]
  · rw [v2, v1]; exact hlb
  · rw [v2, v1]; rfl
  · rw [v2, v1]; rfl
  · rw [v2, v1]
    simp [txCount, List.count_append, List.count_cons, CC112X_STX, CC112X_SRX, CC112X_SFTX,
      CC112X_SIDLE]

/-- The scripted console `envReply` keeps the link up. -/
theorem envReply_linkUp (reply : List Nat) : LinkUp (envReply reply) := by
  intro s
  refine ⟨fun _ => rfl, fun _ => rfl, fun _ => ?_, fun h => ?_⟩
  · simp [envReply, u8, CC112X_STATE_TXFIFO_ERROR]
  · simp [envReply, h]

/-- The scripted console answering with `frameNack` is a console that NACKs every packet. -/
theorem envReply_nack : ReplyEnv NACK_INVALID_PACKET (envReply frameNack) := by
  refine ⟨envReply_linkUp _, fun s h => ⟨?_, rfl, ?_, ?_, fun rx => ?_, fun rx => ?_⟩⟩
  · simp [envReply, h]
  · simp [envReply, frameNack, u8]
  · simp [envReply, u8, CC112X_STATE_RXFIFO_ERROR]
  · simp [rxFill, envReply, frameNack, rxb, rd, u8, CC1125_CRC_ERR_CHECK_BM]
  · simp [rxFill, envReply, frameNack, rxb, rd, u8, NACK_INVALID_PACKET]

/-- C1 (code defect): the NACK retries of `fnRadioTxRxHandler` are not bounded.  On a console that
answers every transmission with a CRC-valid NACK (out of sequence, invalid packet or invalid
format), from the engine about to transmit a packet outside loop-back, for every `n` the first
`2 * n + 1` invocations of the handler all report not-done, the packet counter has not moved, the
packet has been transmitted `n + 1` times, and after the first NACK the retry counter is 1: every
CRC-valid reception resets `chPacketSendRetryCounter` before the NACK branch increments and tests
it, so it never reaches `MAX_RF_COMM_RETRY`. -/
theorem nack_retries_unbounded (env : Env) (ty : Nat) (henv : ReplyEnv ty env)
    (hty : ty = NACK_OUT_OF_SEQUENCE ∨ ty = NACK_INVALID_PACKET ∨ ty = NACK_INVALID_MSG_FORMAT)
    (fuel : Nat) (s : FW)
    (hm : s.gchRadioCommStepMode = RADIO_TX_MODE) (hlb : s.gchSensorLoopBack = LB_STEP_0)
    (n : Nat) :
    ∃ s', NotDone (fnRadioTxRxHandler env (fuel + 2)) (2 * n + 1) s s' ∧
      s'.gchRadioCommStepMode = TX_TIME_OUT_MODE ∧ s'.gchSensorLoopBack = LB_STEP_0 ∧
      s'.ghSensorCommManager.chPacketCounter = s.ghSensorCommManager.chPacketCounter ∧
      txCount s'.hwLog = txCount s.hwLog + (n + 1) ∧
      (0 < n → s'.ghSensorCommManager.chPacketSendRetryCounter = 1) := by
  induction n with
  | zero =>
    obtain ⟨s1, f, h1, v1⟩ := handler_tx env henv.1 (fuel + 1) s
      (List.replicate MAX_COMM_PACKET_SIZE 0) hm hlb
    refine ⟨s1, ⟨s1, h1, rfl⟩, ?_, ?_, ?_, ?_, fun h => absurd h (by decide)⟩
    · exact congrArg RfView.mode v1
    · exact (congrArg RfView.loopBack v1).trans hlb
    · exact congrArg (fun v => v.comm.chPacketCounter) v1
    · have := congrArg (fun v => txCount v.log) v1
      simpa [FW.rf, txCount, List.count_append, List.count_cons, CC112X_STX, CC112X_SFTX,
        CC112X_SIDLE] using this
  | succ n ih =>
    obtain ⟨s1, hn, hm1, hlb1, hc1, ht1, _⟩ := ih
    obtain ⟨s2, h2, hm2, hlb2, hc2, hr2, ht2⟩ := nack_round env ty henv hty fuel s1 hm1 hlb1
    have e : 2 * (n + 1) + 1 = 2 * n + 1 + 2 := by omega
    rw [e]
    refine ⟨s2, NotDone_trans _ 2 _ s s1 s2 hn h2, hm2, hlb2, hc2.trans hc1, ?_, fun _ => hr2⟩
    simp only [FW.rf] at ht2
    rw [ht2, ht1]
    omega

/-- Witness of C1 on the scripted console: nine invocations, five transmissions of packet 0. -/
theorem nack_retries_unbounded_witness :
    ReplyEnv NACK_INVALID_PACKET (envReply frameNack) ∧
    fwDownload3Tx.gchRadioCommStepMode = RADIO_TX_MODE ∧
    fwDownload3Tx.gchSensorLoopBack = LB_STEP_0 ∧
    ∃ s', NotDone (fnRadioTxRxHandler (envReply frameNack) 2) (2 * 4 + 1) fwDownload3Tx s' ∧
      s'.gchRadioCommStepMode = TX_TIME_OUT_MODE ∧ s'.gchSensorLoopBack = LB_STEP_0 ∧
      s'.ghSensorCommManager.chPacketCounter = fwDownload3Tx.ghSensorCommManager.chPacketCounter ∧
      txCount s'.hwLog = txCount fwDownload3Tx.hwLog + (4 + 1) ∧
      (0 < 4 → s'.ghSensorCommManager.chPacketSendRetryCounter = 1) :=
  ⟨envReply_nack, rfl, rfl,
    nack_retries_unbounded (envReply frameNack) NACK_INVALID_PACKET envReply_nack
      (Or.inr (Or.inl rfl)) 0 fwDownload3Tx rfl rfl 4⟩


/-! ## RF engine: start of an exchange -/

/-- The engine's view after the entry step of an exchange. -/
theorem commEntryReset_rf (s : FW) :
    ∃ d m, (commEntryReset s).rf =
        { s.rf with
          comm := { s.rf.comm with
            chPacketCounter := RESET_COUNTER, chPacketSendRetryCounter := RESET_COUNTER }
          doubling := d
          master := m } ∧
      m.chDataDownloadChannel = s.rf.master.chDataDownloadChannel ∧
      (s.rf.doubling < COMM_WAIT_TIME_DOUBLE_RETRY → d = s.rf.doubling ∧ m = s.rf.master) := by
  unfold commEntryReset
  by_cases h : s.gchCommWaitTimeDoubleCounter ≥ COMM_WAIT_TIME_DOUBLE_RETRY
  · refine ⟨RESET_COUNTER,
      { s.ghMasterTaskTable with nCommTimeout := s.gnDefaultCommWaitTimeValue }, ?_, rfl, ?_⟩
    · simp [FW.rf, h]
    · intro h2
      simp only [FW.rf] at h2
      omega
  · refine ⟨s.gchCommWaitTimeDoubleCounter, s.ghMasterTaskTable, ?_, rfl, fun _ => ⟨rfl, rfl⟩⟩
    simp [FW.rf, h]

/-- With a packet ready, an invocation that finds the engine at `COMM_ENTRY_POINT` does the
entry step and then what an invocation from `RADIO_PWR_CHECK_MODE` does. -/
theorem download_entry (env : Env) (fuel : Nat) (s : FW)
    (hr : s.rf.ready ≠ 0) (hm : s.rf.mode = COMM_ENTRY_POINT) :
    fnData_Download_Task env fuel s =
      fnData_Download_Task env fuel
        (commEntryReset { s with gchRadioCommStepMode := RADIO_PWR_CHECK_MODE }) := by
  simp only [FW.rf] at hr hm
  obtain ⟨d, m, v, _, _⟩ := commEntryReset_rf { s with gchRadioCommStepMode := RADIO_PWR_CHECK_MODE }
  have h1 : (commEntryReset { s with gchRadioCommStepMode := RADIO_PWR_CHECK_MODE }
      ).gchDataDownloadPacketReady ≠ 0 := by
    have e : _ = s.gchDataDownloadPacketReady := congrArg RfView.ready v
    simp only [FW.rf] at e
    rw [e]; exact hr
  have h2 : (commEntryReset { s with gchRadioCommStepMode := RADIO_PWR_CHECK_MODE }
      ).gchRadioCommStepMode ≠ COMM_ENTRY_POINT := by
    have e : _ = RADIO_PWR_CHECK_MODE := congrArg RfView.mode v
    simp only [FW.rf] at e
    rw [e]; decide
  conv_lhs => unfold fnData_Download_Task
  conv_rhs => unfold fnData_Download_Task
  rw [if_pos hr, if_pos h1]
  simp only [if_pos hm, if_neg h2]

/-- The sensor-record loop reaches its exit test with the counter at 255 after
`(43 * ((255 - c) / 2)) % 128` further passes at the latest, so more fuel than that changes
nothing. -/
theorem etUploadLoop_steps (buf : List Nat) :
    ∀ (n fuel c : Nat) (s : FW), c % 2 = 1 → c < 256 → (43 * ((255 - c) / 2)) % 128 = n →
      n < fuel → etUploadLoop buf fuel c s = etUploadLoop buf (n + 1) c s
  | 0, fuel + 1, c, s, hodd, hc, hn, _ => by
    have h255 : c = 255 := by omega
    have hlen := rxb_lt buf PACKET_LENGTH_INDEX
    have hnot : ¬ c < rxb buf PACKET_LENGTH_INDEX := by omega
    simp only [etUploadLoop, hnot, if_false]
  | n + 1, fuel + 1, c, s, hodd, hc, hn, hf => by
    simp only [etUploadLoop]
    by_cases hlt : c < rxb buf PACKET_LENGTH_INDEX
    · simp only [hlt, if_true]
      have h6 : SENSOR_ENTRY_OFFSET = 6 := rfl
      apply etUploadLoop_steps buf n fuel (u8 (c + SENSOR_ENTRY_OFFSET))
      · simp only [u8, h6]; omega
      · exact u8_lt _
      · simp only [u8, h6]; omega
      · omega
    · simp only [hlt, if_false]

/-- `ET_UPLOAD_FUEL` loop tests are always enough: with more fuel the loop gives the same
result. -/
theorem etUploadLoop_fuel (buf : List Nat) (extra : Nat) (s : FW) :
    etUploadLoop buf (ET_UPLOAD_FUEL + extra) SENSORS_START_INDEX s =
      etUploadLoop buf ET_UPLOAD_FUEL SENSORS_START_INDEX s := by
  have h := etUploadLoop_steps buf 83 (ET_UPLOAD_FUEL + extra) SENSORS_START_INDEX s
    (by decide) (by decide) (by decide) (by simp [ET_UPLOAD_FUEL]; omega)
  exact h

theorem collectWords_total (c : Nat) :
    ∀ (n k : Nat) (s : FW),
      (collectWords c n k s).gchTotalSensorEntry = s.gchTotalSensorEntry
  | 0, _, _ => rfl
  | n + 1, k, s => by
    rw [collectWords]
    exact (collectWords_total c n (k + 1) _).trans rfl

theorem collectSlot_total (c : Nat) (avail : Bool) (s : FW) :
    (collectSlot c avail s).1.gchTotalSensorEntry = s.gchTotalSensorEntry := by
  unfold collectSlot
  simp only []
  split_ifs
  · exact (collectWords_total c _ 0 _).trans rfl
  · exact (collectWords_total c _ 0 _).trans rfl
  · rfl

theorem collectFinalize_total (chk : Bool) (s : FW) :
    (collectFinalize chk s).gchTotalSensorEntry = s.gchTotalSensorEntry := rfl

/-- The slot walk leaves its loop through one of its exits before the fuel is used up: with
the slot counter below 255, at most 255 slots, and at least one pass and as many passes as
slots remain, more fuel gives the same result. -/
theorem collectLoop_steps :
    ∀ (fuel extra c : Nat) (avail : Bool) (k : Nat) (s : FW),
      c < 255 → s.gchTotalSensorEntry ≤ 255 → s.gchTotalSensorEntry ≤ c + fuel → 1 ≤ fuel →
      collectLoop (fuel + extra) c avail k s = collectLoop fuel c avail k s
  | 0, _, _, _, _, _, _, _, _, h => absurd h (by decide)
  | fuel + 1, extra, c, avail, k, s, hc, ht, hle, _ => by
    have e : fuel + 1 + extra = fuel + extra + 1 := by omega
    rw [e]
    have hu : u8 (c + 1) = c + 1 := u8_of_lt (by omega)
    have h1 := collectSlot_total c avail s
    simp only [collectLoop, hu]
    split_ifs with g1 g2 g3
    · rfl
    · rfl
    · have ht' := (collectFinalize_total (decide (c + 1 ≥ (collectSlot c avail s).1.gchTotalSensorEntry))
        (collectSlot c avail s).1).trans h1
      simp only [decide_eq_true_eq] at g3
      apply collectLoop_steps fuel extra (c + 1) _ _ _ (by omega) (by omega) (by omega)
        (by omega)
    · simp only [decide_eq_true_eq] at g2
      push_neg at g2
      apply collectLoop_steps fuel extra (c + 1) _ _ _ (by omega) (by omega) (by omega)
        (by omega)

/-- The fuel of `collectWalk` is always enough: with more fuel the walk gives the same result. -/
theorem collectWalk_fuel (extra : Nat) (s : FW) (h : s.gchTotalSensorEntry ≤ 255) :
    collectLoop (max s.gchTotalSensorEntry 1 + extra) RESET_COUNTER false 0
      { s with
        gchCollectionDataIndex := PACKET_DATA_MESSAGE_INDEX
        gchCollectionPacketIndex := RESET_VALUE } = collectWalk s := by
  unfold collectWalk
  exact collectLoop_steps (max s.gchTotalSensorEntry 1) extra RESET_COUNTER false 0
    { s with
      gchCollectionDataIndex := PACKET_DATA_MESSAGE_INDEX
      gchCollectionPacketIndex := RESET_VALUE }
    (by decide) h (by simp only [RESET_COUNTER]; omega) (by omega)


/-! ## Phase clock: Download follows Collection -/

theorem tickAfter_enable (a : Nat) (s : FW) :
    (tickAfter a s).gchTasks_Enable = s.gchTasks_Enable :=
  timing_enable { s with gchTasks_Active := a }

theorem tickAfter_divisor (a : Nat) (s : FW) :
    (tickAfter a s).ghMasterTaskTable.nRadioClockDivisor =
      s.ghMasterTaskTable.nRadioClockDivisor :=
  timing_divisor { s with gchTasks_Active := a }

theorem tickAfter_phase (a : Nat) (s : FW) :
    (tickAfter a s).gchSampleClockPhase =
      if u8 (s.gchSampleClockPhase + 1) > RTC_PHASE7 then RTC_PHASE0
      else u8 (s.gchSampleClockPhase + 1) :=
  timing_phase { s with gchTasks_Active := a }

theorem tickAfter_counter (a : Nat) (s : FW) :
    (tickAfter a s).ghMasterTaskTable.nRadioClockCounter =
      if (s.gchSampleClockPhase = RTC_PHASE1 ∧
            s.gchTasks_Enable &&& EXECUTION_TABLE_REQ_TASK ≠ 0) ∨
          (s.gchSampleClockPhase = RTC_PHASE6 ∧ s.gchTasks_Enable &&& DATA_COLLECTION_TASK ≠ 0)
      then
        if u16 (s.ghMasterTaskTable.nRadioClockCounter + 1) ≥
            s.ghMasterTaskTable.nRadioClockDivisor then RESET_COUNTER
        else u16 (s.ghMasterTaskTable.nRadioClockCounter + 1)
      else s.ghMasterTaskTable.nRadioClockCounter :=
  timing_counter { s with gchTasks_Active := a }

theorem tickAfter_active (a : Nat) (s : FW) :
    (tickAfter a s).gchTasks_Active =
      if s.gchSampleClockPhase = RTC_PHASE0 then
        if s.gchTasks_Enable &&& DATA_SAMPLING_TASK ≠ 0
        then a ||| DATA_SAMPLING_TASK else a
      else if s.gchSampleClockPhase = RTC_PHASE1 then
        if s.gchTasks_Enable &&& EXECUTION_TABLE_REQ_TASK ≠ 0 ∧
            u16 (s.ghMasterTaskTable.nRadioClockCounter + 1) ≥
              s.ghMasterTaskTable.nRadioClockDivisor
        then a ||| EXECUTION_TABLE_REQ_TASK else a
      else if s.gchSampleClockPhase = RTC_PHASE6 then
        if s.gchTasks_Enable &&& DATA_COLLECTION_TASK ≠ 0 ∧
            u16 (s.ghMasterTaskTable.nRadioClockCounter + 1) ≥
              s.ghMasterTaskTable.nRadioClockDivisor
        then a ||| DATA_COLLECTION_TASK else a
      else if s.gchSampleClockPhase = RTC_PHASE7 then
        if s.ghMasterTaskTable.nRadioClockCounter = RESET_COUNTER ∧
            s.gchTasks_Enable &&& DATA_DOWNLOAD_TASK ≠ 0
        then a ||| DATA_DOWNLOAD_TASK else a
      else a :=
  timing_active { s with gchTasks_Active := a }

/-- A tick that is not the phase-6 tick, with the Execution-Table-Request task disabled, leaves
the radio-clock counter alone. -/
theorem tick_no_check (a : Nat) (s : FW) (hE : s.gchTasks_Enable &&& EXECUTION_TABLE_REQ_TASK = 0)
    (hp : s.gchSampleClockPhase < 6) :
    (tickAfter a s).gchTasks_Enable = s.gchTasks_Enable ∧
    (tickAfter a s).gchSampleClockPhase = s.gchSampleClockPhase + 1 ∧
    (tickAfter a s).ghMasterTaskTable.nRadioClockDivisor =
      s.ghMasterTaskTable.nRadioClockDivisor ∧
    (tickAfter a s).ghMasterTaskTable.nRadioClockCounter =
      s.ghMasterTaskTable.nRadioClockCounter := by
  have hu : u8 (s.gchSampleClockPhase + 1) = s.gchSampleClockPhase + 1 := u8_of_lt (by omega)
  refine ⟨tickAfter_enable a s, ?_, tickAfter_divisor a s, ?_⟩
  · rw [tickAfter_phase, hu, RTC_PHASE7, RTC_PHASE0, if_neg (by omega)]
  · rw [tickAfter_counter, if_neg]
    intro h
    rcases h with ⟨_, h⟩ | ⟨h, _⟩
    · exact h hE
    · rw [RTC_PHASE6] at h; omega

/-- The ticks of phases `n, n + 1, ...` up to phase 5, with the Execution-Table-Request task
disabled, leave the radio-clock counter alone. -/
theorem ticks_no_check (acts : List Nat) : ∀ (n : Nat) (s : FW),
    s.gchTasks_Enable &&& EXECUTION_TABLE_REQ_TASK = 0 → s.gchSampleClockPhase = n →
    n + acts.length ≤ 6 →
    (ticks acts s).gchTasks_Enable = s.gchTasks_Enable ∧
    (ticks acts s).gchSampleClockPhase = n + acts.length ∧
    (ticks acts s).ghMasterTaskTable.nRadioClockDivisor =
      s.ghMasterTaskTable.nRadioClockDivisor ∧
    (ticks acts s).ghMasterTaskTable.nRadioClockCounter =
      s.ghMasterTaskTable.nRadioClockCounter := by
  induction acts with
  | nil => intro n s _ h2 _; exact ⟨rfl, by simpa using h2, rfl, rfl⟩
  | cons a rest ih =>
    intro n s h1 h2 h3
    simp only [List.length_cons] at h3
    obtain ⟨g1, g2, g3, g4⟩ := tick_no_check a s h1 (by omega)
    obtain ⟨k1, k2, k3, k4⟩ := ih (n + 1) (tickAfter a s) (by rw [g1]; exact h1)
      (by rw [g2, h2]) (by omega)
    simp only [ticks, List.length_cons]
    exact ⟨k1.trans g1, by rw [k2]; omega, k3.trans g3, k4.trans g4⟩

/-- C11. Download follows Collection.  Take a clock cycle that starts at phase 0 with the
Collection and Download tasks enabled, the Execution-Table-Request task disabled, a radio-clock
divisor `d >= 1` and `nRadioClockCounter < d`.  Whatever the task manager did to
`gchTasks_Active` between the ticks, the seventh tick of the cycle is the phase-6 tick, the
eighth is the phase-7 tick, and the phase-7 tick sets the Download bit in `gchTasks_Active`
exactly when the phase-6 tick of the same cycle has set the Collection bit. -/
theorem download_follows_collection (s0 : FW) (d : Nat) (hd : 1 ≤ d) (hd16 : d < 65536)
    (hph : s0.gchSampleClockPhase = RTC_PHASE0)
    (hdiv : s0.ghMasterTaskTable.nRadioClockDivisor = d)
    (hcnt : s0.ghMasterTaskTable.nRadioClockCounter < d)
    (hC : s0.gchTasks_Enable &&& DATA_COLLECTION_TASK ≠ 0)
    (hD : s0.gchTasks_Enable &&& DATA_DOWNLOAD_TASK ≠ 0)
    (hE : s0.gchTasks_Enable &&& EXECUTION_TABLE_REQ_TASK = 0)
    (acts : List Nat) (hlen : acts.length = 6) (a6 a7 : Nat)
    (h6 : a6 &&& DATA_COLLECTION_TASK = 0) (h7 : a7 &&& DATA_DOWNLOAD_TASK = 0) :
    (ticks acts s0).gchSampleClockPhase = RTC_PHASE6 ∧
    (tickAfter a6 (ticks acts s0)).gchSampleClockPhase = RTC_PHASE7 ∧
    ((tickAfter a7 (tickAfter a6 (ticks acts s0))).gchTasks_Active &&& DATA_DOWNLOAD_TASK ≠ 0 ↔
      (tickAfter a6 (ticks acts s0)).gchTasks_Active &&& DATA_COLLECTION_TASK ≠ 0) := by
  obtain ⟨g1, g2, g3, g4⟩ := ticks_no_check acts 0 s0 hE hph (by omega)
  rw [hlen] at g2
  generalize ticks acts s0 = s6 at g1 g2 g3 g4 ⊢
  have hu : u16 (s6.ghMasterTaskTable.nRadioClockCounter + 1) =
      s6.ghMasterTaskTable.nRadioClockCounter + 1 := by
    unfold u16; rw [g4]; omega
  have e6 : (tickAfter a6 s6).gchSampleClockPhase = RTC_PHASE7 := by
    rw [tickAfter_phase, g2]; decide
  have ec : (tickAfter a6 s6).ghMasterTaskTable.nRadioClockCounter =
      if s6.ghMasterTaskTable.nRadioClockCounter + 1 ≥ d then RESET_COUNTER
      else s6.ghMasterTaskTable.nRadioClockCounter + 1 := by
    rw [tickAfter_counter, if_pos (Or.inr ⟨g2, by rw [g1]; exact hC⟩), hu, g3, hdiv]
  have ea : (tickAfter a6 s6).gchTasks_Active =
      if s6.ghMasterTaskTable.nRadioClockCounter + 1 ≥ d then a6 ||| DATA_COLLECTION_TASK
      else a6 := by
    rw [tickAfter_active, g2, hu, g3, hdiv, g1]
    simp [hC, RTC_PHASE0, RTC_PHASE1, RTC_PHASE6]
  have ee : (tickAfter a6 s6).gchTasks_Enable = s0.gchTasks_Enable := by
    rw [tickAfter_enable, g1]
  have e7 : (tickAfter a7 (tickAfter a6 s6)).gchTasks_Active =
      if (tickAfter a6 s6).ghMasterTaskTable.nRadioClockCounter = RESET_COUNTER
      then a7 ||| DATA_DOWNLOAD_TASK else a7 := by
    rw [tickAfter_active, e6, ee]
    simp [hD, RTC_PHASE0, RTC_PHASE1, RTC_PHASE6, RTC_PHASE7]
  refine ⟨g2, e6, ?_⟩
  rw [e7, ea, ec]
  by_cases h : s6.ghMasterTaskTable.nRadioClockCounter + 1 ≥ d
  · simp only [h, if_true]
    simp only [DATA_COLLECTION_TASK, DATA_DOWNLOAD_TASK] at h6 h7 ⊢
    simp [Nat.and_distrib_right, h6, h7]
  · simp only [h, if_false, RESET_COUNTER]
    simp [h6, h7]

/-- Witness of C11: the cycle after the table of `frameGyro` was put in force. -/
theorem download_follows_collection_witness :
    fwGyroRunning.gchSampleClockPhase = RTC_PHASE0 ∧
    fwGyroRunning.ghMasterTaskTable.nRadioClockDivisor = 5 ∧
    fwGyroRunning.ghMasterTaskTable.nRadioClockCounter < 5 ∧
    fwGyroRunning.gchTasks_Enable &&& DATA_COLLECTION_TASK ≠ 0 ∧
    fwGyroRunning.gchTasks_Enable &&& DATA_DOWNLOAD_TASK ≠ 0 ∧
    fwGyroRunning.gchTasks_Enable &&& EXECUTION_TABLE_REQ_TASK = 0 ∧
    (ticks (List.replicate 6 0) fwGyroRunning).gchSampleClockPhase = RTC_PHASE6 ∧
    (tickAfter 0 (ticks (List.replicate 6 0) fwGyroRunning)).gchSampleClockPhase = RTC_PHASE7 ∧
    ((tickAfter 0 (tickAfter 0 (ticks (List.replicate 6 0) fwGyroRunning))).gchTasks_Active &&&
        DATA_DOWNLOAD_TASK ≠ 0 ↔
      (tickAfter 0 (ticks (List.replicate 6 0) fwGyroRunning)).gchTasks_Active &&&
        DATA_COLLECTION_TASK ≠ 0) :=
  ⟨by decide, by decide, by decide, by decide, by decide, by decide,
    download_follows_collection fwGyroRunning 5 (by decide) (by decide) (by decide) (by decide)
      (by decide) (by decide) (by decide) (by decide) (List.replicate 6 0) (by decide) 0 0
      (by decide) (by decide)⟩


/-! ## Phase clock: the default table after boot -/

theorem ticksClearing_eq_ticks (masks : List Nat) :
    ∀ s : FW, ∃ acts : List Nat, acts.length = masks.length ∧ ticksClearing masks s = ticks acts s := by
  induction masks with
  | nil => intro s; exact ⟨[], rfl, rfl⟩
  | cons m rest ih =>
    intro s
    obtain ⟨acts, h1, h2⟩ := ih (tickClearing m s)
    exact ⟨(s.gchTasks_Active &&& m) :: acts, by simp [h1], h2⟩

/-- The state left by `fnSoftwareInit` and the default execution table. -/
theorem default_init_state (s : FW) :
    (fnDefaultExecutionTableInit (fnSoftwareInit s)).gchTasks_Enable = EXECUTION_TABLE_REQ_TASK ∧
    (fnDefaultExecutionTableInit (fnSoftwareInit s)).gchTasks_Active = 0 ∧
    (fnDefaultExecutionTableInit (fnSoftwareInit s)).gchSampleClockPhase = RTC_PHASE0 ∧
    (fnDefaultExecutionTableInit (fnSoftwareInit s)).ghMasterTaskTable.nRadioClockDivisor =
      DEFAULT_ET_RADIO_CLOCK ∧
    (fnDefaultExecutionTableInit (fnSoftwareInit s)).ghMasterTaskTable.nRadioClockCounter =
      s.ghMasterTaskTable.nRadioClockCounter := by
  refine ⟨?_, rfl, rfl, rfl, rfl⟩
  simp [fnDefaultExecutionTableInit, fnDefaultTaskingTableInit, fnSoftwareInit, fnConfigureSampleClock, fnStopSampleClock,
    FW.hw, fnResetFirmwareResourceAllocations, DISABLE_ALL_TASKS, EXECUTION_TABLE_REQ_TASK,
    DATA_SAMPLING_TASK, DATA_COLLECTION_TASK, DATA_DOWNLOAD_TASK]
  decide

/-- A tick can only add bits to what the task manager left in `gchTasks_Active`. -/
theorem tickAfter_active_cases (a : Nat) (s : FW) :
    (tickAfter a s).gchTasks_Active = a ∨
    (tickAfter a s).gchTasks_Active = a ||| DATA_SAMPLING_TASK ∧
      s.gchTasks_Enable &&& DATA_SAMPLING_TASK ≠ 0 ∨
    (tickAfter a s).gchTasks_Active = a ||| EXECUTION_TABLE_REQ_TASK ∧
      s.gchTasks_Enable &&& EXECUTION_TABLE_REQ_TASK ≠ 0 ∨
    (tickAfter a s).gchTasks_Active = a ||| DATA_COLLECTION_TASK ∧
      s.gchTasks_Enable &&& DATA_COLLECTION_TASK ≠ 0 ∨
    (tickAfter a s).gchTasks_Active = a ||| DATA_DOWNLOAD_TASK ∧
      s.gchTasks_Enable &&& DATA_DOWNLOAD_TASK ≠ 0 := by
  rw [tickAfter_active]
  split_ifs with h1 h2 h3 h4 h5 h6 h7 h8
  · exact Or.inr (Or.inl ⟨rfl, h2⟩)
  · exact Or.inl rfl
  · exact Or.inr (Or.inr (Or.inl ⟨rfl, h4.1⟩))
  · exact Or.inl rfl
  · exact Or.inr (Or.inr (Or.inr (Or.inl ⟨rfl, h6.1⟩)))
  · exact Or.inl rfl
  · exact Or.inr (Or.inr (Or.inr (Or.inr ⟨rfl, h8.2⟩)))
  · exact Or.inl rfl
  · exact Or.inl rfl

/-- With only the Execution-Table-Request task enabled, a tick never sets the Sampling,
Collection or Download bit. -/
theorem tickClearing_data_bits (m : Nat) (s : FW)
    (hen : s.gchTasks_Enable = EXECUTION_TABLE_REQ_TASK)
    (ha : s.gchTasks_Active &&&
      (DATA_SAMPLING_TASK ||| DATA_COLLECTION_TASK ||| DATA_DOWNLOAD_TASK) = 0) :
    (tickClearing m s).gchTasks_Enable = EXECUTION_TABLE_REQ_TASK ∧
    (tickClearing m s).gchTasks_Active &&&
      (DATA_SAMPLING_TASK ||| DATA_COLLECTION_TASK ||| DATA_DOWNLOAD_TASK) = 0 := by
  have hm : (s.gchTasks_Active &&& m) &&&
      (DATA_SAMPLING_TASK ||| DATA_COLLECTION_TASK ||| DATA_DOWNLOAD_TASK) = 0 := by
    rw [Nat.and_assoc, Nat.and_comm m, ← Nat.and_assoc, ha, Nat.zero_and]
  refine ⟨by rw [tickClearing, tickAfter_enable, hen], ?_⟩
  rcases tickAfter_active_cases (s.gchTasks_Active &&& m) s with h | ⟨_, h⟩ | ⟨h, _⟩ | ⟨_, h⟩ |
      ⟨_, h⟩
  · rw [tickClearing, h, hm]
  · rw [hen] at h; exact absurd (by decide) h
  · rw [tickClearing, h, Nat.and_distrib_right, hm]; decide
  · rw [hen] at h; exact absurd (by decide) h
  · rw [hen] at h; exact absurd (by decide) h

theorem ticksClearing_data_bits (masks : List Nat) : ∀ s : FW,
    s.gchTasks_Enable = EXECUTION_TABLE_REQ_TASK →
    s.gchTasks_Active &&&
      (DATA_SAMPLING_TASK ||| DATA_COLLECTION_TASK ||| DATA_DOWNLOAD_TASK) = 0 →
    (ticksClearing masks s).gchTasks_Active &&&
      (DATA_SAMPLING_TASK ||| DATA_COLLECTION_TASK ||| DATA_DOWNLOAD_TASK) = 0 := by
  induction masks with
  | nil => intro s _ h; exact h
  | cons m rest ih =>
    intro s h1 h2
    obtain ⟨g1, g2⟩ := tickClearing_data_bits m s h1 h2
    exact ih _ g1 g2
theorem or_and_ne_zero (a x b : Nat) (h : a &&& b ≠ 0) : (a ||| x) &&& b ≠ 0 := by
  intro h0
  apply h
  apply Nat.eq_of_testBit_eq
  intro i
  have := congrArg (fun n => Nat.testBit n i) h0
  simp only [Nat.testBit_and, Nat.testBit_or, Nat.zero_testBit] at this ⊢
  cases ha : a.testBit i <;> cases hb : b.testBit i <;> simp_all

/-- A tick keeps the bits the task manager left in `gchTasks_Active`. -/
theorem tickAfter_active_mono (a bit : Nat) (s : FW) (h : a &&& bit ≠ 0) :
    (tickAfter a s).gchTasks_Active &&& bit ≠ 0 := by
  rcases tickAfter_active_cases a s with e | ⟨e, _⟩ | ⟨e, _⟩ | ⟨e, _⟩ | ⟨e, _⟩ <;> rw [e]
  · exact h
  all_goals exact or_and_ne_zero _ _ _ h

/-- The phase-0 and phase-1 ticks from the default table: the first occurrence of phase 1
counts `nRadioClockCounter` up once, from whatever value it had. -/
theorem default_first_ticks (m0 m1 : Nat) (s : FW)
    (hen : s.gchTasks_Enable = EXECUTION_TABLE_REQ_TASK)
    (hph : s.gchSampleClockPhase = RTC_PHASE0)
    (hdiv : s.ghMasterTaskTable.nRadioClockDivisor = DEFAULT_ET_RADIO_CLOCK) :
    (tickClearing m0 s).gchTasks_Enable = EXECUTION_TABLE_REQ_TASK ∧
    (tickClearing m0 s).gchSampleClockPhase = RTC_PHASE1 ∧
    (tickClearing m0 s).ghMasterTaskTable.nRadioClockDivisor = DEFAULT_ET_RADIO_CLOCK ∧
    (tickClearing m0 s).ghMasterTaskTable.nRadioClockCounter =
      s.ghMasterTaskTable.nRadioClockCounter ∧
    (tickClearing m1 (tickClearing m0 s)).gchTasks_Enable = EXECUTION_TABLE_REQ_TASK ∧
    (tickClearing m1 (tickClearing m0 s)).gchSampleClockPhase = 2 ∧
    (tickClearing m1 (tickClearing m0 s)).ghMasterTaskTable.nRadioClockDivisor =
      DEFAULT_ET_RADIO_CLOCK ∧
    (tickClearing m1 (tickClearing m0 s)).ghMasterTaskTable.nRadioClockCounter =
      (if u16 (s.ghMasterTaskTable.nRadioClockCounter + 1) ≥ DEFAULT_ET_RADIO_CLOCK then 0
        else u16 (s.ghMasterTaskTable.nRadioClockCounter + 1)) ∧
    (u16 (s.ghMasterTaskTable.nRadioClockCounter + 1) ≥ DEFAULT_ET_RADIO_CLOCK →
      (tickClearing m1 (tickClearing m0 s)).gchTasks_Active &&& EXECUTION_TABLE_REQ_TASK ≠ 0) := by
  have a1 : (tickClearing m0 s).gchTasks_Enable = EXECUTION_TABLE_REQ_TASK := by
    rw [tickClearing, tickAfter_enable, hen]
  have a2 : (tickClearing m0 s).gchSampleClockPhase = RTC_PHASE1 := by
    rw [tickClearing, tickAfter_phase, hph]; decide
  have a3 : (tickClearing m0 s).ghMasterTaskTable.nRadioClockDivisor =
      DEFAULT_ET_RADIO_CLOCK := by
    rw [tickClearing, tickAfter_divisor, hdiv]
  have a4 : (tickClearing m0 s).ghMasterTaskTable.nRadioClockCounter =
      s.ghMasterTaskTable.nRadioClockCounter := by
    rw [tickClearing, tickAfter_counter, hph, if_neg]
    rintro (⟨h, _⟩ | ⟨h, _⟩) <;> exact absurd h (by decide)
  generalize tickClearing m0 s = s1 at a1 a2 a3 a4 ⊢
  refine ⟨a1, a2, a3, a4, ?_, ?_, ?_, ?_, ?_⟩
  · rw [tickClearing, tickAfter_enable, a1]
  · rw [tickClearing, tickAfter_phase, a2]; decide
  · rw [tickClearing, tickAfter_divisor, a3]
  · rw [tickClearing, tickAfter_counter, a2, a1, a3, a4, if_pos (Or.inl ⟨rfl, by decide⟩)]
    rfl
  · intro hge
    rw [tickClearing, tickAfter_active, a2, a1, a3, a4]
    have hc : EXECUTION_TABLE_REQ_TASK &&& EXECUTION_TABLE_REQ_TASK ≠ 0 ∧
        u16 (s.ghMasterTaskTable.nRadioClockCounter + 1) ≥ DEFAULT_ET_RADIO_CLOCK :=
      ⟨by decide, hge⟩
    simp only [RTC_PHASE0, RTC_PHASE1, if_true]
    rw [if_neg (show ¬ (1 : Nat) = 0 by decide), if_pos hc, Nat.or_comm]
    exact or_and_ne_zero EXECUTION_TABLE_REQ_TASK _ EXECUTION_TABLE_REQ_TASK (by decide)

/-- C12. Default boot activation.  From the state left by `fnSoftwareInit` and the default
execution-table initialisation (run on any state), for every sequence of phase-clock ticks
between which the task manager only clears bits of `gchTasks_Active`, the Sampling, Collection
and Download bits of `gchTasks_Active` are never set; and there is a clock cycle `k`
(`1 <= k <= 11`; it is 10 when `nRadioClockCounter` was 0 as after reset) whose second tick is a
phase-1 tick that leaves the Execution-Table-Request bit set. -/
theorem default_boot_activation (s : FW) :
    (∀ masks : List Nat,
      (ticksClearing masks (fnDefaultExecutionTableInit (fnSoftwareInit s))).gchTasks_Active &&&
        (DATA_SAMPLING_TASK ||| DATA_COLLECTION_TASK ||| DATA_DOWNLOAD_TASK) = 0) ∧
    ∃ k, 1 ≤ k ∧ k ≤ 11 ∧ (s.ghMasterTaskTable.nRadioClockCounter = 0 → k = 10) ∧
      ∀ (masks : List Nat) (m : Nat), masks.length = 8 * (k - 1) + 1 →
        (ticksClearing masks
          (fnDefaultExecutionTableInit (fnSoftwareInit s))).gchSampleClockPhase = RTC_PHASE1 ∧
        (tickClearing m (ticksClearing masks
          (fnDefaultExecutionTableInit (fnSoftwareInit s)))).gchTasks_Active &&&
            EXECUTION_TABLE_REQ_TASK ≠ 0 := by
  obtain ⟨i1, i2, i3, i4, i5⟩ := default_init_state s
  generalize fnDefaultExecutionTableInit (fnSoftwareInit s) = s0 at i1 i2 i3 i4 i5 ⊢
  have h10 : DEFAULT_ET_RADIO_CLOCK = 10 := rfl
  refine ⟨fun masks => ticksClearing_data_bits masks s0 i1 (by rw [i2]; rfl), ?_⟩
  have hlt : u16 (s.ghMasterTaskTable.nRadioClockCounter + 1) < 65536 := Nat.mod_lt _ (by decide)
  by_cases hge : u16 (s.ghMasterTaskTable.nRadioClockCounter + 1) ≥ DEFAULT_ET_RADIO_CLOCK
  · refine ⟨1, by omega, by omega, ?_, ?_⟩
    · intro h0
      rw [h0] at hge
      exact absurd hge (by decide)
    · intro masks m hlen
      match masks, hlen with
      | [m0], _ =>
        obtain ⟨_, a2, _, _, _, _, _, _, a9⟩ := default_first_ticks m0 m s0 i1 i3 i4
        rw [i5] at a9
        exact ⟨a2, a9 hge⟩
  · rw [h10] at hge
    generalize hc1 : u16 (s.ghMasterTaskTable.nRadioClockCounter + 1) = c1 at hge hlt
    refine ⟨11 - c1, by omega, by omega, ?_, ?_⟩
    · intro h0
      rw [h0] at hc1
      have : c1 = 1 := by rw [← hc1]; rfl
      omega
    · intro masks m hlen
      match masks, hlen with
      | [_], h =>
        simp only [List.length_cons, List.length_nil] at h
        omega
      | m0 :: m1 :: rest, hlen =>
        simp only [List.length_cons] at hlen
        obtain ⟨_, _, _, _, b1, b2, b3, b4, _⟩ := default_first_ticks m0 m1 s0 i1 i3 i4
        rw [i5, hc1, h10, if_neg hge] at b4
        simp only [ticksClearing]
        generalize tickClearing m1 (tickClearing m0 s0) = s2 at b1 b2 b3 b4 ⊢
        obtain ⟨acts, hl, he⟩ := ticksClearing_eq_ticks rest s2
        rw [he]
        obtain ⟨g1, g2, g3, g4, g5⟩ := ticks_inv 10 (by decide) (by decide)
          EXECUTION_TABLE_REQ_TASK DATA_COLLECTION_TASK 1 (Or.inl ⟨rfl, rfl, rfl⟩) acts
          (8 * ((c1 + 9) % 10) + 2) s2 (by rw [b1]; decide) (by rw [b1]; decide)
          (by rw [b2]; omega) (by rw [b3, h10]) (by rw [b4]; omega)
        have hn : 8 * ((c1 + 9) % 10) + 2 + acts.length =
            8 * ((c1 + 9) % 10 + 10 - c1) + 1 := by omega
        rw [hn] at g3 g5
        refine ⟨by rw [g3, RTC_PHASE1]; omega, ?_⟩
        by_cases ha : ((ticks acts s2).gchTasks_Active &&& m) &&& EXECUTION_TABLE_REQ_TASK = 0
        · have := (tick_inv 10 (by decide) (by decide) EXECUTION_TABLE_REQ_TASK
            DATA_COLLECTION_TASK 1 (Or.inl ⟨rfl, rfl, rfl⟩)
            (8 * ((c1 + 9) % 10 + 10 - c1) + 1) _ (ticks acts s2) g1 g2 g3 g4 g5).2.2.2.2 ha
          rw [tickClearing, this]
          refine ⟨by omega, ?_⟩
          rw [Nat.dvd_iff_mod_eq_zero]
          omega
        · exact tickAfter_active_mono _ _ _ ha


/-! ## Sampling task: slots and the due check -/

theorem slot_setSlot (s : FW) (i j : Nat) (y : SMART_SENSORS_STRUCT) :
    (s.setSlot i y).slot j =
      if j = i ∧ i < s.ghSensorControl.length then y else s.slot j := by
  simp only [FW.slot, FW.setSlot, List.getD_eq_getElem?_getD, List.getElem?_set]
  by_cases h : i = j
  · subst h
    by_cases h2 : i < s.ghSensorControl.length
    · simp [h2]
    · simp [h2, List.getElem?_eq_none (Nat.le_of_not_lt h2)]
  · have h' : ¬ j = i := fun e => h e.symm
    simp [h, h']

/-- A slot that is not due keeps the status of every slot. -/
theorem samplingDueSlot_not_due (i : Nat) (s : FW) (h : (samplingDueSlot i s).2 = false) (j : Nat) :
    ((samplingDueSlot i s).1.slot j).chSensorStatusFlag = (s.slot j).chSensorStatusFlag ∧
    (samplingDueSlot i s).1.gchTotalSensorEntry = s.gchTotalSensorEntry := by
  unfold samplingDueSlot at h ⊢
  simp only [] at h ⊢
  split_ifs at h ⊢ with h1 h2 h3
  all_goals first
    | exact absurd h (by decide)
    | (refine ⟨?_, rfl⟩
       rw [slot_setSlot]
       split_ifs with h4
       · rw [h4.1]
       · rfl)

theorem samplingDueLoop_not_due : ∀ (n i : Nat) (chk : Bool) (s : FW),
    (samplingDueLoop n i chk s).2 = false → ∀ j,
      ((samplingDueLoop n i chk s).1.slot j).chSensorStatusFlag = (s.slot j).chSensorStatusFlag ∧
      (samplingDueLoop n i chk s).1.gchTotalSensorEntry = s.gchTotalSensorEntry
  | 0, _, _, _, _, _ => ⟨rfl, rfl⟩
  | n + 1, i, chk, s, h, j => by
    rw [samplingDueLoop] at h ⊢
    have hr : (samplingDueSlot i s).2 = false := by
      cases hb : (samplingDueSlot i s).2
      · rfl
      · exfalso
        simp only [hb, Bool.or_true] at h
        have hk : ∀ (n i : Nat) (s : FW), (samplingDueLoop n i true s).2 = true := by
          intro n
          induction n with
          | zero => intro i s; rfl
          | succ n ih => intro i s; rw [samplingDueLoop]; simp only [Bool.true_or]; exact ih _ _
        rw [hk] at h
        exact absurd h (by decide)
    obtain ⟨g1, g2⟩ := samplingDueLoop_not_due n (i + 1) _ _ h j
    obtain ⟨k1, k2⟩ := samplingDueSlot_not_due i s hr j
    exact ⟨g1.trans k1, g2.trans k2⟩

/-- C14 (code defect): the sampling task reports done while a slot is in flight.  When an
invocation starts with `gchSampleClockIndicator` set and no slot is due at this sample clock,
`fnData_Sampling_Task` returns `RETURN_TRUE` right after the due check, without running the
sensor state machines or the final status check: a slot below `gchTotalSensorEntry` that was not
`SAMPLE_STATE_OFF` is still not `SAMPLE_STATE_OFF` at that return. -/
theorem sampling_done_with_slot_in_flight (drv : Nat → SensorIn) (s : FW) (i : Nat)
    (hind : s.gchSampleClockIndicator = SET_FLAG)
    (hnd : (samplingDueCheck s).2 = false)
    (hi : i < s.gchTotalSensorEntry)
    (hst : (s.slot i).chSensorStatusFlag ≠ SAMPLE_STATE_OFF) :
    (fnData_Sampling_Task drv s).1 = RETURN_TRUE ∧
    i < (fnData_Sampling_Task drv s).2.gchTotalSensorEntry ∧
    ((fnData_Sampling_Task drv s).2.slot i).chSensorStatusFlag =
      (s.slot i).chSensorStatusFlag ∧
    ((fnData_Sampling_Task drv s).2.slot i).chSensorStatusFlag ≠ SAMPLE_STATE_OFF := by
  have e : fnData_Sampling_Task drv s = (RETURN_TRUE, (samplingDueCheck s).1) := by
    unfold fnData_Sampling_Task
    simp only [hind, if_true, hnd]
  obtain ⟨g1, g2⟩ := samplingDueLoop_not_due s.gchTotalSensorEntry 0 false
    { s with gchSampleClockIndicator := RESET_FLAG } hnd i
  rw [e]
  refine ⟨rfl, ?_, ?_, ?_⟩
  · show i < (samplingDueCheck s).1.gchTotalSensorEntry
    unfold samplingDueCheck
    rw [g2]; exact hi
  · exact g1
  · show ((samplingDueCheck s).1.slot i).chSensorStatusFlag ≠ SAMPLE_STATE_OFF
    unfold samplingDueCheck
    rw [g1]; exact hst

set_option maxRecDepth 100000 in
/-- Witness of C14: the gyrometer slot of `frameGyro`, started at one sample clock and still
waiting for its driver at the next one, where it is not due. -/
theorem sampling_done_with_slot_in_flight_witness :
    fwGyroInFlight.gchSampleClockIndicator = SET_FLAG ∧
    (samplingDueCheck fwGyroInFlight).2 = false ∧
    0 < fwGyroInFlight.gchTotalSensorEntry ∧
    (fwGyroInFlight.slot 0).chSensorStatusFlag = SAMPLE_STATE_RUN_LVL0 ∧
    (fnData_Sampling_Task drvIdle fwGyroInFlight).1 = RETURN_TRUE ∧
    0 < (fnData_Sampling_Task drvIdle fwGyroInFlight).2.gchTotalSensorEntry ∧
    ((fnData_Sampling_Task drvIdle fwGyroInFlight).2.slot 0).chSensorStatusFlag =
      (fwGyroInFlight.slot 0).chSensorStatusFlag ∧
    ((fnData_Sampling_Task drvIdle fwGyroInFlight).2.slot 0).chSensorStatusFlag ≠
      SAMPLE_STATE_OFF :=
  ⟨by decide, by decide, by decide, by decide,
    sampling_done_with_slot_in_flight drvIdle fwGyroInFlight 0 (by decide) (by decide)
      (by decide) (by decide)⟩


/-! ## Sampling and collection: what one invocation does to one slot -/

theorem DueStep_refl (x : SMART_SENSORS_STRUCT) : DueStep x x := ⟨rfl, rfl, rfl, Or.inl rfl⟩

theorem DueStep_trans (x y z : SMART_SENSORS_STRUCT) (h1 : DueStep x y) (h2 : DueStep y z) :
    DueStep x z := by
  obtain ⟨a1, a2, a3, a4⟩ := h1
  obtain ⟨b1, b2, b3, b4⟩ := h2
  refine ⟨b1.trans a1, b2.trans a2, b3.trans a3, ?_⟩
  rcases a4 with a4 | ⟨a4, a5, a6⟩
  · rcases b4 with b4 | ⟨b4, b5, b6⟩
    · exact Or.inl (b4.trans a4)
    · exact Or.inr ⟨a4 ▸ b4, by rw [← a3, ← a2]; exact b5, b6⟩
  · rcases b4 with b4 | ⟨b4, _, _⟩
    · exact Or.inr ⟨a4, a5, b4.trans a6⟩
    · rw [a6] at b4; exact absurd b4 (by decide)

theorem RunStep_refl (x : SMART_SENSORS_STRUCT) : RunStep x x := by
  refine ⟨rfl, rfl, ?_⟩
  by_cases h : x.chSensorStatusFlag = SAMPLE_STATE_OFF
  · exact Or.inl ⟨h, h, rfl⟩
  · exact Or.inr (Or.inl ⟨h, h, rfl⟩)

theorem acqCount_congr (x y : SMART_SENSORS_STRUCT) (h1 : y.chSensorID = x.chSensorID)
    (h2 : y.chSensorSampleAvgTotalCount = x.chSensorSampleAvgTotalCount)
    (h3 : y.chSensorSampleAvgCounter = x.chSensorSampleAvgCounter) : acqCount y = acqCount x := by
  simp only [acqCount, h1, h2, h3]

theorem RunStep_trans (x y z : SMART_SENSORS_STRUCT) (h1 : RunStep x y) (h2 : RunStep y z) :
    RunStep x z := by
  obtain ⟨a1, a2, a3⟩ := h1
  obtain ⟨b1, b2, b3⟩ := h2
  refine ⟨b1.trans a1, b2.trans a2, ?_⟩
  rcases a3 with ⟨p1, p2, p3⟩ | ⟨p1, p2, p3⟩ | ⟨p1, p2, p3⟩ <;>
    rcases b3 with ⟨q1, q2, q3⟩ | ⟨q1, q2, q3⟩ | ⟨q1, q2, q3⟩
  · exact Or.inl ⟨p1, q2, q3.trans p3⟩
  · exact absurd p2 q1
  · exact absurd p2 q1
  · exact absurd q1 p2
  · exact Or.inr (Or.inl ⟨p1, q2, q3.trans p3⟩)
  · exact Or.inr (Or.inr ⟨p1, q2, q3.trans (acqCount_congr x y a1 a2 p3)⟩)
  · exact Or.inr (Or.inr ⟨p1, q2, q3.trans p3⟩)
  · exact absurd p2 q1
  · exact absurd p2 q1

theorem CollectStep_refl (x : SMART_SENSORS_STRUCT) : CollectStep x x :=
  ⟨rfl, rfl, rfl, Or.inl rfl⟩

theorem CollectStep_trans (x y z : SMART_SENSORS_STRUCT) (h1 : CollectStep x y)
    (h2 : CollectStep y z) : CollectStep x z := by
  obtain ⟨a1, a2, a3, a4⟩ := h1
  obtain ⟨b1, b2, b3, b4⟩ := h2
  refine ⟨b1.trans a1, b2.trans a2, b3.trans a3, ?_⟩
  rcases a4 with a4 | ⟨a4, a5⟩
  · rcases b4 with b4 | ⟨b4, b5⟩
    · exact Or.inl (b4.trans a4)
    · exact Or.inr ⟨by rw [← a4, ← a2]; exact b4, b5⟩
  · rcases b4 with b4 | ⟨_, b5⟩
    · exact Or.inr ⟨a4, b4.trans a5⟩
    · exact Or.inr ⟨a4, b5⟩

theorem slot_congr (u s : FW) (i : Nat) (h : u.ghSensorControl = s.ghSensorControl) :
    u.slot i = s.slot i := by
  simp only [FW.slot, h]

/-- A slot after a store in the slot array: the stored value or what it was. -/
theorem slot_set_cases (u s : FW) (i j : Nat) (y : SMART_SENSORS_STRUCT)
    (h : u.ghSensorControl = s.ghSensorControl.set j y) :
    u.slot i = s.slot i ∨ (i = j ∧ u.slot i = y) := by
  have e : u.slot i = (s.setSlot j y).slot i := slot_congr u (s.setSlot j y) i h
  rw [e, slot_setSlot]
  split_ifs with h1
  · exact Or.inr ⟨h1.1, rfl⟩
  · exact Or.inl rfl

theorem samplingDueSlot_slots (j : Nat) (s : FW) :
    ∃ y, DueStep (s.slot j) y ∧
      (samplingDueSlot j s).1.ghSensorControl = s.ghSensorControl.set j y := by
  unfold samplingDueSlot
  simp only []
  split_ifs with h1 h2 h3
  · refine ⟨_, ?_, rfl⟩
    exact ⟨rfl, rfl, rfl, Or.inr ⟨h2, h3, rfl⟩⟩
  · refine ⟨_, ?_, rfl⟩
    exact ⟨rfl, rfl, rfl, Or.inl rfl⟩
  · refine ⟨_, ?_, rfl⟩
    exact ⟨rfl, rfl, rfl, Or.inl rfl⟩
  · refine ⟨_, ?_, rfl⟩
    exact ⟨rfl, rfl, rfl, Or.inl rfl⟩

theorem samplingDueSlot_step (j i : Nat) (s : FW) :
    DueStep (s.slot i) ((samplingDueSlot j s).1.slot i) := by
  obtain ⟨y, hy, he⟩ := samplingDueSlot_slots j s
  rcases slot_set_cases _ s i j y he with h | ⟨h1, h2⟩
  · rw [h]; exact DueStep_refl _
  · rw [h2, h1]; exact hy

theorem samplingDueLoop_step : ∀ (n j : Nat) (chk : Bool) (s : FW) (i : Nat),
    DueStep (s.slot i) ((samplingDueLoop n j chk s).1.slot i)
  | 0, _, _, _, _ => DueStep_refl _
  | n + 1, j, chk, s, i => by
    rw [samplingDueLoop]
    exact DueStep_trans _ _ _ (samplingDueSlot_step j i s)
      (samplingDueLoop_step n (j + 1) _ _ i)

theorem samplingMid_step (s : FW) (i : Nat) : DueStep (s.slot i) ((samplingMid s).slot i) := by
  unfold samplingMid
  split_ifs
  · exact samplingDueLoop_step s.gchTotalSensorEntry 0 false
      { s with gchSampleClockIndicator := RESET_FLAG } i
  · exact DueStep_refl _

theorem power_slots (op id : Nat) (s : FW) :
    (fnPowerSourceManager op id s).2.ghSensorControl = s.ghSensorControl := by
  unfold fnPowerSourceManager
  dsimp only
  split_ifs <;> rfl

theorem set_getD_self (l : List SMART_SENSORS_STRUCT) (j : Nat) :
    l.set j (l.getD j default) = l := by
  apply List.ext_getElem?
  intro n
  rw [List.getElem?_set]
  split_ifs with h1 h2
  · subst h1
    rw [List.getD_eq_getElem?_getD, List.getElem?_eq_getElem h2]
    rfl
  · subst h1
    rw [List.getElem?_eq_none (Nat.le_of_not_lt h2)]
  · rfl

theorem addSample_step (v : Int) (x : SMART_SENSORS_STRUCT) (h : x.chSensorID ≠ GYRO_METER) :
    (addSample v x).chSensorID = x.chSensorID ∧
    (addSample v x).chSensorSampleAvgTotalCount = x.chSensorSampleAvgTotalCount ∧
    (addSample v x).chSensorSampleAvgCounter = acqCount x := by
  unfold addSample acqCount
  simp only [h, if_false]
  split_ifs <;> exact ⟨rfl, rfl, rfl⟩

/-- The state machine of slot `j` in one invocation: the slot array is what it was but for
slot `j`, which makes a `RunStep`. -/
theorem samplingSlot_slots (d : SensorIn) (j : Nat) (s : FW) :
    ∃ y, RunStep (s.slot j) y ∧
      (samplingSlot d j s).ghSensorControl = s.ghSensorControl.set j y := by
  have hid : ∀ u : FW, u.ghSensorControl = s.ghSensorControl →
      ∃ y, RunStep (s.slot j) y ∧ u.ghSensorControl = s.ghSensorControl.set j y := by
    intro u hu
    exact ⟨s.slot j, RunStep_refl _, by rw [hu]; exact (set_getD_self _ _).symm⟩
  have hset : ∀ (u : FW) (y : SMART_SENSORS_STRUCT), u.ghSensorControl = s.ghSensorControl →
      RunStep (s.slot j) y →
      ∃ y', RunStep (s.slot j) y' ∧ (u.setSlot j y).ghSensorControl = s.ghSensorControl.set j y' := by
    intro u y hu hy
    exact ⟨y, hy, by simp only [FW.setSlot, hu]⟩
  unfold samplingSlot
  dsimp only
  by_cases h0 : (s.slot j).chSensorStatusFlag = SAMPLE_STATE_OFF
  · rw [if_pos h0]; exact hid _ rfl
  rw [if_neg h0]
  have flight : ∀ v, v ≠ SAMPLE_STATE_OFF →
      RunStep (s.slot j) { s.slot j with chSensorStatusFlag := v } :=
    fun v hv => ⟨rfl, rfl, Or.inr (Or.inl ⟨h0, hv, rfl⟩)⟩
  have done : ∀ v, (s.slot j).chSensorID ≠ GYRO_METER →
      RunStep (s.slot j) { addSample v (s.slot j) with chSensorStatusFlag := SAMPLE_STATE_OFF } :=
    fun v hg => ⟨(addSample_step v _ hg).1, (addSample_step v _ hg).2.1,
      Or.inr (Or.inr ⟨h0, rfl, (addSample_step v _ hg).2.2⟩)⟩
  by_cases hT : (s.slot j).chSensorID = CHAMBER_TEMPERATURE
  · have hg : (s.slot j).chSensorID ≠ GYRO_METER := by rw [hT]; decide
    rw [if_pos hT]
    split_ifs
    · exact hset _ _ (power_slots _ _ _) (flight _ (by decide))
    · exact hid _ (power_slots _ _ _)
    · exact hset _ _ rfl (flight _ (by decide))
    · exact hid _ rfl
    · obtain ⟨y, hy, he⟩ := hset s _ rfl (done d.tempValue hg)
      exact ⟨y, hy, by rw [power_slots]; exact he⟩
    · exact hid _ rfl
    · exact hid _ rfl
  rw [if_neg hT]
  by_cases hG : (s.slot j).chSensorID = GYRO_METER
  · rw [if_pos hG]
    split_ifs
    · exact hset _ _ rfl (flight _ (by decide))
    · exact hid _ rfl
    · exact hset _ _ rfl (flight _ (by decide))
    · exact hid _ rfl
    · cases d.gyroData with
      | none => exact hid _ rfl
      | some w =>
        refine hset _ _ rfl ⟨rfl, rfl, Or.inr (Or.inr ⟨h0, rfl, ?_⟩)⟩
        simp only [acqCount, hG, if_true]
    · exact hid _ rfl
  rw [if_neg hG]
  by_cases hP : (s.slot j).chSensorID = CHAMBER_PRESSURE
  · rw [if_pos hP]
    split_ifs
    · exact hset _ _ (power_slots _ _ _) (flight _ (by decide))
    · exact hid _ (power_slots _ _ _)
    · exact hset _ _ rfl (flight _ (by decide))
    · exact hid _ rfl
    · obtain ⟨y, hy, he⟩ := hset s _ rfl (done d.pressureValue hG)
      exact ⟨y, hy, by
        show (fnPowerSourceManager _ _ _).2.ghSensorControl = _
        rw [power_slots]; exact he⟩
    · exact hid _ rfl
    · exact hid _ rfl
  rw [if_neg hP]
  split_ifs
  · exact hset _ _ rfl (done _ hG)
  · exact hid _ rfl
  · exact hid _ rfl
  · exact hid _ rfl

theorem samplingSlot_step (d : SensorIn) (j i : Nat) (s : FW) :
    RunStep (s.slot i) ((samplingSlot d j s).slot i) := by
  obtain ⟨y, hy, he⟩ := samplingSlot_slots d j s
  rcases slot_set_cases _ s i j y he with h | ⟨h1, h2⟩
  · rw [h]; exact RunStep_refl _
  · rw [h2, h1]; exact hy

theorem samplingRunLoop_step (drv : Nat → SensorIn) : ∀ (n j : Nat) (s : FW) (i : Nat),
    RunStep (s.slot i) ((samplingRunLoop drv n j s).slot i)
  | 0, _, _, _ => RunStep_refl _
  | n + 1, j, s, i => by
    rw [samplingRunLoop]
    exact RunStep_trans _ _ _ (samplingSlot_step (drv j) j i s)
      (samplingRunLoop_step drv n (j + 1) _ i)

/-- One invocation of the sampling task, seen from slot `i`: a `RunStep` from the state in
which the task turns to the sensor state machines. -/
theorem sampling_step (drv : Nat → SensorIn) (s : FW) (i : Nat) :
    RunStep ((samplingMid s).slot i) ((fnData_Sampling_Task drv s).2.slot i) := by
  unfold fnData_Sampling_Task samplingMid
  dsimp only
  split_ifs
  all_goals first
    | exact RunStep_refl _
    | exact samplingRunLoop_step drv _ 0 _ i

/-! ### The collection task, seen from a slot -/

/-- The inner loop is its first step followed by the rest. -/
theorem collectWords_unroll (c : Nat) (n k : Nat) (s : FW) :
    collectWords c (n + 1) k s = collectWords c n (k + 1) (collectWords c 1 k s) := rfl

/-- A due slot: `collectSlot` stores the id, runs the inner loop and tests the average
counter. -/
theorem collectSlot_due (c : Nat) (avail : Bool) (s : FW)
    (h : u8 ((s.slot c).chRadioClockCounter + 1) ≥ (s.slot c).chRadioClockDivisor) :
    collectSlot c avail s =
      (let u := collectWords c (s.slot c).chSensorDataLength 0 (collectSlotId c s)
       if (u.slot c).chSensorSampleAvgCounter ≥ (u.slot c).chSensorSampleAvgTotalCount then
         u.setSlot c { u.slot c with
           chSensorSampleAvgCounter := RESET_COUNTER, nSensorAvgData := RESET_VALUE }
       else u, true) := by
  unfold collectSlot
  dsimp only
  rw [if_pos h]
  rfl

theorem ClearStep_refl (x : SMART_SENSORS_STRUCT) : ClearStep x x :=
  ⟨Or.inl rfl, Or.inl ⟨rfl, rfl⟩, Or.inl ⟨rfl, rfl⟩⟩

theorem ClearStep_trans (x y z : SMART_SENSORS_STRUCT) (h1 : ClearStep x y)
    (h2 : ClearStep y z) : ClearStep x z := by
  obtain ⟨a1, a2, a3⟩ := h1
  obtain ⟨b1, b2, b3⟩ := h2
  refine ⟨?_, ?_, ?_⟩
  · rcases b1 with h | h
    · rw [h]; exact a1
    · exact Or.inr h
  · rcases b2 with ⟨h, h'⟩ | h
    · rw [h, h']; exact a2
    · exact Or.inr h
  · rcases b3 with ⟨h, h'⟩ | h
    · rw [h, h']; exact a3
    · exact Or.inr h

/-- A store of `RESET_VALUE` in one 16-bit object of a slot. -/
theorem clearWordAt_step (x : SMART_SENSORS_STRUCT) (j : Nat) : ClearStep x (x.clearWordAt j) := by
  unfold SMART_SENSORS_STRUCT.clearWordAt
  split_ifs
  all_goals first
    | exact ⟨Or.inl rfl, Or.inl ⟨rfl, rfl⟩, Or.inl ⟨rfl, rfl⟩⟩
    | exact ⟨Or.inr rfl, Or.inl ⟨rfl, rfl⟩, Or.inl ⟨rfl, rfl⟩⟩
    | exact ⟨Or.inl rfl, Or.inr ⟨rfl, rfl⟩, Or.inl ⟨rfl, rfl⟩⟩
    | exact ⟨Or.inl rfl, Or.inl ⟨rfl, rfl⟩, Or.inr ⟨rfl, rfl⟩⟩

/-- The first 16-bit object of a slot holds the id. -/
theorem clearWordAt_zero (x : SMART_SENSORS_STRUCT) : (x.clearWordAt 0).chSensorID = 0 := rfl

/-- The objects from number 4 on lie behind the id, the clock fields, the status and the data
length. -/
theorem clearWordAt_head (x : SMART_SENSORS_STRUCT) (j : Nat) (hj : 4 ≤ j) :
    (x.clearWordAt j).chSensorID = x.chSensorID ∧
    (x.clearWordAt j).chSensorStatusFlag = x.chSensorStatusFlag ∧
    (x.clearWordAt j).chSensorDataLength = x.chSensorDataLength ∧
    (x.clearWordAt j).chSampleClockDivisor = x.chSampleClockDivisor ∧
    (x.clearWordAt j).chSampleClockCounter = x.chSampleClockCounter ∧
    (x.clearWordAt j).chRadioClockDivisor = x.chRadioClockDivisor ∧
    (x.clearWordAt j).chRadioClockCounter = x.chRadioClockCounter := by
  unfold SMART_SENSORS_STRUCT.clearWordAt
  split_ifs
  all_goals first
    | omega
    | exact ⟨rfl, rfl, rfl, rfl, rfl, rfl, rfl⟩

/-- The objects 4 to 10 (the data words and the accumulator) lie before the average target and
the average counter, which are object 11. -/
theorem clearWordAt_avg (x : SMART_SENSORS_STRUCT) (j : Nat) :
    (j < 11 → (x.clearWordAt j).chSensorSampleAvgTotalCount = x.chSensorSampleAvgTotalCount ∧
      (x.clearWordAt j).chSensorSampleAvgCounter = x.chSensorSampleAvgCounter) ∧
    (j = 11 → (x.clearWordAt j).chSensorSampleAvgTotalCount = 0 ∧
      (x.clearWordAt j).chSensorSampleAvgCounter = 0) := by
  unfold SMART_SENSORS_STRUCT.clearWordAt
  refine ⟨fun h => ?_, fun h => ?_⟩
  · split_ifs
    all_goals first
      | omega
      | exact ⟨rfl, rfl⟩
  · split_ifs
    all_goals first
      | omega
      | exact ⟨rfl, rfl⟩

theorem slot_default (s : FW) (m : Nat) (h : s.ghSensorControl.length ≤ m) :
    s.slot m = default := by
  simp only [FW.slot, List.getD_eq_getElem?_getD, List.getElem?_eq_none h, Option.getD_none]

/-- One step of the inner loop, seen from slot `m`: the 16-bit object number `k + 4` counted
from the start of slot `c` is cleared. -/
theorem collectWords_one_slot (c k : Nat) (s : FW) (m : Nat) :
    (collectWords c 1 k s).slot m =
      if m = c + (k + 4) / 12 ∧ c + (k + 4) / 12 < s.ghSensorControl.length then
        (s.slot m).clearWordAt ((k + 4) % 12)
      else s.slot m := by
  show (FW.clearSensorData _ c k).slot m = _
  rw [FW.clearSensorData, slot_setSlot]
  simp only [SENSOR_DATA_WORD, SENSOR_SLOT_WORDS]
  split_ifs with h1
  · rw [h1.1]; rfl
  · rfl

theorem collectWords_one_length (c k : Nat) (s : FW) :
    (collectWords c 1 k s).ghSensorControl.length = s.ghSensorControl.length := by
  show (FW.clearSensorData _ c k).ghSensorControl.length = _
  simp only [FW.clearSensorData, FW.setSlot, List.length_set]

theorem collectWords_length (c : Nat) : ∀ (n k : Nat) (s : FW),
    (collectWords c n k s).ghSensorControl.length = s.ghSensorControl.length
  | 0, _, _ => rfl
  | n + 1, k, s => by
    rw [collectWords_unroll, collectWords_length c n (k + 1), collectWords_one_length]

/-- The inner loop only clears: seen from any slot it is a `ClearStep`. -/
theorem collectWords_clear (c m : Nat) : ∀ (n k : Nat) (s : FW),
    ClearStep (s.slot m) ((collectWords c n k s).slot m)
  | 0, _, _ => ClearStep_refl _
  | n + 1, k, s => by
    rw [collectWords_unroll]
    refine ClearStep_trans _ _ _ ?_ (collectWords_clear c m n (k + 1) _)
    rw [collectWords_one_slot]
    split_ifs
    · exact clearWordAt_step _ _
    · exact ClearStep_refl _

/-- The inner loop run for slot `c` from word `k`, seen from another slot `m` whose first object
was not passed yet: the slot is reached, and then its id is cleared first, or it is left as it
is. -/
theorem collectWords_other (c m : Nat) : ∀ (n k : Nat) (s : FW),
    m < c ∨ k + 4 ≤ 12 * (m - c) →
    (collectWords c n k s).slot m = s.slot m ∨ ((collectWords c n k s).slot m).chSensorID = 0
  | 0, _, _, _ => Or.inl rfl
  | n + 1, k, s, h => by
    rw [collectWords_unroll]
    have h1 := collectWords_one_slot c k s m
    by_cases hit : m = c + (k + 4) / 12 ∧ c + (k + 4) / 12 < s.ghSensorControl.length
    · rw [if_pos hit] at h1
      have hz : (k + 4) % 12 = 0 := by omega
      rw [hz] at h1
      have hid : ((collectWords c 1 k s).slot m).chSensorID = 0 := by rw [h1]; rfl
      rcases (collectWords_clear c m n (k + 1) (collectWords c 1 k s)).1 with e | e
      · exact Or.inr (e.trans hid)
      · exact Or.inr e
    · rw [if_neg hit] at h1
      by_cases hm : m < s.ghSensorControl.length
      · rcases collectWords_other c m n (k + 1) (collectWords c 1 k s) (by omega) with e | e
        · exact Or.inl (e.trans h1)
        · exact Or.inr e
      · refine Or.inl ?_
        rw [slot_default s m (by omega), slot_default _ m]
        rw [collectWords_length, collectWords_one_length]
        omega

/-- The inner loop run for at most 8 words leaves every other slot as it is. -/
theorem collectWords_short (c m : Nat) (hm : m ≠ c) : ∀ (n k : Nat) (s : FW),
    k + n ≤ 8 → (collectWords c n k s).slot m = s.slot m
  | 0, _, _, _ => rfl
  | n + 1, k, s, h => by
    rw [collectWords_unroll, collectWords_short c m hm n (k + 1) _ (by omega),
      collectWords_one_slot, if_neg]
    omega

/-- The inner loop run for slot `c` from word `k`, seen from slot `c`: the id, the clock fields,
the status and the data length are kept; the average target and the average counter are kept
when the loop ends at or before word 7 and cleared when it passes word 7. -/
theorem collectWords_own (c : Nat) : ∀ (n k : Nat) (s : FW),
    ((collectWords c n k s).slot c).chSensorID = (s.slot c).chSensorID ∧
    ((collectWords c n k s).slot c).chSensorStatusFlag = (s.slot c).chSensorStatusFlag ∧
    ((collectWords c n k s).slot c).chSensorDataLength = (s.slot c).chSensorDataLength ∧
    (k + n ≤ 7 →
      ((collectWords c n k s).slot c).chSensorSampleAvgTotalCount =
        (s.slot c).chSensorSampleAvgTotalCount ∧
      ((collectWords c n k s).slot c).chSensorSampleAvgCounter =
        (s.slot c).chSensorSampleAvgCounter) ∧
    (k ≤ 7 → 7 < k + n →
      ((collectWords c n k s).slot c).chSensorSampleAvgTotalCount = 0 ∧
      ((collectWords c n k s).slot c).chSensorSampleAvgCounter = 0)
  | 0, _, _ => ⟨rfl, rfl, rfl, fun _ => ⟨rfl, rfl⟩, fun h1 h2 => by omega⟩
  | n + 1, k, s => by
    rw [collectWords_unroll]
    obtain ⟨b1, b2, b3, b4, b5⟩ := collectWords_own c n (k + 1) (collectWords c 1 k s)
    have h1 := collectWords_one_slot c k s c
    have hc := (collectWords_clear c c n (k + 1) (collectWords c 1 k s)).2.2
    by_cases hit : c = c + (k + 4) / 12 ∧ c + (k + 4) / 12 < s.ghSensorControl.length
    · rw [if_pos hit] at h1
      have hk : k < 8 := by omega
      have hj : (k + 4) % 12 = k + 4 := by omega
      rw [hj] at h1
      obtain ⟨a1, a2, a3, _⟩ := clearWordAt_head (s.slot c) (k + 4) (by omega)
      obtain ⟨a4, a5⟩ := clearWordAt_avg (s.slot c) (k + 4)
      rw [h1] at b1 b2 b3 b4 hc
      refine ⟨b1.trans a1, b2.trans a2, b3.trans a3, fun h => ?_, fun h7 h8 => ?_⟩
      · obtain ⟨e1, e2⟩ := b4 (by omega)
        obtain ⟨e3, e4⟩ := a4 (by omega)
        exact ⟨e1.trans e3, e2.trans e4⟩
      · by_cases hk7 : k = 7
        · obtain ⟨e3, e4⟩ := a5 (by omega)
          rcases hc with ⟨e1, e2⟩ | e
          · exact ⟨e1.trans e3, e2.trans e4⟩
          · exact e
        · obtain ⟨e1, e2⟩ := b5 (by omega) (by omega)
          exact ⟨e1, e2⟩
    · rw [if_neg hit] at h1
      rw [h1] at b1 b2 b3 b4 hc
      refine ⟨b1, b2, b3, fun h => b4 (by omega), fun h7 h8 => ?_⟩
      by_cases hk7 : k = 7
      · have hd : s.slot c = default := slot_default s c (by omega)
        rw [hd] at hc
        rcases hc with ⟨e1, e2⟩ | e
        · exact ⟨e1, e2⟩
        · exact e
      · exact b5 (by omega) (by omega)

theorem CollectEffect_refl (x : SMART_SENSORS_STRUCT) : CollectEffect x x :=
  Or.inr ⟨rfl, rfl, rfl, Or.inl ⟨rfl, Or.inl rfl⟩⟩

theorem CollectEffect_trans (x y z : SMART_SENSORS_STRUCT) (h1 : CollectEffect x y)
    (h2 : CollectEffect y z) : CollectEffect x z := by
  rcases h2 with hz | ⟨b1, b2, b3, b4⟩
  · exact Or.inl hz
  rcases h1 with hy | ⟨a1, a2, a3, a4⟩
  · exact Or.inl (b1.trans hy)
  refine Or.inr ⟨b1.trans a1, b2.trans a2, b3.trans a3, ?_⟩
  rcases a4 with ⟨a5, a6⟩ | ⟨a5, a6, a7⟩
  · rcases b4 with ⟨b5, b6⟩ | ⟨b5, b6, b7⟩
    · refine Or.inl ⟨b5.trans a5, ?_⟩
      rcases a6 with e | ⟨e1, e2, e3⟩
      · rcases b6 with f | ⟨f1, f2, f3⟩
        · exact Or.inl (f.trans e)
        · exact Or.inr ⟨by omega, by omega, f3⟩
      · rcases b6 with f | ⟨f1, f2, f3⟩
        · exact Or.inr ⟨e1, e2, f.trans e3⟩
        · exact Or.inr ⟨e1, e2, f3⟩
    · exact Or.inr ⟨by omega, b6, b7⟩
  · rcases b4 with ⟨b5, b6⟩ | ⟨b5, b6, b7⟩
    · refine Or.inr ⟨a5, b5.trans a6, ?_⟩
      rcases b6 with f | ⟨f1, f2, f3⟩
      · exact f.trans a7
      · exact f3
    · exact Or.inr ⟨a5, b6, b7⟩

/-- The state in which the inner loop is entered, seen from slot `m`: the radio-clock counter
of slot `c` is reset. -/
theorem collectSlotId_slot (c : Nat) (s : FW) (m : Nat) :
    (collectSlotId c s).slot m =
      if m = c ∧ c < s.ghSensorControl.length then
        { s.slot c with chRadioClockCounter := RESET_COUNTER }
      else s.slot m := by
  show (FW.setSlot s c _).slot m = _
  rw [slot_setSlot]

theorem collectSlotId_fields (c : Nat) (s : FW) (m : Nat) :
    ((collectSlotId c s).slot m).chSensorID = (s.slot m).chSensorID ∧
    ((collectSlotId c s).slot m).chSensorStatusFlag = (s.slot m).chSensorStatusFlag ∧
    ((collectSlotId c s).slot m).chSensorDataLength = (s.slot m).chSensorDataLength ∧
    ((collectSlotId c s).slot m).chSensorSampleAvgTotalCount =
      (s.slot m).chSensorSampleAvgTotalCount ∧
    ((collectSlotId c s).slot m).chSensorSampleAvgCounter =
      (s.slot m).chSensorSampleAvgCounter ∧
    (m ≠ c → (collectSlotId c s).slot m = s.slot m) := by
  rw [collectSlotId_slot]
  split_ifs with h
  · rw [h.1]
    exact ⟨rfl, rfl, rfl, rfl, rfl, fun g => absurd rfl g⟩
  · exact ⟨rfl, rfl, rfl, rfl, rfl, fun _ => rfl⟩

/-- The first part of a pass of the collection loop, seen from slot `m`. -/
theorem collectSlot_effect (c : Nat) (avail : Bool) (s : FW) (m : Nat) :
    CollectEffect (s.slot m) ((collectSlot c avail s).1.slot m) := by
  by_cases h : u8 ((s.slot c).chRadioClockCounter + 1) ≥ (s.slot c).chRadioClockDivisor
  · rw [collectSlot_due c avail s h]
    dsimp only
    obtain ⟨i1, i2, i3, i4, i5, i6⟩ := collectSlotId_fields c s m
    by_cases hm : m = c
    · subst hm
      obtain ⟨w1, w2, w3, w4, w5⟩ :=
        collectWords_own m (s.slot m).chSensorDataLength 0 (collectSlotId m s)
      by_cases h8 : (s.slot m).chSensorDataLength < 8
      · obtain ⟨w6, w7⟩ := w4 (by omega)
        split_ifs with hb
        · rw [slot_setSlot]
          split_ifs with g
          · refine Or.inr ⟨w1.trans i1, w2.trans i2, w3.trans i3, Or.inl ⟨w6.trans i4, ?_⟩⟩
            refine Or.inr ⟨h8, ?_, rfl⟩
            rw [w6, w7, i4, i5] at hb
            exact hb
          · exact Or.inr ⟨w1.trans i1, w2.trans i2, w3.trans i3,
              Or.inl ⟨w6.trans i4, Or.inl (w7.trans i5)⟩⟩
        · exact Or.inr ⟨w1.trans i1, w2.trans i2, w3.trans i3,
            Or.inl ⟨w6.trans i4, Or.inl (w7.trans i5)⟩⟩
      · obtain ⟨w6, w7⟩ := w5 (by omega) (by omega)
        split_ifs with hb
        · rw [slot_setSlot]
          split_ifs with g
          · exact Or.inr ⟨w1.trans i1, w2.trans i2, w3.trans i3, Or.inr ⟨by omega, w6, rfl⟩⟩
          · exact Or.inr ⟨w1.trans i1, w2.trans i2, w3.trans i3, Or.inr ⟨by omega, w6, w7⟩⟩
        · exact Or.inr ⟨w1.trans i1, w2.trans i2, w3.trans i3, Or.inr ⟨by omega, w6, w7⟩⟩
    · have hw := collectWords_other c m (s.slot c).chSensorDataLength 0 (collectSlotId c s)
        (by omega)
      rw [i6 hm] at hw
      have fin : CollectEffect (s.slot m)
          ((collectWords c (s.slot c).chSensorDataLength 0 (collectSlotId c s)).slot m) := by
        rcases hw with e | e
        · rw [e]; exact CollectEffect_refl _
        · exact Or.inl e
      split_ifs with hb
      · rw [slot_setSlot, if_neg (fun g => hm g.1)]
        exact fin
      · exact fin
  · have e : collectSlot c avail s =
        (s.setSlot c { s.slot c with
          chRadioClockCounter := u8 ((s.slot c).chRadioClockCounter + 1) }, avail) := by
      unfold collectSlot
      dsimp only
      rw [if_neg h]
    rw [e]
    show CollectEffect _ ((FW.setSlot s c _).slot m)
    rw [slot_setSlot]
    split_ifs with g
    · rw [g.1]
      exact Or.inr ⟨rfl, rfl, rfl, Or.inl ⟨rfl, Or.inl rfl⟩⟩
    · exact CollectEffect_refl _

theorem collectLoop_effect : ∀ (fuel c : Nat) (avail : Bool) (k : Nat) (s : FW) (i : Nat),
    CollectEffect (s.slot i) ((collectLoop fuel c avail k s).s.slot i)
  | 0, _, _, _, _, _ => CollectEffect_refl _
  | fuel + 1, c, avail, k, s, i => by
    rw [collectLoop]
    dsimp only
    have h1 := collectSlot_effect c avail s i
    split_ifs
    · exact h1
    · exact h1
    · exact CollectEffect_trans _ _ _ h1
        (collectLoop_effect fuel _ _ _ (collectFinalize _ _) i)
    · exact CollectEffect_trans _ _ _ h1 (collectLoop_effect fuel _ _ _ _ i)

/-- One invocation of the collection task, seen from slot `i`. -/
theorem collection_effect (s : FW) (i : Nat) :
    CollectEffect (s.slot i) ((fnData_Collection_Task s).2.slot i) := by
  unfold fnData_Collection_Task collectWalk
  dsimp only
  split_ifs
  · exact CollectEffect_refl _
  · exact collectLoop_effect _ _ _ _ { s with
      gchCollectionDataIndex := PACKET_DATA_MESSAGE_INDEX
      gchCollectionPacketIndex := RESET_VALUE } i
  · exact collectLoop_effect _ _ _ _ { s with
      gchCollectionDataIndex := PACKET_DATA_MESSAGE_INDEX
      gchCollectionPacketIndex := RESET_VALUE } i

theorem timing_slots (s : FW) :
    (fnSystem_Timing_Task s).ghSensorControl = s.ghSensorControl := by
  simp only [fnSystem_Timing_Task]
  split_ifs <;> rfl

theorem tickAfter_slot (a : Nat) (s : FW) (i : Nat) : (tickAfter a s).slot i = s.slot i :=
  slot_congr _ _ i (timing_slots { s with gchTasks_Active := a })

/-- One invocation of the sampling task, seen from slot `i`, by whether the slot completed an
acquisition. -/
theorem sample_facts (drv : Nat → SensorIn) (s : FW) (i : Nat) :
    ((fnData_Sampling_Task drv s).2.slot i).chSensorID = (s.slot i).chSensorID ∧
    ((fnData_Sampling_Task drv s).2.slot i).chSensorSampleAvgTotalCount =
      (s.slot i).chSensorSampleAvgTotalCount ∧
    (acquired i drv s = true →
      ((fnData_Sampling_Task drv s).2.slot i).chSensorStatusFlag = SAMPLE_STATE_OFF ∧
      ((fnData_Sampling_Task drv s).2.slot i).chSensorSampleAvgCounter = acqCount (s.slot i) ∧
      ¬ ((s.slot i).chSensorStatusFlag = SAMPLE_STATE_OFF ∧
        (s.slot i).chSensorSampleAvgCounter ≥ (s.slot i).chSensorSampleAvgTotalCount)) ∧
    (acquired i drv s = false →
      ((fnData_Sampling_Task drv s).2.slot i).chSensorSampleAvgCounter =
        (s.slot i).chSensorSampleAvgCounter ∧
      ((s.slot i).chSensorStatusFlag = SAMPLE_STATE_OFF ∧
        (s.slot i).chSensorSampleAvgCounter ≥ (s.slot i).chSensorSampleAvgTotalCount →
        ((fnData_Sampling_Task drv s).2.slot i).chSensorStatusFlag = SAMPLE_STATE_OFF)) := by
  obtain ⟨d1, d2, d3, d4⟩ := samplingMid_step s i
  obtain ⟨r1, r2, r3⟩ := sampling_step drv s i
  have hoff : (s.slot i).chSensorStatusFlag = SAMPLE_STATE_OFF ∧
      (s.slot i).chSensorSampleAvgCounter ≥ (s.slot i).chSensorSampleAvgTotalCount →
      ((samplingMid s).slot i).chSensorStatusFlag = SAMPLE_STATE_OFF := by
    rintro ⟨a, b⟩
    rcases d4 with h | ⟨_, h, _⟩
    · rw [h, a]
    · omega
  refine ⟨r1.trans d1, r2.trans d2, ?_, ?_⟩
  · intro ha
    simp only [acquired, decide_eq_true_eq] at ha
    obtain ⟨a1, a2⟩ := ha
    rcases r3 with ⟨h, _, _⟩ | ⟨_, h, _⟩ | ⟨_, _, h⟩
    · exact absurd h a1
    · exact absurd a2 h
    · exact ⟨a2, h.trans (acqCount_congr _ _ d1 d2 d3), fun hc => a1 (hoff hc)⟩
  · intro ha
    simp only [acquired, decide_eq_false_iff_not, not_and] at ha
    rcases r3 with ⟨h, h2, h3⟩ | ⟨h, h2, h3⟩ | ⟨h, h2, _⟩
    · exact ⟨h3.trans d3, fun _ => h2⟩
    · exact ⟨h3.trans d3, fun hc => absurd (hoff hc) h⟩
    · exact absurd h2 (ha h)

/-! ### The sampling task keeps the data length of every slot -/

theorem len_of_set (u s : FW) (i j : Nat) (y : SMART_SENSORS_STRUCT)
    (h : u.ghSensorControl = s.ghSensorControl.set j y)
    (hy : y.chSensorDataLength = (s.slot j).chSensorDataLength) :
    (u.slot i).chSensorDataLength = (s.slot i).chSensorDataLength := by
  rcases slot_set_cases _ s i j y h with h | ⟨h1, h2⟩
  · rw [h]
  · rw [h2, h1]; exact hy

theorem samplingDueSlot_len (j i : Nat) (s : FW) :
    ((samplingDueSlot j s).1.slot i).chSensorDataLength = (s.slot i).chSensorDataLength := by
  have h : ∃ y, y.chSensorDataLength = (s.slot j).chSensorDataLength ∧
      (samplingDueSlot j s).1.ghSensorControl = s.ghSensorControl.set j y := by
    unfold samplingDueSlot
    simp only []
    split_ifs <;> (refine ⟨_, ?_, rfl⟩; rfl)
  obtain ⟨y, hy, he⟩ := h
  exact len_of_set _ s i j y he hy

theorem samplingDueLoop_len : ∀ (n j : Nat) (chk : Bool) (s : FW) (i : Nat),
    ((samplingDueLoop n j chk s).1.slot i).chSensorDataLength = (s.slot i).chSensorDataLength
  | 0, _, _, _, _ => rfl
  | n + 1, j, chk, s, i => by
    rw [samplingDueLoop]
    exact (samplingDueLoop_len n (j + 1) _ _ i).trans (samplingDueSlot_len j i s)

theorem addSample_len (v : Int) (x : SMART_SENSORS_STRUCT) :
    (addSample v x).chSensorDataLength = x.chSensorDataLength := by
  unfold addSample
  simp only []
  split_ifs <;> rfl

theorem samplingSlot_len (d : SensorIn) (j i : Nat) (s : FW) :
    ((samplingSlot d j s).slot i).chSensorDataLength = (s.slot i).chSensorDataLength := by
  have h : ∃ y, y.chSensorDataLength = (s.slot j).chSensorDataLength ∧
      (samplingSlot d j s).ghSensorControl = s.ghSensorControl.set j y := by
    have hid : ∀ u : FW, u.ghSensorControl = s.ghSensorControl →
        ∃ y, y.chSensorDataLength = (s.slot j).chSensorDataLength ∧
          u.ghSensorControl = s.ghSensorControl.set j y := by
      intro u hu
      exact ⟨s.slot j, rfl, by rw [hu]; exact (set_getD_self _ _).symm⟩
    have hset : ∀ (u : FW) (y : SMART_SENSORS_STRUCT), u.ghSensorControl = s.ghSensorControl →
        y.chSensorDataLength = (s.slot j).chSensorDataLength →
        ∃ y', y'.chSensorDataLength = (s.slot j).chSensorDataLength ∧
          (u.setSlot j y).ghSensorControl = s.ghSensorControl.set j y' := by
      intro u y hu hy
      exact ⟨y, hy, by simp only [FW.setSlot, hu]⟩
    unfold samplingSlot
    dsimp only
    by_cases h0 : (s.slot j).chSensorStatusFlag = SAMPLE_STATE_OFF
    · rw [if_pos h0]; exact hid _ rfl
    rw [if_neg h0]
    by_cases hT : (s.slot j).chSensorID = CHAMBER_TEMPERATURE
    · rw [if_pos hT]
      split_ifs
      · exact hset _ _ (power_slots _ _ _) rfl
      · exact hid _ (power_slots _ _ _)
      · exact hset _ _ rfl rfl
      · exact hid _ rfl
      · obtain ⟨y, hy, he⟩ := hset s { addSample d.tempValue (s.slot j) with chSensorStatusFlag := SAMPLE_STATE_OFF }
          rfl (addSample_len d.tempValue (s.slot j))
        exact ⟨y, hy, by rw [power_slots]; exact he⟩
      · exact hid _ rfl
      · exact hid _ rfl
    rw [if_neg hT]
    by_cases hG : (s.slot j).chSensorID = GYRO_METER
    · rw [if_pos hG]
      split_ifs
      · exact hset _ _ rfl rfl
      · exact hid _ rfl
      · exact hset _ _ rfl rfl
      · exact hid _ rfl
      · cases d.gyroData with
        | none => exact hid _ rfl
        | some w => exact hset _ _ rfl rfl
      · exact hid _ rfl
    rw [if_neg hG]
    by_cases hP : (s.slot j).chSensorID = CHAMBER_PRESSURE
    · rw [if_pos hP]
      split_ifs
      · exact hset _ _ (power_slots _ _ _) rfl
      · exact hid _ (power_slots _ _ _)
      · exact hset _ _ rfl rfl
      · exact hid _ rfl
      · obtain ⟨y, hy, he⟩ := hset s { addSample d.pressureValue (s.slot j) with chSensorStatusFlag := SAMPLE_STATE_OFF }
          rfl (addSample_len d.pressureValue (s.slot j))
        exact ⟨y, hy, by
          show (fnPowerSourceManager _ _ _).2.ghSensorControl = _
          rw [power_slots]; exact he⟩
      · exact hid _ rfl
      · exact hid _ rfl
    rw [if_neg hP]
    split_ifs
    · exact hset _ _ rfl (addSample_len _ _)
    · exact hid _ rfl
    · exact hid _ rfl
    · exact hid _ rfl
  obtain ⟨y, hy, he⟩ := h
  exact len_of_set _ s i j y he hy

theorem samplingRunLoop_len (drv : Nat → SensorIn) : ∀ (n j : Nat) (s : FW) (i : Nat),
    ((samplingRunLoop drv n j s).slot i).chSensorDataLength = (s.slot i).chSensorDataLength
  | 0, _, _, _ => rfl
  | n + 1, j, s, i => by
    rw [samplingRunLoop]
    exact (samplingRunLoop_len drv n (j + 1) _ i).trans (samplingSlot_len (drv j) j i s)

/-- One invocation of the sampling task keeps the data length of every slot. -/
theorem sampling_len (drv : Nat → SensorIn) (s : FW) (i : Nat) :
    ((fnData_Sampling_Task drv s).2.slot i).chSensorDataLength =
      (s.slot i).chSensorDataLength := by
  have hd : ((samplingDueCheck s).1.slot i).chSensorDataLength =
      (s.slot i).chSensorDataLength :=
    samplingDueLoop_len s.gchTotalSensorEntry 0 false
      { s with gchSampleClockIndicator := RESET_FLAG } i
  unfold fnData_Sampling_Task
  dsimp only
  split_ifs
  all_goals first
    | exact hd
    | exact (samplingRunLoop_len drv _ 0 _ i).trans hd
    | exact samplingRunLoop_len drv _ 0 _ i

/-! ### Slots whose sensor id has no sampling code -/

theorem power_total (op id : Nat) (s : FW) :
    (fnPowerSourceManager op id s).2.gchTotalSensorEntry = s.gchTotalSensorEntry := by
  unfold fnPowerSourceManager
  dsimp only
  split_ifs <;> rfl

theorem samplingSlot_total (d : SensorIn) (j : Nat) (s : FW) :
    (samplingSlot d j s).gchTotalSensorEntry = s.gchTotalSensorEntry := by
  unfold samplingSlot
  dsimp only
  split_ifs
  all_goals first
    | rfl
    | exact power_total _ _ _
    | (cases d.gyroData <;> rfl)

/-- The sensor state machine of slot `j` leaves a slot whose id has no sampling code as it
is. -/
theorem samplingSlot_noCode (d : SensorIn) (j i : Nat) (s : FW)
    (hid : NoSamplingCode (s.slot i).chSensorID) :
    (samplingSlot d j s).slot i = s.slot i := by
  by_cases hij : i = j
  · subst hij
    obtain ⟨h1, h2, h3, h4⟩ := hid
    unfold samplingSlot
    dsimp only
    rw [if_neg h1, if_neg h2, if_neg h3, if_neg h4]
    split_ifs <;> rfl
  · obtain ⟨y, _, he⟩ := samplingSlot_slots d j s
    rcases slot_set_cases _ s i j y he with e | ⟨e, _⟩
    · exact e
    · exact absurd e hij

theorem samplingRunLoop_noCode (drv : Nat → SensorIn) (i : Nat) : ∀ (n j : Nat) (s : FW),
    NoSamplingCode (s.slot i).chSensorID →
    (samplingRunLoop drv n j s).slot i = s.slot i ∧
    (samplingRunLoop drv n j s).gchTotalSensorEntry = s.gchTotalSensorEntry
  | 0, _, _, _ => ⟨rfl, rfl⟩
  | n + 1, j, s, hid => by
    rw [samplingRunLoop]
    have e := samplingSlot_noCode (drv j) j i s hid
    obtain ⟨a, b⟩ := samplingRunLoop_noCode drv i n (j + 1) (samplingSlot (drv j) j s)
      (by rw [e]; exact hid)
    exact ⟨a.trans e, b.trans (samplingSlot_total _ _ _)⟩

/-- A slot whose id has no sampling code completes no acquisition. -/
theorem noCode_not_acquired (drv : Nat → SensorIn) (s : FW) (i : Nat)
    (hid : NoSamplingCode (s.slot i).chSensorID) : acquired i drv s = false := by
  have hm : NoSamplingCode ((samplingMid s).slot i).chSensorID := by
    rw [(samplingMid_step s i).1]; exact hid
  have e : (fnData_Sampling_Task drv s).2.slot i = (samplingMid s).slot i := by
    by_cases h1 : s.gchSampleClockIndicator = SET_FLAG
    · have em : samplingMid s = (samplingDueCheck s).1 := by
        unfold samplingMid; rw [if_pos h1]
      rw [em] at hm ⊢
      unfold fnData_Sampling_Task
      dsimp only
      rw [if_pos h1]
      split_ifs
      all_goals first
        | rfl
        | exact (samplingRunLoop_noCode drv i _ 0 _ hm).1
    · have em : samplingMid s = s := by
        unfold samplingMid; rw [if_neg h1]
      rw [em] at hm ⊢
      unfold fnData_Sampling_Task
      dsimp only
      rw [if_neg h1]
      exact (samplingRunLoop_noCode drv i _ 0 _ hm).1
  simp only [acquired, decide_eq_false_iff_not, not_and]
  intro h
  rw [e]
  exact h

theorem gapInv_none (x : SMART_SENSORS_STRUCT) : GapInv x none := by
  intro k h
  cases h

/-- The collection task keeps what is known of a slot over a run. -/
theorem gapState_collect (g0 : Nat) (x y : SMART_SENSORS_STRUCT) (since : Option Nat)
    (hc : CollectEffect x y) (h : GapState g0 x since) : GapState g0 y since := by
  rcases hc with hw | ⟨c1, c2, c3, c4⟩
  · exact Or.inl (by rw [hw]; exact ⟨by decide, by decide, by decide, by decide⟩)
  rcases h with hd | ⟨l1, l2, l3, l4⟩ | ⟨k1, k2, k3⟩
  · exact Or.inl (by rw [c1]; exact hd)
  · rcases c4 with ⟨c5, c6⟩ | ⟨c5, c6, c7⟩
    · refine Or.inr (Or.inl ⟨?_, by rw [c5]; exact l2, ?_, ?_⟩)
      · rw [← l1]; simp only [gapOf, c1, c5]
      · intro k hk
        have h := l3 k hk
        rw [c1, c5, c2]
        split_ifs with hid
        · rw [if_pos hid] at h; exact h
        · rw [if_neg hid] at h
          rcases c6 with e | ⟨_, e1, e2⟩
          · rw [e]; exact h
          · rw [e2]
            rcases h with ⟨h1, h2, h3⟩ | ⟨h1, h2⟩
            · by_cases hz : x.chSensorSampleAvgTotalCount = 0
              · exact Or.inl ⟨by omega, h2, h3⟩
              · exact Or.inr ⟨by omega, h3⟩
            · omega
      · intro h8 hg k hk
        rw [c3] at h8
        rw [c1] at hg
        rcases c6 with e | ⟨e0, _, _⟩
        · rw [c2, c5, e]; exact l4 h8 hg k hk
        · omega
    · refine Or.inr (Or.inr ⟨c6, fun hg => ?_, fun hg => ?_⟩)
      · rw [c1] at hg
        refine ⟨?_, fun k hk => ?_⟩
        · rw [← l1]; simp only [gapOf, hg, if_true]
        · have h := l3 k hk
          rw [if_pos hg] at h
          exact h
      · rw [c1] at hg
        cases hs : since with
        | none => exact Or.inr rfl
        | some k => exact Or.inl (by rw [c2]; exact (l4 c5 hg k hs).1)
  · refine Or.inr (Or.inr ⟨?_, fun hg => k2 (by rw [← c1]; exact hg), fun hg => ?_⟩)
    · rcases c4 with ⟨c5, _⟩ | ⟨_, c6, _⟩
      · rw [c5]; exact k1
      · exact c6
    · rw [c2]
      exact k3 (by rw [← c1]; exact hg)

/-- The gaps recorded over a run are all the gap of the slot at its start, from any state that
agrees with the count kept so far (`GapState`). -/
theorem avgGaps_state (i : Nat) (g0 : Nat) : ∀ (evs : List SlotEv) (s : FW) (since : Option Nat),
    GapState g0 (s.slot i) since → ∀ g ∈ avgGaps i evs s since, g = g0
  | [], _, _, _ => by
    intro g hg
    simp [avgGaps] at hg
  | .tick a :: rest, s, since, hinv => by
    intro g hg
    simp only [avgGaps] at hg
    exact avgGaps_state i g0 rest (tickAfter a s) since
      (by rw [tickAfter_slot]; exact hinv) g hg
  | .collect :: rest, s, since, hinv => by
    intro g hg
    rw [avgGaps] at hg
    exact avgGaps_state i g0 rest _ since
      (gapState_collect g0 _ _ since (collection_effect s i) hinv) g hg
  | .sample drv :: rest, s, since, hinv => by
    intro g hg
    simp only [avgGaps] at hg
    obtain ⟨f1, f2, f3, f4⟩ := sample_facts drv s i
    have f5 := sampling_len drv s i
    rcases hinv with hd | ⟨l1, hT, hinv, l4⟩ | ⟨k1, k2, k3⟩
    · rw [noCode_not_acquired drv s i hd] at hg
      simp only [Bool.false_eq_true, if_false] at hg
      exact avgGaps_state i g0 rest _ since (Or.inl (by rw [f1]; exact hd)) g hg
    · have hgap : gapOf ((fnData_Sampling_Task drv s).2.slot i) = g0 := by
        rw [← l1]; simp only [gapOf, f1, f2]
      have hT2 : ((fnData_Sampling_Task drv s).2.slot i).chSensorSampleAvgTotalCount ≤ 255 := by
        rw [f2]; exact hT
      by_cases ha : acquired i drv s = true
      · obtain ⟨a1, a2, a3⟩ := f3 ha
        rw [if_pos ha] at hg
        by_cases hv : averaged ((fnData_Sampling_Task drv s).2.slot i) = true
        · rw [if_pos hv, List.mem_append] at hg
          have hv2 := hv
          simp only [averaged, decide_eq_true_eq, a2, f2] at hv2
          rcases hg with hg | hg
          · cases hs : since with
            | none => rw [hs] at hg; simp at hg
            | some k =>
              rw [hs] at hg
              simp only [List.mem_singleton] at hg
              have h := hinv k hs
              rw [← l1]
              simp only [gapOf]
              simp only [acqCount] at hv2
              split_ifs with hid
              · rw [if_pos hid] at h; omega
              · rw [if_neg hid] at h hv2
                rcases h with ⟨h1, h2, h3⟩ | ⟨h1, h2⟩
                · exact absurd ⟨h2, h1⟩ a3
                · have : u8 ((s.slot i).chSensorSampleAvgCounter + 1) =
                      (s.slot i).chSensorSampleAvgCounter + 1 := by
                    simp only [u8]; omega
                  omega
          · refine avgGaps_state i g0 rest _ (some 0) (Or.inr (Or.inl ⟨hgap, hT2, ?_, ?_⟩)) g hg
            · intro k hk
              cases hk
              rw [f1, f2, a1, a2]
              split_ifs with hid
              · rfl
              · exact Or.inl ⟨hv2, rfl, rfl⟩
            · intro _ _ k _
              rw [f2, a2]
              exact ⟨a1, hv2⟩
        · rw [if_neg hv] at hg
          have hv2 := hv
          simp only [averaged, decide_eq_true_eq, a2, f2, not_le] at hv2
          refine avgGaps_state i g0 rest _ _ (Or.inr (Or.inl ⟨hgap, hT2, ?_, ?_⟩)) g hg
          · intro k hk
            cases hs : since with
            | none => rw [hs] at hk; cases hk
            | some k0 =>
              rw [hs] at hk
              simp only [Option.map_some', Option.some.injEq] at hk
              have h := hinv k0 hs
              rw [f1, f2, a1, a2]
              simp only [acqCount] at hv2 ⊢
              split_ifs with hid
              · rw [if_pos hid] at hv2; omega
              · rw [if_neg hid] at h hv2
                rcases h with ⟨h1, h2, h3⟩ | ⟨h1, h2⟩
                · exact absurd ⟨h2, h1⟩ a3
                · have : u8 ((s.slot i).chSensorSampleAvgCounter + 1) =
                      (s.slot i).chSensorSampleAvgCounter + 1 := by
                    simp only [u8]; omega
                  exact Or.inr ⟨hv2, by omega⟩
          · intro h8 hg' k hk
            rw [f5] at h8
            rw [f1] at hg'
            cases hs : since with
            | none => rw [hs] at hk; cases hk
            | some k0 =>
              obtain ⟨e1, e2⟩ := l4 h8 hg' k0 hs
              exact absurd ⟨e1, e2⟩ a3
      · have ha2 : acquired i drv s = false := by simpa using ha
        obtain ⟨n1, n2⟩ := f4 ha2
        rw [if_neg ha] at hg
        refine avgGaps_state i g0 rest _ since (Or.inr (Or.inl ⟨hgap, hT2, ?_, ?_⟩)) g hg
        · intro k hk
          have h := hinv k hk
          rw [f1, f2, n1]
          split_ifs with hid
          · rw [if_pos hid] at h; exact h
          · rw [if_neg hid] at h
            rcases h with ⟨h1, h2, h3⟩ | ⟨h1, h2⟩
            · exact Or.inl ⟨h1, n2 ⟨h2, h1⟩, h3⟩
            · exact Or.inr ⟨h1, h2⟩
        · intro h8 hg' k hk
          rw [f5] at h8
          rw [f1] at hg'
          obtain ⟨e1, e2⟩ := l4 h8 hg' k hk
          rw [f2, n1]
          exact ⟨n2 ⟨e1, e2⟩, e2⟩
    · have kT : ((fnData_Sampling_Task drv s).2.slot i).chSensorSampleAvgTotalCount = 0 := by
        rw [f2]; exact k1
      by_cases ha : acquired i drv s = true
      · obtain ⟨a1, a2, a3⟩ := f3 ha
        have hnoff : (s.slot i).chSensorStatusFlag ≠ SAMPLE_STATE_OFF := by
          intro h
          exact a3 ⟨h, by rw [k1]; exact Nat.zero_le _⟩
        have hv : averaged ((fnData_Sampling_Task drv s).2.slot i) = true := by
          simp only [averaged, decide_eq_true_eq, kT]
          exact Nat.zero_le _
        rw [if_pos ha, if_pos hv, List.mem_append] at hg
        by_cases hid : (s.slot i).chSensorID = GYRO_METER
        · obtain ⟨g1, g2⟩ := k2 hid
          rcases hg with hg | hg
          · cases hs : since with
            | none => rw [hs] at hg; simp at hg
            | some k =>
              rw [hs] at hg
              simp only [List.mem_singleton] at hg
              have := g2 k hs
              omega
          · refine avgGaps_state i g0 rest _ (some 0)
              (Or.inr (Or.inr ⟨kT, fun _ => ⟨g1, fun k hk => ?_⟩, fun hn => ?_⟩)) g hg
            · cases hk; rfl
            · exact Or.inl a1
        · have hsn : since = none := by
            rcases k3 hid with h | h
            · exact absurd h hnoff
            · exact h
          rcases hg with hg | hg
          · rw [hsn] at hg; simp at hg
          · refine avgGaps_state i g0 rest _ (some 0)
              (Or.inr (Or.inr ⟨kT, fun hg' => ?_, fun _ => Or.inl a1⟩)) g hg
            rw [f1] at hg'
            exact absurd hg' hid
      · have ha2 : acquired i drv s = false := by simpa using ha
        obtain ⟨n1, n2⟩ := f4 ha2
        rw [if_neg ha] at hg
        refine avgGaps_state i g0 rest _ since
          (Or.inr (Or.inr ⟨kT, fun hg' => k2 (by rw [← f1]; exact hg'), fun hg' => ?_⟩)) g hg
        rw [f1] at hg'
        rcases k3 hg' with h | h
        · exact Or.inl (n2 ⟨h, by rw [k1]; exact Nat.zero_le _⟩)
        · exact Or.inr h

/-- C13 (amended): for any slot, over any run of sampling-task invocations (whatever the sensor
drivers report), collection-task invocations and RTC overflows from any state with a target
count in the range of its C type, every number of completed acquisitions between two
consecutive averaging completions is the target `chSensorSampleAvgTotalCount` when the sensor
is not the gyrometer, and 1 when it is. -/
theorem samples_per_average (i : Nat) (evs : List SlotEv) (s : FW)
    (hT : (s.slot i).chSensorSampleAvgTotalCount ≤ 255) :
    ∀ g ∈ avgGaps i evs s none,
      g = if (s.slot i).chSensorID = GYRO_METER then 1
        else (s.slot i).chSensorSampleAvgTotalCount :=
  avgGaps_state i (gapOf (s.slot i)) evs s none
    (Or.inr (Or.inl ⟨rfl, hT, gapInv_none _, fun _ _ k hk => by cases hk⟩))

set_option maxRecDepth 100000 in
/-- The RSSI table (target 2): the run `rssiRun` has one gap, of 2 acquisitions. -/
theorem samples_per_average_witness :
    (fwRssiRunning.slot 0).chSensorSampleAvgTotalCount ≤ 255 ∧
    avgGaps 0 rssiRun fwRssiRunning none = [2] ∧
    ∀ g ∈ avgGaps 0 rssiRun fwRssiRunning none,
      g = if (fwRssiRunning.slot 0).chSensorID = GYRO_METER then 1
        else (fwRssiRunning.slot 0).chSensorSampleAvgTotalCount :=
  ⟨by decide, by decide, samples_per_average 0 rssiRun fwRssiRunning (by decide)⟩

set_option maxRecDepth 100000 in
/-- C13 (counterexample): the gyrometer table of `frameGyro` has target 4, and in the run
`gyroRun` there is exactly one acquisition between two consecutive averaging completions of
slot 0. -/
theorem gyro_one_sample_per_average :
    (fwGyroRunning.slot 0).chSensorID = GYRO_METER ∧
    (fwGyroRunning.slot 0).chSensorSampleAvgTotalCount = 4 ∧
    avgGaps 0 gyroRun fwGyroRunning none = [1] := by
  decide


/-- C15: while a power-up is pending (`chCheckFlag` set, level Off), a call
`fnPowerSourceManager(POWER_SOURCE_ENABLE, id)` either changes nothing and returns not-ready,
or (owner polling after the stabilization timer has fired) completes the power-up: it never
restarts the stabilization timer or switches the rail, and the recorded owner and the usage
counter stay as they are; a call from an identity other than the recorded owner returns
not-ready and leaves the whole state unchanged, whatever `gchVoltageStableTimerFlag` is. -/
theorem power_up_single_flight (id : Nat) (s : FW)
    (hc : s.ghPowerManager.chCheckFlag ≠ 0)
    (hl : s.ghPowerManager.chPowerLevelIndicator = POWER_STATE_OFF) :
    (fnPowerSourceManager POWER_SOURCE_ENABLE id s = (RETURN_FALSE, s) ∨
      (s.ghPowerManager.chIdentity = id ∧ s.gchVoltageStableTimerFlag ≠ 0 ∧
        fnPowerSourceManager POWER_SOURCE_ENABLE id s =
          (RETURN_TRUE, { s with
            ghPowerManager := { s.ghPowerManager with
              chPowerLevelIndicator := POWER_STATE_5V_ON, chCheckFlag := RESET_FLAG }
            hwLog := s.hwLog ++ [HwOp.radioReset false] }))) ∧
    HwOp.startVolTimer ∉ (fnPowerSourceManager POWER_SOURCE_ENABLE id s).2.hwLog.drop
      s.hwLog.length ∧
    (fnPowerSourceManager POWER_SOURCE_ENABLE id s).2.volTimerOn = s.volTimerOn ∧
    (fnPowerSourceManager POWER_SOURCE_ENABLE id s).2.gchVoltageStableTimerFlag =
      s.gchVoltageStableTimerFlag ∧
    (fnPowerSourceManager POWER_SOURCE_ENABLE id s).2.ghPowerManager.chIdentity =
      s.ghPowerManager.chIdentity ∧
    (fnPowerSourceManager POWER_SOURCE_ENABLE id s).2.ghPowerManager.chPowerUsageCounter =
      s.ghPowerManager.chPowerUsageCounter ∧
    (s.ghPowerManager.chIdentity ≠ id →
      fnPowerSourceManager POWER_SOURCE_ENABLE id s = (RETURN_FALSE, s)) := by
  have h1 : ¬ (s.gchPowerSourceMode = POWER_SOURCE_ALWAYS_ON ∧
      s.ghPowerManager.chPowerLevelIndicator = POWER_STATE_5V_ON) := by
    rw [hl]; intro h; exact absurd h.2 (by decide)
  have h2 : ¬ POWER_SOURCE_ENABLE = POWER_SOURCE_DISABLE := by decide
  have h3 : ¬ s.ghPowerManager.chPowerLevelIndicator = POWER_STATE_5V_ON := by
    rw [hl]; decide
  unfold fnPowerSourceManager
  rw [if_neg h1, if_neg h2, if_neg h3, if_neg hc]
  by_cases hi : s.ghPowerManager.chIdentity = id
  · rw [if_neg (not_not.mpr hi)]
    by_cases hv : s.gchVoltageStableTimerFlag ≠ 0
    · rw [if_pos hv]
      refine ⟨Or.inr ⟨hi, hv, rfl⟩, ?_, rfl, rfl, rfl, rfl, fun h => absurd hi h⟩
      simp [FW.hw]
    · rw [if_neg hv]
      refine ⟨Or.inl rfl, ?_, rfl, rfl, rfl, rfl, fun _ => rfl⟩
      simp
  · rw [if_pos hi]
    refine ⟨Or.inl rfl, ?_, rfl, rfl, rfl, rfl, fun _ => rfl⟩
    simp

/-- The pending power-up of the temperature sensor, polled by the pressure sensor after the
stabilization timer has fired. -/
theorem power_up_single_flight_witness :
    (isrTCE1_OVF fwPowerPending).ghPowerManager.chCheckFlag ≠ 0 ∧
    (isrTCE1_OVF fwPowerPending).ghPowerManager.chPowerLevelIndicator = POWER_STATE_OFF ∧
    (isrTCE1_OVF fwPowerPending).gchVoltageStableTimerFlag = SET_FLAG ∧
    fnPowerSourceManager POWER_SOURCE_ENABLE PRESSURE_POWER_IDENTITY (isrTCE1_OVF fwPowerPending) =
      (RETURN_FALSE, isrTCE1_OVF fwPowerPending) :=
  ⟨by decide, by decide, by decide,
    (power_up_single_flight PRESSURE_POWER_IDENTITY (isrTCE1_OVF fwPowerPending)
      (by decide) (by decide)).2.2.2.2.2.2 (by decide)⟩

/-- C16 (amended): `fnPowerSourceManager(POWER_SOURCE_DISABLE, id)` with a usage counter of at
least 1 returns `RETURN_TRUE`; unless the power mode is always-on with the rail on, it
decrements `chPowerUsageCounter` by exactly one, and when the result is zero it asserts the
radio reset, then disables the rail, and the level becomes `POWER_STATE_OFF`; when the result is
above zero the level and the hardware are left alone.  In the always-on mode with the rail on
the call changes nothing: the counter is not decremented. -/
theorem power_release (id : Nat) (s : FW)
    (h1 : 1 ≤ s.ghPowerManager.chPowerUsageCounter)
    (h2 : s.ghPowerManager.chPowerUsageCounter ≤ 127) :
    (fnPowerSourceManager POWER_SOURCE_DISABLE id s).1 = RETURN_TRUE ∧
    ((s.gchPowerSourceMode = POWER_SOURCE_ALWAYS_ON ∧
        s.ghPowerManager.chPowerLevelIndicator = POWER_STATE_5V_ON) →
      (fnPowerSourceManager POWER_SOURCE_DISABLE id s).2 = s) ∧
    (¬ (s.gchPowerSourceMode = POWER_SOURCE_ALWAYS_ON ∧
        s.ghPowerManager.chPowerLevelIndicator = POWER_STATE_5V_ON) →
      (fnPowerSourceManager POWER_SOURCE_DISABLE id s).2.ghPowerManager.chPowerUsageCounter =
        s.ghPowerManager.chPowerUsageCounter - 1 ∧
      (s.ghPowerManager.chPowerUsageCounter = 1 →
        (fnPowerSourceManager POWER_SOURCE_DISABLE id s).2.hwLog =
          s.hwLog ++ [HwOp.radioReset true, HwOp.power5V false] ∧
        (fnPowerSourceManager POWER_SOURCE_DISABLE id s).2.ghPowerManager.chPowerLevelIndicator =
          POWER_STATE_OFF) ∧
      (1 < s.ghPowerManager.chPowerUsageCounter →
        (fnPowerSourceManager POWER_SOURCE_DISABLE id s).2.hwLog = s.hwLog ∧
        (fnPowerSourceManager POWER_SOURCE_DISABLE id s).2.ghPowerManager.chPowerLevelIndicator =
          s.ghPowerManager.chPowerLevelIndicator)) := by
  have hi : i8 (s.ghPowerManager.chPowerUsageCounter - 1) =
      s.ghPowerManager.chPowerUsageCounter - 1 := by
    simp only [i8]; omega
  unfold fnPowerSourceManager
  dsimp only
  by_cases hm : s.gchPowerSourceMode = POWER_SOURCE_ALWAYS_ON ∧
      s.ghPowerManager.chPowerLevelIndicator = POWER_STATE_5V_ON
  · rw [if_pos hm]
    exact ⟨rfl, fun _ => rfl, fun h => absurd hm h⟩
  · rw [if_neg hm, if_pos rfl, hi]
    by_cases hz : s.ghPowerManager.chPowerUsageCounter - 1 ≤ 0
    · rw [if_pos hz]
      refine ⟨rfl, fun h => absurd h hm, fun _ => ⟨?_, fun _ => ⟨?_, rfl⟩, fun h => ?_⟩⟩
      · show (0 : Int) = _
        omega
      · simp [FW.hw]
      · omega
    · rw [if_neg hz]
      refine ⟨rfl, fun h => absurd h hm, fun _ => ⟨rfl, fun h => ?_, fun _ => ⟨rfl, rfl⟩⟩⟩
      omega

/-- The release of a pending power-up (counter 1, rail not yet on) switches the rail off; the
release by one of two users in the on-demand mode leaves the rail on. -/
theorem power_release_witness :
    ((fnPowerSourceManager POWER_SOURCE_DISABLE TEMPERATURE_POWER_IDENTITY
        fwPowerPending).2.ghPowerManager.chPowerUsageCounter = 0 ∧
      (fnPowerSourceManager POWER_SOURCE_DISABLE TEMPERATURE_POWER_IDENTITY
        fwPowerPending).2.ghPowerManager.chPowerLevelIndicator = POWER_STATE_OFF) ∧
    ((fnPowerSourceManager POWER_SOURCE_DISABLE TEMPERATURE_POWER_IDENTITY
        fwPowerTwoUsers).2.ghPowerManager.chPowerUsageCounter = 1 ∧
      (fnPowerSourceManager POWER_SOURCE_DISABLE TEMPERATURE_POWER_IDENTITY
        fwPowerTwoUsers).2.ghPowerManager.chPowerLevelIndicator = POWER_STATE_5V_ON) :=
  ⟨⟨((power_release TEMPERATURE_POWER_IDENTITY fwPowerPending (by decide) (by decide)).2.2
        (by decide)).1,
      (((power_release TEMPERATURE_POWER_IDENTITY fwPowerPending (by decide) (by decide)).2.2
        (by decide)).2.1 (by decide)).2⟩,
    ((power_release TEMPERATURE_POWER_IDENTITY fwPowerTwoUsers (by decide) (by decide)).2.2
        (by decide)).1,
      (((power_release TEMPERATURE_POWER_IDENTITY fwPowerTwoUsers (by decide) (by decide)).2.2
        (by decide)).2.2 (by decide)).2⟩

/-- C16 (counterexample): after boot (always-on power mode) and the power-up of the rail for
the temperature sensor, the usage counter is 1 and the release leaves the counter at 1 and the
rail on. -/
theorem always_on_release_keeps_counter :
    fwPowerOn.ghPowerManager.chPowerUsageCounter = 1 ∧
    fwPowerOn.gchPowerSourceMode = POWER_SOURCE_ALWAYS_ON ∧
    (fnPowerSourceManager POWER_SOURCE_DISABLE TEMPERATURE_POWER_IDENTITY
      fwPowerOn).2.ghPowerManager.chPowerUsageCounter = 1 ∧
    (fnPowerSourceManager POWER_SOURCE_DISABLE TEMPERATURE_POWER_IDENTITY
      fwPowerOn).2.ghPowerManager.chPowerLevelIndicator = POWER_STATE_5V_ON ∧
    (fnPowerSourceManager POWER_SOURCE_DISABLE TEMPERATURE_POWER_IDENTITY fwPowerOn).2.hwLog =
      fwPowerOn.hwLog := by
  decide


theorem commEntryReset_timeout (s : FW) :
    (commEntryReset s).gchRadioCommStepMode = s.gchRadioCommStepMode ∧
    (commEntryReset s).gchDataDownloadPacketReady = s.gchDataDownloadPacketReady ∧
    (commEntryReset s).gnDefaultCommWaitTimeValue = s.gnDefaultCommWaitTimeValue ∧
    (commEntryReset s).ghMasterTaskTable.nCommTimeout =
      (if s.gchCommWaitTimeDoubleCounter ≥ COMM_WAIT_TIME_DOUBLE_RETRY then
        s.gnDefaultCommWaitTimeValue else s.ghMasterTaskTable.nCommTimeout) ∧
    (commEntryReset s).gchCommWaitTimeDoubleCounter =
      (if s.gchCommWaitTimeDoubleCounter ≥ COMM_WAIT_TIME_DOUBLE_RETRY then 0
        else s.gchCommWaitTimeDoubleCounter) := by
  unfold commEntryReset
  dsimp only
  split_ifs <;> exact ⟨rfl, rfl, rfl, rfl, rfl⟩

/-- C17 (amended): an invocation of `fnData_Download_Task` (packet ready) or of
`fnData_ET_Request_Task` that finds the engine at `COMM_ENTRY_POINT` runs the engine from an
entry state in `RADIO_PWR_CHECK_MODE` in which `nCommTimeout` is the configured default
`gnDefaultCommWaitTimeValue` and the doubling counter is 0 only when the doubling counter left
by the previous exchange had reached `COMM_WAIT_TIME_DOUBLE_RETRY` (3); after fewer doublings
the entry state keeps the doubled `nCommTimeout` and the doubling counter as they were left. -/
theorem exchange_entry_timeout (env : Env) (fuel : Nat) (s : FW)
    (hm : s.gchRadioCommStepMode = COMM_ENTRY_POINT) :
    ∃ eD eR : FW,
      (s.gchDataDownloadPacketReady ≠ 0 →
        fnData_Download_Task env fuel s = fnData_Download_Task env fuel eD) ∧
      fnData_ET_Request_Task env fuel s = fnData_ET_Request_Task env fuel eR ∧
      ∀ e, e = eD ∨ e = eR →
        e.gchRadioCommStepMode = RADIO_PWR_CHECK_MODE ∧
        e.gnDefaultCommWaitTimeValue = s.gnDefaultCommWaitTimeValue ∧
        (s.gchCommWaitTimeDoubleCounter ≥ COMM_WAIT_TIME_DOUBLE_RETRY →
          e.ghMasterTaskTable.nCommTimeout = s.gnDefaultCommWaitTimeValue ∧
          e.gchCommWaitTimeDoubleCounter = 0) ∧
        (s.gchCommWaitTimeDoubleCounter < COMM_WAIT_TIME_DOUBLE_RETRY →
          e.ghMasterTaskTable.nCommTimeout = s.ghMasterTaskTable.nCommTimeout ∧
          e.gchCommWaitTimeDoubleCounter = s.gchCommWaitTimeDoubleCounter) := by
  have key : ∀ u : FW, u.gchRadioCommStepMode = RADIO_PWR_CHECK_MODE →
      u.gnDefaultCommWaitTimeValue = s.gnDefaultCommWaitTimeValue →
      u.ghMasterTaskTable.nCommTimeout = s.ghMasterTaskTable.nCommTimeout →
      u.gchCommWaitTimeDoubleCounter = s.gchCommWaitTimeDoubleCounter →
      (commEntryReset u).gchRadioCommStepMode = RADIO_PWR_CHECK_MODE ∧
      (commEntryReset u).gnDefaultCommWaitTimeValue = s.gnDefaultCommWaitTimeValue ∧
      (s.gchCommWaitTimeDoubleCounter ≥ COMM_WAIT_TIME_DOUBLE_RETRY →
        (commEntryReset u).ghMasterTaskTable.nCommTimeout = s.gnDefaultCommWaitTimeValue ∧
        (commEntryReset u).gchCommWaitTimeDoubleCounter = 0) ∧
      (s.gchCommWaitTimeDoubleCounter < COMM_WAIT_TIME_DOUBLE_RETRY →
        (commEntryReset u).ghMasterTaskTable.nCommTimeout = s.ghMasterTaskTable.nCommTimeout ∧
        (commEntryReset u).gchCommWaitTimeDoubleCounter = s.gchCommWaitTimeDoubleCounter) := by
    intro u h1 h2 h3 h4
    obtain ⟨c1, _, c3, c4, c5⟩ := commEntryReset_timeout u
    rw [c1, c3, c4, c5, h1, h2, h3, h4]
    refine ⟨rfl, rfl, fun h => ?_, fun h => ?_⟩
    · rw [if_pos h, if_pos h]; exact ⟨rfl, rfl⟩
    · rw [if_neg (not_le.mpr h), if_neg (not_le.mpr h)]; exact ⟨rfl, rfl⟩
  refine ⟨commEntryReset { s with gchRadioCommStepMode := RADIO_PWR_CHECK_MODE },
    commEntryReset { s with
      ghSensorCommManager :=
        (((({ s.ghSensorCommManager with chTotalPacketCount := SET_COUNTER }
          ).setPacketSeqNo SET_COUNTER).setLastPacket SET_FLAG).setTransmitterID
          RADIO_CH_SLOW_DOWNLINK_CC1125)
      gchSensorCommBuff :=
        wr2 (wr2 (wr2 (wr2 s.gchSensorCommBuff BASE_INDEX PACKET_HEADER_INDEX
          REQUEST_NEW_EXECUTION_TABLE) BASE_INDEX PACKET_DATA_LENGTH_INDEX ET_REQ_PACKET_LENGTH)
          BASE_INDEX CC1125_DATA_PACKET_LENGTH ET_REQ_PACKET_LENGTH)
          BASE_INDEX PACKET_DESCRIPTOR_INDEX
          (((({ s.ghSensorCommManager with chTotalPacketCount := SET_COUNTER }
            ).setPacketSeqNo SET_COUNTER).setLastPacket SET_FLAG).setTransmitterID
            RADIO_CH_SLOW_DOWNLINK_CC1125).chPacketDescriptor
      gchRadioCommStepMode := RADIO_PWR_CHECK_MODE }, ?_, ?_, ?_⟩
  · intro hr
    exact download_entry env fuel s (by simpa [FW.rf] using hr) (by simpa [FW.rf] using hm)
  · have h2 := (key { s with
      ghSensorCommManager :=
        (((({ s.ghSensorCommManager with chTotalPacketCount := SET_COUNTER }
          ).setPacketSeqNo SET_COUNTER).setLastPacket SET_FLAG).setTransmitterID
          RADIO_CH_SLOW_DOWNLINK_CC1125)
      gchSensorCommBuff :=
        wr2 (wr2 (wr2 (wr2 s.gchSensorCommBuff BASE_INDEX PACKET_HEADER_INDEX
          REQUEST_NEW_EXECUTION_TABLE) BASE_INDEX PACKET_DATA_LENGTH_INDEX ET_REQ_PACKET_LENGTH)
          BASE_INDEX CC1125_DATA_PACKET_LENGTH ET_REQ_PACKET_LENGTH)
          BASE_INDEX PACKET_DESCRIPTOR_INDEX
          (((({ s.ghSensorCommManager with chTotalPacketCount := SET_COUNTER }
            ).setPacketSeqNo SET_COUNTER).setLastPacket SET_FLAG).setTransmitterID
            RADIO_CH_SLOW_DOWNLINK_CC1125).chPacketDescriptor
      gchRadioCommStepMode := RADIO_PWR_CHECK_MODE } rfl rfl rfl rfl).1
    have h3 : ¬ RADIO_PWR_CHECK_MODE = COMM_ENTRY_POINT := by decide
    conv_lhs => unfold fnData_ET_Request_Task
    conv_rhs => unfold fnData_ET_Request_Task
    simp only [if_pos hm]
    rw [h2]
    simp only [if_neg h3]
  · intro e he
    rcases he with rfl | rfl
    · exact key _ rfl rfl rfl rfl
    · exact key _ rfl rfl rfl rfl

set_option maxRecDepth 100000 in
/-- After the download that applied one doubling and succeeded, the next exchange is entered
with the doubling counter at 1 (below 3): its entry state keeps `nCommTimeout` = 2000 and the
counter 1, the configured default being 1000. -/
theorem exchange_entry_timeout_witness :
    fwAfterLateAck.gchRadioCommStepMode = COMM_ENTRY_POINT ∧
    fwAfterLateAck.gchCommWaitTimeDoubleCounter = 1 ∧
    fwAfterLateAck.ghMasterTaskTable.nCommTimeout = 2000 ∧
    fwAfterLateAck.gnDefaultCommWaitTimeValue = 1000 ∧
    ∃ eD eR : FW,
      (fwAfterLateAck.gchDataDownloadPacketReady ≠ 0 →
        fnData_Download_Task envLateAck 3 fwAfterLateAck =
          fnData_Download_Task envLateAck 3 eD) ∧
      fnData_ET_Request_Task envLateAck 3 fwAfterLateAck =
        fnData_ET_Request_Task envLateAck 3 eR ∧
      ∀ e, e = eD ∨ e = eR →
        e.gchRadioCommStepMode = RADIO_PWR_CHECK_MODE ∧
        e.gnDefaultCommWaitTimeValue = fwAfterLateAck.gnDefaultCommWaitTimeValue ∧
        (fwAfterLateAck.gchCommWaitTimeDoubleCounter ≥ COMM_WAIT_TIME_DOUBLE_RETRY →
          e.ghMasterTaskTable.nCommTimeout = fwAfterLateAck.gnDefaultCommWaitTimeValue ∧
          e.gchCommWaitTimeDoubleCounter = 0) ∧
        (fwAfterLateAck.gchCommWaitTimeDoubleCounter < COMM_WAIT_TIME_DOUBLE_RETRY →
          e.ghMasterTaskTable.nCommTimeout = fwAfterLateAck.ghMasterTaskTable.nCommTimeout ∧
          e.gchCommWaitTimeDoubleCounter = fwAfterLateAck.gchCommWaitTimeDoubleCounter) :=
  ⟨by decide, by decide, by decide, by decide,
    exchange_entry_timeout envLateAck 3 fwAfterLateAck (by decide)⟩

set_option maxRecDepth 100000 in
/-- C17 (counterexample). The three-packet download after boot (configured reply wait 1000 ms)
on a link whose peer misses the first three transmissions and acknowledges from then on: the
exchange applies one doubling and succeeds at invocation 16, the engine is back at
`COMM_ENTRY_POINT`.  The execution-table request that follows is a new exchange: after its
first invocation `nCommTimeout` is 2000 and the doubling counter is 1, and its reply wait is
started with 2000 ms, not with the configured default. -/
theorem timeout_kept_after_one_doubling :
    (runUntilDone (fnData_Download_Task envLateAck 3) 16 fwDownload3).map
        (fun q => (q.1, commTimers q.2.hwLog)) =
      some (16, [500, 1000, 500, 1000, 500, 1000, 500, 2000, 500, 2000, 500, 2000]) ∧
    fwAfterLateAck.gchRadioCommStepMode = COMM_ENTRY_POINT ∧
    fwAfterLateAck.gnDefaultCommWaitTimeValue = 1000 ∧
    (fnData_ET_Request_Task envLateAck 3 fwAfterLateAck).map (fun r =>
        (r.2.ghMasterTaskTable.nCommTimeout, r.2.gchCommWaitTimeDoubleCounter)) =
      some (2000, 1) ∧
    (runUntilDone (fnData_ET_Request_Task envLateAck 3) 3 fwAfterLateAck).map (fun r =>
        (commTimers r.2.hwLog).drop (commTimers fwAfterLateAck.hwLog).length) =
      some [500, 2000] := by
  decide


theorem serviceIrqs_frame (hw : HwIn) (s : FW) :
    (serviceIrqs hw s).gchSensorLoopBack = s.gchSensorLoopBack ∧
    (serviceIrqs hw s).gchRadioCommStepMode = s.gchRadioCommStepMode ∧
    (serviceIrqs hw s).wdtOn = s.wdtOn ∧
    (serviceIrqs hw s).hwLog = s.hwLog ∧
    (serviceIrqs hw s).ghSensorCommManager = s.ghSensorCommManager := by
  unfold serviceIrqs isrPORTH_INT0 isrTCC1_OVF isrTCE1_OVF
  dsimp only
  split_ifs <;> exact ⟨rfl, rfl, rfl, rfl, rfl⟩

/-- C18: in loop-back mode, when the engine waits in `TX_TIME_OUT_MODE`, the transmit-complete
interrupt has not come, the comm-wait timer has expired and the retry counter reaches
`MAX_RF_COMM_RETRY`, `fnRadioTxRxHandler` returns done (retry-out) from that pass with
`gchSensorLoopBack` as it was (not `LB_STEP_0`) and the watchdog not re-enabled: the pass only
resets the watchdog, flushes the TX FIFO and reports the error. -/
theorem loopback_left_on_at_tx_retry_out (env : Env) (fuel : Nat) (s : FW) (rx : List Nat)
    (hlb : s.gchSensorLoopBack ≠ LB_STEP_0)
    (hm : s.gchRadioCommStepMode = TX_TIME_OUT_MODE)
    (hc : (serviceIrqs (env s) s).gchDataCommFlagCC1125 ≠ SET_FLAG)
    (ht : (serviceIrqs (env s) s).gchCommunicationTimeOut ≠ 0)
    (hr : MAX_RF_COMM_RETRY ≤ u8 (s.ghSensorCommManager.chPacketSendRetryCounter + 1)) :
    ∃ s', radioLoop env (fuel + 1) s rx = some (RETURN_TRUE, s') ∧
      s'.gchSensorLoopBack = s.gchSensorLoopBack ∧ s'.gchSensorLoopBack ≠ LB_STEP_0 ∧
      s'.wdtOn = s.wdtOn ∧
      s'.hwLog = s.hwLog ++ [HwOp.wdtReset, HwOp.strobe CC112X_SFTX,
        HwOp.debugError SENSOR_CC1125_TX_GPIO_INTTERUPT_FAIL] := by
  obtain ⟨f1, f2, f3, f4, f5⟩ := serviceIrqs_frame (env s) s
  generalize hu : serviceIrqs (env s) s = u at hc ht f1 f2 f3 f4 f5
  have hlb2 : u.gchSensorLoopBack ≠ LB_STEP_0 := by rw [f1]; exact hlb
  have hp : radioPass (env s) u rx =
      Pass.ret (SEND_DEBUG_ERROR_CODES SENSOR_CC1125_TX_GPIO_INTTERUPT_FAIL
        { (u.hw HwOp.wdtReset).hw (HwOp.strobe CC112X_SFTX) with
          ghSensorCommManager := { u.ghSensorCommManager with
            chPacketSendRetryCounter := u8 (u.ghSensorCommManager.chPacketSendRetryCounter + 1) } }) := by
    unfold radioPass
    simp only [hlb2, ne_eq, not_false_eq_true, decide_True, if_true]
    have hm2 : (u.hw HwOp.wdtReset).gchRadioCommStepMode = TX_TIME_OUT_MODE := by
      show u.gchRadioCommStepMode = _
      rw [f2]; exact hm
    rw [hm2]
    simp only [TX_TIME_OUT_MODE, RADIO_PWR_CHECK_MODE, RADIO_LINK_SELECT_MODE, RADIO_TX_MODE]
    norm_num
    unfold radioTxTimeOut fnCC112xSendDataComplete
    have hc2 : ¬ (u.hw HwOp.wdtReset).gchDataCommFlagCC1125 = SET_FLAG := hc
    have ht2 : (u.hw HwOp.wdtReset).gchCommunicationTimeOut ≠ 0 := ht
    simp only [hc2, if_false]
    rw [if_neg (by decide), if_pos ht2]
    unfold retryOrQuit
    have hr2 : ¬ u8 (((u.hw HwOp.wdtReset).hw (HwOp.strobe CC112X_SFTX)
        ).ghSensorCommManager.chPacketSendRetryCounter + 1) < MAX_RF_COMM_RETRY := by
      show ¬ u8 (u.ghSensorCommManager.chPacketSendRetryCounter + 1) < MAX_RF_COMM_RETRY
      rw [f5]; omega
    simp only [hr2, if_false]
    rfl
  refine ⟨_, radioLoop_one_true env fuel s _ rx (by rw [hu]; exact hp), ?_, ?_, ?_, ?_⟩
  · show u.gchSensorLoopBack = _
    exact f1
  · show u.gchSensorLoopBack ≠ _
    exact hlb2
  · show u.wdtOn = _
    exact f3
  · show (u.hwLog ++ [HwOp.wdtReset] ++ [HwOp.strobe CC112X_SFTX]) ++ [_] = _
    rw [f4]
    simp [SENSOR_CC1125_TX_GPIO_INTTERUPT_FAIL]

/-- The pass taken from `fwLoopTxStuck` when the comm-wait timer expires without a
transmit-complete interrupt. -/
theorem loopback_left_on_at_tx_retry_out_witness :
    ∃ s', radioLoop envLoopTxFail 1 fwLoopTxStuck (List.replicate MAX_COMM_PACKET_SIZE 0) =
        some (RETURN_TRUE, s') ∧
      s'.gchSensorLoopBack = fwLoopTxStuck.gchSensorLoopBack ∧
      s'.gchSensorLoopBack ≠ LB_STEP_0 ∧
      s'.wdtOn = fwLoopTxStuck.wdtOn ∧
      s'.hwLog = fwLoopTxStuck.hwLog ++ [HwOp.wdtReset, HwOp.strobe CC112X_SFTX,
        HwOp.debugError SENSOR_CC1125_TX_GPIO_INTTERUPT_FAIL] :=
  loopback_left_on_at_tx_retry_out envLoopTxFail 0 fwLoopTxStuck
    (List.replicate MAX_COMM_PACKET_SIZE 0) (by decide) (by decide) (by decide) (by decide)
    (by decide)

set_option maxRecDepth 100000 in
/-- C18 (failing run). After boot, the execution-table request is answered by a loop-back start
command; the engine disables the watchdog, acknowledges and echoes the test frame; the
transmit-complete interrupt of the echo never comes.  The fifth invocation of
`fnData_ET_Request_Task` reports done after three echo attempts with `gchSensorLoopBack` still
`LB_STEP_1`, the watchdog disabled and never re-enabled after its disabling. -/
theorem loopback_run_ends_with_loopback_on :
    (runUntilDone (fnData_ET_Request_Task envLoopTxFail 10) 5 fwBoot).map
        (fun q => (q.1, q.2.gchSensorLoopBack, q.2.wdtOn, q.2.gchRadioCommStepMode)) =
      some (5, LB_STEP_1, false, COMM_ENTRY_POINT) ∧
    (runUntilDone (fnData_ET_Request_Task envLoopTxFail 10) 5 fwBoot).map
        (fun q => (txFrames q.2.hwLog,
          q.2.hwLog.filter (fun op => op = HwOp.wdtEnable ∨ op = HwOp.wdtDisable))) =
      some ([[4, 129, 4, 196, 0], [4, 130, 4, 196, 0], [6, 85, 1, 2, 3, 4, 5],
          [6, 85, 1, 2, 3, 4, 5], [6, 85, 1, 2, 3, 4, 5]],
        [HwOp.wdtEnable, HwOp.wdtDisable]) := by
  decide


theorem serviceIrqs_buff (hw : HwIn) (s : FW) :
    (serviceIrqs hw s).gchSensorCommBuff = s.gchSensorCommBuff := by
  unfold serviceIrqs isrPORTH_INT0 isrTCC1_OVF isrTCE1_OVF
  dsimp only
  split_ifs <;> rfl

/-- The byte-wise copy loop: the length of the destination is kept, the elements below the
count (and inside the destination) are the bytes of the source, the others are untouched. -/
theorem copyLoop_spec (src : List Nat) : ∀ (k : Nat) (dst : List Nat),
    ((List.range k).foldl (fun d i => wr d i (rd src i)) dst).length = dst.length ∧
    ∀ i, rd ((List.range k).foldl (fun d i => wr d i (rd src i)) dst) i =
      if i < k ∧ i < dst.length then u8 (rd src i) else rd dst i
  | 0, dst => by simp
  | k + 1, dst => by
    obtain ⟨h1, h2⟩ := copyLoop_spec src k dst
    rw [List.range_succ, List.foldl_append]
    simp only [List.foldl_cons, List.foldl_nil]
    generalize (List.range k).foldl (fun d i => wr d i (rd src i)) dst = m at h1 h2
    refine ⟨by simp [wr, h1], fun i => ?_⟩
    have h3 := h2 i
    simp only [rd, List.getD_eq_getElem?_getD] at h3
    simp only [wr, rd, List.getD_eq_getElem?_getD, List.getElem?_set, h1]
    by_cases hik : k = i
    · subst hik
      by_cases hl : k < dst.length
      · simp [hl]
      · rw [List.getElem?_eq_none (Nat.le_of_not_lt hl)]
        simp [hl]
    · rw [if_neg hik, h3]
      have e : (i < k + 1 ∧ i < dst.length) ↔ (i < k ∧ i < dst.length) := by
        constructor
        · rintro ⟨a, b⟩; exact ⟨by omega, b⟩
        · rintro ⟨a, b⟩; exact ⟨by omega, b⟩
      simp only [e]

theorem fnMemCopy_rd (dst src : List Nat) (n i : Nat) (hi : i < u8 n) (hl : u8 n ≤ dst.length) :
    rd (fnMemCopy dst src n) i = rxb src i := by
  unfold fnMemCopy rxb
  rw [(copyLoop_spec src (u8 n) dst).2 i, if_pos ⟨hi, by omega⟩]

theorem txFrames_snoc_other (l : List HwOp) (op : HwOp) (h : ∀ b, op ≠ HwOp.txFifo b) :
    txFrames (l ++ [op]) = txFrames l := by
  unfold txFrames
  rw [List.filterMap_append]
  cases op <;> simp at h ⊢

theorem txFrames_snoc_tx (l : List HwOp) (b : List Nat) :
    txFrames (l ++ [HwOp.txFifo b]) = txFrames l ++ [b] := by
  unfold txFrames
  rw [List.filterMap_append]
  rfl

/-- Case `RADIO_RX_MODE` in loop-back mode when a CRC-valid frame has arrived: the engine turns
to `RADIO_SENSOR_LOOP_BACK_MODE` with the frame in the local buffer. -/
theorem lb_pass_rx (hw : HwIn) (u : FW) (rx : List Nat)
    (hm : u.gchRadioCommStepMode = RADIO_RX_MODE) (hlb : u.gchSensorLoopBack ≠ LB_STEP_0)
    (hf : u.gchDataCommFlagCC1125 = SET_FLAG) (hspi : hw.spiOk = true)
    (hn : u8 hw.numRxBytes > 0)
    (hmarc : u8 hw.marcState &&& CC1125_FIFO_ERR_CHECK_BM ≠ CC112X_STATE_RXFIFO_ERROR)
    (hcrc : rxb (rxFill hw rx) (u8 hw.numRxBytes - 1) &&& CC1125_CRC_ERR_CHECK_BM ≠ 0) :
    ∃ u', radioPass hw u rx = Pass.test true u' (rxFill hw rx) ∧
      u'.gchRadioCommStepMode = RADIO_SENSOR_LOOP_BACK_MODE ∧
      u'.gchSensorLoopBack = u.gchSensorLoopBack ∧
      u'.gchSensorCommBuff = u.gchSensorCommBuff ∧
      txFrames u'.hwLog = txFrames u.hwLog := by
  have hp : radioPass hw u rx = radioRx hw true (u.hw HwOp.wdtReset) rx := by
    unfold radioPass
    simp only [hlb, ne_eq, not_false_eq_true, decide_True, if_true]
    have hm2 : (u.hw HwOp.wdtReset).gchRadioCommStepMode = RADIO_RX_MODE := hm
    rw [hm2]
    simp only [TX_TIME_OUT_MODE, RADIO_PWR_CHECK_MODE, RADIO_LINK_SELECT_MODE, RADIO_TX_MODE,
      RADIO_RX_MODE]
    norm_num
  rw [hp]
  unfold rxFill at hcrc
  have hn2 : u8 hw.numRxBytes > RESET_VALUE := hn
  have hf2 : (u.hw HwOp.wdtReset).gchDataCommFlagCC1125 = SET_FLAG := hf
  have hlb2 : ¬ u.gchSensorLoopBack = LB_STEP_0 := hlb
  simp only [radioRx, fnCC112xReceiveDataAvail, hf2, hf, hspi, hn2, hmarc, hcrc, FW.hw,
    fnRadioCommunicationTimerDisable, hlb2, if_true, if_false, not_true_eq_false, ne_eq,
    not_false_eq_true, rxFill]
  refine ⟨_, rfl, rfl, rfl, rfl, ?_⟩
  show txFrames (u.hwLog ++ [HwOp.wdtReset] ++ [HwOp.stopCommTimer]) = _
  rw [txFrames_snoc_other _ _ (by intro b; simp), txFrames_snoc_other _ _ (by intro b; simp)]

/-- Case `RADIO_SENSOR_LOOP_BACK_MODE` for a frame that is not a stop command: the frame is
copied into row 0 of the bank and the engine turns to `RADIO_TX_MODE` for packet 0. -/
theorem lb_pass_copy (hw : HwIn) (u : FW) (rx : List Nat)
    (hm : u.gchRadioCommStepMode = RADIO_SENSOR_LOOP_BACK_MODE)
    (hlb : u.gchSensorLoopBack ≠ LB_STEP_0)
    (h1 : rxb rx 1 ≠ STOP_LOOP_BACK_LOAD_IDLE) (h2 : rxb rx 1 ≠ STOP_LOOP_BACK_LOAD_ACTIVE) :
    ∃ u', radioPass hw u rx = Pass.test true u' rx ∧
      u'.gchRadioCommStepMode = RADIO_TX_MODE ∧
      u'.gchSensorLoopBack = u.gchSensorLoopBack ∧
      u'.gchSensorCommBuff = u.gchSensorCommBuff.set BASE_INDEX
        (fnMemCopy (u.gchSensorCommBuff.getD BASE_INDEX []) rx
          (rxb rx CC1125_DATA_PACKET_LENGTH + 1)) ∧
      u'.ghSensorCommManager.chPacketCounter = 0 ∧
      txFrames u'.hwLog = txFrames u.hwLog := by
  have hp : radioPass hw u rx = radioLoopBack true (u.hw HwOp.wdtReset) rx := by
    unfold radioPass
    simp only [hlb, ne_eq, not_false_eq_true, decide_True, if_true]
    have hm2 : (u.hw HwOp.wdtReset).gchRadioCommStepMode = RADIO_SENSOR_LOOP_BACK_MODE := hm
    rw [hm2]
    simp only [TX_TIME_OUT_MODE, RADIO_PWR_CHECK_MODE, RADIO_LINK_SELECT_MODE, RADIO_TX_MODE,
      RADIO_RX_MODE, RADIO_SENSOR_LOOP_BACK_MODE]
    norm_num
  rw [hp]
  simp only [radioLoopBack, h1, h2, if_false]
  refine ⟨_, rfl, rfl, rfl, rfl, rfl, ?_⟩
  show txFrames (u.hwLog ++ [HwOp.wdtReset] ++ [HwOp.stopCommTimer]) = _
  rw [txFrames_snoc_other _ _ (by intro b; simp), txFrames_snoc_other _ _ (by intro b; simp)]

theorem radioTx_loopback (hw : HwIn) (nxt : Bool) (v : FW) (rx : List Nat)
    (hlb : v.gchSensorLoopBack ≠ LB_STEP_0) :
    ∃ u', radioTx hw nxt v rx = Pass.test nxt u' rx ∧
      u'.gchSensorLoopBack = v.gchSensorLoopBack ∧
      txFrames u'.hwLog = txFrames v.hwLog ++
        [frameOf (v.gchSensorCommBuff.getD v.ghSensorCommManager.chPacketCounter [])] := by
  have hlb2 : ¬ v.gchSensorLoopBack = LB_STEP_0 := hlb
  by_cases hmarc : u8 hw.marcState &&& CC1125_FIFO_ERR_CHECK_BM = CC112X_STATE_TXFIFO_ERROR
  · simp only [radioTx, FW.hw, hlb2, hmarc, if_true, if_false]
    refine ⟨_, rfl, rfl, ?_⟩
    simp [txFrames, frameOf, SEND_DEBUG_ERROR_CODES, FW.hw, List.filterMap_append]
  · simp only [radioTx, FW.hw, hlb2, hmarc, if_true, if_false]
    refine ⟨_, rfl, rfl, ?_⟩
    simp [txFrames, frameOf, fnStartCommunicationTimer, FW.hw, List.filterMap_append]

/-- Case `RADIO_TX_MODE` in loop-back mode: row `chPacketCounter` of the bank goes to the TX
FIFO as it stands, whether or not the chip then reports a TX FIFO error. -/
theorem lb_pass_tx (hw : HwIn) (u : FW) (rx : List Nat)
    (hm : u.gchRadioCommStepMode = RADIO_TX_MODE) (hlb : u.gchSensorLoopBack ≠ LB_STEP_0) :
    ∃ u', radioPass hw u rx = Pass.test true u' rx ∧
      u'.gchSensorLoopBack = u.gchSensorLoopBack ∧
      txFrames u'.hwLog = txFrames u.hwLog ++
        [frameOf (u.gchSensorCommBuff.getD u.ghSensorCommManager.chPacketCounter [])] := by
  have hp : radioPass hw u rx = radioTx hw true (u.hw HwOp.wdtReset) rx := by
    unfold radioPass
    simp only [hlb, ne_eq, not_false_eq_true, decide_True, if_true]
    have hm2 : (u.hw HwOp.wdtReset).gchRadioCommStepMode = RADIO_TX_MODE := hm
    rw [hm2]
    simp only [TX_TIME_OUT_MODE, RADIO_PWR_CHECK_MODE, RADIO_LINK_SELECT_MODE, RADIO_TX_MODE]
    norm_num
  rw [hp]
  obtain ⟨u', h1, h2, h3⟩ := radioTx_loopback hw true (u.hw HwOp.wdtReset) rx hlb
  refine ⟨u', h1, h2, ?_⟩
  rw [h3]
  show txFrames (u.hwLog ++ [HwOp.wdtReset]) ++ _ = _
  rw [txFrames_snoc_other _ _ (by intro b; simp)]
  rfl

theorem rxFill_fifo (hw : HwIn) (rx : List Nat) (i : Nat) (hi : i < u8 hw.numRxBytes)
    (hl : u8 hw.numRxBytes ≤ hw.rxFifo.length) :
    rxb (rxFill hw rx) i = u8 (hw.rxFifo.getD i 0) := by
  have h1 : i < ((hw.rxFifo.take (u8 hw.numRxBytes)).map u8).length := by
    simp only [List.length_map, List.length_take]
    omega
  have h2 : i < hw.rxFifo.length := by omega
  simp only [rxb, rd, rxFill, List.getD_eq_getElem?_getD]
  rw [List.getElem?_append_left h1, List.getElem?_map, List.getElem?_take_of_lt hi,
    List.getElem?_eq_getElem h2]
  simp [u8]

/-- C19: in loop-back mode, when a CRC-valid frame whose header byte is not a stop command and
whose length byte `L` has `L + 1 <= MAX_COMM_PACKET_SIZE` has arrived while the engine waits in
`RADIO_RX_MODE`, the next three passes of the handler's loop take the frame in, copy it into
row 0 of the bank and load the TX FIFO; no frame is loaded before the third pass, and the frame
loaded there has exactly `L + 1` bytes, byte `i` being byte `i` of the receive buffer, i.e. (for
a frame that lies inside what was read from the RX FIFO) the first `L + 1` bytes received. -/
theorem loopback_echo_verbatim (env : Env) (s : FW) (rx : List Nat)
    (hm : s.gchRadioCommStepMode = RADIO_RX_MODE) (hlb : s.gchSensorLoopBack ≠ LB_STEP_0)
    (hf : (serviceIrqs (env s) s).gchDataCommFlagCC1125 = SET_FLAG)
    (hspi : (env s).spiOk = true) (hn : u8 (env s).numRxBytes > 0)
    (hmarc : u8 (env s).marcState &&& CC1125_FIFO_ERR_CHECK_BM ≠ CC112X_STATE_RXFIFO_ERROR)
    (hcrc : rxb (rxFill (env s) rx) (u8 (env s).numRxBytes - 1) &&& CC1125_CRC_ERR_CHECK_BM ≠ 0)
    (h1 : rxb (rxFill (env s) rx) PACKET_HEADER_INDEX ≠ STOP_LOOP_BACK_LOAD_IDLE)
    (h2 : rxb (rxFill (env s) rx) PACKET_HEADER_INDEX ≠ STOP_LOOP_BACK_LOAD_ACTIVE)
    (hL : rxb (rxFill (env s) rx) CC1125_DATA_PACKET_LENGTH + 1 ≤ MAX_COMM_PACKET_SIZE)
    (hrow : (s.gchSensorCommBuff.getD BASE_INDEX []).length = MAX_COMM_PACKET_SIZE) :
    ∃ u1 u2 u3 : FW,
      radioPass (env s) (serviceIrqs (env s) s) rx = Pass.test true u1 (rxFill (env s) rx) ∧
      radioPass (env u1) (serviceIrqs (env u1) u1) (rxFill (env s) rx) =
        Pass.test true u2 (rxFill (env s) rx) ∧
      radioPass (env u2) (serviceIrqs (env u2) u2) (rxFill (env s) rx) =
        Pass.test true u3 (rxFill (env s) rx) ∧
      (∀ fuel, radioLoop env (fuel + 3) s rx = radioLoop env fuel u3 (rxFill (env s) rx)) ∧
      txFrames u1.hwLog = txFrames s.hwLog ∧ txFrames u2.hwLog = txFrames s.hwLog ∧
      txFrames u3.hwLog = txFrames s.hwLog ++
        [(List.range (rxb (rxFill (env s) rx) CC1125_DATA_PACKET_LENGTH + 1)).map
          (rxb (rxFill (env s) rx))] ∧
      (rxb (rxFill (env s) rx) CC1125_DATA_PACKET_LENGTH + 1 ≤ u8 (env s).numRxBytes →
        u8 (env s).numRxBytes ≤ (env s).rxFifo.length →
        txFrames u3.hwLog = txFrames s.hwLog ++
          [((env s).rxFifo.take
            (rxb (rxFill (env s) rx) CC1125_DATA_PACKET_LENGTH + 1)).map u8]) := by
  obtain ⟨a1, a2, _, a4, _⟩ := serviceIrqs_frame (env s) s
  have a6 := serviceIrqs_buff (env s) s
  obtain ⟨u1, p1, m1, l1, b1, t1⟩ := lb_pass_rx (env s) (serviceIrqs (env s) s) rx
    (by rw [a2]; exact hm) (by rw [a1]; exact hlb) hf hspi hn hmarc hcrc
  have hfifo : ∀ i, i < u8 (env s).numRxBytes → u8 (env s).numRxBytes ≤ (env s).rxFifo.length →
      rxb (rxFill (env s) rx) i = u8 ((env s).rxFifo.getD i 0) :=
    fun i hi hl => rxFill_fifo (env s) rx i hi hl
  generalize rxFill (env s) rx = rx' at *
  obtain ⟨c1, c2, _, c4, _⟩ := serviceIrqs_frame (env u1) u1
  have c6 := serviceIrqs_buff (env u1) u1
  have hlb1 : u1.gchSensorLoopBack ≠ LB_STEP_0 := by rw [l1, a1]; exact hlb
  obtain ⟨u2, p2, m2, l2, b2, k2, t2⟩ := lb_pass_copy (env u1) (serviceIrqs (env u1) u1) rx'
    (by rw [c2]; exact m1) (by rw [c1]; exact hlb1) h1 h2
  obtain ⟨d1, d2, _, d4, d5⟩ := serviceIrqs_frame (env u2) u2
  have d6 := serviceIrqs_buff (env u2) u2
  have hlb2 : u2.gchSensorLoopBack ≠ LB_STEP_0 := by rw [l2, c1]; exact hlb1
  obtain ⟨u3, p3, l3, t3⟩ := lb_pass_tx (env u2) (serviceIrqs (env u2) u2) rx'
    (by rw [d2]; exact m2) (by rw [d1]; exact hlb2)
  have e1 : txFrames u1.hwLog = txFrames s.hwLog := by rw [t1, a4]
  have e2 : txFrames u2.hwLog = txFrames s.hwLog := by rw [t2, c4, e1]
  have hu8 : u8 (rxb rx' CC1125_DATA_PACKET_LENGTH + 1) =
      rxb rx' CC1125_DATA_PACKET_LENGTH + 1 := by
    simp only [MAX_COMM_PACKET_SIZE] at hL
    simp only [u8]; omega
  have hrow2 : (s.gchSensorCommBuff.getD 0 []).length = MAX_COMM_PACKET_SIZE := hrow
  have hbank : 0 < s.gchSensorCommBuff.length := by
    by_contra hc
    have : s.gchSensorCommBuff = [] := List.length_eq_zero.mp (by omega)
    rw [this] at hrow2
    simp [MAX_COMM_PACKET_SIZE] at hrow2
  have hfr : frameOf ((serviceIrqs (env u2) u2).gchSensorCommBuff.getD
      (serviceIrqs (env u2) u2).ghSensorCommManager.chPacketCounter []) =
      (List.range (rxb rx' CC1125_DATA_PACKET_LENGTH + 1)).map (rxb rx') := by
    rw [d5, k2, d6, b2, c6, b1, a6]
    have hg : (s.gchSensorCommBuff.set BASE_INDEX
        (fnMemCopy (s.gchSensorCommBuff.getD BASE_INDEX []) rx'
          (rxb rx' CC1125_DATA_PACKET_LENGTH + 1))).getD 0 [] =
        fnMemCopy (s.gchSensorCommBuff.getD BASE_INDEX []) rx'
          (rxb rx' CC1125_DATA_PACKET_LENGTH + 1) := by
      simp [BASE_INDEX, List.getD_eq_getElem?_getD, List.getElem?_set, hbank]
    rw [hg]
    have hrd : ∀ i, i < rxb rx' CC1125_DATA_PACKET_LENGTH + 1 →
        rd (fnMemCopy (s.gchSensorCommBuff.getD BASE_INDEX []) rx'
          (rxb rx' CC1125_DATA_PACKET_LENGTH + 1)) i = rxb rx' i := by
      intro i hi
      exact fnMemCopy_rd _ _ _ i (by rw [hu8]; exact hi) (by rw [hu8, hrow]; exact hL)
    have h0 : rd (fnMemCopy (s.gchSensorCommBuff.getD BASE_INDEX []) rx'
        (rxb rx' CC1125_DATA_PACKET_LENGTH + 1)) CC1125_DATA_PACKET_LENGTH =
        rxb rx' CC1125_DATA_PACKET_LENGTH := hrd _ (by simp [CC1125_DATA_PACKET_LENGTH])
    unfold frameOf
    rw [h0, hu8]
    apply List.map_congr_left
    intro i hi
    exact hrd i (List.mem_range.mp hi)
  have e3 : txFrames u3.hwLog = txFrames s.hwLog ++
      [(List.range (rxb rx' CC1125_DATA_PACKET_LENGTH + 1)).map (rxb rx')] := by
    rw [t3, hfr, d4, e2]
  refine ⟨u1, u2, u3, p1, p2, p3, ?_, e1, e2, e3, ?_⟩
  · intro fuel
    rw [radioLoop_one_more env (fuel + 2) s u1 rx rx' p1,
      radioLoop_one_more env (fuel + 1) u1 u2 rx' rx' p2,
      radioLoop_one_more env fuel u2 u3 rx' rx' p3]
  · intro hLn hnl
    rw [e3]
    congr 1
    congr 1
    apply List.ext_getElem
    · simp only [List.length_map, List.length_range, List.length_take]
      omega
    · intro i hi1 hi2
      simp only [List.length_map, List.length_range] at hi1
      have hil : i < (env s).rxFifo.length := by omega
      simp only [List.getElem_map, List.getElem_range, List.getElem_take]
      rw [hfifo i (by omega) hnl, List.getD_eq_getElem?_getD, List.getElem?_eq_getElem hil]
      rfl

set_option maxRecDepth 100000 in
/-- The test frame `[6, 0x55, 1, 2, 3, 4, 5]` (with RSSI and status byte behind it) arrives in
loop-back mode: after three passes the TX FIFO has been loaded with these 7 bytes. -/
theorem loopback_echo_verbatim_witness :
    ∃ u3 : FW,
      radioLoop envLoopTxFail 4 fwLoopRx (List.replicate MAX_COMM_PACKET_SIZE 0) =
        radioLoop envLoopTxFail 1 u3
          (rxFill (envLoopTxFail fwLoopRx) (List.replicate MAX_COMM_PACKET_SIZE 0)) ∧
      txFrames u3.hwLog = txFrames fwLoopRx.hwLog ++ [[6, 0x55, 1, 2, 3, 4, 5]] := by
  obtain ⟨_, _, u3, _, _, _, hl, _, _, _, e4⟩ :=
    loopback_echo_verbatim envLoopTxFail fwLoopRx (List.replicate MAX_COMM_PACKET_SIZE 0)
      (by decide) (by decide) (by decide) (by decide) (by decide) (by decide) (by decide)
      (by decide) (by decide) (by decide) (by decide)
  exact ⟨u3, hl 1, (e4 (by decide) (by decide)).trans (by decide)⟩


theorem fetch_unknown (id : Nat) (h : ∀ e ∈ ghSensorInfo, e.1 ≠ id) :
    ((fnFetchSensorDataLength id) % 256).toNat = 255 := by
  have hf : ghSensorInfo.find? (fun e => decide (e.1 = id)) = none := by
    rw [List.find?_eq_none]
    intro e he
    simpa using h e he
  unfold fnFetchSensorDataLength
  rw [hf]
  decide

/-- One record of the upload: the slots below the new count were below the old count and are
untouched, or are the slot just written, whose data length is what the lookup returned. -/
theorem etUploadRecord_inv (buf : List Nat) (c : Nat) (s : FW)
    (hlen : s.gchTotalSensorEntry < s.ghSensorControl.length)
    (hinv : ∀ j < s.gchTotalSensorEntry, LengthStored (s.slot j)) :
    (etUploadRecord buf c s).ghSensorControl.length = s.ghSensorControl.length ∧
    (etUploadRecord buf c s).gchTotalSensorEntry ≤ s.gchTotalSensorEntry + 1 ∧
    ∀ j < (etUploadRecord buf c s).gchTotalSensorEntry,
      LengthStored ((etUploadRecord buf c s).slot j) := by
  unfold etUploadRecord
  by_cases h1 : rxb buf (c + SAMPLE_CLOCK_DIVISOR_OFFSET) = RESET_VALUE
  · rw [if_pos h1]
    exact ⟨rfl, Nat.le_succ _, hinv⟩
  · rw [if_neg h1]
    dsimp only
    have key : ∀ (u : FW) (x : SMART_SENSORS_STRUCT),
        u.ghSensorControl = (s.setSlot s.gchTotalSensorEntry x).ghSensorControl →
        LengthStored x →
        u.ghSensorControl.length = s.ghSensorControl.length ∧
        u8 (s.gchTotalSensorEntry + 1) ≤ s.gchTotalSensorEntry + 1 ∧
        ∀ j < u8 (s.gchTotalSensorEntry + 1), LengthStored (u.slot j) := by
      intro u x hu hx
      have hle : u8 (s.gchTotalSensorEntry + 1) ≤ s.gchTotalSensorEntry + 1 := by
        simp only [u8]; exact Nat.mod_le _ _
      refine ⟨by rw [hu]; simp [FW.setSlot], hle, fun j hj => ?_⟩
      rw [slot_congr u _ j hu, slot_setSlot]
      split_ifs with hc
      · exact hx
      · have : j ≠ s.gchTotalSensorEntry := fun e => hc ⟨e, hlen⟩
        exact hinv j (by omega)
    split_ifs
    · exact key _ _ rfl (by unfold LengthStored; rfl)
    · exact key _ _ rfl (by unfold LengthStored; rfl)

theorem etUploadLoop_inv (buf : List Nat) : ∀ (fuel c : Nat) (s : FW),
    s.gchTotalSensorEntry + fuel ≤ s.ghSensorControl.length →
    (∀ j < s.gchTotalSensorEntry, LengthStored (s.slot j)) →
    ∀ j < (etUploadLoop buf fuel c s).gchTotalSensorEntry,
      LengthStored ((etUploadLoop buf fuel c s).slot j)
  | 0, _, _, _, hinv => hinv
  | fuel + 1, c, s, hlen, hinv => by
    rw [etUploadLoop]
    split_ifs
    · obtain ⟨r1, r2, r3⟩ := etUploadRecord_inv buf c s (by omega) hinv
      exact etUploadLoop_inv buf fuel _ _ (by rw [r1]; omega) r3
    · exact hinv

/-- An accepted frame: the table is what the record loop builds from a state with no slot in
use and the slot array as it was. -/
theorem fnET_Upload_Task_accept_loop (buf : List Nat) (s : FW)
    (hok : (fnET_Upload_Task buf s).1 = RETURN_TRUE) :
    ∃ s0 : FW, s0.gchTotalSensorEntry = 0 ∧ s0.ghSensorControl = s.ghSensorControl ∧
      (fnET_Upload_Task buf s).2.ghSensorControl =
        (etUploadLoop buf ET_UPLOAD_FUEL SENSORS_START_INDEX s0).ghSensorControl ∧
      (fnET_Upload_Task buf s).2.gchTotalSensorEntry =
        (etUploadLoop buf ET_UPLOAD_FUEL SENSORS_START_INDEX s0).gchTotalSensorEntry := by
  obtain ⟨a1, a2, a3, a4⟩ := (fnET_Upload_Task_accept_iff buf s).1.mp hok
  have h1 := be16_eq (rxb_lt buf 7) (rxb_lt buf 8)
  have h2 := be16_eq (show rxb buf 9 % 2 < 256 by omega) (rxb_lt buf 10)
  have h3 := be16_eq (rxb_lt buf 11) (rxb_lt buf 12)
  simp only [ID_MASTER_CONTROLLER, MIN_RADIO_CLOCK_DIVISOR, MIN_COMM_WAIT_TIME_OUT] at a1 a3 a4
  simp only [fnET_Upload_Task, PACKET_MASTER_ID_INDEX, ID_MASTER_CONTROLLER,
    PACKET_SAMPLE_CLOCK_FREQ_BYTE1, PACKET_SAMPLE_CLOCK_FREQ_BYTE2, PACKET_CONTROL_BYTE1,
    PACKET_CONTROL_BYTE2, PACKET_WAIT_TIME_BYTE1, PACKET_WAIT_TIME_BYTE2, BIT_0_bm,
    Nat.and_one_is_mod, h1, h2, h3, RESET_VALUE, MIN_RADIO_CLOCK_DIVISOR,
    MIN_COMM_WAIT_TIME_OUT, MAX_SAMPLE_CLOCK_FREQ]
  rw [if_neg (by simpa using a1), if_neg a2, if_neg (by omega), if_neg (by omega)]
  have cfg_slots : ∀ (k : Nat) (u : FW),
      (fnConfigureSampleClock k u).ghSensorControl = u.ghSensorControl := fun _ _ => rfl
  have cfg_total : ∀ (k : Nat) (u : FW),
      (fnConfigureSampleClock k u).gchTotalSensorEntry = u.gchTotalSensorEntry := fun _ _ => rfl
  simp only [cfg_slots, cfg_total]
  split_ifs
  all_goals
    refine ⟨_, ?_, ?_, rfl, rfl⟩
    · rfl
    · rfl

/-- C20: an upload record that is not skipped and whose id is not in `ghSensorInfo` yields a
slot (the count goes up by one, the slot holds the id) whose `chSensorDataLength` is 255, the
`uint8_t` value of `RETURN_FALSE`; and in the table of every accepted upload frame, every slot
whose id is not in `ghSensorInfo` has `chSensorDataLength` 255, not 0. -/
theorem unknown_sensor_data_length (buf : List Nat) (s : FW) :
    (∀ c, rxb buf (c + SAMPLE_CLOCK_DIVISOR_OFFSET) ≠ RESET_VALUE →
      s.gchTotalSensorEntry < s.ghSensorControl.length → s.gchTotalSensorEntry < 255 →
      (∀ e ∈ ghSensorInfo, e.1 ≠ rxb buf (c + SENSOR_EXECUTION_TABLE_ID_OFFSET)) →
      (etUploadRecord buf c s).gchTotalSensorEntry = s.gchTotalSensorEntry + 1 ∧
      ((etUploadRecord buf c s).slot s.gchTotalSensorEntry).chSensorID =
        rxb buf (c + SENSOR_EXECUTION_TABLE_ID_OFFSET) ∧
      ((etUploadRecord buf c s).slot s.gchTotalSensorEntry).chSensorDataLength = 255) ∧
    (s.ghSensorControl.length = MAX_SENSOR_COUNT →
      (fnET_Upload_Task buf s).1 = RETURN_TRUE →
      ∀ j < (fnET_Upload_Task buf s).2.gchTotalSensorEntry,
        (∀ e ∈ ghSensorInfo, e.1 ≠ ((fnET_Upload_Task buf s).2.slot j).chSensorID) →
        ((fnET_Upload_Task buf s).2.slot j).chSensorDataLength = 255) := by
  constructor
  · intro c h1 hlen h255 hid
    have hu : u8 (s.gchTotalSensorEntry + 1) = s.gchTotalSensorEntry + 1 := by
      simp only [u8]; omega
    have hf := fetch_unknown _ hid
    have key : ∀ (u : FW) (x : SMART_SENSORS_STRUCT),
        u.ghSensorControl = (s.setSlot s.gchTotalSensorEntry x).ghSensorControl →
        x.chSensorID = rxb buf (c + SENSOR_EXECUTION_TABLE_ID_OFFSET) →
        x.chSensorDataLength = 255 →
        (u.slot s.gchTotalSensorEntry).chSensorID =
          rxb buf (c + SENSOR_EXECUTION_TABLE_ID_OFFSET) ∧
        (u.slot s.gchTotalSensorEntry).chSensorDataLength = 255 := by
      intro u x e1 e3 e4
      have e := slot_congr u _ s.gchTotalSensorEntry e1
      rw [slot_setSlot, if_pos ⟨rfl, hlen⟩] at e
      rw [e]
      exact ⟨e3, e4⟩
    unfold etUploadRecord
    rw [if_neg h1]
    dsimp only
    split_ifs
    · exact ⟨hu, key _ _ rfl rfl hf⟩
    · exact ⟨hu, key _ _ rfl rfl hf⟩
  · intro hlen hok j hj hid
    obtain ⟨s0, z1, z2, z3, z4⟩ := fnET_Upload_Task_accept_loop buf s hok
    have hinv := etUploadLoop_inv buf ET_UPLOAD_FUEL SENSORS_START_INDEX s0
      (by rw [z1, z2, hlen]; decide) (by rw [z1]; intro j hj; omega)
    rw [z4] at hj
    have e := slot_congr _ _ j z3
    rw [e] at hid ⊢
    have h := hinv j hj
    unfold LengthStored at h
    rw [h]
    exact fetch_unknown _ hid

set_option maxRecDepth 100000 in
/-- The frame `frameUnknownId` (one record, id `BATTERY_TEMPERATURE`) is accepted after boot;
the table has one slot, with that id and data length 255. -/
theorem unknown_sensor_data_length_witness :
    (fnET_Upload_Task frameUnknownId fwBoot).1 = RETURN_TRUE ∧
    (fnET_Upload_Task frameUnknownId fwBoot).2.gchTotalSensorEntry = 1 ∧
    ((fnET_Upload_Task frameUnknownId fwBoot).2.slot 0).chSensorID = BATTERY_TEMPERATURE ∧
    ((fnET_Upload_Task frameUnknownId fwBoot).2.slot 0).chSensorDataLength = 255 :=
  ⟨by decide, by decide, by decide,
    (unknown_sensor_data_length frameUnknownId fwBoot).2 (by decide) (by decide) 0 (by decide)
      (by decide)⟩


/-! ## Sleep-depth selection -/

/-- C21: behind each sweep `main` selects power-down exactly when no enabled task is active and
`gchControllerOff` is `SET_FLAG`; otherwise power-save exactly when no enabled task is active;
otherwise idle exactly when `gchNewInterrupt` is clear; otherwise it does not sleep.  The
watchdog is disabled and re-enabled exactly in the power-down branch, there the disabling comes
before `_SLEEP` and the re-enabling behind it; interrupts are locked out first and re-enabled in
every branch, before any `_SLEEP`. -/
theorem sleep_depth_selection (wake : SleepMode → FW → FW) (s : FW) :
    (MainOp.enableSleepMode SleepMode.powerDown ∈ (mainSleepStep wake s).2 ↔
      (s.gchTasks_Enable &&& s.gchTasks_Active = ALL_TASK_DONE ∧ s.gchControllerOff = SET_FLAG)) ∧
    (MainOp.enableSleepMode SleepMode.powerSave ∈ (mainSleepStep wake s).2 ↔
      (s.gchTasks_Enable &&& s.gchTasks_Active = ALL_TASK_DONE ∧ ¬ s.gchControllerOff = SET_FLAG)) ∧
    (MainOp.enableSleepMode SleepMode.idle ∈ (mainSleepStep wake s).2 ↔
      (¬ s.gchTasks_Enable &&& s.gchTasks_Active = ALL_TASK_DONE ∧ s.gchNewInterrupt = CLEAR_NEW_ISR_FLAG)) ∧
    (MainOp.sleep ∉ (mainSleepStep wake s).2 ↔
      (¬ s.gchTasks_Enable &&& s.gchTasks_Active = ALL_TASK_DONE ∧
        ¬ s.gchNewInterrupt = CLEAR_NEW_ISR_FLAG)) ∧
    (MainOp.disableWDT ∈ (mainSleepStep wake s).2 ↔
      MainOp.enableSleepMode SleepMode.powerDown ∈ (mainSleepStep wake s).2) ∧
    (MainOp.enableWDT ∈ (mainSleepStep wake s).2 ↔
      MainOp.enableSleepMode SleepMode.powerDown ∈ (mainSleepStep wake s).2) ∧
    (MainOp.enableSleepMode SleepMode.powerDown ∈ (mainSleepStep wake s).2 →
      (mainSleepStep wake s).2 =
        [MainOp.disableInterrupts, MainOp.disableWDT, MainOp.enableInterrupts,
          MainOp.enableSleepMode SleepMode.powerDown, MainOp.sleep, MainOp.disableSleepModes,
          MainOp.enableWDT, MainOp.resetWDT] ∧
      (mainSleepStep wake s).1 =
        (fnEnableWDT (wake SleepMode.powerDown (fnDisableWDT s))).hw HwOp.wdtReset) ∧
    (MainOp.enableSleepMode SleepMode.powerSave ∈ (mainSleepStep wake s).2 →
      (mainSleepStep wake s).2 =
        [MainOp.disableInterrupts, MainOp.enableInterrupts,
          MainOp.enableSleepMode SleepMode.powerSave, MainOp.sleep, MainOp.disableSleepModes,
          MainOp.resetWDT] ∧
      (mainSleepStep wake s).1 = (wake SleepMode.powerSave s).hw HwOp.wdtReset) ∧
    (MainOp.enableSleepMode SleepMode.idle ∈ (mainSleepStep wake s).2 →
      (mainSleepStep wake s).2 =
        [MainOp.disableInterrupts, MainOp.enableInterrupts,
          MainOp.enableSleepMode SleepMode.idle, MainOp.sleep, MainOp.disableSleepModes,
          MainOp.resetWDT] ∧
      (mainSleepStep wake s).1 = (wake SleepMode.idle s).hw HwOp.wdtReset) ∧
    (MainOp.sleep ∉ (mainSleepStep wake s).2 →
      (mainSleepStep wake s).2 =
        [MainOp.disableInterrupts, MainOp.enableInterrupts, MainOp.resetWDT] ∧
      (mainSleepStep wake s).1 = s.hw HwOp.wdtReset) ∧
    (mainSleepStep wake s).2.take 1 = [MainOp.disableInterrupts] ∧
    (∃ pre post, (mainSleepStep wake s).2 = pre ++ [MainOp.enableInterrupts] ++ post ∧
      MainOp.sleep ∉ pre ∧ MainOp.enableInterrupts ∉ post) := by
  unfold mainSleepStep
  by_cases h1 : s.gchTasks_Enable &&& s.gchTasks_Active = ALL_TASK_DONE
  · by_cases h2 : s.gchControllerOff = SET_FLAG
    · rw [if_pos ⟨h1, h2⟩]
      dsimp only
      refine ⟨by simp [h1, h2], by simp [h1, h2], by simp [h1], by simp [h1], by simp,
        by simp, fun _ => ⟨rfl, rfl⟩, fun h => absurd h (by simp), fun h => absurd h (by simp),
        fun h => absurd (by simp) h, rfl,
        ⟨[MainOp.disableInterrupts, MainOp.disableWDT], _, rfl, by simp, by simp⟩⟩
    · rw [if_neg (fun h => h2 h.2), if_pos h1]
      refine ⟨by simp [h1, h2], by simp [h1, h2], by simp [h1], by simp [h1], by simp,
        by simp, fun h => absurd h (by simp), fun _ => ⟨rfl, rfl⟩, fun h => absurd h (by simp),
        fun h => absurd (by simp) h, rfl,
        ⟨[MainOp.disableInterrupts], _, rfl, by simp, by simp⟩⟩
  · rw [if_neg (fun h => h1 h.1), if_neg h1]
    by_cases h3 : s.gchNewInterrupt = CLEAR_NEW_ISR_FLAG
    · rw [if_pos h3]
      refine ⟨by simp [h1], by simp [h1], by simp [h1, h3], by simp [h1, h3], by simp,
        by simp, fun h => absurd h (by simp), fun h => absurd h (by simp), fun _ => ⟨rfl, rfl⟩,
        fun h => absurd (by simp) h, rfl,
        ⟨[MainOp.disableInterrupts], _, rfl, by simp, by simp⟩⟩
    · rw [if_neg h3]
      refine ⟨by simp [h1], by simp [h1], by simp [h1, h3], by simp [h1, h3], by simp,
        by simp, fun h => absurd h (by simp), fun h => absurd h (by simp),
        fun h => absurd h (by simp), fun _ => ⟨rfl, rfl⟩, rfl,
        ⟨[MainOp.disableInterrupts], _, rfl, by simp, by simp⟩⟩


/-! ## Contents of the default execution table -/

/-- C22: what the default execution-table initialisation stores.  With the default table of
data_structure.h, `fnDefaultExecutionTableInit` stores the communication timeout 1000 ms (also
as `gnDefaultCommWaitTimeValue`), the radio-clock divisor `DEFAULT_ET_RADIO_CLOCK`, which is 10
(the comment block of the function says 5), and the slow download channel, and restarts the
sample clock for 1 Hz (period register 125, phase 0); it does not write `nSampleClock`,
`gchTotalSensorEntry` or the slots.  It deactivates every task, enables the
Execution-Table-Request task and disables Sampling, Collection and Download; after
`fnSoftwareInit` (boot) the Execution-Table-Request task is the only one enabled and there are
no sensors.  Whatever the three constants of `fnDefaultTaskingTableInit` are, the divisor and
the timeout stored are those constants and the slot count is left as it is. -/
theorem default_table_contents (s : FW) :
    (fnDefaultExecutionTableInit s).ghMasterTaskTable.nCommTimeout = 1000 ∧
    (fnDefaultExecutionTableInit s).gnDefaultCommWaitTimeValue = 1000 ∧
    (fnDefaultExecutionTableInit s).ghMasterTaskTable.nRadioClockDivisor = 10 ∧
    (fnDefaultExecutionTableInit s).ghMasterTaskTable.chDataDownloadChannel =
      RADIO_CH_SLOW_DOWNLINK_CC1125 ∧
    (fnDefaultExecutionTableInit s).hwLog = s.hwLog ++ [HwOp.rtcPeriod 125] ∧
    (fnDefaultExecutionTableInit s).rtcOn = true ∧
    (fnDefaultExecutionTableInit s).gchSampleClockPhase = RTC_PHASE0 ∧
    (fnDefaultExecutionTableInit s).ghMasterTaskTable.nSampleClock =
      s.ghMasterTaskTable.nSampleClock ∧
    (fnDefaultExecutionTableInit s).gchTotalSensorEntry = s.gchTotalSensorEntry ∧
    (fnDefaultExecutionTableInit s).ghSensorControl = s.ghSensorControl ∧
    (fnDefaultExecutionTableInit s).gchTasks_Active = 0 ∧
    (fnDefaultExecutionTableInit s).gchTasks_Enable &&& EXECUTION_TABLE_REQ_TASK ≠ 0 ∧
    (fnDefaultExecutionTableInit s).gchTasks_Enable &&&
      (DATA_SAMPLING_TASK ||| DATA_COLLECTION_TASK ||| DATA_DOWNLOAD_TASK) = 0 ∧
    (fnDefaultExecutionTableInit s).gchTasks_Enable &&&
        (DEBUG_SERIAL_TASK ||| WATCHDOG_MANAGEMENT_TASK) =
      s.gchTasks_Enable &&& (DEBUG_SERIAL_TASK ||| WATCHDOG_MANAGEMENT_TASK) ∧
    (fnDefaultExecutionTableInit (fnSoftwareInit s)).gchTasks_Enable =
      EXECUTION_TABLE_REQ_TASK ∧
    (fnDefaultExecutionTableInit (fnSoftwareInit s)).gchTotalSensorEntry = 0 ∧
    ∀ clk div tmo,
      (fnDefaultTaskingTableInit clk div tmo s).ghMasterTaskTable.nRadioClockDivisor = div ∧
      (fnDefaultTaskingTableInit clk div tmo s).ghMasterTaskTable.nCommTimeout = tmo ∧
      (fnDefaultTaskingTableInit clk div tmo s).gnDefaultCommWaitTimeValue = tmo ∧
      (fnDefaultTaskingTableInit clk div tmo s).gchTotalSensorEntry = s.gchTotalSensorEntry := by
  have he : (fnDefaultExecutionTableInit s).gchTasks_Enable =
      (s.gchTasks_Enable ||| 8) &&& 248 := by
    simp [fnDefaultExecutionTableInit, fnDefaultTaskingTableInit, fnConfigureSampleClock, fnStopSampleClock, FW.hw,
      EXECUTION_TABLE_REQ_TASK, DATA_SAMPLING_TASK, DATA_COLLECTION_TASK, DATA_DOWNLOAD_TASK]
  refine ⟨rfl, rfl, rfl, rfl, ?_, rfl, rfl, rfl, rfl, rfl, rfl, ?_, ?_, ?_,
    (default_init_state s).1, rfl, fun _ _ _ => ⟨rfl, rfl, rfl, rfl⟩⟩
  · simp [fnDefaultExecutionTableInit, fnDefaultTaskingTableInit, fnConfigureSampleClock, fnStopSampleClock, FW.hw,
      DEFAULT_ET_SAMPLE_CLOCK, u8]
  · rw [he, Nat.and_assoc, Nat.or_comm]
    exact or_and_ne_zero 8 _ (248 &&& EXECUTION_TABLE_REQ_TASK) (by decide)
  · rw [he, Nat.and_assoc]
    have h0 : 248 &&& (DATA_SAMPLING_TASK ||| DATA_COLLECTION_TASK ||| DATA_DOWNLOAD_TASK) = 0 := by
      decide
    rw [h0, Nat.and_zero]
  · rw [he, Nat.and_assoc]
    have h0 : 248 &&& (DEBUG_SERIAL_TASK ||| WATCHDOG_MANAGEMENT_TASK) =
        (DEBUG_SERIAL_TASK ||| WATCHDOG_MANAGEMENT_TASK) := by decide
    have h1 : 8 &&& (DEBUG_SERIAL_TASK ||| WATCHDOG_MANAGEMENT_TASK) = 0 := by decide
    rw [h0, Nat.and_distrib_right, h1, Nat.or_zero]

set_option maxRecDepth 100000 in
/-- The default table as loaded: at boot it has radio-clock divisor 10, not 5, and
`nSampleClock` 0; and when the console ends a download of the running gyrometer table with a
terminate command, the default table is loaded with divisor 10, the sensor count still 1 and
`nSampleClock` still 10. -/
theorem default_table_divisor_is_ten :
    fwBoot.ghMasterTaskTable.nRadioClockDivisor = 10 ∧
    fwBoot.ghMasterTaskTable.nSampleClock = 0 ∧
    (match radioRxDispatch false fwGyroRunning frameTerminate with
      | Pass.ret t => some (t.ghMasterTaskTable.nRadioClockDivisor, t.gchTotalSensorEntry,
          t.ghMasterTaskTable.nSampleClock, t.gchTasks_Enable)
      | Pass.test _ _ _ => none) = some (10, 1, 10, EXECUTION_TABLE_REQ_TASK) := by
  decide


/-! ## The due check of the sampling task, slot by slot -/

theorem samplingDueSlot_other (j i : Nat) (s : FW) (h : i ≠ j) :
    (samplingDueSlot j s).1.slot i = s.slot i := by
  obtain ⟨y, _, he⟩ := samplingDueSlot_slots j s
  rcases slot_set_cases _ s i j y he with e | ⟨e, _⟩
  · exact e
  · exact absurd e h

theorem samplingDueSlot_length (j : Nat) (s : FW) :
    (samplingDueSlot j s).1.ghSensorControl.length = s.ghSensorControl.length := by
  obtain ⟨y, _, he⟩ := samplingDueSlot_slots j s
  rw [he, List.length_set]

/-- The slot visited by one step of the due check. -/
theorem samplingDueSlot_self (j : Nat) (s : FW) (hj : j < s.ghSensorControl.length) :
    (samplingDueSlot j s).1.slot j = dueChecked (s.slot j) := by
  unfold dueChecked
  have key : ∀ (u : FW) (y : SMART_SENSORS_STRUCT),
      u.ghSensorControl = (s.setSlot j y).ghSensorControl → u.slot j = y := by
    intro u y e
    rw [slot_congr u _ j e, slot_setSlot, if_pos ⟨rfl, hj⟩]
  by_cases h1 : u8 ((s.slot j).chSampleClockCounter + 1) ≥ (s.slot j).chSampleClockDivisor
  · by_cases h2 : (s.slot j).chSensorStatusFlag = SAMPLE_STATE_OFF
    · by_cases h3 : (s.slot j).chSensorSampleAvgCounter < (s.slot j).chSensorSampleAvgTotalCount
      · simp only [samplingDueSlot, h1, h2, h3, if_true, and_self]
        rw [key _ _ rfl]
        rfl
      · simp only [samplingDueSlot, h1, h2, h3, if_true, if_false, and_false]
        rw [key _ _ rfl]
        rfl
    · simp only [samplingDueSlot, h1, h2, if_true, if_false, and_false, false_and]
      exact (key _ _ rfl).trans rfl
  · simp only [samplingDueSlot, h1, if_false, false_and]
    rw [key _ _ rfl]

/-- The error-control byte and the debug sink behind one step of the due check: an overrun is
recorded, or nothing is. -/
theorem samplingDueSlot_errors (j : Nat) (s : FW) :
    ((samplingDueSlot j s).1.ghSensorCommManager = s.ghSensorCommManager ∧
        (samplingDueSlot j s).1.hwLog = s.hwLog ∨
      (samplingDueSlot j s).1.ghSensorCommManager =
          s.ghSensorCommManager.setOverrunErrorID SENSOR_SENSOR_SAMPLING_OVERRUN ∧
        (samplingDueSlot j s).1.hwLog =
          s.hwLog ++ [HwOp.debugError SENSOR_SENSOR_SAMPLING_OVERRUN]) ∧
    (u8 ((s.slot j).chSampleClockCounter + 1) ≥ (s.slot j).chSampleClockDivisor →
      (s.slot j).chSensorStatusFlag ≠ SAMPLE_STATE_OFF →
      (samplingDueSlot j s).1.ghSensorCommManager =
          s.ghSensorCommManager.setOverrunErrorID SENSOR_SENSOR_SAMPLING_OVERRUN ∧
        (samplingDueSlot j s).1.hwLog =
          s.hwLog ++ [HwOp.debugError SENSOR_SENSOR_SAMPLING_OVERRUN]) ∧
    (samplingDueSlot j s).1.gchTotalSensorEntry = s.gchTotalSensorEntry ∧
    (samplingDueSlot j s).1.gchSampleClockIndicator = s.gchSampleClockIndicator := by
  unfold samplingDueSlot
  dsimp only
  split_ifs with h1 h2 h3
  · exact ⟨Or.inl ⟨rfl, rfl⟩, fun _ h => absurd h2 h, rfl, rfl⟩
  · exact ⟨Or.inl ⟨rfl, rfl⟩, fun _ h => absurd h2 h, rfl, rfl⟩
  · exact ⟨Or.inr ⟨rfl, rfl⟩, fun _ _ => ⟨rfl, rfl⟩, rfl, rfl⟩
  · exact ⟨Or.inl ⟨rfl, rfl⟩, fun h _ => absurd h h1, rfl, rfl⟩

theorem samplingDueSlot_logged (j : Nat) (s : FW) :
    (OverrunLogged s → OverrunLogged (samplingDueSlot j s).1) ∧
    (u8 ((s.slot j).chSampleClockCounter + 1) ≥ (s.slot j).chSampleClockDivisor →
      (s.slot j).chSensorStatusFlag ≠ SAMPLE_STATE_OFF → OverrunLogged (samplingDueSlot j s).1) := by
  obtain ⟨e1, e2, _, _⟩ := samplingDueSlot_errors j s
  have hset : ∀ u : FW,
      u.ghSensorCommManager =
        s.ghSensorCommManager.setOverrunErrorID SENSOR_SENSOR_SAMPLING_OVERRUN →
      u.hwLog = s.hwLog ++ [HwOp.debugError SENSOR_SENSOR_SAMPLING_OVERRUN] →
      OverrunLogged u := by
    intro u a b
    refine ⟨?_, by rw [b]; simp⟩
    rw [a]
    exact getBits_setBits_3_5 _ _ (by decide)
  refine ⟨fun h => ?_, fun h1 h2 => hset _ (e2 h1 h2).1 (e2 h1 h2).2⟩
  rcases e1 with ⟨a, b⟩ | ⟨a, b⟩
  · exact ⟨by rw [a]; exact h.1, by rw [b]; exact h.2⟩
  · exact hset _ a b

/-- The due check from slot `j` on, `n` slots: the slots visited are due-checked once, the
others are untouched; the slot count and the indicator stay; an overrun of a visited slot is
reported. -/
theorem samplingDueLoop_slot : ∀ (n j : Nat) (chk : Bool) (s : FW) (i : Nat),
    i < s.ghSensorControl.length →
    ((samplingDueLoop n j chk s).1.slot i =
      if j ≤ i ∧ i < j + n then dueChecked (s.slot i) else s.slot i) ∧
    (samplingDueLoop n j chk s).1.gchTotalSensorEntry = s.gchTotalSensorEntry ∧
    (samplingDueLoop n j chk s).1.gchSampleClockIndicator = s.gchSampleClockIndicator ∧
    (OverrunLogged s → OverrunLogged (samplingDueLoop n j chk s).1) ∧
    (j ≤ i → i < j + n →
      u8 ((s.slot i).chSampleClockCounter + 1) ≥ (s.slot i).chSampleClockDivisor →
      (s.slot i).chSensorStatusFlag ≠ SAMPLE_STATE_OFF →
      OverrunLogged (samplingDueLoop n j chk s).1)
  | 0, j, _, s, i, _ => by
    refine ⟨?_, rfl, rfl, fun h => h, fun h1 h2 => by omega⟩
    rw [if_neg (by omega)]
    rfl
  | n + 1, j, chk, s, i, hi => by
    rw [samplingDueLoop]
    obtain ⟨_, _, e3, e4⟩ := samplingDueSlot_errors j s
    obtain ⟨l1, l2⟩ := samplingDueSlot_logged j s
    obtain ⟨r1, r2, r3, r4, r5⟩ := samplingDueLoop_slot n (j + 1) (chk || (samplingDueSlot j s).2)
      (samplingDueSlot j s).1 i (by rw [samplingDueSlot_length]; exact hi)
    refine ⟨?_, r2.trans e3, r3.trans e4, fun h => r4 (l1 h), fun h1 h2 h3 h4 => ?_⟩
    · rw [r1]
      by_cases hij : i = j
      · subst hij
        rw [if_neg (by omega), if_pos (by omega), samplingDueSlot_self i s hi]
      · rw [samplingDueSlot_other j i s hij]
        by_cases hc : j + 1 ≤ i ∧ i < j + 1 + n
        · rw [if_pos hc, if_pos (by omega)]
        · rw [if_neg hc, if_neg (by omega)]
    · by_cases hij : i = j
      · subst hij
        exact r4 (l2 h3 h4)
      · rw [← samplingDueSlot_other j i s hij] at h3 h4
        exact r5 (by omega) (by omega) h3 h4

/-- C23: the due check of `fnData_Sampling_Task` (run when `gchSampleClockIndicator` is set)
clears the indicator and treats every slot `i < gchTotalSensorEntry` once, with the `uint8_t`
pre-increment `c = (counter + 1) mod 256` of its sample-clock counter.  If `c >= divisor` the
counter is reset to 0 and (a) an Off slot with the averaging not complete moves to Start, (b) an
Off slot with the averaging complete stays Off, (c) a slot that is not Off keeps its status and
every other field and `SENSOR_SENSOR_SAMPLING_OVERRUN` is recorded as overrun error id and sent
to the debug sink.  If `c < divisor` only the counter changes, to `c`.  `c` is `counter + 1`
unless the counter is 255, where it is 0: a slot with counter 255 and divisor 255 has
`counter + 1 >= divisor` and is not treated as due. -/
theorem due_check_step (s : FW) (i : Nat) (hi : i < s.gchTotalSensorEntry)
    (hn : s.gchTotalSensorEntry ≤ s.ghSensorControl.length) :
    (samplingDueCheck s).1.gchSampleClockIndicator = RESET_FLAG ∧
    (samplingDueCheck s).1.gchTotalSensorEntry = s.gchTotalSensorEntry ∧
    (u8 ((s.slot i).chSampleClockCounter + 1) ≥ (s.slot i).chSampleClockDivisor →
      ((s.slot i).chSensorStatusFlag = SAMPLE_STATE_OFF →
        (s.slot i).chSensorSampleAvgCounter < (s.slot i).chSensorSampleAvgTotalCount →
        (samplingDueCheck s).1.slot i =
          { s.slot i with
            chSampleClockCounter := 0, chSensorStatusFlag := SAMPLE_STATE_START }) ∧
      ((s.slot i).chSensorStatusFlag = SAMPLE_STATE_OFF →
        ¬ (s.slot i).chSensorSampleAvgCounter < (s.slot i).chSensorSampleAvgTotalCount →
        (samplingDueCheck s).1.slot i = { s.slot i with chSampleClockCounter := 0 }) ∧
      ((s.slot i).chSensorStatusFlag ≠ SAMPLE_STATE_OFF →
        (samplingDueCheck s).1.slot i = { s.slot i with chSampleClockCounter := 0 } ∧
        (samplingDueCheck s).1.ghSensorCommManager.chOverrunErrorID =
          SENSOR_SENSOR_SAMPLING_OVERRUN ∧
        HwOp.debugError SENSOR_SENSOR_SAMPLING_OVERRUN ∈ (samplingDueCheck s).1.hwLog)) ∧
    (u8 ((s.slot i).chSampleClockCounter + 1) < (s.slot i).chSampleClockDivisor →
      (samplingDueCheck s).1.slot i =
        { s.slot i with chSampleClockCounter := u8 ((s.slot i).chSampleClockCounter + 1) }) ∧
    ((s.slot i).chSampleClockCounter < 255 →
      u8 ((s.slot i).chSampleClockCounter + 1) = (s.slot i).chSampleClockCounter + 1) ∧
    ((s.slot i).chSampleClockCounter = 255 → 1 ≤ (s.slot i).chSampleClockDivisor →
      (samplingDueCheck s).1.slot i = { s.slot i with chSampleClockCounter := 0 }) := by
  have hlen : i < ({ s with gchSampleClockIndicator := RESET_FLAG } : FW).ghSensorControl.length :=
    Nat.lt_of_lt_of_le hi hn
  obtain ⟨r1, r2, r3, _, r5⟩ := samplingDueLoop_slot s.gchTotalSensorEntry 0 false
    { s with gchSampleClockIndicator := RESET_FLAG } i hlen
  have hs : ({ s with gchSampleClockIndicator := RESET_FLAG } : FW).slot i = s.slot i := rfl
  rw [if_pos ⟨Nat.zero_le _, by omega⟩, hs] at r1
  rw [hs] at r5
  have e : (samplingDueCheck s).1.slot i = dueChecked (s.slot i) := r1
  refine ⟨r3, r2, fun h1 => ⟨fun h2 h3 => ?_, fun h2 h3 => ?_, fun h2 => ⟨?_, ?_⟩⟩,
    fun h1 => ?_, fun h => ?_, fun h hd => ?_⟩
  · rw [e, dueChecked, if_pos h1, if_pos ⟨h1, h2, h3⟩]
  · rw [e, dueChecked, if_pos h1, if_neg (fun h => h3 h.2.2)]
  · rw [e, dueChecked, if_pos h1, if_neg (fun h => h2 h.2.1)]
  · exact r5 (Nat.zero_le _) (by omega) h1 h2
  · rw [e, dueChecked, if_neg (by omega), if_neg (fun h => absurd h.1 (by omega))]
  · simp only [u8]; omega
  · have hc : u8 ((s.slot i).chSampleClockCounter + 1) = 0 := by rw [h]; rfl
    rw [e, dueChecked, hc, if_neg (by omega), if_neg (fun hh => absurd hh.1 (by omega))]

set_option maxRecDepth 100000 in
/-- The slot populated from `frameDiv255` at the first sampling tick after the upload: counter
255, divisor 255, Off, averaging not complete; the due check leaves it Off with counter 0. -/
theorem due_check_step_witness :
    (fwDiv255.slot 0).chSampleClockCounter = 255 ∧
    (fwDiv255.slot 0).chSampleClockDivisor = 255 ∧
    (fwDiv255.slot 0).chSensorStatusFlag = SAMPLE_STATE_OFF ∧
    (fwDiv255.slot 0).chSensorSampleAvgCounter <
      (fwDiv255.slot 0).chSensorSampleAvgTotalCount ∧
    (samplingDueCheck fwDiv255).1.slot 0 = { fwDiv255.slot 0 with chSampleClockCounter := 0 } ∧
    ((samplingDueCheck fwDiv255).1.slot 0).chSensorStatusFlag = SAMPLE_STATE_OFF :=
  ⟨by decide, by decide, by decide, by decide,
    (due_check_step fwDiv255 0 (by decide) (by decide)).2.2.2.2.2 (by decide) (by decide),
    by decide⟩


/-! ## Upload: what a record writes -/

/-- One record of the upload: skipped when its sample-clock divisor byte is 0, else
`uploadedSlot` is stored at index `gchTotalSensorEntry` and the count goes up by one. -/
theorem etUploadRecord_slots (buf : List Nat) (c : Nat) (s : FW) :
    (rxb buf (c + SAMPLE_CLOCK_DIVISOR_OFFSET) = RESET_VALUE → etUploadRecord buf c s = s) ∧
    (rxb buf (c + SAMPLE_CLOCK_DIVISOR_OFFSET) ≠ RESET_VALUE →
      (etUploadRecord buf c s).ghSensorControl =
        s.ghSensorControl.set s.gchTotalSensorEntry
          (uploadedSlot buf c (s.slot s.gchTotalSensorEntry)) ∧
      (etUploadRecord buf c s).gchTotalSensorEntry = u8 (s.gchTotalSensorEntry + 1)) := by
  unfold etUploadRecord
  refine ⟨fun h => by rw [if_pos h], fun h => ?_⟩
  rw [if_neg h]
  dsimp only
  split_ifs with hb
  · refine ⟨?_, rfl⟩
    show s.ghSensorControl.set _ _ = _
    congr 1
    unfold uploadedSlot
    simp only [decide_eq_true_eq] at hb
    rw [if_pos hb]
  · refine ⟨?_, rfl⟩
    show s.ghSensorControl.set _ _ = _
    congr 1
    unfold uploadedSlot
    simp only [decide_eq_true_eq] at hb
    rw [if_neg hb]

/-- A property of slots that every uploaded slot has holds for all the slots of the table the
record loop builds, when it held for the slots in use before. -/
theorem etUploadLoop_pred (P : SMART_SENSORS_STRUCT → Prop)
    (hP : ∀ buf c old, P (uploadedSlot buf c old)) (buf : List Nat) :
    ∀ (fuel c : Nat) (s : FW),
      s.gchTotalSensorEntry + fuel ≤ s.ghSensorControl.length →
      (∀ j < s.gchTotalSensorEntry, P (s.slot j)) →
      ∀ j < (etUploadLoop buf fuel c s).gchTotalSensorEntry,
        P ((etUploadLoop buf fuel c s).slot j)
  | 0, _, _, _, hinv => hinv
  | fuel + 1, c, s, hlen, hinv => by
    rw [etUploadLoop]
    split_ifs
    · obtain ⟨r1, r2⟩ := etUploadRecord_slots buf c s
      by_cases h0 : rxb buf (c + SAMPLE_CLOCK_DIVISOR_OFFSET) = RESET_VALUE
      · rw [r1 h0]
        exact etUploadLoop_pred P hP buf fuel _ s (by omega) hinv
      · obtain ⟨e1, e2⟩ := r2 h0
        have hle : u8 (s.gchTotalSensorEntry + 1) ≤ s.gchTotalSensorEntry + 1 := by
          simp only [u8]; exact Nat.mod_le _ _
        refine etUploadLoop_pred P hP buf fuel _ _ (by rw [e1, e2, List.length_set]; omega) ?_
        intro j hj
        rw [e2] at hj
        rcases slot_set_cases _ s j _ _ e1 with h | ⟨_, h⟩
        · rw [h]
          by_cases hjt : j < s.gchTotalSensorEntry
          · exact hinv j hjt
          · have hjeq : j = s.gchTotalSensorEntry := by omega
            have := slot_congr _ (s.setSlot s.gchTotalSensorEntry
              (uploadedSlot buf c (s.slot s.gchTotalSensorEntry))) j e1
            rw [slot_setSlot, if_pos ⟨hjeq, by omega⟩] at this
            rw [← h, this]
            exact hP _ _ _
        · rw [h]
          exact hP _ _ _
    · exact hinv

/-- A property of slots that every uploaded slot has holds for every slot of an accepted
table. -/
theorem accepted_table_pred (P : SMART_SENSORS_STRUCT → Prop)
    (hP : ∀ buf c old, P (uploadedSlot buf c old)) (buf : List Nat) (s : FW)
    (hlen : s.ghSensorControl.length = MAX_SENSOR_COUNT)
    (hok : (fnET_Upload_Task buf s).1 = RETURN_TRUE) :
    ∀ j < (fnET_Upload_Task buf s).2.gchTotalSensorEntry,
      P ((fnET_Upload_Task buf s).2.slot j) := by
  intro j hj
  obtain ⟨s0, z1, z2, z3, z4⟩ := fnET_Upload_Task_accept_loop buf s hok
  have hinv := etUploadLoop_pred P hP buf ET_UPLOAD_FUEL SENSORS_START_INDEX s0
    (by rw [z1, z2, hlen]; decide) (by rw [z1]; intro j hj; omega)
  rw [z4] at hj
  rw [slot_congr _ _ j z3]
  exact hinv j hj


/-! ## The average counter and its target -/

theorem avgInv_uploaded (buf : List Nat) (c : Nat) (old : SMART_SENSORS_STRUCT) :
    AvgInv (uploadedSlot buf c old) ∧
    (uploadedSlot buf c old).chSensorSampleAvgCounter = 0 ∧
    (uploadedSlot buf c old).chSensorStatusFlag = SAMPLE_STATE_OFF := by
  unfold AvgInv uploadedSlot
  dsimp only
  simp only [RESET_VALUE, MAX_SAMPLE_AVERAGE_SUPPORTED, MIN_SAMPLE_AVG_COUNT]
  split_ifs with h
  · simp
  · simp only [true_and, and_true, Nat.zero_le, SAMPLE_STATE_OFF, ne_eq, not_true_eq_false,
      false_implies, and_self]
    omega

theorem avgInv_due (x y : SMART_SENSORS_STRUCT) (h : DueStep x y) (hx : AvgInv x) :
    AvgInv y := by
  obtain ⟨_, d2, d3, d4⟩ := h
  obtain ⟨a1, a2, a3, a4⟩ := hx
  unfold AvgInv
  rw [d2, d3]
  refine ⟨a1, a2, a3, fun hy => ?_⟩
  rcases d4 with h | ⟨_, h, _⟩
  · exact a4 (by rw [← h]; exact hy)
  · exact h

theorem avgInv_run (x y : SMART_SENSORS_STRUCT) (h : RunStep x y) (hx : AvgInv x) :
    AvgInv y := by
  obtain ⟨_, r2, r3⟩ := h
  obtain ⟨a1, a2, a3, a4⟩ := hx
  unfold AvgInv
  rw [r2]
  rcases r3 with ⟨h1, h2, h3⟩ | ⟨h1, h2, h3⟩ | ⟨h1, h2, h3⟩
  · rw [h3]; exact ⟨a1, a2, a3, fun hy => absurd h2 hy⟩
  · rw [h3]; exact ⟨a1, a2, a3, fun _ => a4 h1⟩
  · rw [h3]
    refine ⟨a1, a2, ?_, fun hy => absurd h2 hy⟩
    have := a4 h1
    unfold acqCount
    split_ifs
    · exact le_refl _
    · simp only [u8, MAX_SAMPLE_AVERAGE_SUPPORTED] at *
      omega

theorem avgInv_collect (x y : SMART_SENSORS_STRUCT) (h : CollectStep x y) (hx : AvgInv x) :
    AvgInv y := by
  obtain ⟨_, c2, c3, c4⟩ := h
  obtain ⟨a1, a2, a3, a4⟩ := hx
  unfold AvgInv
  rw [c2, c3]
  rcases c4 with h | ⟨_, h⟩
  · rw [h]; exact ⟨a1, a2, a3, a4⟩
  · rw [h]; exact ⟨a1, a2, Nat.zero_le _, fun _ => a1⟩

/-- The inner loop run for slot `c` leaves the slots before `c` as they are. -/
theorem collectWords_below (c m : Nat) (hm : m < c) : ∀ (n k : Nat) (s : FW),
    (collectWords c n k s).slot m = s.slot m
  | 0, _, _ => rfl
  | n + 1, k, s => by
    rw [collectWords_unroll, collectWords_below c m hm n (k + 1), collectWords_one_slot, if_neg]
    omega

/-- The inner loop run for slot `c` from word `k` clears the id of a later slot `m` of the
array when it reaches the first object of that slot. -/
theorem collectWords_reach (c m : Nat) (hm : c < m) : ∀ (n k : Nat) (s : FW),
    m < s.ghSensorControl.length → k + 4 ≤ 12 * (m - c) → 12 * (m - c) < k + n + 4 →
    ((collectWords c n k s).slot m).chSensorID = 0
  | 0, _, _, _, h1, h2 => by omega
  | n + 1, k, s, hl, h1, h2 => by
    rw [collectWords_unroll]
    have e := collectWords_one_slot c k s m
    by_cases hit : m = c + (k + 4) / 12 ∧ c + (k + 4) / 12 < s.ghSensorControl.length
    · rw [if_pos hit] at e
      have hz : (k + 4) % 12 = 0 := by omega
      rw [hz] at e
      have hid : ((collectWords c 1 k s).slot m).chSensorID = 0 := by rw [e]; rfl
      rcases (collectWords_clear c m n (k + 1) (collectWords c 1 k s)).1 with g | g
      · exact g.trans hid
      · exact g
    · exact collectWords_reach c m hm n (k + 1) _ (by rw [collectWords_one_length]; exact hl)
        (by omega) (by omega)

/-- A due slot with a data length of 8 or more: the first part of its pass clears its average
target and its average counter, and the id of every later slot of the array up to the slot that
holds the last word. -/
theorem collectSlot_overrun (c : Nat) (avail : Bool) (s : FW)
    (hdue : u8 ((s.slot c).chRadioClockCounter + 1) ≥ (s.slot c).chRadioClockDivisor)
    (h8 : 8 ≤ (s.slot c).chSensorDataLength) :
    ((collectSlot c avail s).1.slot c).chSensorSampleAvgTotalCount = 0 ∧
    ((collectSlot c avail s).1.slot c).chSensorSampleAvgCounter = 0 ∧
    ∀ m, c < m → m < s.ghSensorControl.length →
      12 * (m - c) ≤ (s.slot c).chSensorDataLength + 3 →
      ((collectSlot c avail s).1.slot m).chSensorID = 0 := by
  rw [collectSlot_due c avail s hdue]
  dsimp only
  obtain ⟨_, _, _, _, w5⟩ :=
    collectWords_own c (s.slot c).chSensorDataLength 0 (collectSlotId c s)
  obtain ⟨w6, w7⟩ := w5 (by omega) (by omega)
  have hw : ∀ m, c < m → m < s.ghSensorControl.length →
      12 * (m - c) ≤ (s.slot c).chSensorDataLength + 3 →
      ((collectWords c (s.slot c).chSensorDataLength 0 (collectSlotId c s)).slot m).chSensorID =
        0 := by
    intro m hm hl h
    refine collectWords_reach c m hm _ 0 _ ?_ (by omega) (by omega)
    show (List.set _ _ _).length > m
    rw [List.length_set]
    exact hl
  split_ifs with hb
  · refine ⟨?_, ?_, fun m hm hl h => ?_⟩
    · rw [slot_setSlot]
      split_ifs
      · exact w6
      · exact w6
    · rw [slot_setSlot]
      split_ifs
      · rfl
      · exact w7
    · rw [slot_setSlot, if_neg (fun g => by omega)]
      exact hw m hm hl h
  · exact ⟨w6, w7, hw⟩

/-- The first part of the pass for slot `c` leaves the slots before `c` as they are. -/
theorem collectSlot_below (c m : Nat) (avail : Bool) (s : FW) (hm : m < c) :
    (collectSlot c avail s).1.slot m = s.slot m := by
  have hne : m ≠ c := by omega
  by_cases h : u8 ((s.slot c).chRadioClockCounter + 1) ≥ (s.slot c).chRadioClockDivisor
  · rw [collectSlot_due c avail s h]
    dsimp only
    have e : (collectWords c (s.slot c).chSensorDataLength 0 (collectSlotId c s)).slot m =
        s.slot m := by
      rw [collectWords_below c m hm]
      exact (collectSlotId_fields c s m).2.2.2.2.2 hne
    split_ifs
    · rw [slot_setSlot, if_neg (fun g => hne g.1)]
      exact e
    · exact e
  · have e : collectSlot c avail s =
        (s.setSlot c { s.slot c with
          chRadioClockCounter := u8 ((s.slot c).chRadioClockCounter + 1) }, avail) := by
      unfold collectSlot
      dsimp only
      rw [if_neg h]
    rw [e]
    show (FW.setSlot s c _).slot m = _
    rw [slot_setSlot, if_neg (fun g => hne g.1)]

/-- The loop from the pass for slot `c` on leaves the slots before `c` as they are. -/
theorem collectLoop_below (m : Nat) : ∀ (fuel c : Nat) (avail : Bool) (k : Nat) (s : FW),
    m < c → c < 255 → s.gchTotalSensorEntry ≤ 255 →
    (collectLoop fuel c avail k s).s.slot m = s.slot m
  | 0, _, _, _, _, _, _, _ => rfl
  | fuel + 1, c, avail, k, s, hm, hc, ht => by
    have hu : u8 (c + 1) = c + 1 := u8_of_lt (by omega)
    have h1 := collectSlot_below c m avail s hm
    have h2 := collectSlot_total c avail s
    rw [collectLoop]
    simp only [hu]
    split_ifs with g1 g2 g3
    · exact h1
    · exact h1
    · rw [collectLoop_below m fuel (c + 1) _ _ _ (by omega)
        (by simp only [decide_eq_true_eq, ge_iff_le, not_le] at g3; omega)
        (by rw [collectFinalize_total, h2]; exact ht)]
      exact h1
    · rw [collectLoop_below m fuel (c + 1) _ _ _ (by omega)
        (by simp only [decide_eq_true_eq, ge_iff_le, not_le, not_or] at g2; omega)
        (by rw [h2]; exact ht)]
      exact h1

/-- With no download pending, the slots after an invocation of the collection task are those
after the walk. -/
theorem collection_slot (s : FW) (hr : s.gchDataDownloadPacketReady = 0) (m : Nat) :
    (fnData_Collection_Task s).2.slot m = (collectWalk s).s.slot m := by
  unfold fnData_Collection_Task
  rw [if_neg (by rw [hr]; decide)]
  dsimp only
  split_ifs <;> rfl

/-! ### Tables whose data lengths fit `nSensorData` -/

/-- The first part of a pass for a slot with at most 7 data words, seen from slot `m`: a
`CollectStep`, and the data length is kept. -/
theorem collectSlot_step (c : Nat) (avail : Bool) (s : FW) (m : Nat)
    (h7 : (s.slot c).chSensorDataLength ≤ 7) :
    CollectStep (s.slot m) ((collectSlot c avail s).1.slot m) ∧
    ((collectSlot c avail s).1.slot m).chSensorDataLength = (s.slot m).chSensorDataLength := by
  by_cases h : u8 ((s.slot c).chRadioClockCounter + 1) ≥ (s.slot c).chRadioClockDivisor
  · rw [collectSlot_due c avail s h]
    dsimp only
    obtain ⟨i1, i2, i3, i4, i5, i6⟩ := collectSlotId_fields c s m
    by_cases hm : m = c
    · subst hm
      obtain ⟨w1, w2, w3, w4, _⟩ :=
        collectWords_own m (s.slot m).chSensorDataLength 0 (collectSlotId m s)
      obtain ⟨w6, w7⟩ := w4 (by omega)
      split_ifs with hb
      · rw [slot_setSlot]
        split_ifs with g
        · refine ⟨⟨w1.trans i1, w6.trans i4, w2.trans i2, Or.inr ⟨?_, rfl⟩⟩, w3.trans i3⟩
          rw [w6, w7, i4, i5] at hb
          exact hb
        · exact ⟨⟨w1.trans i1, w6.trans i4, w2.trans i2, Or.inl (w7.trans i5)⟩, w3.trans i3⟩
      · exact ⟨⟨w1.trans i1, w6.trans i4, w2.trans i2, Or.inl (w7.trans i5)⟩, w3.trans i3⟩
    · have e : (collectWords c (s.slot c).chSensorDataLength 0 (collectSlotId c s)).slot m =
          s.slot m := by
        rw [collectWords_short c m hm _ 0 _ (by omega)]
        exact i6 hm
      split_ifs
      · rw [slot_setSlot, if_neg (fun g => hm g.1), e]
        exact ⟨CollectStep_refl _, rfl⟩
      · rw [e]
        exact ⟨CollectStep_refl _, rfl⟩
  · have e : collectSlot c avail s =
        (s.setSlot c { s.slot c with
          chRadioClockCounter := u8 ((s.slot c).chRadioClockCounter + 1) }, avail) := by
      unfold collectSlot
      dsimp only
      rw [if_neg h]
    rw [e]
    show CollectStep _ ((FW.setSlot s c _).slot m) ∧
      ((FW.setSlot s c _).slot m).chSensorDataLength = _
    rw [slot_setSlot]
    split_ifs with g
    · rw [g.1]
      exact ⟨⟨rfl, rfl, rfl, Or.inl rfl⟩, rfl⟩
    · exact ⟨CollectStep_refl _, rfl⟩

/-- The loop from the pass for a slot below the slot count, every slot in use having at most 7
data words, seen from slot `m`. -/
theorem collectLoop_step : ∀ (fuel c : Nat) (avail : Bool) (k : Nat) (s : FW) (m : Nat),
    c < s.gchTotalSensorEntry → s.gchTotalSensorEntry ≤ 255 →
    (∀ i < s.gchTotalSensorEntry, (s.slot i).chSensorDataLength ≤ 7) →
    CollectStep (s.slot m) ((collectLoop fuel c avail k s).s.slot m) ∧
    ((collectLoop fuel c avail k s).s.slot m).chSensorDataLength =
      (s.slot m).chSensorDataLength ∧
    (collectLoop fuel c avail k s).s.gchTotalSensorEntry = s.gchTotalSensorEntry
  | 0, _, _, _, _, _, _, _, _ => ⟨CollectStep_refl _, rfl, rfl⟩
  | fuel + 1, c, avail, k, s, m, hc, ht, hl => by
    have hu : u8 (c + 1) = c + 1 := u8_of_lt (by omega)
    have h1 := collectSlot_step c avail s m (hl c hc)
    have h2 := collectSlot_total c avail s
    have h3 : ∀ i < s.gchTotalSensorEntry,
        ((collectSlot c avail s).1.slot i).chSensorDataLength ≤ 7 := by
      intro i hi
      rw [(collectSlot_step c avail s i (hl c hc)).2]
      exact hl i hi
    rw [collectLoop]
    simp only [hu]
    split_ifs with g1 g2 g3
    · exact ⟨h1.1, h1.2, h2⟩
    · exact ⟨h1.1, h1.2, (collectFinalize_total _ _).trans h2⟩
    · obtain ⟨r1, r2, r3⟩ := collectLoop_step fuel (c + 1) (collectSlot c avail s).2 (k + 1)
        (collectFinalize (decide (c + 1 ≥ (collectSlot c avail s).1.gchTotalSensorEntry))
          (collectSlot c avail s).1) m
        (by rw [collectFinalize_total, h2]
            simp only [decide_eq_true_eq, ge_iff_le, not_le, h2] at g3; exact g3)
        (by rw [collectFinalize_total, h2]; exact ht)
        (by rw [collectFinalize_total, h2]; exact h3)
      exact ⟨CollectStep_trans _ _ _ h1.1 r1, r2.trans h1.2,
        r3.trans ((collectFinalize_total _ _).trans h2)⟩
    · obtain ⟨r1, r2, r3⟩ := collectLoop_step fuel (c + 1) (collectSlot c avail s).2 k
        (collectSlot c avail s).1 m
        (by rw [h2]
            simp only [decide_eq_true_eq, ge_iff_le, not_le, not_or, h2] at g2; exact g2.1)
        (by rw [h2]; exact ht)
        (by rw [h2]; exact h3)
      exact ⟨CollectStep_trans _ _ _ h1.1 r1, r2.trans h1.2, r3.trans h2⟩

/-- One invocation of the collection task on a table whose slots in use have at most 7 data
words, seen from slot `m`. -/
theorem collection_step (s : FW) (m : Nat) (h1 : 1 ≤ s.gchTotalSensorEntry)
    (h255 : s.gchTotalSensorEntry ≤ 255)
    (hl : ∀ i < s.gchTotalSensorEntry, (s.slot i).chSensorDataLength ≤ 7) :
    CollectStep (s.slot m) ((fnData_Collection_Task s).2.slot m) ∧
    ((fnData_Collection_Task s).2.slot m).chSensorDataLength = (s.slot m).chSensorDataLength ∧
    (fnData_Collection_Task s).2.gchTotalSensorEntry = s.gchTotalSensorEntry := by
  have h := collectLoop_step (max s.gchTotalSensorEntry 1) RESET_COUNTER false 0
    { s with
      gchCollectionDataIndex := PACKET_DATA_MESSAGE_INDEX
      gchCollectionPacketIndex := RESET_VALUE } m h1 h255 hl
  unfold fnData_Collection_Task collectWalk
  dsimp only
  split_ifs
  · exact ⟨CollectStep_refl _, rfl, rfl⟩
  · exact h
  · exact h

theorem samplingDueLoop_total : ∀ (n j : Nat) (chk : Bool) (s : FW),
    (samplingDueLoop n j chk s).1.gchTotalSensorEntry = s.gchTotalSensorEntry
  | 0, _, _, _ => rfl
  | n + 1, j, chk, s => by
    rw [samplingDueLoop, samplingDueLoop_total n (j + 1)]
    unfold samplingDueSlot
    dsimp only
    split_ifs <;> rfl

theorem samplingRunLoop_total (drv : Nat → SensorIn) : ∀ (n j : Nat) (s : FW),
    (samplingRunLoop drv n j s).gchTotalSensorEntry = s.gchTotalSensorEntry
  | 0, _, _ => rfl
  | n + 1, j, s => by
    rw [samplingRunLoop, samplingRunLoop_total drv n (j + 1), samplingSlot_total]

/-- The sampling task keeps the slot count. -/
theorem sampling_total (drv : Nat → SensorIn) (s : FW) :
    (fnData_Sampling_Task drv s).2.gchTotalSensorEntry = s.gchTotalSensorEntry := by
  have hd : (samplingDueCheck s).1.gchTotalSensorEntry = s.gchTotalSensorEntry :=
    samplingDueLoop_total s.gchTotalSensorEntry 0 false
      { s with gchSampleClockIndicator := RESET_FLAG }
  unfold fnData_Sampling_Task
  dsimp only
  split_ifs
  all_goals first
    | exact hd
    | exact (samplingRunLoop_total drv _ 0 _).trans hd
    | exact samplingRunLoop_total drv _ 0 _

theorem tickAfter_total (a : Nat) (s : FW) :
    (tickAfter a s).gchTotalSensorEntry = s.gchTotalSensorEntry := by
  simp only [tickAfter, fnSystem_Timing_Task]
  split_ifs <;> rfl

/-- An event of a run keeps a table with data lengths in range as it is in slot count and data
lengths. -/
theorem lengthsInRange_event (e : SlotEv) (s : FW) (h : LengthsInRange s) :
    LengthsInRange (e.after s) := by
  obtain ⟨h1, h255, hl⟩ := h
  have hl7 : ∀ i < s.gchTotalSensorEntry, (s.slot i).chSensorDataLength ≤ 7 := by
    intro i hi
    have := hl i hi
    simp only [MAX_SENSOR_DATA_LENGTH] at this
    omega
  cases e with
  | sample drv =>
    show LengthsInRange (fnData_Sampling_Task drv s).2
    refine ⟨by rw [sampling_total]; exact h1, by rw [sampling_total]; exact h255, ?_⟩
    intro i hi
    rw [sampling_total] at hi
    rw [sampling_len]
    exact hl i hi
  | collect =>
    show LengthsInRange (fnData_Collection_Task s).2
    have ht := (collection_step s 0 h1 h255 hl7).2.2
    refine ⟨by rw [ht]; exact h1, by rw [ht]; exact h255, ?_⟩
    intro i hi
    rw [ht] at hi
    rw [(collection_step s i h1 h255 hl7).2.1]
    exact hl i hi
  | tick a =>
    show LengthsInRange (tickAfter a s)
    refine ⟨by rw [tickAfter_total]; exact h1, by rw [tickAfter_total]; exact h255, ?_⟩
    intro i hi
    rw [tickAfter_total] at hi
    rw [tickAfter_slot]
    exact hl i hi

/-- An event of a run on a table with data lengths in range keeps the averaging state of every
slot consistent. -/
theorem avgInv_event (e : SlotEv) (s : FW) (i : Nat) (hs : LengthsInRange s)
    (h : AvgInv (s.slot i)) : AvgInv ((e.after s).slot i) := by
  cases e with
  | sample drv =>
    exact avgInv_run _ _ (sampling_step drv s i) (avgInv_due _ _ (samplingMid_step s i) h)
  | collect =>
    refine avgInv_collect _ _ (collection_step s i hs.1 hs.2.1 fun j hj => ?_).1 h
    have := hs.2.2 j hj
    simp only [MAX_SENSOR_DATA_LENGTH] at this
    omega
  | tick a =>
    show AvgInv ((tickAfter a s).slot i)
    rw [tickAfter_slot]; exact h

theorem avgInv_events (i : Nat) : ∀ (evs : List SlotEv) (s : FW),
    LengthsInRange s → AvgInv (s.slot i) → AvgInv ((runEvents evs s).slot i)
  | [], _, _, h => h
  | e :: rest, s, hs, h =>
    avgInv_events i rest (e.after s) (lengthsInRange_event e s hs) (avgInv_event e s i hs h)

theorem target_events (i : Nat) : ∀ (evs : List SlotEv) (s : FW), LengthsInRange s →
    ((runEvents evs s).slot i).chSensorSampleAvgTotalCount =
      (s.slot i).chSensorSampleAvgTotalCount
  | [], _, _ => rfl
  | e :: rest, s, hs => by
    refine (target_events i rest (e.after s) (lengthsInRange_event e s hs)).trans ?_
    cases e with
    | sample drv => exact (sampling_step drv s i).2.1.trans (samplingMid_step s i).2.1
    | collect =>
      refine (collection_step s i hs.1 hs.2.1 fun j hj => ?_).1.2.1
      have := hs.2.2 j hj
      simp only [MAX_SENSOR_DATA_LENGTH] at this
      omega
    | tick a =>
      show ((tickAfter a s).slot i).chSensorSampleAvgTotalCount = _
      rw [tickAfter_slot]

/-- The invariant of C24 on tables whose data lengths fit `nSensorData`.  For every slot
populated by an accepted upload the target count is between 1 and `MAX_SAMPLE_AVERAGE_SUPPORTED`
and the average counter is 0 with the slot Off; when every slot of the accepted table has at
most `MAX_SENSOR_DATA_LENGTH` data words, then after any run of invocations of the sampling task
(whatever the sensor drivers report), invocations of the collection task and RTC overflows, the
slot's average counter is at most its target and the target is the uploaded one, still between
1 and `MAX_SAMPLE_AVERAGE_SUPPORTED`. -/
theorem average_counter_bounded (buf : List Nat) (s : FW) (evs : List SlotEv) (j : Nat)
    (hlen : s.ghSensorControl.length = MAX_SENSOR_COUNT)
    (hok : (fnET_Upload_Task buf s).1 = RETURN_TRUE)
    (hj : j < (fnET_Upload_Task buf s).2.gchTotalSensorEntry)
    (hr : LengthsInRange (fnET_Upload_Task buf s).2) :
    (1 ≤ ((fnET_Upload_Task buf s).2.slot j).chSensorSampleAvgTotalCount ∧
      ((fnET_Upload_Task buf s).2.slot j).chSensorSampleAvgTotalCount ≤
        MAX_SAMPLE_AVERAGE_SUPPORTED ∧
      ((fnET_Upload_Task buf s).2.slot j).chSensorSampleAvgCounter = 0 ∧
      ((fnET_Upload_Task buf s).2.slot j).chSensorStatusFlag = SAMPLE_STATE_OFF) ∧
    ((runEvents evs (fnET_Upload_Task buf s).2).slot j).chSensorSampleAvgCounter ≤
      ((runEvents evs (fnET_Upload_Task buf s).2).slot j).chSensorSampleAvgTotalCount ∧
    1 ≤ ((runEvents evs (fnET_Upload_Task buf s).2).slot j).chSensorSampleAvgTotalCount ∧
    ((runEvents evs (fnET_Upload_Task buf s).2).slot j).chSensorSampleAvgTotalCount ≤
      MAX_SAMPLE_AVERAGE_SUPPORTED ∧
    ((runEvents evs (fnET_Upload_Task buf s).2).slot j).chSensorSampleAvgTotalCount =
      ((fnET_Upload_Task buf s).2.slot j).chSensorSampleAvgTotalCount := by
  have h0 := accepted_table_pred
    (fun x => AvgInv x ∧ x.chSensorSampleAvgCounter = 0 ∧
      x.chSensorStatusFlag = SAMPLE_STATE_OFF)
    avgInv_uploaded buf s hlen hok j hj
  obtain ⟨b1, b2, b3, _⟩ := avgInv_events j evs _ hr h0.1
  exact ⟨⟨h0.1.1, h0.1.2.1, h0.2.1, h0.2.2⟩, b3, b1, b2, target_events j evs _ hr⟩

set_option maxRecDepth 100000 in
/-- The RSSI table of `frameRssi` (target 2, one data word) over the run `rssiRun`: the frame is
accepted with one slot, and slot 0 satisfies the bounds. -/
theorem average_counter_bounded_rssi :
    fwBoot.ghSensorControl.length = MAX_SENSOR_COUNT ∧
    (fnET_Upload_Task frameRssi fwBoot).1 = RETURN_TRUE ∧
    0 < (fnET_Upload_Task frameRssi fwBoot).2.gchTotalSensorEntry ∧
    LengthsInRange (fnET_Upload_Task frameRssi fwBoot).2 ∧
    ((runEvents rssiRun (fnET_Upload_Task frameRssi fwBoot).2).slot 0).chSensorSampleAvgCounter ≤
      ((runEvents rssiRun
        (fnET_Upload_Task frameRssi fwBoot).2).slot 0).chSensorSampleAvgTotalCount :=
  ⟨by decide, by decide, by decide, ⟨by decide, by decide, by decide⟩,
    (average_counter_bounded frameRssi fwBoot rssiRun 0 (by decide) (by decide)
      (by decide) ⟨by decide, by decide, by decide⟩).2.1⟩

/-- C24: a slot with a data length of 8 or more loses its average target to the collection
task.  From any state with no download pending in which slot 0 is due by its radio-clock fields
and has a data length of at least 8 (255 is what an accepted upload stores for an id that is
not in `ghSensorInfo`), one invocation of `fnData_Collection_Task` leaves slot 0 with average
target 0 and average counter 0, and every later slot of the array that the words
`nSensorData[8 ..]` of slot 0 reach with id 0: the inner loop indexes `nSensorData[5]` with a
counter that runs up to the data length. -/
theorem collection_clears_average_target (s : FW)
    (hr : s.gchDataDownloadPacketReady = 0) (h255 : s.gchTotalSensorEntry ≤ 255)
    (hdue : u8 ((s.slot 0).chRadioClockCounter + 1) ≥ (s.slot 0).chRadioClockDivisor)
    (h8 : 8 ≤ (s.slot 0).chSensorDataLength) :
    ((fnData_Collection_Task s).2.slot 0).chSensorSampleAvgTotalCount = 0 ∧
    ((fnData_Collection_Task s).2.slot 0).chSensorSampleAvgCounter = 0 ∧
    ∀ m, 1 ≤ m → m < s.ghSensorControl.length → 12 * m ≤ (s.slot 0).chSensorDataLength + 3 →
      ((fnData_Collection_Task s).2.slot m).chSensorID = 0 := by
  obtain ⟨f, hf⟩ : ∃ f, max s.gchTotalSensorEntry 1 = f + 1 :=
    ⟨max s.gchTotalSensorEntry 1 - 1, by omega⟩
  obtain ⟨k1, k2, k3⟩ := collectSlot_overrun RESET_COUNTER false
    { s with
      gchCollectionDataIndex := PACKET_DATA_MESSAGE_INDEX
      gchCollectionPacketIndex := RESET_VALUE } hdue h8
  have ht : (collectSlot RESET_COUNTER false
      { s with
        gchCollectionDataIndex := PACKET_DATA_MESSAGE_INDEX
        gchCollectionPacketIndex := RESET_VALUE }).1.gchTotalSensorEntry ≤ 255 := by
    rw [collectSlot_total]; exact h255
  have hu : u8 (RESET_COUNTER + 1) = 1 := by decide
  simp only [collection_slot s hr]
  unfold collectWalk
  rw [hf, collectLoop]
  simp only [hu]
  generalize collectSlot RESET_COUNTER false
    { s with
      gchCollectionDataIndex := PACKET_DATA_MESSAGE_INDEX
      gchCollectionPacketIndex := RESET_VALUE } = r at k1 k2 k3 ht ⊢
  have key : ∀ w : FW, w.slot 0 = r.1.slot 0 → (∀ m, CollectEffect (r.1.slot m) (w.slot m)) →
      (w.slot 0).chSensorSampleAvgTotalCount = 0 ∧ (w.slot 0).chSensorSampleAvgCounter = 0 ∧
      ∀ m, 1 ≤ m → m < s.ghSensorControl.length →
        12 * m ≤ (s.slot 0).chSensorDataLength + 3 → (w.slot m).chSensorID = 0 := by
    intro w e0 em
    refine ⟨by rw [e0]; exact k1, by rw [e0]; exact k2, fun m h1 hl h => ?_⟩
    have hz := k3 m h1 hl h
    rcases em m with e | ⟨e, _⟩
    · exact e
    · exact e.trans hz
  have loop : ∀ (avail : Bool) (k : Nat) (u : FW), (∀ m, u.slot m = r.1.slot m) →
      u.gchTotalSensorEntry ≤ 255 →
      (collectLoop f 1 avail k u).s.slot 0 = r.1.slot 0 ∧
      ∀ m, CollectEffect (r.1.slot m) ((collectLoop f 1 avail k u).s.slot m) := by
    intro avail k u em hu255
    refine ⟨(collectLoop_below 0 f 1 avail k u (by omega) (by omega) hu255).trans (em 0),
      fun m => ?_⟩
    rw [← em m]
    exact collectLoop_effect f 1 avail k u m
  split_ifs
  · exact key _ rfl (fun m => CollectEffect_refl _)
  · exact key _ rfl (fun m => CollectEffect_refl _)
  · exact key _ (loop _ _ (collectFinalize _ r.1) (fun _ => rfl) ht).1
      (loop _ _ (collectFinalize _ r.1) (fun _ => rfl) ht).2
  · exact key _ (loop _ _ r.1 (fun _ => rfl) ht).1 (loop _ _ r.1 (fun _ => rfl) ht).2

set_option maxRecDepth 1000000 in
/-- The accepted table of `frameUnknownThenRssi`: slot 0 (`BATTERY_TEMPERATURE`, not in
`ghSensorInfo`) has data length 255 and target 4, slot 1 (uplink RSSI) has target 2.  One
invocation of the collection task leaves slot 0 with target 0 and slot 1 with id 0. -/
theorem collection_clears_average_target_witness :
    (fnET_Upload_Task frameUnknownThenRssi fwBoot).1 = RETURN_TRUE ∧
    fwUnknownThenRssi.gchTotalSensorEntry = 2 ∧
    (fwUnknownThenRssi.slot 0).chSensorDataLength = 255 ∧
    (fwUnknownThenRssi.slot 0).chSensorSampleAvgTotalCount = 4 ∧
    (fwUnknownThenRssi.slot 1).chSensorID = UPLINK_RADIO_RSSI ∧
    (fwUnknownThenRssi.slot 1).chSensorSampleAvgTotalCount = 2 ∧
    ((fnData_Collection_Task fwUnknownThenRssi).2.slot 0).chSensorSampleAvgTotalCount = 0 ∧
    ((fnData_Collection_Task fwUnknownThenRssi).2.slot 1).chSensorID = 0 :=
  ⟨by decide, by decide, by decide, by decide, by decide, by decide,
    (collection_clears_average_target fwUnknownThenRssi (by decide) (by decide) (by decide)
      (by decide)).1,
    (collection_clears_average_target fwUnknownThenRssi (by decide) (by decide) (by decide)
      (by decide)).2.2 1 (by decide) (by decide) (by decide)⟩

set_option maxRecDepth 1000000 in
/-- The same invocation, evaluated: both slots populated by the accepted upload are below
`gchTotalSensorEntry` afterwards with average target 0; slot 0 keeps its id, its status and its
data length, slot 1 is cleared entirely. -/
theorem unknown_id_clears_targets :
    (fnData_Collection_Task fwUnknownThenRssi).2.gchTotalSensorEntry = 2 ∧
    (fnData_Collection_Task fwUnknownThenRssi).2.slot 0 =
      { fwUnknownThenRssi.slot 0 with chSensorSampleAvgTotalCount := 0 } ∧
    (fnData_Collection_Task fwUnknownThenRssi).2.slot 1 = default ∧
    ((fnData_Collection_Task fwBatteryRunning).2.slot 0).chSensorSampleAvgTotalCount = 0 := by
  decide


/-! ## The doubling of the comm-wait timeout -/

theorem doubled_cases (t : Nat) (ht : t ≤ 65535) :
    (t ≤ 32767 → doubled t = min (2 * t) MAX_COMM_WAIT_TIME_VALUE ∧ t ≤ doubled t) ∧
    (32768 ≤ t → t ≤ 65517 →
      doubled t = 2 * t - 65536 ∧ doubled t < t ∧
      doubled t ≠ min (2 * t) MAX_COMM_WAIT_TIME_VALUE) ∧
    (65518 ≤ t → doubled t = MAX_COMM_WAIT_TIME_VALUE ∧ doubled t < t) := by
  simp only [doubled, u16, MAX_COMM_WAIT_TIME_VALUE, Nat.min_def, ne_eq]
  refine ⟨fun h => ?_, fun h h' => ?_, fun h => ?_⟩
  · have e : t * 2 % 65536 = t * 2 := Nat.mod_eq_of_lt (by omega)
    rw [e]
    split_ifs <;> omega
  · have e : t * 2 % 65536 = t * 2 - 65536 := by omega
    rw [e]
    split_ifs <;> omega
  · have e : t * 2 % 65536 = t * 2 - 65536 := by omega
    rw [e]
    split_ifs <;> omega

/-- C25: the doubling step of `fnRadioTxRxHandler` (reply wait expired, retry counter at
`MAX_RF_COMM_RETRY`, fewer than `COMM_WAIT_TIME_DOUBLE_RETRY` doublings) multiplies the 16-bit
`nCommTimeout` by 2 before the cap is applied.  For a prior value `t` up to 32767 the result is
`min (2 * t) MAX_COMM_WAIT_TIME_VALUE` and is not below `t`; for `32768 ≤ t ≤ 65517` the product
wraps and the new timeout is `2 * t - 65536`, which is smaller than `t` and is not
`min (2 * t) MAX_COMM_WAIT_TIME_VALUE`; for `65518 ≤ t ≤ 65535` it is
`MAX_COMM_WAIT_TIME_VALUE`, again smaller than `t`. -/
theorem timeout_doubling_wraps (hw : HwIn) (u : FW) (rx : List Nat)
    (hm : u.rf.mode = RADIO_RX_MODE) (hlb : u.rf.loopBack = LB_STEP_0)
    (hf : u.rf.chipFlag = RESET_FLAG) (hto : u.rf.timeOut ≠ 0)
    (hge : ¬ u8 (u.rf.comm.chPacketSendRetryCounter + 1) < MAX_RF_COMM_RETRY)
    (hd : u.rf.doubling < COMM_WAIT_TIME_DOUBLE_RETRY)
    (ht : u.ghMasterTaskTable.nCommTimeout ≤ 65535) :
    ∃ u', radioPass hw u rx = Pass.test true u' rx ∧
      (u.ghMasterTaskTable.nCommTimeout ≤ 32767 →
        u'.ghMasterTaskTable.nCommTimeout =
          min (2 * u.ghMasterTaskTable.nCommTimeout) MAX_COMM_WAIT_TIME_VALUE ∧
        u.ghMasterTaskTable.nCommTimeout ≤ u'.ghMasterTaskTable.nCommTimeout) ∧
      (32768 ≤ u.ghMasterTaskTable.nCommTimeout → u.ghMasterTaskTable.nCommTimeout ≤ 65517 →
        u'.ghMasterTaskTable.nCommTimeout = 2 * u.ghMasterTaskTable.nCommTimeout - 65536 ∧
        u'.ghMasterTaskTable.nCommTimeout < u.ghMasterTaskTable.nCommTimeout ∧
        u'.ghMasterTaskTable.nCommTimeout ≠
          min (2 * u.ghMasterTaskTable.nCommTimeout) MAX_COMM_WAIT_TIME_VALUE) ∧
      (65518 ≤ u.ghMasterTaskTable.nCommTimeout →
        u'.ghMasterTaskTable.nCommTimeout = MAX_COMM_WAIT_TIME_VALUE ∧
        u'.ghMasterTaskTable.nCommTimeout < u.ghMasterTaskTable.nCommTimeout) := by
  obtain ⟨u', h1, h2⟩ := pass_rx_timeout_double hw u rx hm hlb hf hto hge hd
  refine ⟨u', ?_⟩
  have h3 : u'.ghMasterTaskTable.nCommTimeout = doubled u.ghMasterTaskTable.nCommTimeout :=
    congrArg (fun r => r.master.nCommTimeout) h2
  rw [h3]
  exact ⟨h1, doubled_cases _ ht⟩

/-- The download on the table of `frameSlowReply` (comm timeout 40000 ms), reply wait of the
third attempt expired: the doubling step leaves `nCommTimeout` = 14464. -/
theorem timeout_doubling_wraps_witness :
    fwSlowReplyExpired.ghMasterTaskTable.nCommTimeout = 40000 ∧
    ∃ u', radioPass (envSilent fwSlowReplyExpired) fwSlowReplyExpired [] = Pass.test true u' [] ∧
      u'.ghMasterTaskTable.nCommTimeout = 14464 := by
  refine ⟨by decide, ?_⟩
  obtain ⟨u', h1, _, h2, _⟩ := timeout_doubling_wraps (envSilent fwSlowReplyExpired)
    fwSlowReplyExpired [] (by decide) (by decide) (by decide) (by decide) (by decide)
    (by decide) (by decide)
  exact ⟨u', h1, (h2 (by decide) (by decide)).1⟩

set_option maxRecDepth 100000 in
/-- C25 (failing run). After boot and the acceptance of `frameSlowReply` (comm timeout
40000 ms), a three-packet download on a link where no reply ever arrives: the reply waits of the
exchange are started with 40000 ms three times, then with 14464, 28928 and 57856 ms after the
three doublings. -/
theorem slow_reply_download_timers :
    (fnET_Upload_Task frameSlowReply fwBoot).1 = RETURN_TRUE ∧
    fwDownloadSlowReply.ghMasterTaskTable.nCommTimeout = 40000 ∧
    (runUntilDone (fnData_Download_Task envSilent 3) 30 fwDownloadSlowReply).map
        (fun q => (q.1, commTimers q.2.hwLog)) =
      some (26, [500, 40000, 500, 40000, 500, 40000, 500, 14464, 500, 14464, 500, 14464,
        500, 28928, 500, 28928, 500, 28928, 500, 57856, 500, 57856, 500, 57856]) := by
  decide


/-! ## The link-select step -/

theorem serviceIrqs_table (hw : HwIn) (s : FW) :
    (serviceIrqs hw s).ghMasterTaskTable = s.ghMasterTaskTable ∧
    (serviceIrqs hw s).gchDataDownloadPacketReady = s.gchDataDownloadPacketReady := by
  unfold serviceIrqs isrPORTH_INT0 isrTCC1_OVF isrTCE1_OVF
  dsimp only
  split_ifs <;> exact ⟨rfl, rfl⟩

/-- Outside loop-back a pass in `RADIO_LINK_SELECT_MODE` is the link-select case with
`chNextPacket` clear. -/
theorem pass_link_select (hw : HwIn) (u : FW) (rx : List Nat)
    (hm : u.gchRadioCommStepMode = RADIO_LINK_SELECT_MODE)
    (hlb : u.gchSensorLoopBack = LB_STEP_0) :
    radioPass hw u rx = radioLinkSelect hw false u rx := by
  simp [radioPass, hm, hlb, RADIO_PWR_CHECK_MODE, RADIO_LINK_SELECT_MODE]

/-- With the fast download channel configured, an invocation of `fnRadioTxRxHandler` in
`RADIO_LINK_SELECT_MODE` outside loop-back selects the CC2520 and returns not-done. -/
theorem link_select_fast (env : Env) (fuel : Nat) (u : FW)
    (hm : u.gchRadioCommStepMode = RADIO_LINK_SELECT_MODE)
    (hlb : u.gchSensorLoopBack = LB_STEP_0)
    (hch : u.ghMasterTaskTable.chDataDownloadChannel = RADIO_CH_FAST_DOWNLINK_CC2520) :
    fnRadioTxRxHandler env (fuel + 1) u =
      some (RETURN_FALSE, (serviceIrqs (env u) u).hw (.selectRadio true)) := by
  obtain ⟨f1, f2, _, _, _⟩ := serviceIrqs_frame (env u) u
  obtain ⟨t1, _⟩ := serviceIrqs_table (env u) u
  unfold fnRadioTxRxHandler
  rw [radioLoop, pass_link_select _ _ _ (f2.trans hm) (f1.trans hlb)]
  unfold radioLinkSelect
  rw [if_pos (by rw [t1]; exact hch)]

/-- The download task is then never done, however often it is invoked. -/
theorem download_fast_never_done (env : Env) (fuel : Nat) : ∀ (n : Nat) (s : FW),
    s.gchRadioCommStepMode = RADIO_LINK_SELECT_MODE → s.gchSensorLoopBack = LB_STEP_0 →
    s.ghMasterTaskTable.chDataDownloadChannel = RADIO_CH_FAST_DOWNLINK_CC2520 →
    s.gchDataDownloadPacketReady ≠ 0 →
    runUntilDone (fnData_Download_Task env (fuel + 1)) n s = none
  | 0, _, _, _, _, _ => rfl
  | n + 1, s, hm, hlb, hch, hr => by
    obtain ⟨g1, g2, _, _, _⟩ := serviceIrqs_frame (env s) s
    obtain ⟨u1, u2⟩ := serviceIrqs_table (env s) s
    have hd : fnData_Download_Task env (fuel + 1) s =
        some (RETURN_FALSE, (serviceIrqs (env s) s).hw (.selectRadio true)) := by
      unfold fnData_Download_Task
      rw [if_pos hr, if_neg (by rw [hm]; decide)]
      dsimp only
      rw [link_select_fast env fuel s hm hlb hch]
      rfl
    rw [runUntilDone, hd]
    dsimp only
    rw [if_neg (by decide), download_fast_never_done env fuel n
      ((serviceIrqs (env s) s).hw (.selectRadio true)) (g2.trans hm) (g1.trans hlb)
      (by show (serviceIrqs (env s) s).ghMasterTaskTable.chDataDownloadChannel = _
          rw [u1]; exact hch)
      (by show (serviceIrqs (env s) s).gchDataDownloadPacketReady ≠ 0
          rw [u2]; exact hr)]
    rfl

/-- C26: with the engine in `RADIO_LINK_SELECT_MODE` outside loop-back, an invocation of
`fnRadioTxRxHandler` that finds the fast download channel (CC2520) configured, or whose CC1125
initialisation fails, returns not-done (`RETURN_FALSE`) with the engine still in
`RADIO_LINK_SELECT_MODE`: for the fast channel it only selects the CC2520, for a failed
initialisation it selects the CC1125 and reports the status to the debug sink and in
`chOverrunErrorID`.  The returned state is again one of this kind when the channel is the fast
one, so that `fnData_Download_Task` with a packet ready never reports done.  Only the slow
channel with a successful initialisation advances to `RADIO_TX_MODE`. -/
theorem link_select_stalls (env : Env) (fuel : Nat) (s : FW)
    (hm : s.gchRadioCommStepMode = RADIO_LINK_SELECT_MODE)
    (hlb : s.gchSensorLoopBack = LB_STEP_0) :
    (s.ghMasterTaskTable.chDataDownloadChannel = RADIO_CH_FAST_DOWNLINK_CC2520 →
      fnRadioTxRxHandler env (fuel + 1) s =
        some (RETURN_FALSE, (serviceIrqs (env s) s).hw (.selectRadio true)) ∧
      ((serviceIrqs (env s) s).hw (.selectRadio true)).gchRadioCommStepMode =
        RADIO_LINK_SELECT_MODE ∧
      (s.gchDataDownloadPacketReady ≠ 0 →
        ∀ n, runUntilDone (fnData_Download_Task env (fuel + 1)) n s = none)) ∧
    (s.ghMasterTaskTable.chDataDownloadChannel ≠ RADIO_CH_FAST_DOWNLINK_CC2520 →
      (env s).initStatus ≠ SENSOR_NO_ERROR →
      ∃ s', fnRadioTxRxHandler env (fuel + 1) s = some (RETURN_FALSE, s') ∧
        s'.gchRadioCommStepMode = RADIO_LINK_SELECT_MODE ∧
        s'.hwLog = (serviceIrqs (env s) s).hwLog ++
          [.selectRadio false, .debugError (env s).initStatus] ∧
        s'.ghSensorCommManager =
          s.ghSensorCommManager.setOverrunErrorID (env s).initStatus) ∧
    (s.ghMasterTaskTable.chDataDownloadChannel ≠ RADIO_CH_FAST_DOWNLINK_CC2520 →
      (env s).initStatus = SENSOR_NO_ERROR →
      radioPass (env s) (serviceIrqs (env s) s) (List.replicate MAX_COMM_PACKET_SIZE 0) =
        Pass.test true
          { (serviceIrqs (env s) s).hw (.selectRadio false) with
            gchRadioCommStepMode := RADIO_TX_MODE }
          (List.replicate MAX_COMM_PACKET_SIZE 0)) := by
  obtain ⟨f1, f2, _, _, f5⟩ := serviceIrqs_frame (env s) s
  obtain ⟨t1, t2⟩ := serviceIrqs_table (env s) s
  refine ⟨fun hch => ⟨link_select_fast env fuel s hm hlb hch, f2.trans hm, fun hr n => ?_⟩, fun hch hi => ?_,
    fun hch hi => ?_⟩
  · exact download_fast_never_done env fuel n s hm hlb hch hr
  · refine ⟨SEND_ERROR_CODE_OVER_RF (env s).initStatus (SEND_DEBUG_ERROR_CODES (env s).initStatus
      ((serviceIrqs (env s) s).hw (.selectRadio false))), ?_, ?_, ?_, ?_⟩
    · unfold fnRadioTxRxHandler
      rw [radioLoop, pass_link_select _ _ _ (f2.trans hm) (f1.trans hlb)]
      unfold radioLinkSelect
      rw [if_neg (by rw [t1]; exact hch)]
      dsimp only
      rw [if_neg hi]
    · exact f2.trans hm
    · show ((serviceIrqs (env s) s).hwLog ++ [HwOp.selectRadio false]) ++ [_] = _
      rw [List.append_assoc]; rfl
    · show (serviceIrqs (env s) s).ghSensorCommManager.setOverrunErrorID _ = _
      rw [f5]
  · rw [pass_link_select _ _ _ (f2.trans hm) (f1.trans hlb)]
    unfold radioLinkSelect
    rw [if_neg (by rw [t1]; exact hch)]
    dsimp only
    rw [if_pos hi]

/-- The download of `fwDownloadFast` (fast channel configured by `frameFastLink`) after the two
invocations that bring the engine to `RADIO_LINK_SELECT_MODE`: the third invocation of
`fnRadioTxRxHandler` returns not-done with the engine still in `RADIO_LINK_SELECT_MODE`. -/
theorem link_select_stalls_witness :
    ∃ s, invoke (fnData_Download_Task (envReply frameAck) 3) 2 fwDownloadFast = some s ∧
      s.gchRadioCommStepMode = RADIO_LINK_SELECT_MODE ∧
      s.ghMasterTaskTable.chDataDownloadChannel = RADIO_CH_FAST_DOWNLINK_CC2520 ∧
      fnRadioTxRxHandler (envReply frameAck) 3 s =
        some (RETURN_FALSE, (serviceIrqs (envReply frameAck s) s).hw (.selectRadio true)) ∧
      ((serviceIrqs (envReply frameAck s) s).hw (.selectRadio true)).gchRadioCommStepMode =
        RADIO_LINK_SELECT_MODE := by
  refine ⟨(invoke (fnData_Download_Task (envReply frameAck) 3) 2 fwDownloadFast).getD fwBoot,
    by decide, by decide, by decide, ?_⟩
  have h := (link_select_stalls (envReply frameAck) 2
    ((invoke (fnData_Download_Task (envReply frameAck) 3) 2 fwDownloadFast).getD fwBoot)
    (by decide) (by decide)).1 (by decide)
  exact ⟨h.1, h.2.1⟩

set_option maxRecDepth 100000 in
/-- C26 (failing runs). After boot and the acceptance of `frameFastLink`, the download with
three packets ready reaches `RADIO_LINK_SELECT_MODE` at its second invocation and is still there
after 40 invocations, none of which reports done, although the peer would acknowledge every
frame.  On the slow channel with a chip that is never ready, the download of `fwDownload3`
likewise stays in `RADIO_LINK_SELECT_MODE` without reporting done, the chip-not-ready code being
reported at every invocation. -/
theorem link_select_runs_stall :
    (fnET_Upload_Task frameFastLink fwBoot).1 = RETURN_TRUE ∧
    (invoke (fnData_Download_Task (envReply frameAck) 3) 2 fwDownloadFast).map
      (fun s => s.gchRadioCommStepMode) = some RADIO_LINK_SELECT_MODE ∧
    (invoke (fnData_Download_Task (envReply frameAck) 3) 40 fwDownloadFast).map
      (fun s => (s.gchRadioCommStepMode, txFrames s.hwLog)) =
      some (RADIO_LINK_SELECT_MODE, []) ∧
    runUntilDone (fnData_Download_Task (envReply frameAck) 3) 40 fwDownloadFast = none ∧
    (invoke (fnData_Download_Task envChipNotReady 3) 5 fwDownload3).map
      (fun s => (s.gchRadioCommStepMode, s.ghSensorCommManager.chOverrunErrorID,
        s.hwLog.filter (fun op => op = HwOp.debugError SENSOR_CC1125_CHIP_NOT_READY))) =
      some (RADIO_LINK_SELECT_MODE, SENSOR_CC1125_CHIP_NOT_READY,
        List.replicate 4 (HwOp.debugError SENSOR_CC1125_CHIP_NOT_READY)) ∧
    runUntilDone (fnData_Download_Task envChipNotReady 3) 40 fwDownload3 = none := by
  decide


/-! ## Slots whose sensor id has no sampling code: the due check -/

/-- The due check reports a due slot: `chCheckFlag` is set once it was set or a visited slot is
due. -/
theorem samplingDueLoop_flag : ∀ (n j : Nat) (chk : Bool) (s : FW) (i : Nat),
    (chk = true → (samplingDueLoop n j chk s).2 = true) ∧
    (j ≤ i → i < j + n →
      u8 ((s.slot i).chSampleClockCounter + 1) ≥ (s.slot i).chSampleClockDivisor →
      (samplingDueLoop n j chk s).2 = true)
  | 0, j, _, s, i => ⟨fun h => h, fun h1 h2 => by omega⟩
  | n + 1, j, chk, s, i => by
    rw [samplingDueLoop]
    obtain ⟨a, b⟩ := samplingDueLoop_flag n (j + 1) (chk || (samplingDueSlot j s).2)
      (samplingDueSlot j s).1 i
    refine ⟨fun h => a (by rw [h]; rfl), fun h1 h2 h3 => ?_⟩
    by_cases hij : i = j
    · subst hij
      refine a ?_
      have : (samplingDueSlot i s).2 = true := by
        unfold samplingDueSlot
        dsimp only
        rw [if_pos h3]
        split_ifs <;> rfl
      rw [this, Bool.or_true]
    · refine b (by omega) (by omega) ?_
      rw [samplingDueSlot_other j i s hij]
      exact h3

/-- The sensor state machines and the final test of `fnData_Sampling_Task`, run from a state in
which slot `i` below `gchTotalSensorEntry` has an id without sampling code: the slot is left as
it is, and the test finds it when it is not Off. -/
theorem samplingRun_noCode (drv : Nat → SensorIn) (u : FW) (i : Nat)
    (hi : i < u.gchTotalSensorEntry) (hid : NoSamplingCode (u.slot i).chSensorID) :
    (samplingRunLoop drv u.gchTotalSensorEntry 0 u).slot i = u.slot i ∧
    ((u.slot i).chSensorStatusFlag ≠ SAMPLE_STATE_OFF →
      samplingBusy (samplingRunLoop drv u.gchTotalSensorEntry 0 u) = true) := by
  obtain ⟨a, b⟩ := samplingRunLoop_noCode drv i u.gchTotalSensorEntry 0 u hid
  refine ⟨a, fun h => ?_⟩
  unfold samplingBusy
  rw [List.any_eq_true]
  exact ⟨i, List.mem_range.mpr (by rw [b]; exact hi), decide_eq_true (by rw [a]; exact h)⟩

/-- C27: a slot below `gchTotalSensorEntry` whose sensor id has no sampling code
(`BATTERY_TEMPERATURE`, `TEG_TEMPERATURE_COLD`, `TEG_TEMPERATURE_HOT`, or an id outside the
`switch`) is left by an invocation of `fnData_Sampling_Task` exactly as the due check leaves
it: its data are unchanged, but the due check moves it from Off to Start like any other slot
(average counter below the target), and nothing moves it back to Off.  The invocation that
finds it due and Off returns `RETURN_FALSE` with the slot at Start; every later invocation
finds it not Off, leaves its status, returns `RETURN_FALSE` whenever it reaches the final test
(no sample clock pending, or the slot due), and raises `SENSOR_SENSOR_SAMPLING_OVERRUN` in the
due check when the slot is due again. -/
theorem unimplemented_sensor_blocks_sampling (drv : Nat → SensorIn) (s : FW) (i : Nat)
    (hi : i < s.gchTotalSensorEntry) (hn : s.gchTotalSensorEntry ≤ s.ghSensorControl.length)
    (hid : NoSamplingCode (s.slot i).chSensorID) :
    (fnData_Sampling_Task drv s).2.slot i =
      (if s.gchSampleClockIndicator = SET_FLAG then dueChecked (s.slot i) else s.slot i) ∧
    (s.gchSampleClockIndicator = SET_FLAG →
      (s.slot i).chSensorStatusFlag = SAMPLE_STATE_OFF →
      (s.slot i).chSensorSampleAvgCounter < (s.slot i).chSensorSampleAvgTotalCount →
      u8 ((s.slot i).chSampleClockCounter + 1) ≥ (s.slot i).chSampleClockDivisor →
      (fnData_Sampling_Task drv s).2.slot i =
        { s.slot i with
          chSampleClockCounter := RESET_COUNTER
          chSensorStatusFlag := SAMPLE_STATE_START } ∧
      (fnData_Sampling_Task drv s).1 = RETURN_FALSE) ∧
    ((s.slot i).chSensorStatusFlag ≠ SAMPLE_STATE_OFF →
      ((fnData_Sampling_Task drv s).2.slot i).chSensorStatusFlag =
        (s.slot i).chSensorStatusFlag ∧
      (s.gchSampleClockIndicator ≠ SET_FLAG → (fnData_Sampling_Task drv s).1 = RETURN_FALSE) ∧
      (s.gchSampleClockIndicator = SET_FLAG →
        u8 ((s.slot i).chSampleClockCounter + 1) ≥ (s.slot i).chSampleClockDivisor →
        (fnData_Sampling_Task drv s).1 = RETURN_FALSE ∧
        OverrunLogged (samplingDueCheck s).1)) := by
  have hil : i < ({ s with gchSampleClockIndicator := RESET_FLAG } : FW).ghSensorControl.length :=
    Nat.lt_of_lt_of_le hi hn
  obtain ⟨m1, m2, _, _, m5⟩ := samplingDueLoop_slot s.gchTotalSensorEntry 0 false
    { s with gchSampleClockIndicator := RESET_FLAG } i hil
  obtain ⟨_, fl⟩ := samplingDueLoop_flag s.gchTotalSensorEntry 0 false
    { s with gchSampleClockIndicator := RESET_FLAG } i
  have d1 : (samplingDueCheck s).1.slot i = dueChecked (s.slot i) := by
    unfold samplingDueCheck
    rw [m1, if_pos ⟨Nat.zero_le _, by omega⟩]
    rfl
  have d2 : (samplingDueCheck s).1.gchTotalSensorEntry = s.gchTotalSensorEntry := m2
  have d3 : u8 ((s.slot i).chSampleClockCounter + 1) ≥ (s.slot i).chSampleClockDivisor →
      (samplingDueCheck s).2 = true := fun h => fl (Nat.zero_le _) (by omega) h
  have d4 : u8 ((s.slot i).chSampleClockCounter + 1) ≥ (s.slot i).chSampleClockDivisor →
      (s.slot i).chSensorStatusFlag ≠ SAMPLE_STATE_OFF → OverrunLogged (samplingDueCheck s).1 :=
    fun h h' => m5 (Nat.zero_le _) (by omega) h h'
  have hidD : NoSamplingCode ((samplingDueCheck s).1.slot i).chSensorID := by
    rw [d1]; exact hid
  obtain ⟨g1, g2⟩ := samplingRun_noCode drv (samplingDueCheck s).1 i (by rw [d2]; exact hi) hidD
  obtain ⟨k1, k2⟩ := samplingRun_noCode drv s i hi hid
  have hstat : (s.slot i).chSensorStatusFlag ≠ SAMPLE_STATE_OFF →
      (dueChecked (s.slot i)).chSensorStatusFlag = (s.slot i).chSensorStatusFlag := by
    intro h
    unfold dueChecked
    dsimp only
    rw [if_neg (fun c => h c.2.1)]
  by_cases hI : s.gchSampleClockIndicator = SET_FLAG
  · by_cases hc : (samplingDueCheck s).2 = false
    · have e : fnData_Sampling_Task drv s = (RETURN_TRUE, (samplingDueCheck s).1) := by
        unfold fnData_Sampling_Task
        dsimp only
        rw [if_pos hI, if_pos hc]
      have nd : ¬ u8 ((s.slot i).chSampleClockCounter + 1) ≥ (s.slot i).chSampleClockDivisor :=
        fun h => by rw [d3 h] at hc; exact absurd hc (by decide)
      rw [e, if_pos hI]
      refine ⟨d1, fun _ _ _ h => absurd h nd, fun h => ⟨?_, fun h' => absurd hI h',
        fun _ h' => absurd h' nd⟩⟩
      show ((samplingDueCheck s).1.slot i).chSensorStatusFlag = _
      rw [d1, hstat h]
    · have e : fnData_Sampling_Task drv s =
          (if samplingBusy (samplingRunLoop drv (samplingDueCheck s).1.gchTotalSensorEntry 0
              (samplingDueCheck s).1) then RETURN_FALSE else RETURN_TRUE,
            samplingRunLoop drv (samplingDueCheck s).1.gchTotalSensorEntry 0
              (samplingDueCheck s).1) := by
        unfold fnData_Sampling_Task
        dsimp only
        rw [if_pos hI, if_neg hc]
      rw [e, if_pos hI]
      dsimp only
      refine ⟨g1.trans d1, fun _ h2 h3 h4 => ?_, fun h => ⟨?_, fun h' => absurd hI h',
        fun _ h' => ⟨?_, d4 h' h⟩⟩⟩
      · have hs : (dueChecked (s.slot i)).chSensorStatusFlag = SAMPLE_STATE_START := by
          unfold dueChecked
          dsimp only
          rw [if_pos ⟨h4, h2, h3⟩]
        refine ⟨?_, ?_⟩
        · rw [g1, d1]
          unfold dueChecked
          rw [if_pos h4, if_pos ⟨h4, h2, h3⟩]
          rfl
        · rw [g2 (by rw [d1, hs]; decide)]
          rfl
      · rw [g1, d1, hstat h]
      · rw [g2 (by rw [d1, hstat h]; exact h)]
        rfl
  · have e : fnData_Sampling_Task drv s =
        (if samplingBusy (samplingRunLoop drv s.gchTotalSensorEntry 0 s) then RETURN_FALSE
          else RETURN_TRUE, samplingRunLoop drv s.gchTotalSensorEntry 0 s) := by
      unfold fnData_Sampling_Task
      dsimp only
      rw [if_neg hI]
    rw [e, if_neg hI]
    dsimp only
    refine ⟨k1, fun h => absurd h hI, fun h => ⟨by rw [k1], fun _ => ?_,
      fun h' => absurd h' hI⟩⟩
    rw [k2 h]
    rfl

set_option maxRecDepth 100000 in
/-- The battery-temperature table at its first sample clock: the slot is due and Off; the
invocation leaves it at Start and returns `RETURN_FALSE`. -/
theorem unimplemented_sensor_blocks_sampling_witness :
    ((runEvents [.tick 0] fwBatteryRunning).slot 0).chSensorID = BATTERY_TEMPERATURE ∧
    (fnData_Sampling_Task drvReady (runEvents [.tick 0] fwBatteryRunning)).2.slot 0 =
      { (runEvents [.tick 0] fwBatteryRunning).slot 0 with
        chSampleClockCounter := RESET_COUNTER
        chSensorStatusFlag := SAMPLE_STATE_START } ∧
    (fnData_Sampling_Task drvReady (runEvents [.tick 0] fwBatteryRunning)).1 = RETURN_FALSE :=
  ⟨by decide,
    (unimplemented_sensor_blocks_sampling drvReady (runEvents [.tick 0] fwBatteryRunning) 0
      (by decide) (by decide) ⟨by decide, by decide, by decide, by decide⟩).2.1
      (by decide) (by decide) (by decide) (by decide)⟩

set_option maxRecDepth 100000 in
/-- C27 (failing run). After boot and the acceptance of `frameUnknownId` (one
`BATTERY_TEMPERATURE` slot, sample-clock divisor 2): the slot is Off before the first sample
clock and at Start after every event from the first invocation of the sampling task on; every
invocation of the task in the run returns `RETURN_FALSE` but the one at the second sample
clock, where no slot is due; at the third sample clock the due check raises
`SENSOR_SENSOR_SAMPLING_OVERRUN`. -/
theorem battery_slot_never_off_again :
    (fnET_Upload_Task frameUnknownId fwBoot).1 = RETURN_TRUE ∧
    (fwBatteryRunning.slot 0).chSensorStatusFlag = SAMPLE_STATE_OFF ∧
    (∀ n, 2 ≤ n → n ≤ batteryRun.length →
      ((runEvents (batteryRun.take n) fwBatteryRunning).slot 0).chSensorStatusFlag =
        SAMPLE_STATE_START) ∧
    ([1, 2, 11, 20].map fun n =>
        (fnData_Sampling_Task drvReady (runEvents (batteryRun.take n) fwBatteryRunning)).1) =
      [RETURN_FALSE, RETURN_FALSE, RETURN_TRUE, RETURN_FALSE] ∧
    (runEvents batteryRun fwBatteryRunning).ghSensorCommManager.chOverrunErrorID =
      SENSOR_SENSOR_SAMPLING_OVERRUN ∧
    (runEvents batteryRun fwBatteryRunning).hwLog.filter
        (fun op => op = HwOp.debugError SENSOR_SENSOR_SAMPLING_OVERRUN) =
      [HwOp.debugError SENSOR_SENSOR_SAMPLING_OVERRUN] := by
  decide


/-! ## The sensor records of an upload frame -/

theorem recordOffsetsFrom_nil (c L : Nat) (h : L ≤ c) : ∀ n, recordOffsetsFrom c n L = [] := by
  intro n
  unfold recordOffsetsFrom
  rw [List.filter_eq_nil_iff]
  intro o ho
  rw [List.mem_map] at ho
  obtain ⟨k, _, rfl⟩ := ho
  simp only [decide_eq_true_eq]
  omega

theorem recordOffsetsFrom_succ (c n L : Nat) :
    recordOffsetsFrom c (n + 1) L =
      if c < L then c :: recordOffsetsFrom (c + SENSOR_ENTRY_OFFSET) n L else [] := by
  split_ifs with h
  · unfold recordOffsetsFrom
    rw [List.range_succ_eq_map, List.map_cons, List.map_map, List.filter_cons,
      if_pos (by simpa using h)]
    congr 2
    apply List.map_congr_left
    intro k _
    simp only [Function.comp, SENSOR_ENTRY_OFFSET]
    omega
  · exact recordOffsetsFrom_nil c L (by omega) _

/-- More candidates than fit below `L` do not change the offsets. -/
theorem recordOffsetsFrom_more (c L : Nat) : ∀ (n d : Nat), L ≤ c + SENSOR_ENTRY_OFFSET * n →
    recordOffsetsFrom c (n + d) L = recordOffsetsFrom c n L
  | _, 0, _ => rfl
  | n, d + 1, h => by
    rw [← Nat.add_assoc, ← recordOffsetsFrom_more c L n d h]
    unfold recordOffsetsFrom
    rw [List.range_succ, List.map_append, List.filter_append]
    simp only [List.map_cons, List.map_nil, List.filter_cons, List.filter_nil]
    rw [if_neg (by simp only [decide_eq_true_eq, SENSOR_ENTRY_OFFSET] at *; omega),
      List.append_nil]

/-- The record loop from offset `c` (a record offset: `c % 6 = 1`) with length field at most
253: the counter does not wrap, and the loop appends to the table the slots of the populated
records at `c, c + 6, ...` below the length field, in order, leaving the other slots. -/
theorem etUploadLoop_records (buf : List Nat) (hL : rxb buf PACKET_LENGTH_INDEX ≤ 253) :
    ∀ (fuel c : Nat) (s : FW), c % 6 = 1 →
      s.gchTotalSensorEntry + fuel ≤ s.ghSensorControl.length →
      s.ghSensorControl.length ≤ 255 →
      (etUploadLoop buf fuel c s).gchTotalSensorEntry = s.gchTotalSensorEntry +
        (populatedRecords buf (recordOffsetsFrom c fuel (rxb buf PACKET_LENGTH_INDEX))).length ∧
      ∀ j, (etUploadLoop buf fuel c s).slot j =
        if s.gchTotalSensorEntry ≤ j ∧ j < s.gchTotalSensorEntry +
            (populatedRecords buf
              (recordOffsetsFrom c fuel (rxb buf PACKET_LENGTH_INDEX))).length then
          uploadedSlot buf
            ((populatedRecords buf
              (recordOffsetsFrom c fuel (rxb buf PACKET_LENGTH_INDEX))).getD
                (j - s.gchTotalSensorEntry) 0) (s.slot j)
        else s.slot j
  | 0, c, s, _, _, _ => by
    refine ⟨rfl, fun j => ?_⟩
    rw [if_neg (by simp [recordOffsetsFrom, populatedRecords])]
    rfl
  | fuel + 1, c, s, hc, hlen, h255 => by
    rw [etUploadLoop, recordOffsetsFrom_succ]
    by_cases hlt : c < rxb buf PACKET_LENGTH_INDEX
    · rw [if_pos hlt, if_pos hlt]
      have hu : u8 (c + SENSOR_ENTRY_OFFSET) = c + SENSOR_ENTRY_OFFSET := by
        simp only [u8, SENSOR_ENTRY_OFFSET]; omega
      rw [hu]
      obtain ⟨r1, r2⟩ := etUploadRecord_slots buf c s
      by_cases h0 : rxb buf (c + SAMPLE_CLOCK_DIVISOR_OFFSET) = RESET_VALUE
      · rw [r1 h0]
        have hp : populatedRecords buf
            (c :: recordOffsetsFrom (c + SENSOR_ENTRY_OFFSET) fuel (rxb buf PACKET_LENGTH_INDEX)) =
            populatedRecords buf
              (recordOffsetsFrom (c + SENSOR_ENTRY_OFFSET) fuel (rxb buf PACKET_LENGTH_INDEX)) := by
          unfold populatedRecords
          rw [List.filter_cons, if_neg (by simpa [RESET_VALUE] using h0)]
        rw [hp]
        exact etUploadLoop_records buf hL fuel _ s (by simp only [SENSOR_ENTRY_OFFSET]; omega)
          (by omega) h255
      · obtain ⟨e1, e2⟩ := r2 h0
        have hu2 : u8 (s.gchTotalSensorEntry + 1) = s.gchTotalSensorEntry + 1 := by
          simp only [u8]; omega
        rw [hu2] at e2
        have hp : populatedRecords buf
            (c :: recordOffsetsFrom (c + SENSOR_ENTRY_OFFSET) fuel (rxb buf PACKET_LENGTH_INDEX)) =
            c :: populatedRecords buf
              (recordOffsetsFrom (c + SENSOR_ENTRY_OFFSET) fuel (rxb buf PACKET_LENGTH_INDEX)) := by
          unfold populatedRecords
          rw [List.filter_cons, if_pos (by simpa [RESET_VALUE] using h0)]
        rw [hp]
        obtain ⟨a, b⟩ := etUploadLoop_records buf hL fuel (c + SENSOR_ENTRY_OFFSET)
          (etUploadRecord buf c s) (by simp only [SENSOR_ENTRY_OFFSET]; omega)
          (by rw [e1, e2, List.length_set]; omega) (by rw [e1, List.length_set]; exact h255)
        generalize populatedRecords buf
          (recordOffsetsFrom (c + SENSOR_ENTRY_OFFSET) fuel (rxb buf PACKET_LENGTH_INDEX)) = p
          at a b ⊢
        have hslot : ∀ j, (etUploadRecord buf c s).slot j =
            if j = s.gchTotalSensorEntry then uploadedSlot buf c (s.slot j) else s.slot j := by
          intro j
          rw [slot_congr _ (s.setSlot s.gchTotalSensorEntry
            (uploadedSlot buf c (s.slot s.gchTotalSensorEntry))) j e1, slot_setSlot]
          by_cases hj : j = s.gchTotalSensorEntry
          · rw [if_pos ⟨hj, by omega⟩, if_pos hj, hj]
          · rw [if_neg (fun h => hj h.1), if_neg hj]
        refine ⟨by rw [a, e2, List.length_cons]; omega, fun j => ?_⟩
        rw [b, e2, hslot, List.length_cons]
        by_cases hj : j = s.gchTotalSensorEntry
        · subst hj
          rw [if_neg (by omega), if_pos rfl, if_pos (by omega), Nat.sub_self]
          rfl
        · rw [if_neg hj]
          by_cases hin : s.gchTotalSensorEntry + 1 ≤ j ∧ j < s.gchTotalSensorEntry + 1 + p.length
          · rw [if_pos hin, if_pos (by omega)]
            have : j - s.gchTotalSensorEntry = (j - (s.gchTotalSensorEntry + 1)) + 1 := by omega
            rw [this]
            rfl
          · rw [if_neg hin, if_neg (by omega)]
    · rw [if_neg hlt, if_neg hlt]
      refine ⟨rfl, fun j => ?_⟩
      rw [if_neg (by simp [populatedRecords])]

/-- The offsets the record loop visits with its 84 tests are the record offsets of the frame
format when the length field is at most 253. -/
theorem recordOffsetsFrom_fuel (L : Nat) (hL : L ≤ 253) :
    recordOffsetsFrom SENSORS_START_INDEX ET_UPLOAD_FUEL L = recordOffsets L := by
  unfold recordOffsets
  by_cases h : L ≤ ET_UPLOAD_FUEL
  · have e := recordOffsetsFrom_more SENSORS_START_INDEX L L (ET_UPLOAD_FUEL - L)
      (by simp only [SENSORS_START_INDEX, SENSOR_ENTRY_OFFSET]; omega)
    rw [← e, Nat.add_sub_cancel' h]
  · have e := recordOffsetsFrom_more SENSORS_START_INDEX L ET_UPLOAD_FUEL (L - ET_UPLOAD_FUEL)
      (by simp only [SENSORS_START_INDEX, SENSOR_ENTRY_OFFSET, ET_UPLOAD_FUEL]; omega)
    rw [← e, Nat.add_sub_cancel' (by omega)]

/-- C28: after `fnET_Upload_Task` accepts a frame whose length field (byte 2) is at most 253,
`gchTotalSensorEntry` is the number of 6-byte records at the offsets 13, 19, 25, ... below the
length field whose sample-clock-divisor byte (offset +3) is not 0, and slot `k` is built from
the `k`-th of these records in frame order: id, control byte, sample-clock divisor and
radio-clock divisor are the record bytes +0, +2, +3 and +5, the average-sample count is byte
+4, replaced by 1 when that is 0 or above 50, and the radio-clock counter, the average counter
and the accumulator are 0 with the status Off (the sample-clock counter starts at the divisor,
the data length is looked up for the id, the data words are kept). -/
theorem sensor_record_parsing (buf : List Nat) (s : FW)
    (hlen : s.ghSensorControl.length = MAX_SENSOR_COUNT)
    (hok : (fnET_Upload_Task buf s).1 = RETURN_TRUE)
    (hL : rxb buf PACKET_LENGTH_INDEX ≤ 253) :
    (fnET_Upload_Task buf s).2.gchTotalSensorEntry =
      (populatedRecords buf (recordOffsets (rxb buf PACKET_LENGTH_INDEX))).length ∧
    ∀ k c, (populatedRecords buf (recordOffsets (rxb buf PACKET_LENGTH_INDEX)))[k]? = some c →
      k < (fnET_Upload_Task buf s).2.gchTotalSensorEntry ∧
      c % 6 = 1 ∧ 13 ≤ c ∧ c < rxb buf PACKET_LENGTH_INDEX ∧ rxb buf (c + 3) ≠ 0 ∧
      ((fnET_Upload_Task buf s).2.slot k).chSensorID = rxb buf c ∧
      ((fnET_Upload_Task buf s).2.slot k).chSensorCtrlByte = rxb buf (c + 2) ∧
      ((fnET_Upload_Task buf s).2.slot k).chSampleClockDivisor = rxb buf (c + 3) ∧
      ((fnET_Upload_Task buf s).2.slot k).chSensorSampleAvgTotalCount =
        (if rxb buf (c + 4) = 0 ∨ rxb buf (c + 4) > 50 then 1 else rxb buf (c + 4)) ∧
      ((fnET_Upload_Task buf s).2.slot k).chRadioClockDivisor = rxb buf (c + 5) ∧
      ((fnET_Upload_Task buf s).2.slot k).chRadioClockCounter = 0 ∧
      ((fnET_Upload_Task buf s).2.slot k).chSensorSampleAvgCounter = 0 ∧
      ((fnET_Upload_Task buf s).2.slot k).nSensorAvgData = 0 ∧
      ((fnET_Upload_Task buf s).2.slot k).chSensorStatusFlag = SAMPLE_STATE_OFF ∧
      (fnET_Upload_Task buf s).2.slot k = uploadedSlot buf c (s.slot k) := by
  obtain ⟨s0, z1, z2, z3, z4⟩ := fnET_Upload_Task_accept_loop buf s hok
  obtain ⟨a, b⟩ := etUploadLoop_records buf hL ET_UPLOAD_FUEL SENSORS_START_INDEX s0 (by decide)
    (by rw [z1, z2, hlen]; decide) (by rw [z2, hlen]; decide)
  rw [recordOffsetsFrom_fuel _ hL, z1, Nat.zero_add] at a
  rw [recordOffsetsFrom_fuel _ hL, z1] at b
  refine ⟨z4.trans a, fun k c hk => ?_⟩
  obtain ⟨hkl, hget⟩ := List.getElem?_eq_some_iff.mp hk
  have hmem : c ∈ populatedRecords buf (recordOffsets (rxb buf PACKET_LENGTH_INDEX)) :=
    List.mem_iff_getElem?.mpr ⟨k, hk⟩
  have hslot : (fnET_Upload_Task buf s).2.slot k = uploadedSlot buf c (s.slot k) := by
    rw [slot_congr _ _ k z3, b k, if_pos ⟨Nat.zero_le _, by omega⟩, Nat.sub_zero,
      List.getD_eq_getElem?_getD, hk, slot_congr s0 s k z2]
    rfl
  unfold populatedRecords recordOffsets recordOffsetsFrom at hmem
  simp only [List.mem_filter, List.mem_map, List.mem_range, decide_eq_true_eq,
    SAMPLE_CLOCK_DIVISOR_OFFSET, SENSORS_START_INDEX, SENSOR_ENTRY_OFFSET] at hmem
  obtain ⟨⟨⟨n, _, rfl⟩, hlt⟩, hdiv⟩ := hmem
  rw [hslot]
  refine ⟨by rw [z4, a]; exact hkl, by omega, by omega, hlt, hdiv, rfl, rfl, rfl, rfl, rfl, rfl,
    rfl, rfl, rfl, rfl⟩

set_option maxRecDepth 100000 in
/-- The frame `frameGyro` (length field 19, one gyrometer record at offset 13) after boot. -/
theorem sensor_record_parsing_witness :
    populatedRecords frameGyro (recordOffsets (rxb frameGyro PACKET_LENGTH_INDEX)) = [13] ∧
    (fnET_Upload_Task frameGyro fwBoot).2.gchTotalSensorEntry = 1 ∧
    ((fnET_Upload_Task frameGyro fwBoot).2.slot 0).chSensorID = GYRO_METER ∧
    ((fnET_Upload_Task frameGyro fwBoot).2.slot 0).chSensorSampleAvgTotalCount = 4 := by
  have h := sensor_record_parsing frameGyro fwBoot (by decide) (by decide) (by decide)
  have h13 : populatedRecords frameGyro (recordOffsets (rxb frameGyro PACKET_LENGTH_INDEX)) =
      [13] := by decide
  obtain ⟨_, _, _, _, _, e1, _, _, e4, _⟩ := h.2 0 13 (by rw [h13]; rfl)
  exact ⟨h13, by rw [h.1, h13]; rfl, e1.trans (by decide), e4.trans (by decide)⟩


/-! ## The collection walk stays inside its arrays -/

/-- One step of the inner loop: the write cursor moves by two, the packet index and the slot
count are kept, and so is the data length of every slot when the word is one of the first
eight (the objects 4 to 11 of the slot itself). -/
theorem collectWords_one (c k : Nat) (s : FW) :
    (collectWords c 1 k s).gchCollectionPacketIndex = s.gchCollectionPacketIndex ∧
    (collectWords c 1 k s).gchTotalSensorEntry = s.gchTotalSensorEntry ∧
    (collectWords c 1 k s).gchCollectionDataIndex =
      u8 (u8 (s.gchCollectionDataIndex + 1) + 1) ∧
    (k ≤ 7 → ∀ i,
      ((collectWords c 1 k s).slot i).chSensorDataLength = (s.slot i).chSensorDataLength) := by
  refine ⟨rfl, rfl, rfl, fun hk i => ?_⟩
  rw [collectWords_one_slot]
  split_ifs with h
  · exact (clearWordAt_head (s.slot i) ((k + 4) % 12) (by omega)).2.2.1
  · rfl

theorem collectWords_frame (c : Nat) : ∀ (n k : Nat) (s : FW),
    (collectWords c n k s).gchCollectionPacketIndex = s.gchCollectionPacketIndex ∧
    (collectWords c n k s).gchTotalSensorEntry = s.gchTotalSensorEntry ∧
    (s.gchCollectionDataIndex + 2 * n ≤ 255 →
      (collectWords c n k s).gchCollectionDataIndex = s.gchCollectionDataIndex + 2 * n) ∧
    (k + n ≤ 8 → ∀ i,
      ((collectWords c n k s).slot i).chSensorDataLength = (s.slot i).chSensorDataLength)
  | 0, _, _ => ⟨rfl, rfl, fun _ => rfl, fun _ _ => rfl⟩
  | n + 1, k, s => by
    rw [collectWords_unroll]
    obtain ⟨a1, a2, a3, a4⟩ := collectWords_one c k s
    obtain ⟨b1, b2, b3, b4⟩ := collectWords_frame c n (k + 1) (collectWords c 1 k s)
    refine ⟨b1.trans a1, b2.trans a2, fun h => ?_,
      fun h i => (b4 (by omega) i).trans (a4 (by omega) i)⟩
    have e : (collectWords c 1 k s).gchCollectionDataIndex = s.gchCollectionDataIndex + 2 := by
      rw [a3]; simp only [u8]; omega
    rw [b3 (by rw [e]; omega), e]
    omega

/-- The stores of the inner loop are at the write cursor and the `2 * n - 1` indices after
it. -/
theorem collectWordsEv_inBounds (c T : Nat) (hc : c < T) : ∀ (n k : Nat) (s : FW),
    s.gchCollectionPacketIndex = 0 → PACKET_DATA_MESSAGE_INDEX ≤ s.gchCollectionDataIndex →
    s.gchCollectionDataIndex + 2 * n ≤ PACKET_LAST_DATA_BYTE_INDEX →
    (∀ e ∈ collectWordsEv c n k s, e.inBounds T) ∧ visits (collectWordsEv c n k s) = []
  | 0, _, _, _, _, _ => ⟨fun e he => absurd he (List.not_mem_nil e), rfl⟩
  | n + 1, k, s, hp, h6, h128 => by
    obtain ⟨a1, _, a3, _⟩ := collectWords_one c k s
    simp only [PACKET_DATA_MESSAGE_INDEX, PACKET_LAST_DATA_BYTE_INDEX] at h6 h128
    have e : (collectWords c 1 k s).gchCollectionDataIndex = s.gchCollectionDataIndex + 2 := by
      rw [a3]; simp only [u8]; omega
    obtain ⟨b1, b2⟩ := collectWordsEv_inBounds c T hc n (k + 1) (collectWords c 1 k s)
      (a1.trans hp) (by rw [e]; simp only [PACKET_DATA_MESSAGE_INDEX]; omega)
      (by rw [e]; simp only [PACKET_LAST_DATA_BYTE_INDEX]; omega)
    have hu : u8 (s.gchCollectionDataIndex + 1) = s.gchCollectionDataIndex + 1 := by
      simp only [u8]; omega
    rw [collectWordsEv, hu]
    refine ⟨fun ev hev => ?_, ?_⟩
    · rw [List.mem_append] at hev
      rcases hev with h | h
      · simp only [List.mem_cons, List.mem_singleton, List.not_mem_nil, or_false] at h
        rcases h with rfl | rfl | rfl | rfl | rfl
        · exact hc
        · exact ⟨hp, h6, by simp only [PACKET_LAST_DATA_BYTE_INDEX]; omega⟩
        · exact hc
        · exact ⟨hp, by simp only [PACKET_DATA_MESSAGE_INDEX]; omega,
            by simp only [PACKET_LAST_DATA_BYTE_INDEX]; omega⟩
        · exact hc
      · exact b1 ev h
    · unfold visits at b2 ⊢
      rw [List.filterMap_append, b2]
      rfl

theorem collectSlotId_frame (c : Nat) (s : FW) :
    (collectSlotId c s).gchCollectionPacketIndex = s.gchCollectionPacketIndex ∧
    (collectSlotId c s).gchTotalSensorEntry = s.gchTotalSensorEntry ∧
    (collectSlotId c s).gchCollectionDataIndex = u8 (s.gchCollectionDataIndex + 1) ∧
    ∀ i, ((collectSlotId c s).slot i).chSensorDataLength = (s.slot i).chSensorDataLength := by
  refine ⟨rfl, rfl, rfl, fun i => ?_⟩
  show ((FW.setSlot s c _).slot i).chSensorDataLength = _
  rw [slot_setSlot]
  split_ifs with h
  · rw [h.1]
  · rfl

/-- The first part of a pass keeps the packet index and the slot count, and the data length of
every slot when slot `c` has at most eight data words; when the slot fits behind the write
cursor, the cursor stays within `PACKET_DATA_MESSAGE_INDEX .. PACKET_LAST_DATA_BYTE_INDEX`. -/
theorem collectSlot_frame (c : Nat) (avail : Bool) (s : FW) :
    (collectSlot c avail s).1.gchCollectionPacketIndex = s.gchCollectionPacketIndex ∧
    (collectSlot c avail s).1.gchTotalSensorEntry = s.gchTotalSensorEntry ∧
    ((s.slot c).chSensorDataLength ≤ 8 → ∀ i,
      ((collectSlot c avail s).1.slot i).chSensorDataLength =
        (s.slot i).chSensorDataLength) ∧
    (PACKET_DATA_MESSAGE_INDEX ≤ s.gchCollectionDataIndex →
      s.gchCollectionDataIndex + (s.slot c).chSensorDataLength * 2 + 1 ≤
        PACKET_LAST_DATA_BYTE_INDEX →
      PACKET_DATA_MESSAGE_INDEX ≤ (collectSlot c avail s).1.gchCollectionDataIndex ∧
      (collectSlot c avail s).1.gchCollectionDataIndex ≤ PACKET_LAST_DATA_BYTE_INDEX) := by
  by_cases h : u8 ((s.slot c).chRadioClockCounter + 1) ≥ (s.slot c).chRadioClockDivisor
  · rw [collectSlot_due c avail s h]
    dsimp only
    obtain ⟨a1, a2, a3, a4⟩ := collectSlotId_frame c s
    obtain ⟨b1, b2, b3, b4⟩ := collectWords_frame c (s.slot c).chSensorDataLength 0
      (collectSlotId c s)
    have hd : PACKET_DATA_MESSAGE_INDEX ≤ s.gchCollectionDataIndex →
        s.gchCollectionDataIndex + (s.slot c).chSensorDataLength * 2 + 1 ≤
          PACKET_LAST_DATA_BYTE_INDEX →
        (collectWords c (s.slot c).chSensorDataLength 0
          (collectSlotId c s)).gchCollectionDataIndex =
          s.gchCollectionDataIndex + 1 + 2 * (s.slot c).chSensorDataLength := by
      intro h6 hf
      simp only [PACKET_DATA_MESSAGE_INDEX, PACKET_LAST_DATA_BYTE_INDEX] at h6 hf
      have e : (collectSlotId c s).gchCollectionDataIndex = s.gchCollectionDataIndex + 1 := by
        rw [a3]; simp only [u8]; omega
      rw [b3 (by rw [e]; omega), e]
    split_ifs
    · refine ⟨b1.trans a1, b2.trans a2, fun h8 i => ?_, fun h6 hf => ?_⟩
      · rw [slot_setSlot]
        split_ifs with g
        · rw [g.1]; exact (b4 (by omega) c).trans (a4 c)
        · exact (b4 (by omega) i).trans (a4 i)
      · show _ ≤ (collectWords c _ 0 _).gchCollectionDataIndex ∧
          (collectWords c _ 0 _).gchCollectionDataIndex ≤ _
        rw [hd h6 hf]
        simp only [PACKET_DATA_MESSAGE_INDEX, PACKET_LAST_DATA_BYTE_INDEX] at h6 hf ⊢
        omega
    · refine ⟨b1.trans a1, b2.trans a2, fun h8 i => (b4 (by omega) i).trans (a4 i),
        fun h6 hf => ?_⟩
      rw [hd h6 hf]
      simp only [PACKET_DATA_MESSAGE_INDEX, PACKET_LAST_DATA_BYTE_INDEX] at h6 hf ⊢
      omega
  · have e : collectSlot c avail s =
        (s.setSlot c { s.slot c with
          chRadioClockCounter := u8 ((s.slot c).chRadioClockCounter + 1) }, avail) := by
      unfold collectSlot
      dsimp only
      rw [if_neg h]
    rw [e]
    refine ⟨rfl, rfl, fun _ i => ?_, fun h6 hf => ⟨h6, ?_⟩⟩
    · rw [slot_setSlot]
      split_ifs with g
      · rw [g.1]
      · rfl
    · show s.gchCollectionDataIndex ≤ _
      omega

/-- The accesses of the first part of a pass for a slot that fits behind the write cursor. -/
theorem collectSlotEv_inBounds (c T : Nat) (s : FW) (hc : c < T)
    (hp : s.gchCollectionPacketIndex = 0)
    (h6 : PACKET_DATA_MESSAGE_INDEX ≤ s.gchCollectionDataIndex)
    (hf : s.gchCollectionDataIndex + (s.slot c).chSensorDataLength * 2 + 1 ≤
      PACKET_LAST_DATA_BYTE_INDEX) :
    (∀ e ∈ collectSlotEv c s, e.inBounds T) ∧ visits (collectSlotEv c s) = [] := by
  unfold collectSlotEv
  dsimp only
  split_ifs
  · obtain ⟨a1, _, a3, _⟩ := collectSlotId_frame c s
    have h6' := h6
    have hf' := hf
    simp only [PACKET_DATA_MESSAGE_INDEX, PACKET_LAST_DATA_BYTE_INDEX] at h6' hf'
    have e : (collectSlotId c s).gchCollectionDataIndex = s.gchCollectionDataIndex + 1 := by
      rw [a3]; simp only [u8]; omega
    obtain ⟨b1, b2⟩ := collectWordsEv_inBounds c T hc (s.slot c).chSensorDataLength 0
      (collectSlotId c s) (a1.trans hp)
      (by rw [e]; simp only [PACKET_DATA_MESSAGE_INDEX]; omega)
      (by rw [e]; simp only [PACKET_LAST_DATA_BYTE_INDEX]; omega)
    refine ⟨fun ev hev => ?_, ?_⟩
    · simp only [List.mem_append, List.mem_cons, List.mem_singleton, List.not_mem_nil,
        or_false] at hev
      rcases hev with ((rfl | rfl | rfl | rfl) | h) | rfl
      · exact hc
      · exact hc
      · exact hc
      · exact ⟨hp, h6, by simp only [PACKET_LAST_DATA_BYTE_INDEX]; omega⟩
      · exact b1 ev h
      · exact hc
    · unfold visits at b2 ⊢
      rw [List.filterMap_append, List.filterMap_append, b2]
      rfl
  · refine ⟨fun ev hev => ?_, rfl⟩
    rw [List.mem_singleton] at hev
    rw [hev]
    exact hc

theorem collectFinalizeEv_inBounds (T : Nat) (s : FW) (hp : s.gchCollectionPacketIndex = 0) :
    (∀ e ∈ collectFinalizeEv s, e.inBounds T) ∧ visits (collectFinalizeEv s) = [] := by
  refine ⟨fun ev hev => ?_, rfl⟩
  simp only [collectFinalizeEv, List.mem_cons, List.mem_singleton, List.not_mem_nil,
    or_false] at hev
  rcases hev with rfl | rfl | rfl | rfl | rfl <;> exact ⟨hp, by decide⟩

theorem visits_append (a b : List CollectEv) : visits (a ++ b) = visits a ++ visits b := by
  unfold visits
  rw [List.filterMap_append]

theorem forall_mem_append (T : Nat) (a b : List CollectEv)
    (ha : ∀ e ∈ a, e.inBounds T) (hb : ∀ e ∈ b, e.inBounds T) :
    ∀ e ∈ a ++ b, e.inBounds T := by
  intro e he
  rcases List.mem_append.mp he with h | h
  · exact ha e h
  · exact hb e h

theorem collectFinalize_frame (chk : Bool) (s : FW) :
    (collectFinalize chk s).gchCollectionPacketIndex = s.gchCollectionPacketIndex ∧
    (collectFinalize chk s).gchTotalSensorEntry = s.gchTotalSensorEntry ∧
    (collectFinalize chk s).gchCollectionDataIndex = PACKET_DATA_MESSAGE_INDEX ∧
    ∀ i, (collectFinalize chk s).slot i = s.slot i :=
  ⟨rfl, rfl, rfl, fun _ => rfl⟩

/-- The loop from a pass for slot `c` below the slot count, with the write cursor in packet 0
at or after `PACKET_DATA_MESSAGE_INDEX`, slot `c` fitting behind the cursor and every data
length at most `MAX_SENSOR_DATA_LENGTH`: every access is inside its array and the passes are
those for the slots `c, c + 1, ...` up to the last one, once each. -/
theorem collectLoopEv_inBounds : ∀ (fuel c : Nat) (avail : Bool) (s : FW),
    c < s.gchTotalSensorEntry → s.gchTotalSensorEntry ≤ 255 →
    s.gchTotalSensorEntry ≤ c + fuel → s.gchCollectionPacketIndex = 0 →
    PACKET_DATA_MESSAGE_INDEX ≤ s.gchCollectionDataIndex →
    s.gchCollectionDataIndex + (s.slot c).chSensorDataLength * 2 + 1 ≤
      PACKET_LAST_DATA_BYTE_INDEX →
    (∀ i < s.gchTotalSensorEntry, (s.slot i).chSensorDataLength ≤ MAX_SENSOR_DATA_LENGTH) →
    (∀ e ∈ collectLoopEv fuel c avail s, e.inBounds s.gchTotalSensorEntry) ∧
    visits (collectLoopEv fuel c avail s) = List.range' c (s.gchTotalSensorEntry - c)
  | 0, c, _, s, hc, _, hle, _, _, _, _ => by omega
  | fuel + 1, c, avail, s, hc, h255, hle, hp, h6, hf, hlen => by
    have hu : u8 (c + 1) = c + 1 := by simp only [u8]; omega
    obtain ⟨f1, f2, f3', f4⟩ := collectSlot_frame c avail s
    have f3 := f3' (by
      have := hlen c hc
      simp only [MAX_SENSOR_DATA_LENGTH] at this
      omega)
    obtain ⟨g1, g2⟩ := f4 h6 hf
    obtain ⟨e1, e2⟩ := collectSlotEv_inBounds c s.gchTotalSensorEntry s hc hp h6 hf
    obtain ⟨k1, k2⟩ := collectFinalizeEv_inBounds s.gchTotalSensorEntry (collectSlot c avail s).1
      (f1.trans hp)
    have ev1 : ∀ e ∈ CollectEv.visit c :: collectSlotEv c s, e.inBounds s.gchTotalSensorEntry := by
      intro e he
      rcases List.mem_cons.mp he with rfl | h
      · exact hc
      · exact e1 e h
    have ev2 : visits (CollectEv.visit c :: collectSlotEv c s) = [c] := by
      show visits ([CollectEv.visit c] ++ collectSlotEv c s) = [c]
      rw [visits_append, e2]
      rfl
    have last : s.gchTotalSensorEntry ≤ c + 1 →
        List.range' c (s.gchTotalSensorEntry - c) = [c] := by
      intro h
      have : s.gchTotalSensorEntry - c = 1 := by omega
      rw [this]
      rfl
    have more : ¬ s.gchTotalSensorEntry ≤ c + 1 →
        List.range' c (s.gchTotalSensorEntry - c) =
          [c] ++ List.range' (c + 1) (s.gchTotalSensorEntry - (c + 1)) := by
      intro h
      have : s.gchTotalSensorEntry - c = (s.gchTotalSensorEntry - (c + 1)) + 1 := by omega
      rw [this, List.range'_succ]
      rfl
    have next : c + 1 < s.gchTotalSensorEntry →
        (CollectEv.slot (c + 1)).inBounds s.gchTotalSensorEntry := fun h => h
    rw [collectLoopEv]
    simp only [hu, f2, decide_eq_true_eq, ge_iff_le, gt_iff_lt]
    by_cases hge : s.gchTotalSensorEntry ≤ c + 1
    · simp only [hge, true_and, true_or, if_true]
      split_ifs
      · refine ⟨forall_mem_append _ _ _ (forall_mem_append _ _ _ ev1
          (fun e he => absurd he (List.not_mem_nil e))) k1, ?_⟩
        rw [visits_append, visits_append, ev2, k2, last hge]
        rfl
      · exact ⟨ev1, ev2.trans (last hge).symm⟩
    · simp only [hge, false_and, false_or, if_false]
      have hlt : c + 1 < s.gchTotalSensorEntry := by omega
      have hl5 := hlen (c + 1) hlt
      simp only [MAX_SENSOR_DATA_LENGTH] at hl5
      split_ifs with hfull
      · obtain ⟨q1, q2, q3, q4⟩ := collectFinalize_frame (decide False) (collectSlot c avail s).1
        generalize collectFinalize (decide False) (collectSlot c avail s).1 = w at q1 q2 q3 q4 ⊢
        obtain ⟨r1', r2'⟩ := collectLoopEv_inBounds fuel (c + 1) (collectSlot c avail s).2 w
          (by rw [q2, f2]; exact hlt) (by rw [q2, f2]; exact h255) (by rw [q2, f2]; omega)
          (q1.trans (f1.trans hp)) (by rw [q3])
          (by rw [q3, q4, f3]
              simp only [PACKET_DATA_MESSAGE_INDEX, PACKET_LAST_DATA_BYTE_INDEX]; omega)
          (by intro i hi
              rw [q4, f3]
              exact hlen i (by rw [← f2, ← q2]; exact hi))
        rw [q2, f2] at r1' r2'
        refine ⟨forall_mem_append _ _ _ (forall_mem_append _ _ _ (forall_mem_append _ _ _ ev1
          (fun e he => by rw [List.mem_singleton.mp he]; exact next hlt)) k1) r1', ?_⟩
        rw [visits_append, visits_append, visits_append, ev2, k2, r2', more hge]
        rfl
      · obtain ⟨r1, r2⟩ := collectLoopEv_inBounds fuel (c + 1) (collectSlot c avail s).2
          (collectSlot c avail s).1 (by rw [f2]; exact hlt) (by rw [f2]; exact h255)
          (by rw [f2]; omega) (f1.trans hp) g1 (by omega)
          (by intro i hi
              rw [f3]
              exact hlen i (by rw [← f2]; exact hi))
        rw [f2] at r1 r2
        refine ⟨forall_mem_append _ _ _ (forall_mem_append _ _ _ ev1
          (fun e he => by rw [List.mem_singleton.mp he]; exact next hlt)) r1, ?_⟩
        rw [visits_append, visits_append, ev2, r2, more hge]
        rfl

/-- The accesses do not depend on the fuel once it covers the remaining slots. -/
theorem collectLoopEv_steps :
    ∀ (fuel extra c : Nat) (avail : Bool) (s : FW),
      c < 255 → s.gchTotalSensorEntry ≤ 255 → s.gchTotalSensorEntry ≤ c + fuel → 1 ≤ fuel →
      collectLoopEv (fuel + extra) c avail s = collectLoopEv fuel c avail s
  | 0, _, _, _, _, _, _, _, h => absurd h (by decide)
  | fuel + 1, extra, c, avail, s, hc, ht, hle, _ => by
    have e : fuel + 1 + extra = fuel + extra + 1 := by omega
    rw [e]
    have hu : u8 (c + 1) = c + 1 := u8_of_lt (by omega)
    have h1 := collectSlot_total c avail s
    simp only [collectLoopEv, hu]
    have ht' : ∀ b, (collectFinalize b (collectSlot c avail s).1).gchTotalSensorEntry =
        s.gchTotalSensorEntry := fun b => (collectFinalize_total b _).trans h1
    split_ifs
    all_goals first
      | rfl
      | (simp only [decide_eq_true_eq, not_and, not_or, not_lt, not_le, ge_iff_le] at *
         rw [collectLoopEv_steps fuel extra (c + 1) _ _ (by omega)
           (by first | omega | (rw [ht']; omega)) (by first | omega | (rw [ht']; omega))
           (by omega)])

/-- C29: for a slot table with at least one and at most 255 slots in use in which every data
length is at most `MAX_SENSOR_DATA_LENGTH` (5), the walk of `fnData_Collection_Task` over the
slots makes only accesses inside the arrays: every id or data byte is stored in packet 0 at an
index in `PACKET_DATA_MESSAGE_INDEX .. PACKET_LAST_DATA_BYTE_INDEX - 1` (6 .. 127), every header
store is at an index in 0 .. 5 of packet 0, every slot index accessed is below
`gchTotalSensorEntry`.  The passes of the loop are those for the slots
`0, 1, ..., gchTotalSensorEntry - 1`, one each, and the loop is left through one of its exits:
more fuel changes neither the result nor the accesses. -/
theorem collection_in_bounds (s : FW) (h1 : 1 ≤ s.gchTotalSensorEntry)
    (h255 : s.gchTotalSensorEntry ≤ 255)
    (hlen : ∀ i < s.gchTotalSensorEntry,
      (s.slot i).chSensorDataLength ≤ MAX_SENSOR_DATA_LENGTH) :
    (∀ e ∈ collectWalkEv s, e.inBounds s.gchTotalSensorEntry) ∧
    (∀ p i, CollectEv.payload p i ∈ collectWalkEv s → p = 0 ∧ 6 ≤ i ∧ i ≤ 127) ∧
    (∀ p i, CollectEv.header p i ∈ collectWalkEv s → p = 0 ∧ i ≤ 5) ∧
    (∀ i, CollectEv.slot i ∈ collectWalkEv s → i < s.gchTotalSensorEntry) ∧
    visits (collectWalkEv s) = List.range s.gchTotalSensorEntry ∧
    ∀ extra,
      collectLoop (max s.gchTotalSensorEntry 1 + extra) RESET_COUNTER false 0
        { s with
          gchCollectionDataIndex := PACKET_DATA_MESSAGE_INDEX
          gchCollectionPacketIndex := RESET_VALUE } = collectWalk s ∧
      collectLoopEv (max s.gchTotalSensorEntry 1 + extra) RESET_COUNTER false
        { s with
          gchCollectionDataIndex := PACKET_DATA_MESSAGE_INDEX
          gchCollectionPacketIndex := RESET_VALUE } = collectWalkEv s := by
  have hmax : max s.gchTotalSensorEntry 1 = s.gchTotalSensorEntry := Nat.max_eq_left h1
  have hl5 := hlen 0 (by omega)
  simp only [MAX_SENSOR_DATA_LENGTH] at hl5
  obtain ⟨a, b⟩ := collectLoopEv_inBounds s.gchTotalSensorEntry 0 false
    { s with
      gchCollectionDataIndex := PACKET_DATA_MESSAGE_INDEX
      gchCollectionPacketIndex := RESET_VALUE }
    h1 h255 (by show s.gchTotalSensorEntry ≤ _; omega) rfl (le_refl _)
    (by show PACKET_DATA_MESSAGE_INDEX + (s.slot 0).chSensorDataLength * 2 + 1 ≤ _
        simp only [PACKET_DATA_MESSAGE_INDEX, PACKET_LAST_DATA_BYTE_INDEX]; omega)
    hlen
  have hw : collectWalkEv s = collectLoopEv s.gchTotalSensorEntry 0 false
      { s with
        gchCollectionDataIndex := PACKET_DATA_MESSAGE_INDEX
        gchCollectionPacketIndex := RESET_VALUE } := by
    unfold collectWalkEv
    rw [hmax]
    rfl
  rw [← hw] at a b
  refine ⟨a, fun p i h => ?_, fun p i h => a _ h, fun i h => a _ h, ?_, fun extra => ⟨?_, ?_⟩⟩
  · obtain ⟨x, y, z⟩ := a _ h
    simp only [PACKET_DATA_MESSAGE_INDEX, PACKET_LAST_DATA_BYTE_INDEX] at y z
    exact ⟨x, y, by omega⟩
  · rw [b, List.range_eq_range']
    rfl
  · exact collectWalk_fuel extra s h255
  · unfold collectWalkEv
    exact collectLoopEv_steps (max s.gchTotalSensorEntry 1) extra RESET_COUNTER false
      { s with
        gchCollectionDataIndex := PACKET_DATA_MESSAGE_INDEX
        gchCollectionPacketIndex := RESET_VALUE }
      (by decide) h255 (by simp only [RESET_COUNTER]; omega) (by omega)

set_option maxRecDepth 100000 in
/-- The table of `frameEighteen` (18 gyrometer slots of 3 words, every slot due): the walk
visits the slots 0 .. 17 once each, and all its stores into the packet are within bounds. -/
theorem collection_in_bounds_witness :
    fwEighteen.gchTotalSensorEntry = 18 ∧
    visits (collectWalkEv fwEighteen) = List.range fwEighteen.gchTotalSensorEntry ∧
    (∀ p i, CollectEv.payload p i ∈ collectWalkEv fwEighteen → p = 0 ∧ 6 ≤ i ∧ i ≤ 127) ∧
    (∀ p i, CollectEv.header p i ∈ collectWalkEv fwEighteen → p = 0 ∧ i ≤ 5) :=
  ⟨by decide,
    (collection_in_bounds fwEighteen (by decide) (by decide) (by decide)).2.2.2.2.1,
    (collection_in_bounds fwEighteen (by decide) (by decide) (by decide)).2.1,
    (collection_in_bounds fwEighteen (by decide) (by decide) (by decide)).2.2.1⟩


/-! ## The collection walk over an empty slot table -/

/-- The `while(1)` loop entered with no slot in use: the body runs for slot 0 before the slot
count is tested.  When slot 0 is due by its radio-clock fields the packet is finalised and the
loop is left through `break`; otherwise slot 0 gets its radio-clock counter incremented and the
loop is left through `return`. -/
theorem collectLoop_empty (u : FW) (h0 : u.gchTotalSensorEntry = 0) :
    (u8 ((u.slot 0).chRadioClockCounter + 1) ≥ (u.slot 0).chRadioClockDivisor →
      collectLoop 1 0 false 0 u =
        ⟨collectFinalize true (collectSlot 0 false u).1, true, 1⟩ ∧
      collectLoopEv 1 0 false u =
        CollectEv.visit 0 :: collectSlotEv 0 u ++ [] ++
          collectFinalizeEv (collectSlot 0 false u).1) ∧
    (¬ u8 ((u.slot 0).chRadioClockCounter + 1) ≥ (u.slot 0).chRadioClockDivisor →
      collectLoop 1 0 false 0 u =
        ⟨u.setSlot 0 { u.slot 0 with
          chRadioClockCounter := u8 ((u.slot 0).chRadioClockCounter + 1) }, false, 0⟩ ∧
      collectLoopEv 1 0 false u = [CollectEv.visit 0, CollectEv.slot 0]) := by
  have f2 := collectSlot_total 0 false u
  have hu : u8 (0 + 1) = 1 := by decide
  refine ⟨fun h => ?_, fun h => ?_⟩
  · have e2 : (collectSlot 0 false u).2 = true := by rw [collectSlot_due 0 false u h]
    refine ⟨?_, ?_⟩
    · rw [collectLoop]
      simp only [hu, f2, h0, e2, ge_iff_le, Nat.zero_le, true_and, not_true_eq_false,
        if_false, decide_True, true_or, if_true]
    · rw [collectLoopEv]
      simp only [hu, f2, h0, e2, ge_iff_le, Nat.zero_le, true_and, not_true_eq_false,
        if_false, decide_True, true_or, if_true]
  · have e : collectSlot 0 false u =
        (u.setSlot 0 { u.slot 0 with
          chRadioClockCounter := u8 ((u.slot 0).chRadioClockCounter + 1) }, false) := by
      unfold collectSlot
      dsimp only
      rw [if_neg h]
    have ev : collectSlotEv 0 u = [CollectEv.slot 0] := by
      unfold collectSlotEv
      dsimp only
      rw [if_neg h]
    have t0 : ∀ y, (u.setSlot 0 y).gchTotalSensorEntry = 0 := fun _ => h0
    refine ⟨?_, ?_⟩
    · rw [collectLoop]
      simp only [hu, e, t0, ge_iff_le, Nat.zero_le, true_and, Bool.false_eq_true,
        not_false_eq_true, if_true]
    · rw [collectLoopEv]
      simp only [hu, e, ev, t0, ge_iff_le, Nat.zero_le, true_and, Bool.false_eq_true,
        not_false_eq_true, if_true]

/-- C30: with `gchTotalSensorEntry` = 0 and no download pending `fnData_Collection_Task` returns
done, but its `while(1)` body runs for slot 0 before the slot count is tested: slot 0 of
`ghSensorControl` is accessed.  When slot 0 is due by its radio-clock fields (as a zeroed slot
is) its id is stored at `PACKET_DATA_MESSAGE_INDEX` of packet 0, the header of packet 0 is
written, `chTotalPacketCount` becomes 1 and `gchDataDownloadPacketReady` is raised; otherwise
the radio-clock counter of slot 0 is incremented, and neither the packet buffer is written nor
`gchDataDownloadPacketReady` raised. -/
theorem empty_table_collection (s : FW) (h0 : s.gchTotalSensorEntry = 0)
    (hr : s.gchDataDownloadPacketReady = 0) :
    (fnData_Collection_Task s).1 = RETURN_TRUE ∧
    CollectEv.slot 0 ∈ collectWalkEv s ∧
    (u8 ((s.slot 0).chRadioClockCounter + 1) ≥ (s.slot 0).chRadioClockDivisor →
      (fnData_Collection_Task s).2.gchDataDownloadPacketReady = SET_FLAG ∧
      (fnData_Collection_Task s).2.ghSensorCommManager.chTotalPacketCount = 1 ∧
      CollectEv.payload 0 PACKET_DATA_MESSAGE_INDEX ∈ collectWalkEv s ∧
      CollectEv.header 0 PACKET_HEADER_INDEX ∈ collectWalkEv s ∧
      CollectEv.header 0 PACKET_DATA_LENGTH_INDEX ∈ collectWalkEv s) ∧
    (¬ u8 ((s.slot 0).chRadioClockCounter + 1) ≥ (s.slot 0).chRadioClockDivisor →
      (fnData_Collection_Task s).2.ghSensorControl =
        s.ghSensorControl.set 0 { s.slot 0 with
          chRadioClockCounter := u8 ((s.slot 0).chRadioClockCounter + 1) } ∧
      (fnData_Collection_Task s).2.gchDataDownloadPacketReady = 0 ∧
      (fnData_Collection_Task s).2.gchSensorCommBuff = s.gchSensorCommBuff ∧
      collectWalkEv s = [CollectEv.visit 0, CollectEv.slot 0]) := by
  obtain ⟨a, b⟩ := collectLoop_empty
    { s with
      gchCollectionDataIndex := PACKET_DATA_MESSAGE_INDEX
      gchCollectionPacketIndex := RESET_VALUE } h0
  have hw : collectWalk s = collectLoop 1 0 false 0
      { s with
        gchCollectionDataIndex := PACKET_DATA_MESSAGE_INDEX
        gchCollectionPacketIndex := RESET_VALUE } := by
    unfold collectWalk
    rw [h0]
    rfl
  have hv : collectWalkEv s = collectLoopEv 1 0 false
      { s with
        gchCollectionDataIndex := PACKET_DATA_MESSAGE_INDEX
        gchCollectionPacketIndex := RESET_VALUE } := by
    unfold collectWalkEv
    rw [h0]
    rfl
  have ht : fnData_Collection_Task s =
      (if (collectWalk s).broke then
        (RETURN_TRUE, { (collectWalk s).s with
          ghSensorCommManager :=
            { (collectWalk s).s.ghSensorCommManager with
              chTotalPacketCount := u8 ((collectWalk s).s.gchCollectionPacketIndex + 1) }
          gchCollectionPacketIndex := RESET_COUNTER
          gchCollectionDataIndex := RESET_COUNTER
          gchDataDownloadPacketReady := SET_FLAG })
      else (RETURN_TRUE, (collectWalk s).s)) := by
    unfold fnData_Collection_Task
    rw [if_neg (not_not.mpr hr)]
  obtain ⟨f1, _, _, _⟩ := collectSlot_frame 0 false
    { s with
      gchCollectionDataIndex := PACKET_DATA_MESSAGE_INDEX
      gchCollectionPacketIndex := RESET_VALUE }
  have hslot : CollectEv.slot 0 ∈ collectSlotEv 0
      { s with
        gchCollectionDataIndex := PACKET_DATA_MESSAGE_INDEX
        gchCollectionPacketIndex := RESET_VALUE } := by
    unfold collectSlotEv
    dsimp only
    split_ifs
    · exact List.mem_append_left _ (List.mem_append_left _ (List.mem_cons_self _ _))
    · exact List.mem_singleton.mpr rfl
  by_cases h : u8 ((s.slot 0).chRadioClockCounter + 1) ≥ (s.slot 0).chRadioClockDivisor
  · obtain ⟨a1, a2⟩ := a h
    rw [ht, hw, hv, a1, a2]
    dsimp only
    have hpay : CollectEv.payload 0 PACKET_DATA_MESSAGE_INDEX ∈ collectSlotEv 0
        { s with
          gchCollectionDataIndex := PACKET_DATA_MESSAGE_INDEX
          gchCollectionPacketIndex := RESET_VALUE } := by
      unfold collectSlotEv
      dsimp only
      split_ifs with g
      · refine List.mem_append_left _ (List.mem_append_left _ ?_)
        simp [RESET_VALUE]
      · exact absurd h g
    have hp : (collectSlot 0 false
        { s with
          gchCollectionDataIndex := PACKET_DATA_MESSAGE_INDEX
          gchCollectionPacketIndex := RESET_VALUE }).1.gchCollectionPacketIndex = 0 := f1
    refine ⟨rfl, ?_, fun _ => ⟨rfl, ?_, ?_, ?_, ?_⟩, fun h' => absurd h h'⟩
    · exact List.mem_append_left _ (List.mem_append_left _ (List.mem_cons_of_mem _ hslot))
    · show u8 ((collectSlot 0 false _).1.gchCollectionPacketIndex + 1) = 1
      rw [hp]
      rfl
    · exact List.mem_append_left _ (List.mem_append_left _ (List.mem_cons_of_mem _ hpay))
    · refine List.mem_append_right _ ?_
      unfold collectFinalizeEv
      rw [hp]
      simp
    · refine List.mem_append_right _ ?_
      unfold collectFinalizeEv
      rw [hp]
      simp
  · obtain ⟨b1, b2⟩ := b h
    rw [ht, hw, hv, b1, b2]
    dsimp only
    refine ⟨rfl, by simp, fun h' => absurd h' h, fun _ => ⟨rfl, hr, rfl, rfl⟩⟩

set_option maxRecDepth 100000 in
/-- The state after boot and the acceptance of `frameNoRecord`: no slot in use, no download
pending; the collection task stores an id in packet 0 and raises
`gchDataDownloadPacketReady`. -/
theorem empty_table_collection_witness :
    fwNoRecord.gchTotalSensorEntry = 0 ∧
    fwNoRecord.gchDataDownloadPacketReady = 0 ∧
    (fnData_Collection_Task fwNoRecord).1 = RETURN_TRUE ∧
    (fnData_Collection_Task fwNoRecord).2.gchDataDownloadPacketReady = SET_FLAG ∧
    CollectEv.payload 0 PACKET_DATA_MESSAGE_INDEX ∈ collectWalkEv fwNoRecord :=
  ⟨by decide, by decide,
    (empty_table_collection fwNoRecord (by decide) (by decide)).1,
    ((empty_table_collection fwNoRecord (by decide) (by decide)).2.2.1 (by decide)).1,
    ((empty_table_collection fwNoRecord (by decide) (by decide)).2.2.1 (by decide)).2.2.1⟩

set_option maxRecDepth 100000 in
/-- C30 (failing runs). After boot the frame `frameNoRecord` is accepted and leaves no slot in
use and no download pending; one invocation of `fnData_Collection_Task` then writes the header
and a payload byte of packet 0 (all zero before), sets `chTotalPacketCount` to 1 and raises
`gchDataDownloadPacketReady`.  When `frameNoRecord` is accepted after the table of
`frameRadioThree`, slot 0 still holds that table's record: the first invocation increments its
radio-clock counter from 0 to 1, and the third one stores its id and data words in packet 0 and
raises `gchDataDownloadPacketReady`. -/
theorem empty_upload_raises_download :
    (fnET_Upload_Task frameNoRecord fwBoot).1 = RETURN_TRUE ∧
    fwNoRecord.gchTotalSensorEntry = 0 ∧
    fwNoRecord.gchDataDownloadPacketReady = 0 ∧
    (fwNoRecord.gchSensorCommBuff.getD 0 []).take 7 = [0, 0, 0, 0, 0, 0, 0] ∧
    ((fnData_Collection_Task fwNoRecord).2.gchSensorCommBuff.getD 0 []).take 7 =
      [6, 132, 6, 196, 0, 2, 0] ∧
    (fnData_Collection_Task fwNoRecord).2.ghSensorCommManager.chTotalPacketCount = 1 ∧
    (fnData_Collection_Task fwNoRecord).2.gchDataDownloadPacketReady = SET_FLAG ∧
    (fnET_Upload_Task frameNoRecord (fnET_Upload_Task frameRadioThree fwBoot).2).1 =
      RETURN_TRUE ∧
    fwNoRecordAfterTable.gchTotalSensorEntry = 0 ∧
    (fwNoRecordAfterTable.slot 0).chRadioClockCounter = 0 ∧
    ((fnData_Collection_Task fwNoRecordAfterTable).2.slot 0).chRadioClockCounter = 1 ∧
    (fnData_Collection_Task (fnData_Collection_Task
      (fnData_Collection_Task fwNoRecordAfterTable).2).2).2.gchDataDownloadPacketReady =
      SET_FLAG ∧
    ((fnData_Collection_Task (fnData_Collection_Task
      (fnData_Collection_Task fwNoRecordAfterTable).2).2).2.gchSensorCommBuff.getD 0 []).take
        13 = [12, 132, 12, 196, 0, 8, 7, 0, 0, 0, 0, 0, 0] := by
  decide

end SensorFw
